import Mathlib

/-!
# BNG Blaster: A10NSP stream verifier and IS-IS LSP engine

A shallow embedding of `src/bbl_a10nsp.c` (the BBL stream verifier of
`bbl_a10nsp_pppoes_handler`) and of `src/isis/isis_lsp.c` (flooding, TX and
retry jobs, LSP receipt, self-LSP update, purge of external LSPs, CSNP/PSNP
entry processing).

Conventions of the embedding.

* Machine integers are `Nat`; where the C type can wrap, the operation is
  written with an explicit `% 2 ^ w`.
* A `hb_tree` / `dict` is the list of its data in ascending key order, every
  datum carrying its own key (the C trees are keyed by a pointer into the
  datum).  The functions work on any list; theorems that need the tree
  invariant (keys pairwise distinct) state it.
* A pointer to an adjacency is its position in the level's adjacency list
  (the `next` chain of `instance->level[level-1].adjacency`); a pointer to an
  LSP is the pair of the LSDB that holds it and its LSP id.
* `clock_gettime` is a parameter `now`.
-/

namespace BngBlaster

/-! ## Dictionaries (`dict_search`, `hb_tree_search`, `hb_tree_insert`, `hb_tree_remove`) -/

/-- Lookup of the datum stored under key `k`. -/
def dict_search {α : Type} (key : α → Nat) (k : Nat) : List α → Option α
  | [] => none
  | x :: xs => if key x = k then some x else dict_search key k xs

/-- In-place update, through the pointer returned by a search, of the datum
stored under key `k`. -/
def dict_update {α : Type} (key : α → Nat) (k : Nat) (f : α → α) : List α → List α
  | [] => []
  | x :: xs => if key x = k then f x :: xs else x :: dict_update key k f xs

/-- Placement of a new datum in key order. -/
def dict_place {α : Type} (key : α → Nat) (x : α) : List α → List α
  | [] => [x]
  | y :: ys => if key x < key y then x :: y :: ys else y :: dict_place key x ys

/-- Result of `hb_tree_insert`: the tree and the `inserted` flag.  A key that
is already present is not inserted again. -/
def hb_tree_insert {α : Type} (key : α → Nat) (x : α) (t : List α) : List α × Bool :=
  match dict_search key (key x) t with
  | some _ => (t, false)
  | none => (dict_place key x t, true)

/-- Result of `hb_tree_remove`: the tree and the `removed` flag. -/
def hb_tree_remove {α : Type} (key : α → Nat) (k : Nat) : List α → List α × Bool
  | [] => ([], false)
  | x :: xs =>
    if key x = k then (xs, true)
    else ((x :: (hb_tree_remove key k xs).1), (hb_tree_remove key k xs).2)

/-- Tree invariant: keys pairwise distinct. -/
def dict_wf {α : Type} (key : α → Nat) (t : List α) : Prop :=
  (t.map key).Nodup

/-! ## Time -/

/-- Mirror of `struct timespec`. -/
structure timespec where
  tv_sec : Nat
  tv_nsec : Nat
deriving DecidableEq, Repr

/-- Modelled from the spec: `timespec_sub` of `bbl_timer.c` (only its
prototype is in `bbl_timer.h`).  The difference `x - y` of two time stamps,
the one-way delay `rx_timestamp - tx_timestamp`; a time stamp `y` later than
`x` gives zero. -/
def timespec_sub (x y : timespec) : timespec :=
  if x.tv_sec < y.tv_sec then ⟨0, 0⟩
  else if x.tv_nsec < y.tv_nsec then
    if x.tv_sec = y.tv_sec then ⟨0, 0⟩
    else ⟨x.tv_sec - y.tv_sec - 1, x.tv_nsec + 1000000000 - y.tv_nsec⟩
  else ⟨x.tv_sec - y.tv_sec, x.tv_nsec - y.tv_nsec⟩

/-! ## A10NSP: BBL stream verifier (`bbl_a10nsp.c`) -/

def PROTOCOL_IPV4_UDP : Nat := 0x11
def UDP_PROTOCOL_BBL : Nat := 2

/-- The fields of `bbl_bbl_t` the verifier reads. -/
structure bbl_bbl_t where
  flow_id : Nat
  flow_seq : Nat
  timestamp : timespec
deriving DecidableEq, Repr

/-- The fields of `bbl_udp_t` the verifier reads; `next` is the BBL header. -/
structure bbl_udp_t where
  protocol : Nat
  next : bbl_bbl_t
deriving DecidableEq, Repr

/-- The fields of `bbl_ipv4_t` the verifier reads; `next` is the UDP header. -/
structure bbl_ipv4_t where
  tos : Nat
  protocol : Nat
  next : bbl_udp_t
deriving DecidableEq, Repr

/-- The fields of `bbl_ethernet_header_t` the verifier reads. -/
structure bbl_ethernet_header_t where
  length : Nat
  vlan_outer_priority : Nat
  vlan_inner_priority : Nat
  timestamp : timespec
deriving DecidableEq, Repr

/-- The fields of `bbl_stream` written by the A10NSP verifier. -/
structure bbl_stream where
  flow_id : Nat
  packets_rx : Nat
  rx_len : Nat
  rx_priority : Nat
  rx_outer_vlan_pbit : Nat
  rx_inner_vlan_pbit : Nat
  max_delay_ns : Nat
  min_delay_ns : Nat
  rx_first_seq : Nat
  rx_last_seq : Nat
  loss : Nat
deriving DecidableEq, Repr

/-- The fields of `bbl_session_s` that the A10NSP handlers read or write,
and the two flow counters of the session that `sessions-pending` compares. -/
structure bbl_session_s where
  session_id : Nat
  access_ipv4_tx_flow_id : Nat
  network_ipv4_rx_first_seq : Nat
  network_ipv4_rx_last_seq : Nat
  stats_network_ipv4_rx : Nat
  stats_network_ipv4_loss : Nat
  session_traffic_flows : Nat
  session_traffic_flows_verified : Nat
deriving DecidableEq, Repr

/-- The state the IPv4 branch of `bbl_a10nsp_pppoes_handler` works on: the
stream dictionary and the global counters of `ctx`, the counters of the
receiving interface, and the session. -/
structure a10nsp_state where
  stream_flow_dict : List bbl_stream
  stats_stream_traffic_flows_verified : Nat
  stats_session_traffic_flows_verified : Nat
  if_stats_session_ipv4_rx : Nat
  if_stats_session_ipv4_loss : Nat
  session : bbl_session_s
deriving DecidableEq, Repr

/-- The value of `delay_nsec = delay.tv_sec * 1e9 + delay.tv_nsec`, a
`uint64_t`.  The C expression is evaluated in `double`, which is exact below
2^53 ns (about 104 days); from there on the C value is the rounded sum and
this definition, the exact sum, differs from it.  What is proved of the delay
statistics holds for every value of the delay. -/
def delay_nsec (eth : bbl_ethernet_header_t) (bbl : bbl_bbl_t) : Nat :=
  let delay := timespec_sub eth.timestamp bbl.timestamp
  (delay.tv_sec * 1000000000 + delay.tv_nsec) % 2 ^ 64

/-- The update of a stream found in `stream_flow_dict`
(`bbl_a10nsp_pppoes_handler`, the block after `stream = *search`), apart
from the global counter `stats.stream_traffic_flows_verified`, which the
handler below increments. -/
def a10nsp_stream_rx (stream : bbl_stream) (eth : bbl_ethernet_header_t)
    (ipv4 : bbl_ipv4_t) (bbl : bbl_bbl_t) : bbl_stream :=
  let d := delay_nsec eth bbl
  let stream := { stream with
    packets_rx := stream.packets_rx + 1
    rx_len := eth.length
    rx_priority := ipv4.tos
    rx_outer_vlan_pbit := eth.vlan_outer_priority
    rx_inner_vlan_pbit := eth.vlan_inner_priority }
  let stream :=
    if d > stream.max_delay_ns then { stream with max_delay_ns := d } else stream
  let stream :=
    if stream.min_delay_ns ≠ 0 then
      (if d < stream.min_delay_ns then { stream with min_delay_ns := d } else stream)
    else { stream with min_delay_ns := d }
  let stream :=
    if stream.rx_first_seq = 0 then { stream with rx_first_seq := bbl.flow_seq }
    else if (stream.rx_last_seq + 1) % 2 ^ 64 ≠ bbl.flow_seq then
      { stream with loss := stream.loss + 1 }
    else stream
  { stream with rx_last_seq := bbl.flow_seq }

/-- The `case PROTOCOL_IPV4` branch of `bbl_a10nsp_pppoes_handler`. -/
def bbl_a10nsp_pppoes_handler_ipv4 (st : a10nsp_state) (eth : bbl_ethernet_header_t)
    (ipv4 : bbl_ipv4_t) : a10nsp_state :=
  if ipv4.protocol = PROTOCOL_IPV4_UDP then
    let udp := ipv4.next
    if udp.protocol = UDP_PROTOCOL_BBL then
      let bbl := udp.next
      match dict_search bbl_stream.flow_id bbl.flow_id st.stream_flow_dict with
      | some stream =>
        { st with
          stream_flow_dict :=
            dict_update bbl_stream.flow_id bbl.flow_id
              (fun s => a10nsp_stream_rx s eth ipv4 bbl) st.stream_flow_dict
          stats_stream_traffic_flows_verified :=
            if stream.rx_first_seq = 0 then
              (st.stats_stream_traffic_flows_verified + 1) % 2 ^ 32
            else st.stats_stream_traffic_flows_verified }
      | none =>
        if bbl.flow_id = st.session.access_ipv4_tx_flow_id then
          let session := st.session
          let first := session.network_ipv4_rx_first_seq = 0
          let lost := ¬ first ∧ (session.network_ipv4_rx_last_seq + 1) % 2 ^ 64 ≠ bbl.flow_seq
          { st with
            if_stats_session_ipv4_rx := st.if_stats_session_ipv4_rx + 1
            stats_session_traffic_flows_verified :=
              if first then (st.stats_session_traffic_flows_verified + 1) % 2 ^ 32
              else st.stats_session_traffic_flows_verified
            if_stats_session_ipv4_loss :=
              if lost then st.if_stats_session_ipv4_loss + 1 else st.if_stats_session_ipv4_loss
            session := { session with
              stats_network_ipv4_rx := session.stats_network_ipv4_rx + 1
              network_ipv4_rx_first_seq :=
                if first then bbl.flow_seq else session.network_ipv4_rx_first_seq
              stats_network_ipv4_loss :=
                if lost then session.stats_network_ipv4_loss + 1
                else session.stats_network_ipv4_loss
              network_ipv4_rx_last_seq := bbl.flow_seq } }
        else st
    else st
  else st

/-! ## IS-IS data model (`isis_def.h` is not part of the sources at hand) -/

def ISIS_LEVEL_1 : Nat := 1
def ISIS_LEVEL_2 : Nat := 2

/-- Modelled from the spec: the PDU type codes `ISIS_PDU_L1_LSP` /
`ISIS_PDU_L2_LSP` of `isis_def.h` (the L1/L2 LSP PDU types of the IS-IS wire
format). -/
def ISIS_PDU_L1_LSP : Nat := 18
def ISIS_PDU_L2_LSP : Nat := 20

/-- Modelled from the spec: `ISIS_TLV_LSP_ENTRIES` of `isis_def.h`, the type
code of the LSP-entries TLV of a CSNP/PSNP. -/
def ISIS_TLV_LSP_ENTRIES : Nat := 9

/-- Modelled from the spec: `ISIS_LSP_ENTRY_LEN` of `isis_def.h`, the size of
one LSP entry (remaining lifetime 2, LSP id 8, sequence number 4, checksum 2
bytes). -/
def ISIS_LSP_ENTRY_LEN : Nat := 16

/-- Modelled from the spec: `ISIS_DEFAULT_PURGE_LIFETIME` of `isis_def.h`, the
`default_purge_lifetime` of a purged LSP.  No theorem depends on its value. -/
def ISIS_DEFAULT_PURGE_LIFETIME : Nat := 30

/-- Modelled from the spec: the destination MAC addresses AllL1IS
`01:80:c2:00:00:14` and AllL2IS `01:80:c2:00:00:15`. -/
def g_isis_mac_all_l1 : Nat := 0x0180c2000014
def g_isis_mac_all_l2 : Nat := 0x0180c2000015

/-- `ISIS_AUTH_NONE`, the zero value of `isis_auth_type`. -/
def ISIS_AUTH_NONE : Nat := 0

/-- Modelled from the spec: adjacency state, one of Down, Init, Up. -/
inductive isis_adjacency_state where
  | ISIS_ADJACENCY_STATE_DOWN
  | ISIS_ADJACENCY_STATE_INIT
  | ISIS_ADJACENCY_STATE_UP
deriving DecidableEq, Repr

/-- Modelled from the spec: the source tag of an LSP record. -/
inductive isis_lsp_source_type where
  | ISIS_SOURCE_SELF
  | ISIS_SOURCE_ADJACENCY
  | ISIS_SOURCE_EXTERNAL
deriving DecidableEq, Repr

open isis_adjacency_state isis_lsp_source_type

/-- The `source` member of an LSP: the tag and the adjacency pointer, which
keeps its value when only the tag is rewritten. -/
structure isis_lsp_source where
  type : isis_lsp_source_type
  adjacency : Option Nat
deriving DecidableEq, Repr

/-- An IPv4 or IPv6 interface prefix (`interface->ip`, `interface->ip6`). -/
structure ip_prefix_t where
  address : Nat
  len : Nat
deriving DecidableEq, Repr

/-- A TLV of an IS-IS PDU: either the raw TLV of a received PDU, or the
record of one `isis_pdu_add_tlv_*` call with its arguments (the encoders of
`isis_pdu.c` are not part of the sources at hand). -/
inductive isis_tlv_t where
  | raw (type len : Nat) (value : List Nat)
  | auth (auth_type : Nat) (key : Option String)
  | area (area : List Nat) (area_count : Nat)
  | protocols (ipv4 ipv6 : Bool)
  | hostname (name : String)
  | ipv4_int_address (router_id : Nat)
  | te_router_id (router_id : Nat)
  | router_cap (router_id : Nat) (ipv4 ipv6 : Bool) (sr_base sr_range : Nat)
  | ext_ipv4_reachability (ip : ip_prefix_t) (metric : Nat)
  | ipv6_reachability (ip6 : ip_prefix_t) (metric : Nat)
  | ext_reachability (system_id metric : Nat)
deriving DecidableEq, Repr

/-- An IS-IS PDU (`isis_pdu_t`): PDU type, the LSP header fields found at
`ISIS_OFFSET_LSP_LIFETIME`, `ISIS_OFFSET_LSP_ID` and `ISIS_OFFSET_LSP_SEQ`,
the TLV section, and the key of the last `isis_pdu_update_auth`.  Length and
checksum are functions of these and are not stored; the cursor is not
modelled. -/
structure isis_pdu_t where
  pdu_type : Nat
  lifetime : Nat
  lsp_id : Nat
  seq : Nat
  tlvs : List isis_tlv_t
  auth_key : Option String
deriving DecidableEq, Repr

/-- An LSP record (`isis_lsp_t`).  A timer handle is `none` when no timer is
installed and `some sec` for a timer installed with interval `sec`. -/
structure isis_lsp_t where
  id : Nat
  level : Nat
  seq : Nat
  lifetime : Nat
  timestamp : timespec
  source : isis_lsp_source
  refcount : Nat
  expired : Bool
  csnp_scan : Nat
  auth_key : Option String
  timer_refresh : Option Nat
  timer_lifetime : Option Nat
  pdu : isis_pdu_t
deriving DecidableEq, Repr

/-- A flood-tree entry (`isis_flood_entry_t`); `lsp` is the id of the LSP the
entry points to, which is also the key of the entry. -/
structure isis_flood_entry_t where
  lsp : Nat
  wait_ack : Bool
  tx_count : Nat
  tx_timestamp : timespec
deriving DecidableEq, Repr

/-- An adjacency (`isis_adjacency_t`) with the fields of its peer and of its
interface that `isis_lsp.c` reads.  The PSNP tree holds LSP ids. -/
structure isis_adjacency_t where
  level : Nat
  state : isis_adjacency_state
  peer_system_id : Nat
  metric : Nat
  window_size : Nat
  interface_mac : Nat
  interface_ip : ip_prefix_t
  interface_ip6 : ip_prefix_t
  flood_tree : List isis_flood_entry_t
  psnp_tree : List Nat
  timer_psnp_started : Bool
  timer_psnp_next : Option Nat
  stats_lsp_rx : Nat
  stats_lsp_tx : Nat
deriving DecidableEq, Repr

/-- A configured external connection with its metric per level. -/
structure isis_external_connection_t where
  system_id : Nat
  level1_metric : Nat
  level2_metric : Nat
deriving DecidableEq, Repr

/-- The configuration of an instance (`isis_config_t`). -/
structure isis_config_t where
  system_id : Nat
  area : List Nat
  area_count : Nat
  hostname : String
  router_id : Nat
  protocol_ipv4 : Bool
  protocol_ipv6 : Bool
  sr_base : Nat
  sr_range : Nat
  level1_auth : Nat
  level1_key : Option String
  level2_auth : Nat
  level2_key : Option String
  lsp_lifetime : Nat
  lsp_refresh_interval : Nat
  lsp_retry_interval : Nat
  external_connection : List isis_external_connection_t
deriving DecidableEq, Repr

/-- One element of `instance->level[]`: the LSDB and the adjacency list.  A
level whose `lsdb` pointer is NULL is a level with the empty LSDB. -/
structure isis_level_t where
  lsdb : List isis_lsp_t
  adjacency : List isis_adjacency_t
deriving DecidableEq, Repr

/-- An IS-IS instance (`isis_instance_t`). -/
structure isis_instance_t where
  config : isis_config_t
  teardown : Bool
  level1 : isis_level_t
  level2 : isis_level_t
deriving DecidableEq, Repr

/-- The element `instance->level[level-1]`. -/
def isis_instance_t.level (inst : isis_instance_t) (level : Nat) : isis_level_t :=
  if level = ISIS_LEVEL_1 then inst.level1 else inst.level2

/-- Assignment to `instance->level[level-1]`. -/
def isis_instance_t.set_level (inst : isis_instance_t) (level : Nat) (l : isis_level_t) :
    isis_instance_t :=
  if level = ISIS_LEVEL_1 then { inst with level1 := l } else { inst with level2 := l }

/-- Assignment to the LSDB of a level. -/
def isis_instance_t.set_lsdb (inst : isis_instance_t) (level : Nat) (lsdb : List isis_lsp_t) :
    isis_instance_t :=
  inst.set_level level { inst.level level with lsdb := lsdb }

/-- Assignment to the adjacency list of a level. -/
def isis_instance_t.set_adjacency (inst : isis_instance_t) (level : Nat)
    (adjs : List isis_adjacency_t) : isis_instance_t :=
  inst.set_level level { inst.level level with adjacency := adjs }

/-- Assignment through a pointer to an LSP held by the LSDB of `level`. -/
def isis_instance_t.update_lsp (inst : isis_instance_t) (level id : Nat)
    (f : isis_lsp_t → isis_lsp_t) : isis_instance_t :=
  inst.set_lsdb level (dict_update isis_lsp_t.id id f (inst.level level).lsdb)

/-- Assignment through a pointer to the adjacency at position `a` of `level`. -/
def isis_instance_t.update_adjacency (inst : isis_instance_t) (level a : Nat)
    (f : isis_adjacency_t → isis_adjacency_t) : isis_instance_t :=
  inst.set_adjacency level ((inst.level level).adjacency.modify f a)

/-- The key of the flood tree. -/
abbrev flood_key : isis_flood_entry_t → Nat := isis_flood_entry_t.lsp

/-- The key of the LSDB. -/
abbrev lsp_key : isis_lsp_t → Nat := isis_lsp_t.id

/-- The key of the PSNP tree. -/
abbrev psnp_key : Nat → Nat := id

/-- The zeroed PDU. -/
def isis_pdu_zero : isis_pdu_t := ⟨0, 0, 0, 0, [], none⟩

/-! ## IS-IS flooding (`isis_lsp.c`) -/

/-- The C function `isis_lsp_flood_adjacency`: add the LSP to the flood tree
of the adjacency if it is not already present; an entry that is present is
reset for transmission.  A new entry is zeroed by `calloc`. -/
def isis_lsp_flood_adjacency (lsp : isis_lsp_t) (adjacency : isis_adjacency_t) :
    isis_lsp_t × isis_adjacency_t :=
  match dict_search flood_key lsp.id adjacency.flood_tree with
  | some _ =>
    (lsp, { adjacency with
      flood_tree := dict_update flood_key lsp.id
        (fun flood => { flood with wait_ack := false, tx_count := 0 }) adjacency.flood_tree })
  | none =>
    let result := hb_tree_insert flood_key ⟨lsp.id, false, 0, ⟨0, 0⟩⟩ adjacency.flood_tree
    if result.2 then
      ({ lsp with refcount := lsp.refcount + 1 }, { adjacency with flood_tree := result.1 })
    else (lsp, adjacency)

/-- The loop of `isis_lsp_flood` over the adjacency list, from position `i`
on.  `src_peer` is `lsp->source.adjacency->peer->system_id`. -/
def isis_lsp_flood_loop (src_peer : Option Nat) :
    Nat → List isis_adjacency_t → isis_lsp_t → isis_lsp_t × List isis_adjacency_t
  | _, [], lsp => (lsp, [])
  | i, adjacency :: rest, lsp =>
    if adjacency.state ≠ ISIS_ADJACENCY_STATE_UP then
      let r := isis_lsp_flood_loop src_peer (i + 1) rest lsp
      (r.1, adjacency :: r.2)
    else if lsp.source.type = ISIS_SOURCE_ADJACENCY ∧
        (lsp.source.adjacency = some i ∨ src_peer = some adjacency.peer_system_id) then
      let r := isis_lsp_flood_loop src_peer (i + 1) rest lsp
      (r.1, adjacency :: r.2)
    else
      let fa := isis_lsp_flood_adjacency lsp adjacency
      let r := isis_lsp_flood_loop src_peer (i + 1) rest fa.1
      (r.1, fa.2 :: r.2)

/-- The peer system id read through `lsp->source.adjacency`, an adjacency of
the list `adjs`. -/
def isis_lsp_source_peer (lsp : isis_lsp_t) (adjs : List isis_adjacency_t) : Option Nat :=
  match lsp.source.adjacency with
  | some a => (adjs[a]?).map isis_adjacency_t.peer_system_id
  | none => none

/-- The C function `isis_lsp_flood` for the LSP `id` held by the LSDB of
`lsdb_level`: the adjacencies walked are those of `lsp->level`. -/
def isis_lsp_flood (inst : isis_instance_t) (lsdb_level id : Nat) : isis_instance_t :=
  match dict_search lsp_key id (inst.level lsdb_level).lsdb with
  | none => inst
  | some lsp =>
    let adjs := (inst.level lsp.level).adjacency
    let r := isis_lsp_flood_loop (isis_lsp_source_peer lsp adjs) 0 adjs lsp
    (inst.set_adjacency lsp.level r.2).update_lsp lsdb_level id (fun _ => r.1)

/-! ## CSNP/PSNP entries -/

/-- Big-endian value of a byte string. -/
def be_value (bytes : List Nat) : Nat :=
  bytes.foldl (fun acc b => acc * 256 + b % 256) 0

/-- Modelled from the spec: the member `lsp_id` of `isis_lsp_entry_t`
(`isis_def.h`), the 8 bytes after the 2 bytes of remaining lifetime, read
with `be64toh`. -/
def lsp_entry_lsp_id (value : List Nat) (offset : Nat) : Nat :=
  be_value ((value.drop (offset + 2)).take 8)

/-- Modelled from the spec: the member `seq` of `isis_lsp_entry_t`
(`isis_def.h`), the 4 bytes after the LSP id, read with `be32toh`. -/
def lsp_entry_seq (value : List Nat) (offset : Nat) : Nat :=
  be_value ((value.drop (offset + 10)).take 4)

/-- The body of the inner loop of `isis_lsp_process_entries` for one LSP
entry `(lsp_id, seq)`. -/
def isis_lsp_process_entry (csnp_scan : Nat) (st : isis_adjacency_t × List isis_lsp_t)
    (lsp_id seq : Nat) : isis_adjacency_t × List isis_lsp_t :=
  let adjacency := st.1
  let lsdb := st.2
  match dict_search lsp_key lsp_id lsdb with
  | none => (adjacency, lsdb)
  | some lsp =>
    let lsp := { lsp with csnp_scan := csnp_scan }
    if seq < lsp.seq then
      let fa := isis_lsp_flood_adjacency lsp adjacency
      (fa.2, dict_update lsp_key lsp_id (fun _ => fa.1) lsdb)
    else
      let removed := hb_tree_remove flood_key lsp.id adjacency.flood_tree
      if removed.2 then
        ({ adjacency with flood_tree := removed.1 },
          dict_update lsp_key lsp_id
            (fun _ => if lsp.refcount ≠ 0 then { lsp with refcount := lsp.refcount - 1 } else lsp)
            lsdb)
      else
        ({ adjacency with flood_tree := removed.1 },
          dict_update lsp_key lsp_id (fun _ => lsp) lsdb)

/-- The inner loop `while(offset + ISIS_LSP_ENTRY_LEN <= tlv->len)` of
`isis_lsp_process_entries`; `offset` is a `uint8_t`.  The fuel bounds the
number of iterations. -/
def isis_lsp_process_tlv (csnp_scan : Nat) (len : Nat) (value : List Nat) :
    Nat → Nat → isis_adjacency_t × List isis_lsp_t → isis_adjacency_t × List isis_lsp_t
  | 0, _, st => st
  | fuel + 1, offset, st =>
    if offset + ISIS_LSP_ENTRY_LEN ≤ len then
      isis_lsp_process_tlv csnp_scan len value fuel ((offset + ISIS_LSP_ENTRY_LEN) % 2 ^ 8)
        (isis_lsp_process_entry csnp_scan st (lsp_entry_lsp_id value offset)
          (lsp_entry_seq value offset))
    else st

/-- The C function `isis_lsp_process_entries`: the walk over the TLVs of a
CSNP or PSNP.  A TLV length is a `uint8_t`, so 256 iterations of the inner
loop are never reached. -/
def isis_lsp_process_entries (adjacency : isis_adjacency_t) (lsdb : List isis_lsp_t)
    (pdu : isis_pdu_t) (csnp_scan : Nat) : isis_adjacency_t × List isis_lsp_t :=
  pdu.tlvs.foldl
    (fun st tlv =>
      match tlv with
      | isis_tlv_t.raw type len value =>
        if type = ISIS_TLV_LSP_ENTRIES then
          isis_lsp_process_tlv csnp_scan (len % 2 ^ 8) value 256 0 st
        else st
      | _ => st)
    (adjacency, lsdb)

/-- The LSP entries `(lsp_id, seq)` of one TLV value in the order the inner
loop reads them. -/
def tlv_lsp_entries (len : Nat) (value : List Nat) : Nat → Nat → List (Nat × Nat)
  | 0, _ => []
  | fuel + 1, offset =>
    if offset + ISIS_LSP_ENTRY_LEN ≤ len then
      (lsp_entry_lsp_id value offset, lsp_entry_seq value offset) ::
        tlv_lsp_entries len value fuel ((offset + ISIS_LSP_ENTRY_LEN) % 2 ^ 8)
    else []

/-- The LSP entries of a CSNP/PSNP in the order `isis_lsp_process_entries`
reads them. -/
def pdu_lsp_entries (pdu : isis_pdu_t) : List (Nat × Nat) :=
  pdu.tlvs.flatMap
    (fun tlv =>
      match tlv with
      | isis_tlv_t.raw type len value =>
        if type = ISIS_TLV_LSP_ENTRIES then tlv_lsp_entries (len % 2 ^ 8) value 256 0 else []
      | _ => [])

/-! ## Jobs -/

/-- The C function `isis_lsp_gc_job` for one level: remove the LSPs that are
expired and not referenced. -/
def isis_lsp_gc_level (lsdb : List isis_lsp_t) : List isis_lsp_t :=
  (lsdb.map isis_lsp_t.id).foldl
    (fun db id =>
      match dict_search lsp_key id db with
      | none => db
      | some lsp =>
        if lsp.expired ∧ lsp.refcount = 0 then (hb_tree_remove lsp_key lsp.id db).1 else db)
    lsdb

/-- The C function `isis_lsp_gc_job`. -/
def isis_lsp_gc_job (inst : isis_instance_t) : isis_instance_t :=
  let inst := inst.set_lsdb ISIS_LEVEL_1 (isis_lsp_gc_level (inst.level ISIS_LEVEL_1).lsdb)
  inst.set_lsdb ISIS_LEVEL_2 (isis_lsp_gc_level (inst.level ISIS_LEVEL_2).lsdb)

/-- The loop of `isis_lsp_retry_job` over the flood tree. -/
def isis_lsp_retry_loop (now : timespec) (lsp_retry_interval : Nat) :
    List isis_flood_entry_t → List isis_flood_entry_t
  | [] => []
  | entry :: rest =>
    if entry.wait_ack then
      let ago := timespec_sub now entry.tx_timestamp
      (if ago.tv_sec > lsp_retry_interval then { entry with wait_ack := false } else entry) ::
        isis_lsp_retry_loop now lsp_retry_interval rest
    else entry :: rest

/-- The C function `isis_lsp_retry_job` on an adjacency of an instance with
configuration `config`. -/
def isis_lsp_retry_job (now : timespec) (config : isis_config_t)
    (adjacency : isis_adjacency_t) : isis_adjacency_t :=
  { adjacency with
    flood_tree := isis_lsp_retry_loop now (config.lsp_retry_interval % 2 ^ 16)
      adjacency.flood_tree }

/-- The assignments of `isis_lsp_refresh_job` to the LSP record. -/
def isis_lsp_refresh_lsp (now : timespec) (lsp : isis_lsp_t) : isis_lsp_t :=
  let seq := (lsp.seq + 1) % 2 ^ 32
  { lsp with
    seq := seq
    timestamp := now
    pdu := { lsp.pdu with seq := seq, auth_key := lsp.auth_key, lifetime := lsp.lifetime } }

/-- The C function `isis_lsp_refresh_job` for the LSP `id` of the LSDB of
`level`. -/
def isis_lsp_refresh_job (now : timespec) (inst : isis_instance_t) (level id : Nat) :
    isis_instance_t :=
  match dict_search lsp_key id (inst.level level).lsdb with
  | none => inst
  | some _ =>
    isis_lsp_flood (inst.update_lsp level id (isis_lsp_refresh_lsp now)) level id

/-- The C function `isis_lsp_lifetime_job`. -/
def isis_lsp_lifetime_job (inst : isis_instance_t) (level id : Nat) : isis_instance_t :=
  inst.update_lsp level id (fun lsp => { lsp with expired := true })

/-! ## LSP transmission -/

/-- The Ethernet frame handed to `bbl_send_to_buffer` by `isis_lsp_tx_job`. -/
structure isis_frame_t where
  dst : Nat
  src : Nat
  isis_type : Nat
  pdu : isis_pdu_t
deriving DecidableEq, Repr

/-- The state of the loop of `isis_lsp_tx_job`: the LSDB (the PDU of a
transmitted LSP gets its lifetime rewritten), the interface, the local
variables `window` and `remaining_lifetime`, the counter
`adjacency->stats.lsp_tx`, and the frames accepted by the send buffer so far,
each with the LSP id of its flood entry. -/
structure isis_tx_state (σ : Type) where
  lsdb : List isis_lsp_t
  interface : σ
  window : Nat
  remaining_lifetime : Nat
  lsp_tx : Nat
  sent : List (Nat × isis_frame_t)

/-- The value of the local variable `remaining_lifetime` of `isis_lsp_tx_job`
after the lifetime update for `lsp`: it is assigned only when the age of the
LSP is below its lifetime, and keeps its previous value otherwise. -/
def isis_lsp_tx_remaining_lifetime (now : timespec) (lsp : isis_lsp_t)
    (remaining_lifetime : Nat) : Nat :=
  let ago := timespec_sub now lsp.timestamp
  if ago.tv_sec < lsp.lifetime then (lsp.lifetime - ago.tv_sec) % 2 ^ 16
  else remaining_lifetime

/-- The frame `eth` of `isis_lsp_tx_job` carrying `pdu`. -/
def isis_lsp_tx_frame (adjacency : isis_adjacency_t) (pdu : isis_pdu_t) : isis_frame_t :=
  { dst := if adjacency.level = ISIS_LEVEL_1 then g_isis_mac_all_l1 else g_isis_mac_all_l2
    src := adjacency.interface_mac
    isis_type := if adjacency.level = ISIS_LEVEL_1 then ISIS_PDU_L1_LSP else ISIS_PDU_L2_LSP
    pdu := pdu }

/-- The loop of `isis_lsp_tx_job` over the flood tree.  `send` is
`bbl_send_to_buffer` on the interface of the adjacency, returning the new
interface state and whether the result was `BBL_SEND_OK`.  An entry whose LSP
pointer does not resolve in the LSDB is passed over. -/
def isis_lsp_tx_loop {σ : Type} (send : σ → isis_frame_t → σ × Bool) (now : timespec)
    (adjacency : isis_adjacency_t) :
    List isis_flood_entry_t → isis_tx_state σ → List isis_flood_entry_t × isis_tx_state σ
  | [], st => ([], st)
  | entry :: rest, st =>
    if ¬ entry.wait_ack then
      match dict_search lsp_key entry.lsp st.lsdb with
      | none =>
        let r := isis_lsp_tx_loop send now adjacency rest st
        (entry :: r.1, r.2)
      | some lsp =>
        let remaining_lifetime := isis_lsp_tx_remaining_lifetime now lsp st.remaining_lifetime
        let pdu := { lsp.pdu with lifetime := remaining_lifetime }
        let lsdb := dict_update lsp_key entry.lsp (fun l => { l with pdu := pdu }) st.lsdb
        let eth := isis_lsp_tx_frame adjacency pdu
        let res := send st.interface eth
        if ¬ res.2 then
          (entry :: rest,
            { st with lsdb := lsdb, interface := res.1, remaining_lifetime := remaining_lifetime })
        else
          let entry := { entry with
            wait_ack := true, tx_count := entry.tx_count + 1, tx_timestamp := now }
          let window := if st.window ≠ 0 then st.window - 1 else st.window
          let st : isis_tx_state σ :=
            { lsdb := lsdb, interface := res.1, window := window
              remaining_lifetime := remaining_lifetime
              lsp_tx := st.lsp_tx + 1
              sent := st.sent ++ [(entry.lsp, eth)] }
          if window = 0 then (entry :: rest, st)
          else
            let r := isis_lsp_tx_loop send now adjacency rest st
            (entry :: r.1, r.2)
    else
      let r := isis_lsp_tx_loop send now adjacency rest st
      (entry :: r.1, r.2)

/-- The result of one run of `isis_lsp_tx_job`. -/
structure isis_tx_result (σ : Type) where
  inst : isis_instance_t
  interface : σ
  sent : List (Nat × isis_frame_t)

/-- The C function `isis_lsp_tx_job` for the adjacency at position `a` of
`level`; the LSPs of its flood entries are held by the LSDB of that level. -/
def isis_lsp_tx_job {σ : Type} (send : σ → isis_frame_t → σ × Bool) (now : timespec)
    (inst : isis_instance_t) (level a : Nat) (interface : σ) : isis_tx_result σ :=
  match (inst.level level).adjacency[a]? with
  | none => ⟨inst, interface, []⟩
  | some adjacency =>
    let r := isis_lsp_tx_loop send now adjacency adjacency.flood_tree
      { lsdb := (inst.level level).lsdb, interface := interface
        window := adjacency.window_size % 2 ^ 16, remaining_lifetime := 0
        lsp_tx := adjacency.stats_lsp_tx, sent := [] }
    let inst := inst.set_lsdb level r.2.lsdb
    let inst := inst.update_adjacency level a
      (fun adj => { adj with flood_tree := r.1, stats_lsp_tx := r.2.lsp_tx })
    ⟨inst, r.2.interface, r.2.sent⟩

/-! ## Self-originated LSP -/

/-- The C function `isis_lsp_new`: a zeroed LSP record. -/
def isis_lsp_new (id level : Nat) : isis_lsp_t :=
  { id := id, level := level, seq := 0, lifetime := 0, timestamp := ⟨0, 0⟩
    source := ⟨ISIS_SOURCE_SELF, none⟩, refcount := 0, expired := false, csnp_scan := 0
    auth_key := none, timer_refresh := none, timer_lifetime := none, pdu := isis_pdu_zero }

/-- The LSP id of the self-originated LSP: the system id followed by a zero
pseudonode and fragment byte. -/
def isis_self_lsp_id (config : isis_config_t) : Nat :=
  (config.system_id % 2 ^ 48) * 2 ^ 16

/-- The reachability TLVs `isis_lsp_self_update` adds for the adjacencies of
the level. -/
def isis_self_adjacency_tlvs (config : isis_config_t) :
    List isis_adjacency_t → List isis_tlv_t
  | [] => []
  | adjacency :: rest =>
    if adjacency.state ≠ ISIS_ADJACENCY_STATE_UP then isis_self_adjacency_tlvs config rest
    else
      (if config.protocol_ipv4 ∧ adjacency.interface_ip.len ≠ 0 then
        [isis_tlv_t.ext_ipv4_reachability adjacency.interface_ip adjacency.metric] else []) ++
      (if config.protocol_ipv6 ∧ adjacency.interface_ip6.len ≠ 0 then
        [isis_tlv_t.ipv6_reachability adjacency.interface_ip6 adjacency.metric] else []) ++
      [isis_tlv_t.ext_reachability adjacency.peer_system_id adjacency.metric] ++
      isis_self_adjacency_tlvs config rest

/-- The PDU built by `isis_lsp_self_update` for an LSP with sequence number
`seq`, lifetime `lifetime` and key `auth_key`. -/
def isis_self_pdu (config : isis_config_t) (level lsp_id seq lifetime : Nat)
    (adjs : List isis_adjacency_t) : isis_pdu_t :=
  let auth_type := if level = ISIS_LEVEL_1 then config.level1_auth else config.level2_auth
  let auth_key := if level = ISIS_LEVEL_1 then config.level1_key else config.level2_key
  { pdu_type := if level = ISIS_LEVEL_1 then ISIS_PDU_L1_LSP else ISIS_PDU_L2_LSP
    lifetime := lifetime
    lsp_id := lsp_id
    seq := seq
    tlvs :=
      [isis_tlv_t.auth auth_type auth_key,
        isis_tlv_t.area config.area config.area_count,
        isis_tlv_t.protocols config.protocol_ipv4 config.protocol_ipv6,
        isis_tlv_t.hostname config.hostname,
        isis_tlv_t.ipv4_int_address config.router_id,
        isis_tlv_t.te_router_id config.router_id] ++
      (if config.sr_base ≠ 0 ∧ config.sr_range ≠ 0 then
        [isis_tlv_t.router_cap config.router_id config.protocol_ipv4 config.protocol_ipv6
          config.sr_base config.sr_range] else []) ++
      isis_self_adjacency_tlvs config adjs ++
      config.external_connection.map (fun ec =>
        isis_tlv_t.ext_reachability ec.system_id
          (if level = ISIS_LEVEL_1 then ec.level1_metric else ec.level2_metric))
    auth_key := auth_key }

/-- The assignments of `isis_lsp_self_update` to the LSP record, from
`clock_gettime(CLOCK_MONOTONIC, &lsp->timestamp)` to the end of the PDU
build, in an instance with the given configuration, teardown flag and
adjacency list of the level. -/
def isis_lsp_self_update_lsp (now : timespec) (config : isis_config_t) (teardown : Bool)
    (level : Nat) (adjs : List isis_adjacency_t) (lsp : isis_lsp_t) : isis_lsp_t :=
  let seq := (lsp.seq + 1) % 2 ^ 32
  let lifetime := if teardown then ISIS_DEFAULT_PURGE_LIFETIME else config.lsp_lifetime
  { lsp with
    timestamp := now
    level := level
    source := { lsp.source with type := ISIS_SOURCE_SELF }
    seq := seq
    lifetime := lifetime
    timer_refresh := if teardown then none else some config.lsp_refresh_interval
    auth_key := if level = ISIS_LEVEL_1 then config.level1_key else config.level2_key
    pdu := isis_self_pdu config level (isis_self_lsp_id config) seq lifetime adjs }

/-- The C function `isis_lsp_self_update`; the second component is the
returned `bool`. -/
def isis_lsp_self_update (now : timespec) (inst : isis_instance_t) (level : Nat) :
    isis_instance_t × Bool :=
  let config := inst.config
  let lsp_id := isis_self_lsp_id config
  let lsdb := (inst.level level).lsdb
  let created : Option (List isis_lsp_t) :=
    match dict_search lsp_key lsp_id lsdb with
    | some _ => some lsdb
    | none =>
      let result := hb_tree_insert lsp_key (isis_lsp_new lsp_id level) lsdb
      if result.2 then some result.1 else none
  match created with
  | none => (inst, false)
  | some lsdb =>
    let inst := inst.set_lsdb level lsdb
    let inst := inst.update_lsp level lsp_id
      (isis_lsp_self_update_lsp now config inst.teardown level (inst.level level).adjacency)
    (isis_lsp_flood inst level lsp_id, true)

/-! ## Receipt of an LSP -/

/-- The `ACK:` part of `isis_lsp_handler_rx`: add the LSP `lsp_id` of the
LSDB of `level` to the PSNP tree of the adjacency at position `a`. -/
def isis_lsp_handler_rx_ack (inst : isis_instance_t) (level a lsp_id : Nat) : isis_instance_t :=
  match (inst.level level).adjacency[a]? with
  | none => inst
  | some adjacency =>
    let result := hb_tree_insert psnp_key lsp_id adjacency.psnp_tree
    if result.2 then
      let inst := inst.update_adjacency level a (fun adj =>
        { adj with
          psnp_tree := result.1
          timer_psnp_started := true
          timer_psnp_next := if ¬ adj.timer_psnp_started then some 1 else adj.timer_psnp_next })
      inst.update_lsp level lsp_id (fun lsp => { lsp with refcount := lsp.refcount + 1 })
    else inst

/-- The part of `isis_lsp_handler_rx` that stores the received PDU in the
LSP `lsp_id` (found or just created) and floods it. -/
def isis_lsp_handler_rx_store (now : timespec) (inst : isis_instance_t) (level a : Nat)
    (pdu : isis_pdu_t) (lsp_id seq : Nat) : isis_instance_t :=
  let inst := inst.update_lsp level lsp_id (fun lsp =>
    { lsp with
      level := level
      source := ⟨ISIS_SOURCE_ADJACENCY, some a⟩
      seq := seq
      lifetime := pdu.lifetime % 2 ^ 16
      expired := false
      timestamp := now
      pdu := pdu
      timer_lifetime := some (pdu.lifetime % 2 ^ 16) })
  isis_lsp_flood inst level lsp_id

/-- The authentication type and key `isis_lsp_handler_rx` validates a PDU of
`level` against. -/
def isis_lsp_handler_rx_auth (config : isis_config_t) (level : Nat) : Nat × Option String :=
  if level = ISIS_LEVEL_1 ∧ config.level1_auth ≠ 0 ∧ config.level1_key ≠ none then
    (config.level1_auth, config.level1_key)
  else if level = ISIS_LEVEL_2 ∧ config.level2_auth ≠ 0 ∧ config.level2_key ≠ none then
    (config.level2_auth, config.level2_key)
  else (ISIS_AUTH_NONE, none)

/-- The C function `isis_lsp_handler_rx` for a PDU received on the interface
whose adjacency of `level` is at position `a` (a position outside the list is
the NULL adjacency).  `validate_auth` is `isis_pdu_validate_auth`. -/
def isis_lsp_handler_rx (validate_auth : isis_pdu_t → Nat → Option String → Bool)
    (now : timespec) (inst : isis_instance_t) (level a : Nat) (pdu : isis_pdu_t) :
    isis_instance_t :=
  match (inst.level level).adjacency[a]? with
  | none => inst
  | some adjacency =>
    let config := inst.config
    let inst := inst.update_adjacency level a
      (fun adj => { adj with stats_lsp_rx := adj.stats_lsp_rx + 1 })
    let lsp_id := pdu.lsp_id % 2 ^ 64
    let seq := pdu.seq % 2 ^ 32
    let auth_key := isis_lsp_handler_rx_auth config level
    if ¬ validate_auth pdu auth_key.1 auth_key.2 then inst
    else
      let lsdb := (inst.level level).lsdb
      match dict_search lsp_key lsp_id lsdb with
      | some lsp =>
        if lsp.seq ≥ seq then isis_lsp_handler_rx_ack inst level a lsp_id
        else if lsp.source.type = ISIS_SOURCE_EXTERNAL then
          isis_lsp_handler_rx_ack inst level a lsp_id
        else if lsp.source.type = ISIS_SOURCE_SELF then
          let inst := inst.update_lsp level lsp_id (fun l => { l with seq := seq })
          let inst := (isis_lsp_self_update now inst adjacency.level).1
          isis_lsp_handler_rx_ack inst level a lsp_id
        else
          let inst := isis_lsp_handler_rx_store now inst level a pdu lsp_id seq
          isis_lsp_handler_rx_ack inst level a lsp_id
      | none =>
        let result := hb_tree_insert lsp_key (isis_lsp_new lsp_id level) lsdb
        if result.2 then
          let inst := inst.set_lsdb level result.1
          let inst := isis_lsp_handler_rx_store now inst level a pdu lsp_id seq
          isis_lsp_handler_rx_ack inst level a lsp_id
        else inst

/-! ## Purge of external LSPs -/

/-- The PDU built by `isis_lsp_purge_external`: header and authentication TLV. -/
def isis_purge_pdu (config : isis_config_t) (level lsp_id seq lifetime : Nat) : isis_pdu_t :=
  let auth_type := if level = ISIS_LEVEL_1 then config.level1_auth else config.level2_auth
  let auth_key := if level = ISIS_LEVEL_1 then config.level1_key else config.level2_key
  { pdu_type := if level = ISIS_LEVEL_1 then ISIS_PDU_L1_LSP else ISIS_PDU_L2_LSP
    lifetime := lifetime
    lsp_id := lsp_id
    seq := seq
    tlvs := [isis_tlv_t.auth auth_type auth_key]
    auth_key := auth_key }

/-- The assignments of `isis_lsp_purge_external` to an external LSP record. -/
def isis_lsp_purge_lsp (now : timespec) (config : isis_config_t) (level : Nat)
    (lsp : isis_lsp_t) : isis_lsp_t :=
  let seq := (lsp.seq + 1) % 2 ^ 32
  { lsp with
    seq := seq
    lifetime := ISIS_DEFAULT_PURGE_LIFETIME
    timestamp := now
    timer_refresh := none
    auth_key := if level = ISIS_LEVEL_1 then config.level1_key else config.level2_key
    pdu := isis_purge_pdu config level lsp.id seq ISIS_DEFAULT_PURGE_LIFETIME }

/-- The body of the loop of `isis_lsp_purge_external` for the LSP `id`. -/
def isis_lsp_purge_external_step (now : timespec) (level : Nat) (inst : isis_instance_t)
    (id : Nat) : isis_instance_t :=
  match dict_search lsp_key id (inst.level level).lsdb with
  | none => inst
  | some lsp =>
    if lsp.source.type = ISIS_SOURCE_EXTERNAL then
      isis_lsp_flood (inst.update_lsp level id (isis_lsp_purge_lsp now inst.config level))
        level id
    else inst

/-- The C function `isis_lsp_purge_external`: the walk over the LSDB of the
level. -/
def isis_lsp_purge_external (now : timespec) (inst : isis_instance_t) (level : Nat) :
    isis_instance_t :=
  ((inst.level level).lsdb.map isis_lsp_t.id).foldl
    (isis_lsp_purge_external_step now level) inst

/-! ## Specification vocabulary: stream verifier -/

/-- The number of positions of `prev, s1, s2, ...` (from `s1` on) that are not
the successor of the sequence number before them. -/
def seq_gaps : Nat → List Nat → Nat
  | _, [] => 0
  | prev, s :: rest => (if s ≠ prev + 1 then 1 else 0) + seq_gaps s rest

/-- The handler run over a list of received frames, in arrival order. -/
def a10nsp_rx_all (st : a10nsp_state) (pkts : List (bbl_ethernet_header_t × bbl_ipv4_t)) :
    a10nsp_state :=
  pkts.foldl (fun st p => bbl_a10nsp_pppoes_handler_ipv4 st p.1 p.2) st

/-- A frame is a BBL packet of flow `f`. -/
def is_bbl_of_flow (f : Nat) (p : bbl_ethernet_header_t × bbl_ipv4_t) : Prop :=
  p.2.protocol = PROTOCOL_IPV4_UDP ∧ p.2.next.protocol = UDP_PROTOCOL_BBL ∧
    p.2.next.next.flow_id = f

/-- The `flow_seq` of a frame. -/
def flow_seq_of (p : bbl_ethernet_header_t × bbl_ipv4_t) : Nat := p.2.next.next.flow_seq

/-- The last element of `d, x1, x2, ...`. -/
def last_of : Nat → List Nat → Nat
  | d, [] => d
  | _, x :: xs => last_of x xs

/-! ## Example states -/

/-- An example configuration: system id 1, no authentication. -/
def ex_config : isis_config_t :=
  { system_id := 1, area := [], area_count := 0, hostname := "r1", router_id := 1
    protocol_ipv4 := true, protocol_ipv6 := false, sr_base := 0, sr_range := 0
    level1_auth := 0, level1_key := none, level2_auth := 0, level2_key := none
    lsp_lifetime := 65535, lsp_refresh_interval := 300, lsp_retry_interval := 5
    external_connection := [] }

/-- An example LSP record of level 1 with the given id, sequence number and source. -/
def ex_lsp (id seq : Nat) (source : isis_lsp_source) (refcount : Nat) : isis_lsp_t :=
  { id := id, level := 1, seq := seq, lifetime := 1200, timestamp := ⟨0, 0⟩
    source := source, refcount := refcount, expired := false, csnp_scan := 0
    auth_key := none, timer_refresh := none, timer_lifetime := none
    pdu := { isis_pdu_zero with lsp_id := id, seq := seq, lifetime := 1200 } }

/-- An example level-1 adjacency in state Up with the given peer, window size and trees. -/
def ex_adjacency (peer window : Nat) (flood : List isis_flood_entry_t) (psnp : List Nat) :
    isis_adjacency_t :=
  { level := 1, state := ISIS_ADJACENCY_STATE_UP, peer_system_id := peer, metric := 10
    window_size := window, interface_mac := 2, interface_ip := ⟨0, 0⟩, interface_ip6 := ⟨0, 0⟩
    flood_tree := flood, psnp_tree := psnp, timer_psnp_started := false
    timer_psnp_next := none, stats_lsp_rx := 0, stats_lsp_tx := 0 }

/-- An example instance with the given level-1 LSDB and adjacencies. -/
def ex_instance (lsdb : List isis_lsp_t) (adjs : List isis_adjacency_t) : isis_instance_t :=
  { config := ex_config, teardown := false, level1 := ⟨lsdb, adjs⟩, level2 := ⟨[], []⟩ }

/-- A send buffer that accepts every frame. -/
def send_ok (u : Unit) (_ : isis_frame_t) : Unit × Bool := (u, true)

/-- An instance whose single level-1 adjacency has window size 0 and holds
one flood entry that is ready for transmission. -/
def ex_tx_instance : isis_instance_t :=
  ex_instance [ex_lsp 5 1 ⟨ISIS_SOURCE_SELF, none⟩ 1]
    [ex_adjacency 9 0 [⟨5, false, 0, ⟨0, 0⟩⟩] []]

/-! ## Specification vocabulary: flooding -/

/-- The adjacency at position `i` is passed over by `isis_lsp_flood` for an
LSP with the given source: it is not Up, or the LSP was received on it, or
it leads to the peer the LSP was received from. -/
def isis_lsp_flood_skips (lsp : isis_lsp_t) (src_peer : Option Nat) (i : Nat)
    (adj : isis_adjacency_t) : Prop :=
  adj.state ≠ ISIS_ADJACENCY_STATE_UP ∨
    (lsp.source.type = ISIS_SOURCE_ADJACENCY ∧
      (lsp.source.adjacency = some i ∨ src_peer = some adj.peer_system_id))

instance (lsp : isis_lsp_t) (src_peer : Option Nat) (i : Nat) (adj : isis_adjacency_t) :
    Decidable (isis_lsp_flood_skips lsp src_peer i adj) := by
  unfold isis_lsp_flood_skips; infer_instance

/-- An instance with four level-1 adjacencies (two Up to peer 9, one Up to
peer 8, one Down to peer 6) whose LSDB holds LSP 7, received on adjacency 0. -/
def ex_flood_instance : isis_instance_t :=
  ex_instance [ex_lsp 7 3 ⟨ISIS_SOURCE_ADJACENCY, some 0⟩ 0]
    [ex_adjacency 9 1 [] [], ex_adjacency 9 1 [] [], ex_adjacency 8 1 [] [],
      { ex_adjacency 6 1 [] [] with state := ISIS_ADJACENCY_STATE_DOWN }]

/-! ## Example states: receipt of an LSP -/

/-- A validation of authentication that accepts every PDU. -/
def auth_ok (_ : isis_pdu_t) (_ : Nat) (_ : Option String) : Bool := true

/-- An instance whose level-1 LSDB holds the self-originated LSP (system id
1, LSP id 65536) with sequence number 5, and one Up adjacency. -/
def ex_self_instance : isis_instance_t :=
  ex_instance [ex_lsp 65536 5 ⟨ISIS_SOURCE_SELF, none⟩ 1]
    [ex_adjacency 9 1 [⟨65536, true, 1, ⟨0, 0⟩⟩] []]

/-- A received LSP PDU with the given id, sequence number and lifetime. -/
def ex_rx_pdu (lsp_id seq lifetime : Nat) : isis_pdu_t :=
  { isis_pdu_zero with pdu_type := 18, lsp_id := lsp_id, seq := seq, lifetime := lifetime }

/-! ## Specification vocabulary: receipt of an LSP -/

/-- The adjacency after `adjacency->stats.lsp_rx++`. -/
def lsp_rx_counted (adj : isis_adjacency_t) : isis_adjacency_t :=
  { adj with stats_lsp_rx := adj.stats_lsp_rx + 1 }

/-- The adjacency after the LSP `id`, not yet in its PSNP tree, was added to
the tree for acknowledgement; the PSNP timer is started with the first LSP
that waits. -/
def psnp_inserted (id : Nat) (adj : isis_adjacency_t) : isis_adjacency_t :=
  { adj with
    psnp_tree := dict_place psnp_key id adj.psnp_tree
    timer_psnp_started := true
    timer_psnp_next := if ¬ adj.timer_psnp_started then some 1 else adj.timer_psnp_next }

/-- The adjacency after the LSP `id` was handed to the PSNP tree: inserted
if it was absent, unchanged otherwise. -/
def psnp_acked (id : Nat) (adj : isis_adjacency_t) : isis_adjacency_t :=
  if dict_search psnp_key id adj.psnp_tree = none then psnp_inserted id adj else adj

/-- Two levels select the same element of `instance->level[]`. -/
def same_level (l l' : Nat) : Prop := (l = ISIS_LEVEL_1 ↔ l' = ISIS_LEVEL_1)

instance (l l' : Nat) : Decidable (same_level l l') := by
  unfold same_level; infer_instance

/-- An instance whose level-1 LSDB holds the external LSP 7 (sequence number
3) and the LSP 8 received on adjacency 1 (sequence number 4), with two Up
adjacencies. -/
def ex_rx_instance : isis_instance_t :=
  ex_instance
    [ex_lsp 7 3 ⟨ISIS_SOURCE_EXTERNAL, none⟩ 0, ex_lsp 8 4 ⟨ISIS_SOURCE_ADJACENCY, some 1⟩ 0]
    [ex_adjacency 9 1 [] [], ex_adjacency 8 1 [] []]

/-- The LSP record after `isis_lsp_handler_rx` stored the PDU received on the
adjacency `a` of `level` in it. -/
def lsp_stored (now : timespec) (level a : Nat) (pdu : isis_pdu_t) (seq : Nat)
    (lsp : isis_lsp_t) : isis_lsp_t :=
  { lsp with
    level := level
    source := ⟨ISIS_SOURCE_ADJACENCY, some a⟩
    seq := seq
    lifetime := pdu.lifetime % 2 ^ 16
    expired := false
    timestamp := now
    pdu := pdu
    timer_lifetime := some (pdu.lifetime % 2 ^ 16) }

/-- An instance whose self-originated LSP has the largest 32-bit sequence
number. -/
def ex_max_seq_instance : isis_instance_t :=
  ex_instance [ex_lsp 65536 (2 ^ 32 - 1) ⟨ISIS_SOURCE_SELF, none⟩ 0] [ex_adjacency 9 1 [] []]

/-! ## Specification vocabulary: CSNP/PSNP entries -/

/-- The body of the inner loop of `isis_lsp_process_entries` run over a list
of LSP entries `(lsp_id, seq)`. -/
def isis_lsp_process_entry_list (csnp_scan : Nat) (entries : List (Nat × Nat))
    (st : isis_adjacency_t × List isis_lsp_t) : isis_adjacency_t × List isis_lsp_t :=
  entries.foldl (fun st e => isis_lsp_process_entry csnp_scan st e.1 e.2) st

/-- A PSNP with one LSP-entries TLV of two entries: LSP 7 with sequence
number 5 and LSP 8 with sequence number 1. -/
def ex_snp_pdu : isis_pdu_t :=
  { isis_pdu_zero with
    tlvs := [isis_tlv_t.raw 9 32
      [0, 0, 0, 0, 0, 0, 0, 0, 0, 7, 0, 0, 0, 5, 0, 0,
       0, 0, 0, 0, 0, 0, 0, 0, 0, 8, 0, 0, 0, 1, 0, 0]] }

/-- An LSDB holding LSP 7 (sequence number 3, referenced once) and LSP 8
(sequence number 4, not referenced). -/
def ex_snp_lsdb : List isis_lsp_t :=
  [ex_lsp 7 3 ⟨ISIS_SOURCE_SELF, none⟩ 1, ex_lsp 8 4 ⟨ISIS_SOURCE_SELF, none⟩ 0]

/-- An adjacency whose flood tree holds LSP 7, transmitted and waiting for
its acknowledgement. -/
def ex_snp_adjacency : isis_adjacency_t :=
  ex_adjacency 9 1 [⟨7, true, 1, ⟨0, 0⟩⟩] []

/-! ## Specification vocabulary: retry job -/

/-- The whole seconds elapsed since the transmission of a flood entry exceed
the retry interval: the test `ago.tv_sec > lsp_retry_interval`. -/
def retry_timed_out (now : timespec) (lsp_retry_interval : Nat) (e : isis_flood_entry_t) :
    Prop :=
  (timespec_sub now e.tx_timestamp).tv_sec > lsp_retry_interval

instance (now : timespec) (lsp_retry_interval : Nat) (e : isis_flood_entry_t) :
    Decidable (retry_timed_out now lsp_retry_interval e) := by
  unfold retry_timed_out; infer_instance

/-- An adjacency whose flood tree holds, in tree order, LSP 1 transmitted
5.5 s before the time 100 s, LSP 2 not yet transmitted, and LSP 3
transmitted at time 0. -/
def ex_retry_adjacency : isis_adjacency_t :=
  ex_adjacency 9 1
    [⟨1, true, 1, ⟨94, 500000000⟩⟩, ⟨2, false, 0, ⟨0, 0⟩⟩, ⟨3, true, 1, ⟨0, 0⟩⟩] []

instance {α : Type} (key : α → Nat) (t : List α) : Decidable (dict_wf key t) := by
  unfold dict_wf; infer_instance

/-! ## Example states: GC sweep -/

/-- An instance whose level-1 LSDB holds LSP 1 (expired, not referenced),
LSP 2 (expired, referenced once) and LSP 3 (not expired, not referenced). -/
def ex_gc_instance : isis_instance_t :=
  ex_instance
    [{ ex_lsp 1 1 ⟨ISIS_SOURCE_ADJACENCY, some 0⟩ 0 with expired := true },
     { ex_lsp 2 1 ⟨ISIS_SOURCE_ADJACENCY, some 0⟩ 1 with expired := true },
     ex_lsp 3 1 ⟨ISIS_SOURCE_ADJACENCY, some 0⟩ 0]
    [ex_adjacency 9 1 [⟨2, false, 0, ⟨0, 0⟩⟩] []]

/-! ## Specification vocabulary: transmission -/

/-- The flood entry after its frame was accepted by the send buffer. -/
def tx_marked (now : timespec) (e : isis_flood_entry_t) : isis_flood_entry_t :=
  { e with wait_ack := true, tx_count := e.tx_count + 1, tx_timestamp := now }

/-- The flood entry after the TX job transmitted it if it was ready: an entry
that waits for its acknowledgement is passed by. -/
def tx_walked (now : timespec) (e : isis_flood_entry_t) : isis_flood_entry_t :=
  if e.wait_ack then e else tx_marked now e

/-- A send buffer with room for `n` more frames: the state is the number of
free slots. -/
def send_room (n : Nat) (_ : isis_frame_t) : Nat × Bool :=
  if n = 0 then (0, false) else (n - 1, true)

/-- An instance whose single level-1 adjacency (window size 10) holds three
flood entries that are ready for transmission. -/
def ex_tx3_instance : isis_instance_t :=
  ex_instance
    [ex_lsp 5 1 ⟨ISIS_SOURCE_SELF, none⟩ 1, ex_lsp 6 1 ⟨ISIS_SOURCE_SELF, none⟩ 1,
     ex_lsp 7 1 ⟨ISIS_SOURCE_SELF, none⟩ 1]
    [ex_adjacency 9 10
      [⟨5, false, 0, ⟨0, 0⟩⟩, ⟨6, false, 0, ⟨0, 0⟩⟩, ⟨7, false, 0, ⟨0, 0⟩⟩] []]

/-! ## Example states: failed authentication -/

/-- A validation of authentication that rejects every PDU. -/
def auth_fail (_ : isis_pdu_t) (_ : Nat) (_ : Option String) : Bool := false

/-! ## Specification vocabulary: self-originated LSP -/

/-- The LSDB of the level after `isis_lsp_self_update` looked up the
self-LSP and created the record if it was absent. -/
def isis_self_lsdb (inst : isis_instance_t) (level : Nat) : List isis_lsp_t :=
  match dict_search lsp_key (isis_self_lsp_id inst.config) (inst.level level).lsdb with
  | some _ => (inst.level level).lsdb
  | none =>
    dict_place lsp_key (isis_lsp_new (isis_self_lsp_id inst.config) level) (inst.level level).lsdb

/-- The self-LSP record `isis_lsp_self_update` works on: the record found in
the LSDB of the level, or the new record. -/
def isis_self_lsp (inst : isis_instance_t) (level : Nat) : isis_lsp_t :=
  match dict_search lsp_key (isis_self_lsp_id inst.config) (inst.level level).lsdb with
  | some lsp => lsp
  | none => isis_lsp_new (isis_self_lsp_id inst.config) level

/-- The instance after one call of `isis_lsp_self_update` at each of the
given times, in order. -/
def isis_lsp_self_update_all (times : List timespec) (inst : isis_instance_t) (level : Nat) :
    isis_instance_t :=
  times.foldl (fun inst now => (isis_lsp_self_update now inst level).1) inst
/-! ## Example states: teardown -/

/-- The instance `ex_self_instance` (self-LSP 65536 with sequence number 5,
one Up adjacency to peer 9) with the teardown flag set. -/
def ex_teardown_instance : isis_instance_t :=
  { ex_self_instance with teardown := true }

/-! ## Example states: purge of external LSPs -/

/-- An instance whose level-1 LSDB holds the external LSP 7 (sequence number
3) and the LSP 8 received on adjacency 1, with two Up adjacencies; the flood
tree of adjacency 0 holds LSP 8. -/
def ex_purge_instance : isis_instance_t :=
  ex_instance
    [ex_lsp 7 3 ⟨ISIS_SOURCE_EXTERNAL, none⟩ 0, ex_lsp 8 4 ⟨ISIS_SOURCE_ADJACENCY, some 1⟩ 1]
    [ex_adjacency 9 1 [⟨8, true, 1, ⟨0, 0⟩⟩] [], ex_adjacency 8 1 [] []]

/-- An instance whose level-1 LSDB holds the external LSP 7 with the largest
32-bit sequence number. -/
def ex_purge_max_seq_instance : isis_instance_t :=
  ex_instance [ex_lsp 7 (2 ^ 32 - 1) ⟨ISIS_SOURCE_EXTERNAL, none⟩ 0] [ex_adjacency 9 1 [] []]

/-! ## Specification vocabulary: reference counts -/

/-- The flood tree of the adjacency holds an entry for the LSP `id`. -/
def holds_flood (id : Nat) (adj : isis_adjacency_t) : Bool :=
  (dict_search flood_key id adj.flood_tree).isSome

/-- The PSNP tree of the adjacency holds the LSP `id`. -/
def holds_psnp (id : Nat) (adj : isis_adjacency_t) : Bool :=
  (dict_search psnp_key id adj.psnp_tree).isSome

/-- The number of adjacency flood trees that hold an entry for the LSP `id`
plus the number of adjacency PSNP trees that hold it. -/
def isis_lsp_references (adjs : List isis_adjacency_t) (id : Nat) : Nat :=
  adjs.countP (holds_flood id) + adjs.countP (holds_psnp id)

/-- The reference count of the LSP stored under `id`, zero when there is none. -/
def isis_lsdb_refcount (lsdb : List isis_lsp_t) (id : Nat) : Nat :=
  match dict_search lsp_key id lsdb with
  | some lsp => lsp.refcount
  | none => 0

/-- The reference-count invariant of one level.  The LSDB and the flood
trees are trees (pairwise distinct keys); a flood entry and a PSNP datum are
pointers to an LSP record of the LSDB (the C trees are keyed by the address
of `lsp->id`), so the LSP id of every tree entry is stored in the LSDB; and
for every LSP of the LSDB `refcount` is the number of flood trees plus the
number of PSNP trees that hold it. -/
def isis_refcount_ok (lsdb : List isis_lsp_t) (adjs : List isis_adjacency_t) : Prop :=
  dict_wf lsp_key lsdb ∧
  (∀ adj ∈ adjs, dict_wf flood_key adj.flood_tree) ∧
  (∀ adj ∈ adjs,
    (∀ e ∈ adj.flood_tree, (dict_search lsp_key e.lsp lsdb).isSome = true) ∧
    (∀ k ∈ adj.psnp_tree, (dict_search lsp_key k lsdb).isSome = true)) ∧
  (∀ lsp ∈ lsdb, lsp.refcount = isis_lsp_references adjs lsp.id)

/-- The invariant `isis_refcount_ok` in terms of searches: for every LSP id,
the reference count stored under it (zero when no LSP is stored) is the
number of trees that hold the id. -/
def isis_refcount_inv (lsdb : List isis_lsp_t) (adjs : List isis_adjacency_t) : Prop :=
  dict_wf lsp_key lsdb ∧
  (∀ adj ∈ adjs, dict_wf flood_key adj.flood_tree) ∧
  (∀ id, isis_lsdb_refcount lsdb id = isis_lsp_references adjs id)

/-- The reference-count invariant of an instance: it holds for both levels. -/
def isis_instance_refcount_ok (inst : isis_instance_t) : Prop :=
  ∀ l, isis_refcount_ok (inst.level l).lsdb (inst.level l).adjacency

/-- The search form of the reference-count invariant of an instance. -/
def isis_instance_refcount_inv (inst : isis_instance_t) : Prop :=
  ∀ l, isis_refcount_inv (inst.level l).lsdb (inst.level l).adjacency

instance (lsdb : List isis_lsp_t) (adjs : List isis_adjacency_t) :
    Decidable (isis_refcount_ok lsdb adjs) := by
  unfold isis_refcount_ok; infer_instance

/-! ## Control socket (`bbl_ctrl.c`): JSON values

The JSON library (jansson) is not part of the sources; a JSON value is a
term of `json_t`, and the accessors follow the library's documentation. -/

/-- A JSON value (`json_t`).  A real is given as a fraction, the value of
which is `num / den`. -/
inductive json_t where
  | null
  | boolean (b : Bool)
  | integer (n : Int)
  | real (num : Int) (den : Nat)
  | string (s : String)
  | array (items : List json_t)
  | object (fields : List (String × json_t))

/-- Lookup of a key in the field list of a JSON object. -/
def json_fields_get (key : String) : List (String × json_t) → Option json_t
  | [] => none
  | (k, v) :: rest => if k = key then some v else json_fields_get key rest

/-- The library function `json_object_get`: the value stored under `key`, or
NULL when `json` is NULL, is not an object, or has no such key. -/
def json_object_get (json : Option json_t) (key : String) : Option json_t :=
  match json with
  | some (json_t.object fields) => json_fields_get key fields
  | _ => none

/-- The library function `json_is_number`: integer or real. -/
def json_is_number : json_t → Bool
  | json_t.integer _ => true
  | json_t.real _ _ => true
  | _ => false

/-- The library function `json_is_array`. -/
def json_is_array : Option json_t → Bool
  | some (json_t.array _) => true
  | _ => false

/-- The library function `json_number_value`, a `double`, followed by the
conversion to an integer type, which truncates toward zero: the result is
the integer part.  A value that is not a number gives 0. -/
def json_number_value : json_t → Int
  | json_t.integer n => n
  | json_t.real num den => num.tdiv den
  | _ => 0

/-- The conversion of a number to an unsigned integer type of `w` bits; a
value in range is kept (out of range the C conversion is undefined, the
model reduces modulo `2^w`). -/
def to_uint (w : Nat) (x : Int) : Nat := (x % 2 ^ w).toNat

/-- The conversion of a JSON integer (`json_int_t`) to `int`: the value
reduced to the signed 32-bit range. -/
def to_int32 (x : Int) : Int := (x + 2 ^ 31) % 2 ^ 32 - 2 ^ 31

/-- The library call `json_unpack(arguments, "{s:s}", key, &s)`: the string
stored under `key`, failure when `arguments` is NULL or not an object, or
the key is absent or not a string. -/
def json_unpack_string (arguments : Option json_t) (key : String) : Option String :=
  match json_object_get arguments key with
  | some (json_t.string s) => some s
  | _ => none

/-- The library call `json_unpack(arguments, "{s:i}", key, &i)`: the integer
stored under `key` as an `int`, failure when `arguments` is NULL or not an
object, or the key is absent or not a JSON integer. -/
def json_unpack_int (arguments : Option json_t) (key : String) : Option Int :=
  match json_object_get arguments key with
  | some (json_t.integer n) => some (to_int32 n)
  | _ => none

/-- The library function `json_string_value`: the string of a JSON string,
NULL otherwise. -/
def json_string_value : Option json_t → Option String
  | some (json_t.string s) => some s
  | _ => none

/-! ## Control socket: reply envelope -/

/-- A reply written to the connection: the JSON object with the members
`status`, `code`, the optional `message` and the command-specific members
`body`. -/
structure ctrl_reply where
  status : String
  code : Nat
  message : Option String
  body : List (String × json_t)
/-! ## Control socket: sessions, tunnels and the global context

`bbl_session.h`, `bbl_l2tp.h` and the other headers that declare these
structures are not part of the sources; the structures below hold the
members `bbl_ctrl.c` reads and writes. -/

def IGMP_MAX_SOURCES : Nat := 3
def IGMP_MAX_GROUPS : Nat := 8
def PPP_CODE_CONF_REQUEST : Nat := 1
def PPP_CODE_TERM_REQUEST : Nat := 5
def L2TP_MESSAGE_STOPCCN : Nat := 4
def L2TP_MESSAGE_CDN : Nat := 14
def L2TP_MESSAGE_CSURQ : Nat := 29

/-- Modelled from the spec: the access type of a session, PPPoE or IPoE. -/
inductive access_type_t where
  | ACCESS_TYPE_PPPOE
  | ACCESS_TYPE_IPOE
deriving DecidableEq, Repr

/-- Modelled from the spec: the top-level state of a session. -/
inductive session_state_t where
  | BBL_IDLE
  | BBL_IPOE_SETUP
  | BBL_PPPOE_INIT
  | BBL_PPPOE_REQUEST
  | BBL_PPP_LINK
  | BBL_PPP_AUTH
  | BBL_PPP_NETWORK
  | BBL_ESTABLISHED
  | BBL_TERMINATING
  | BBL_TERMINATED
deriving DecidableEq, Repr

/-- Modelled from the spec: the state of an NCP (IPCP, IP6CP) of a session. -/
inductive ppp_state_t where
  | BBL_PPP_CLOSED
  | BBL_PPP_INIT
  | BBL_PPP_LOCAL_ACK
  | BBL_PPP_PEER_ACK
  | BBL_PPP_OPENED
  | BBL_PPP_TERMINATE
deriving DecidableEq, Repr

/-- Modelled from the spec: the state of an IGMP group entry.  The order of
the enumeration is Idle, Leaving, Active, Joining, as in the `switch` of
`bbl_ctrl_igmp_info`; `bbl_ctrl_igmp_leave` relies on Idle and Leaving being
the states `<= IGMP_GROUP_LEAVING`. -/
inductive igmp_group_state_t where
  | IGMP_GROUP_IDLE
  | IGMP_GROUP_LEAVING
  | IGMP_GROUP_ACTIVE
  | IGMP_GROUP_JOINING
deriving DecidableEq, Repr

/-- Modelled from the spec: the state of an L2TP tunnel. -/
inductive l2tp_tunnel_state_t where
  | BBL_L2TP_TUNNEL_IDLE
  | BBL_L2TP_TUNNEL_WAIT_CTR_CONN
  | BBL_L2TP_TUNNEL_ESTABLISHED
  | BBL_L2TP_TUNNEL_SEND_STOPCCN
  | BBL_L2TP_TUNNEL_RCVD_STOPCCN
  | BBL_L2TP_TUNNEL_TERMINATED
deriving DecidableEq, Repr

/-- Modelled from the spec: the state of an L2TP session. -/
inductive l2tp_session_state_t where
  | BBL_L2TP_SESSION_IDLE
  | BBL_L2TP_SESSION_WAIT_CONN
  | BBL_L2TP_SESSION_ESTABLISHED
  | BBL_L2TP_SESSION_TERMINATED
deriving DecidableEq, Repr

open access_type_t session_state_t ppp_state_t igmp_group_state_t l2tp_tunnel_state_t
  l2tp_session_state_t

/-- An entry of the IGMP group table of a session (`bbl_igmp_group_s`);
`source` has `IGMP_MAX_SOURCES` elements. -/
structure bbl_igmp_group_s where
  group : Nat
  source : List Nat
  state : igmp_group_state_t
  zapping : Bool
  robustness_count : Nat
  send : Bool
  packets : Nat
  loss : Nat
  join_tx_time : timespec
  first_mc_rx_time : timespec
  leave_tx_time : timespec
  last_mc_rx_time : timespec
deriving DecidableEq, Repr

/-- The zeroed group entry (`memset(group, 0x0, sizeof(bbl_igmp_group_s))`). -/
def bbl_igmp_group_zero : bbl_igmp_group_s :=
  { group := 0, source := [0, 0, 0], state := IGMP_GROUP_IDLE, zapping := false
    robustness_count := 0, send := false, packets := 0, loss := 0
    join_tx_time := ⟨0, 0⟩, first_mc_rx_time := ⟨0, 0⟩, leave_tx_time := ⟨0, 0⟩
    last_mc_rx_time := ⟨0, 0⟩ }

/-- The members of a session (`struct bbl_session_`) that `bbl_ctrl.c` reads
and writes.  The bits `BBL_SEND_IGMP`, `BBL_SEND_IPCP_REQUEST` and
`BBL_SEND_IP6CP_REQUEST` of `send_requests` are the members `send_igmp`,
`send_ipcp_request` and `send_ip6cp_request`; `tx_qnode_inserted` is the
membership in the TX queue that `bbl_session_tx_qnode_insert` establishes;
`l2tp_session` is the pointer to the bound L2TP session, its key;
`igmp_groups` has `IGMP_MAX_GROUPS` elements. -/
structure bbl_session_ where
  session_id : Nat
  access_type : access_type_t
  session_state : session_state_t
  ipcp_state : ppp_state_t
  ip6cp_state : ppp_state_t
  ipcp_request_code : Nat
  ip6cp_request_code : Nat
  send_igmp : Bool
  send_ipcp_request : Bool
  send_ip6cp_request : Bool
  tx_qnode_inserted : Bool
  ip_address : Nat
  peer_ip_address : Nat
  dns1 : Nat
  dns2 : Nat
  ipv6_prefix_len : Nat
  icmpv6_ra_received : Bool
  ipv6_dns1 : Nat
  ipv6_dns2 : Nat
  dhcpv6_state : Nat
  session_traffic : Bool
  stream_traffic : Bool
  cfm_cc : Bool
  cfm_rdi : Bool
  igmp_groups : List bbl_igmp_group_s
  igmp_robustness : Nat
  l2tp_session : Option Nat
  session_traffic_flows : Nat
  session_traffic_flows_verified : Nat
deriving DecidableEq, Repr
/-- Modelled from the spec: the composite key `(ifindex, outer_vlan,
inner_vlan)` of a session, the key of the VLAN session dictionary
(`vlan_session_key_t`, declared in `bbl_session.h`).  The model takes 32
bits for the interface index and 16 bits for each VLAN id. -/
structure vlan_session_key_t where
  ifindex : Nat
  outer_vlan_id : Nat
  inner_vlan_id : Nat
deriving DecidableEq, Repr

/-- The key of the L2TP session dictionary (`l2tp_key_t`): tunnel id and
session id, two 16-bit numbers, as one number. -/
def l2tp_key (tunnel_id session_id : Nat) : Nat := tunnel_id * 2 ^ 16 + session_id

/-- The members of an L2TP tunnel (`bbl_l2tp_tunnel_t`) that `bbl_ctrl.c`
reads and writes. -/
structure bbl_l2tp_tunnel_t where
  tunnel_id : Nat
  state : l2tp_tunnel_state_t
  result_code : Int
  error_code : Int
  error_message : Option String
  csurq_requests_len : Nat
  csurq_requests : List Nat
deriving DecidableEq, Repr

/-- The members of an L2TP session (`bbl_l2tp_session_t`) that `bbl_ctrl.c`
reads and writes.  `key` is the key of the session in the L2TP session
dictionary, `tunnel` the pointer to its tunnel, the tunnel id.  The entry
with session id 0 is the tunnel session. -/
structure bbl_l2tp_session_t where
  key : Nat
  tunnel : Nat
  state : l2tp_session_state_t
  result_code : Int
  error_code : Int
  error_message : Option String
  disconnect_code : Int
  disconnect_protocol : Int
  disconnect_direction : Int
  disconnect_message : Option String
deriving DecidableEq, Repr

/-- A call of `bbl_l2tp_send(tunnel, session, type)`: the tunnel id, the key
of the session (NULL for a tunnel message) and the message type. -/
structure l2tp_send_t where
  tunnel : Nat
  session : Option Nat
  type : Nat
deriving DecidableEq, Repr

/-- An element of the list `ctx->isis_instances`: the instance with
`config->id` and, per level, whether the `lsdb` pointer is set. -/
structure ctrl_isis_instance_t where
  id : Nat
  level1_lsdb : Bool
  level2_lsdb : Bool
  inst : isis_instance_t
deriving DecidableEq, Repr

/-- The members of an interface (`struct bbl_interface_`) that `bbl_ctrl.c`
reads itself. -/
structure bbl_interface_ where
  name : String
  ifindex : Nat
deriving DecidableEq, Repr

/-- The members of the global context (`struct bbl_ctx_`, `bbl_ctx.h`) that
`bbl_ctrl.c` reads and writes, with the globals `g_teardown` and
`g_teardown_request`.  A pointer to a session is its position in
`session_list`; the VLAN session dictionary maps a key to such a pointer.
`l2tp_tunnels` holds the tunnels of all L2TP servers, `l2tp_tx` the calls of
`bbl_l2tp_send` so far. -/
structure bbl_ctx_ where
  sessions : Nat
  session_list : List (Option bbl_session_)
  vlan_session_dict : List (vlan_session_key_t × Nat)
  access_if : List bbl_interface_
  network_if : List bbl_interface_
  a10nsp_if : List bbl_interface_
  multicast_traffic : Bool
  g_teardown : Bool
  g_teardown_request : Bool
  config_sessions : Nat
  sessions_established_max : Nat
  sessions_flapped : Nat
  dhcpv6_established_max : Nat
  stats_session_traffic_flows : Nat
  stats_session_traffic_flows_verified : Nat
  stats_stream_traffic_flows : Nat
  stats_stream_traffic_flows_verified : Nat
  stream_flow_dict : List bbl_stream
  l2tp_tunnels : List bbl_l2tp_tunnel_t
  l2tp_session_dict : List bbl_l2tp_session_t
  l2tp_tx : List l2tp_send_t
  isis_instances : List ctrl_isis_instance_t
deriving DecidableEq, Repr

/-- The functions `bbl_ctrl.c` calls that are not part of the sources, as
parameters.  `json_pack_ok` tells whether `json_pack` builds the object
(it returns NULL otherwise); `inet_pton` is the library function for
`AF_INET`; the `*_json` members are the functions that build the
command-specific part of a reply and the arrays the reply loops append;
the others are the operations on sessions, tunnels and IS-IS instances. -/
structure ctrl_env where
  json_pack_ok : ctrl_reply → Bool
  inet_pton : String → Option Nat
  format_ipv4_address : Nat → String
  bbl_session_json : bbl_session_ → Option json_t
  bbl_stream_json : bbl_stream → Option json_t
  session_streams_json : bbl_session_ → List (String × json_t)
  interfaces_json : bbl_ctx_ → json_t
  li_flows_json : bbl_ctx_ → json_t
  l2tp_tunnels_json : bbl_ctx_ → json_t
  l2tp_session_json : bbl_l2tp_session_t → json_t
  isis_adjacencies_json : bbl_ctx_ → json_t
  isis_ctrl_database : isis_instance_t → Nat → Option json_t
  session_state_string : session_state_t → String
  bbl_session_clear : bbl_ctx_ → Nat → bbl_ctx_
  bbl_dhcpv6_stop : bbl_session_ → bbl_session_
  enable_disable_traffic : bbl_ctx_ → Bool → bbl_ctx_
  bbl_l2tp_session_delete : bbl_ctx_ → Nat → bbl_ctx_
  isis_mrt_load : isis_instance_t → String → isis_instance_t × Bool
  isis_pdu_load : String → Option isis_pdu_t
  isis_lsp_update_external : isis_instance_t → isis_pdu_t → isis_instance_t × Bool
/-! ## Control socket: sessions and replies -/

/-- What a handler leaves behind: the context and the replies it wrote to
the connection, in the order of writing. -/
abbrev ctrl_out := bbl_ctx_ × List ctrl_reply

/-- The session a pointer refers to: the entry of `session_list` at that
position, when it is not NULL. -/
def session_deref (ctx : bbl_ctx_) (p : Nat) : Option bbl_session_ :=
  match ctx.session_list[p]? with
  | some (some session) => some session
  | _ => none

/-- A write through a session pointer. -/
def session_update (ctx : bbl_ctx_) (p : Nat) (f : bbl_session_ → bbl_session_) : bbl_ctx_ :=
  { ctx with session_list := ctx.session_list.modify (Option.map f) p }

/-- The loop `for(i = 0; i < ctx->sessions; i++)` over `ctx->session_list[i]`
that applies `f` to every session that is not NULL. -/
def sessions_iterate (ctx : bbl_ctx_) (f : bbl_session_ → bbl_session_) : bbl_ctx_ :=
  (List.range ctx.sessions).foldl (fun c i => session_update c i f) ctx

/-- Modelled from the spec: `bbl_session_get` of `bbl_session.c`, the lookup
of a session by its `session_id`.  Sessions are identified by the ids 1..N;
the session with id `session_id` is entry `session_id - 1` of
`session_list`.  The result is the pointer to the session, NULL when the id
is 0, larger than `ctx->sessions`, or the entry is NULL. -/
def bbl_session_get (ctx : bbl_ctx_) (session_id : Nat) : Option Nat :=
  if session_id < 1 ∨ session_id > ctx.sessions then none
  else match session_deref ctx (session_id - 1) with
    | some _ => some (session_id - 1)
    | none => none

/-- Mirror of `bbl_ctrl_status`: the envelope with `status`, `code` and the
optional `message` is written when `json_pack` builds it, nothing is
written otherwise. -/
def bbl_ctrl_status (env : ctrl_env) (status : String) (code : Nat)
    (message : Option String) : List ctrl_reply :=
  let root : ctrl_reply := { status := status, code := code, message := message, body := [] }
  if env.json_pack_ok root then [root] else []

/-- The envelope `"status", "ok", "code", 200` with command-specific
members. -/
def ctrl_root (body : List (String × json_t)) : ctrl_reply :=
  { status := "ok", code := 200, message := none, body := body }

/-- The tail shared by the handlers that build a reply with `json_pack`:
`if(root)` the object is written, else `bbl_ctrl_status(fd, "error", 500,
"internal error")`. -/
def ctrl_dump (env : ctrl_env) (body : List (String × json_t)) : List ctrl_reply :=
  if env.json_pack_ok (ctrl_root body) then [ctrl_root body]
  else bbl_ctrl_status env "error" 500 (some "internal error")

/-- The tail of the handlers that write the object `if(root)` and nothing
otherwise. -/
def ctrl_dump_only (env : ctrl_env) (body : List (String × json_t)) : List ctrl_reply :=
  if env.json_pack_ok (ctrl_root body) then [ctrl_root body] else []

/-! ## Control socket: handlers -/

/-- Mirror of `bbl_ctrl_multicast_traffic_start`. -/
def bbl_ctrl_multicast_traffic_start (env : ctrl_env) (ctx : bbl_ctx_) (_session_id : Nat)
    (_arguments : Option json_t) : ctrl_out :=
  ({ ctx with multicast_traffic := true }, bbl_ctrl_status env "ok" 200 none)

/-- Mirror of `bbl_ctrl_multicast_traffic_stop`. -/
def bbl_ctrl_multicast_traffic_stop (env : ctrl_env) (ctx : bbl_ctx_) (_session_id : Nat)
    (_arguments : Option json_t) : ctrl_out :=
  ({ ctx with multicast_traffic := false }, bbl_ctrl_status env "ok" 200 none)

/-- Mirror of `bbl_ctrl_session_traffic_stats`. -/
def bbl_ctrl_session_traffic_stats (env : ctrl_env) (ctx : bbl_ctx_) (_session_id : Nat)
    (_arguments : Option json_t) : ctrl_out :=
  (ctx, ctrl_dump_only env
    [("session-traffic", json_t.object
      [("total-flows", json_t.integer ctx.stats_session_traffic_flows),
       ("verified-flows", json_t.integer ctx.stats_session_traffic_flows_verified)])])

/-- The pattern shared by the handlers that set one flag of a session:
with a session id the matching session, without one all sessions. -/
def ctrl_session_flag (env : ctrl_env) (ctx : bbl_ctx_) (session_id : Nat)
    (f : bbl_session_ → bbl_session_) : ctrl_out :=
  if session_id ≠ 0 then
    match bbl_session_get ctx session_id with
    | some session => (session_update ctx session f, bbl_ctrl_status env "ok" 200 none)
    | none => (ctx, bbl_ctrl_status env "warning" 404 (some "session not found"))
  else
    (sessions_iterate ctx f, bbl_ctrl_status env "ok" 200 none)

/-- Mirror of `bbl_ctrl_session_traffic`. -/
def bbl_ctrl_session_traffic (env : ctrl_env) (ctx : bbl_ctx_) (session_id : Nat)
    (status : Bool) : ctrl_out :=
  ctrl_session_flag env ctx session_id (fun session => { session with session_traffic := status })

/-- Mirror of `bbl_ctrl_session_traffic_start`. -/
def bbl_ctrl_session_traffic_start (env : ctrl_env) (ctx : bbl_ctx_) (session_id : Nat)
    (_arguments : Option json_t) : ctrl_out :=
  bbl_ctrl_session_traffic env ctx session_id true

/-- Mirror of `bbl_ctrl_session_traffic_stop`. -/
def bbl_ctrl_session_traffic_stop (env : ctrl_env) (ctx : bbl_ctx_) (session_id : Nat)
    (_arguments : Option json_t) : ctrl_out :=
  bbl_ctrl_session_traffic env ctx session_id false

/-- The unpacking of an optional source address in `bbl_ctrl_igmp_join`:
absent gives 0, present and valid the address, present and invalid fails. -/
def igmp_join_source (env : ctrl_env) (arguments : Option json_t) (key : String) :
    Option Nat :=
  match json_unpack_string arguments key with
  | some s => env.inet_pton s
  | none => some 0

/-- The slot search of `bbl_ctrl_igmp_join` over the group table from
position `i` on, `group` being the slot found so far: `Except.error` is the
return with "group already exists", `Except.ok` the slot after the loop. -/
def igmp_join_slot (group_address : Nat) :
    List bbl_igmp_group_s → Nat → Option Nat → Except Unit (Option Nat)
  | [], _, group => Except.ok group
  | g :: rest, i, group =>
    if !g.zapping then
      if g.group = group_address then
        if g.state = IGMP_GROUP_IDLE then Except.ok (some i)
        else Except.error ()
      else if g.state = IGMP_GROUP_IDLE then igmp_join_slot group_address rest (i + 1) (some i)
      else igmp_join_slot group_address rest (i + 1) group
    else igmp_join_slot group_address rest (i + 1) group

/-- The writes of `bbl_ctrl_igmp_join` to the session once the slot `i` is
found. -/
def igmp_join_write (session : bbl_session_) (i : Nat) (group_address source1 source2
    source3 : Nat) : bbl_session_ :=
  { session with
    igmp_groups := session.igmp_groups.set i
      { bbl_igmp_group_zero with
        group := group_address
        source := [source1, source2, source3]
        state := IGMP_GROUP_JOINING
        robustness_count := session.igmp_robustness
        send := true }
    send_igmp := true
    tx_qnode_inserted := true }

/-- Mirror of `bbl_ctrl_igmp_join`. -/
def bbl_ctrl_igmp_join (env : ctrl_env) (ctx : bbl_ctx_) (session_id : Nat)
    (arguments : Option json_t) : ctrl_out :=
  match json_unpack_string arguments "group" with
  | none => (ctx, bbl_ctrl_status env "error" 400 (some "missing group address"))
  | some s =>
  match env.inet_pton s with
  | none => (ctx, bbl_ctrl_status env "error" 400 (some "invalid group address"))
  | some group_address =>
  match igmp_join_source env arguments "source1" with
  | none => (ctx, bbl_ctrl_status env "error" 400 (some "invalid source1 address"))
  | some source1 =>
  match igmp_join_source env arguments "source2" with
  | none => (ctx, bbl_ctrl_status env "error" 400 (some "invalid source2 address"))
  | some source2 =>
  match igmp_join_source env arguments "source3" with
  | none => (ctx, bbl_ctrl_status env "error" 400 (some "invalid source3 address"))
  | some source3 =>
  match bbl_session_get ctx session_id with
  | none => (ctx, bbl_ctrl_status env "warning" 404 (some "session not found"))
  | some p =>
  match session_deref ctx p with
  | none => (ctx, bbl_ctrl_status env "warning" 404 (some "session not found"))
  | some session =>
  match igmp_join_slot group_address (session.igmp_groups.take IGMP_MAX_GROUPS) 0 none with
  | Except.error _ => (ctx, bbl_ctrl_status env "error" 409 (some "group already exists"))
  | Except.ok none =>
    (ctx, bbl_ctrl_status env "error" 409 (some "no igmp group slot available"))
  | Except.ok (some i) =>
    (session_update ctx p
        (fun session => igmp_join_write session i group_address source1 source2 source3),
      bbl_ctrl_status env "ok" 200 none)

/-- The group search of `bbl_ctrl_igmp_leave`: the first slot from position
`i` on that holds `group_address`. -/
def igmp_leave_slot (group_address : Nat) : List bbl_igmp_group_s → Nat → Option Nat
  | [], _ => none
  | g :: rest, i =>
    if g.group = group_address then some i else igmp_leave_slot group_address rest (i + 1)

/-- The writes of `bbl_ctrl_igmp_leave` to the session for the slot `i`. -/
def igmp_leave_write (session : bbl_session_) (i : Nat) : bbl_session_ :=
  { session with
    igmp_groups := session.igmp_groups.modify
      (fun group => { group with
        state := IGMP_GROUP_LEAVING
        robustness_count := session.igmp_robustness
        send := true
        leave_tx_time := ⟨0, 0⟩
        last_mc_rx_time := ⟨0, 0⟩ }) i
    send_igmp := true
    tx_qnode_inserted := true }

/-- Mirror of `bbl_ctrl_igmp_leave`. -/
def bbl_ctrl_igmp_leave (env : ctrl_env) (ctx : bbl_ctx_) (session_id : Nat)
    (arguments : Option json_t) : ctrl_out :=
  if session_id = 0 then (ctx, bbl_ctrl_status env "error" 400 (some "missing session-id"))
  else
  match json_unpack_string arguments "group" with
  | none => (ctx, bbl_ctrl_status env "error" 400 (some "missing group address"))
  | some s =>
  match env.inet_pton s with
  | none => (ctx, bbl_ctrl_status env "error" 400 (some "invalid group address"))
  | some group_address =>
  match bbl_session_get ctx session_id with
  | none => (ctx, bbl_ctrl_status env "warning" 404 (some "session not found"))
  | some p =>
  match session_deref ctx p with
  | none => (ctx, bbl_ctrl_status env "warning" 404 (some "session not found"))
  | some session =>
  match igmp_leave_slot group_address (session.igmp_groups.take IGMP_MAX_GROUPS) 0 with
  | none => (ctx, bbl_ctrl_status env "warning" 404 (some "group not found"))
  | some i =>
  match session.igmp_groups[i]? with
  | none => (ctx, bbl_ctrl_status env "warning" 404 (some "group not found"))
  | some group =>
    if group.zapping then
      (ctx, bbl_ctrl_status env "error" 408 (some "group used by zapping test"))
    else if group.state = IGMP_GROUP_IDLE ∨ group.state = IGMP_GROUP_LEAVING then
      (ctx, bbl_ctrl_status env "ok" 200 none)
    else
      (session_update ctx p (fun session => igmp_leave_write session i),
        bbl_ctrl_status env "ok" 200 none)

/-- The delay in milliseconds computed in `bbl_ctrl_igmp_info` from a time
difference: `ms = tv_nsec / 1000000`, one more when a remainder is left,
`delay = tv_sec * 1000 + ms`, the two being `uint32_t`. -/
def igmp_delay_ms (time_diff : timespec) : Nat :=
  let ms := (time_diff.tv_nsec / 1000000) % 2 ^ 32
  let ms := if time_diff.tv_nsec % 1000000 ≠ 0 then (ms + 1) % 2 ^ 32 else ms
  (time_diff.tv_sec * 1000 + ms) % 2 ^ 32

/-- The record `bbl_ctrl_igmp_info` builds for one group of the table. -/
def igmp_info_record (env : ctrl_env) (group : bbl_igmp_group_s) : json_t :=
  let sources := json_t.array
    (((group.source.take IGMP_MAX_SOURCES).filter (fun s => s ≠ 0)).map
      (fun s => json_t.string (env.format_ipv4_address s)))
  let record := [("group", json_t.string (env.format_ipv4_address group.group)),
    ("sources", sources), ("packets", json_t.integer group.packets),
    ("loss", json_t.integer group.loss)]
  match group.state with
  | IGMP_GROUP_IDLE =>
    json_t.object (record ++ [("state", json_t.string "idle")] ++
      (if group.last_mc_rx_time.tv_sec ≠ 0 ∧ group.leave_tx_time.tv_sec ≠ 0 then
        [("leave-delay-ms", json_t.integer
          (igmp_delay_ms (timespec_sub group.last_mc_rx_time group.leave_tx_time)))]
      else []))
  | IGMP_GROUP_LEAVING => json_t.object (record ++ [("state", json_t.string "leaving")])
  | IGMP_GROUP_ACTIVE =>
    json_t.object (record ++ [("state", json_t.string "active")] ++
      (if group.first_mc_rx_time.tv_sec ≠ 0 then
        [("join-delay-ms", json_t.integer
          (igmp_delay_ms (timespec_sub group.first_mc_rx_time group.join_tx_time)))]
      else []))
  | IGMP_GROUP_JOINING =>
    json_t.object (record ++ [("state", json_t.string "joining")] ++
      (if group.first_mc_rx_time.tv_sec ≠ 0 then
        [("join-delay-ms", json_t.integer
          (igmp_delay_ms (timespec_sub group.first_mc_rx_time group.join_tx_time)))]
      else []))

/-- Mirror of `bbl_ctrl_igmp_info`. -/
def bbl_ctrl_igmp_info (env : ctrl_env) (ctx : bbl_ctx_) (session_id : Nat)
    (_arguments : Option json_t) : ctrl_out :=
  if session_id = 0 then (ctx, bbl_ctrl_status env "error" 400 (some "missing session-id"))
  else
  match (bbl_session_get ctx session_id).bind (session_deref ctx) with
  | none => (ctx, bbl_ctrl_status env "warning" 404 (some "session not found"))
  | some session =>
    (ctx, ctrl_dump env
      [("igmp-groups", json_t.array
        (((session.igmp_groups.take IGMP_MAX_GROUPS).filter (fun group => group.group ≠ 0)).map
          (igmp_info_record env)))])

/-- Mirror of `bbl_ctrl_session_counters`. -/
def bbl_ctrl_session_counters (env : ctrl_env) (ctx : bbl_ctx_) (_session_id : Nat)
    (_arguments : Option json_t) : ctrl_out :=
  (ctx, ctrl_dump_only env
    [("session-counters", json_t.object
      [("sessions", json_t.integer ctx.config_sessions),
       ("sessions-established", json_t.integer ctx.sessions_established_max),
       ("sessions-flapped", json_t.integer ctx.sessions_flapped),
       ("dhcpv6-sessions-established", json_t.integer ctx.dhcpv6_established_max)])])

/-- Mirror of `bbl_ctrl_session_info`.  When `bbl_session_json` gives NULL
the error envelope is written and the function goes on: the format `so*`
then packs the envelope without the member `session-info`. -/
def bbl_ctrl_session_info (env : ctrl_env) (ctx : bbl_ctx_) (session_id : Nat)
    (_arguments : Option json_t) : ctrl_out :=
  if session_id = 0 then (ctx, bbl_ctrl_status env "error" 400 (some "missing session-id"))
  else
  match (bbl_session_get ctx session_id).bind (session_deref ctx) with
  | none => (ctx, bbl_ctrl_status env "warning" 404 (some "session not found"))
  | some session =>
    match env.bbl_session_json session with
    | none =>
      (ctx, bbl_ctrl_status env "error" 500 (some "internal error") ++ ctrl_dump env [])
    | some session_json => (ctx, ctrl_dump env [("session-info", session_json)])

/-- Mirror of `bbl_ctrl_interfaces`. -/
def bbl_ctrl_interfaces (env : ctrl_env) (ctx : bbl_ctx_) (_session_id : Nat)
    (_arguments : Option json_t) : ctrl_out :=
  (ctx, ctrl_dump env [("interfaces", env.interfaces_json ctx)])

/-- Mirror of `bbl_ctrl_session_terminate`. -/
def bbl_ctrl_session_terminate (env : ctrl_env) (ctx : bbl_ctx_) (session_id : Nat)
    (_arguments : Option json_t) : ctrl_out :=
  if session_id ≠ 0 then
    match bbl_session_get ctx session_id with
    | some session =>
      (env.bbl_session_clear ctx session, bbl_ctrl_status env "ok" 200 (some "terminate session"))
    | none => (ctx, bbl_ctrl_status env "warning" 404 (some "session not found"))
  else
    ({ ctx with g_teardown := true, g_teardown_request := true },
      bbl_ctrl_status env "ok" 200 (some "terminate all sessions"))

/-- Mirror of `bbl_ctrl_session_ncp_open`. -/
def bbl_ctrl_session_ncp_open (session : bbl_session_) (ipcp : Bool) : bbl_session_ :=
  if session.session_state = BBL_ESTABLISHED ∨ session.session_state = BBL_PPP_NETWORK then
    if ipcp then
      if session.ipcp_state = BBL_PPP_CLOSED then
        { session with
          ipcp_state := BBL_PPP_INIT
          ipcp_request_code := PPP_CODE_CONF_REQUEST
          send_ipcp_request := true
          tx_qnode_inserted := true }
      else session
    else
      if session.ip6cp_state = BBL_PPP_CLOSED then
        { session with
          ip6cp_state := BBL_PPP_INIT
          ip6cp_request_code := PPP_CODE_CONF_REQUEST
          send_ip6cp_request := true
          tx_qnode_inserted := true }
      else session
  else session

/-- Mirror of `bbl_ctrl_session_ncp_close`. -/
def bbl_ctrl_session_ncp_close (env : ctrl_env) (session : bbl_session_) (ipcp : Bool) :
    bbl_session_ :=
  if session.session_state = BBL_ESTABLISHED ∨ session.session_state = BBL_PPP_NETWORK then
    if ipcp then
      if session.ipcp_state = BBL_PPP_OPENED then
        { session with
          ipcp_state := BBL_PPP_TERMINATE
          ipcp_request_code := PPP_CODE_TERM_REQUEST
          send_ipcp_request := true
          ip_address := 0
          peer_ip_address := 0
          dns1 := 0
          dns2 := 0
          tx_qnode_inserted := true }
      else session
    else
      if session.ip6cp_state = BBL_PPP_OPENED then
        { env.bbl_dhcpv6_stop
            { session with
              ip6cp_state := BBL_PPP_TERMINATE
              ip6cp_request_code := PPP_CODE_TERM_REQUEST
              send_ip6cp_request := true
              ipv6_prefix_len := 0
              icmpv6_ra_received := false
              ipv6_dns1 := 0
              ipv6_dns2 := 0 } with
          tx_qnode_inserted := true }
      else session
  else session

/-- The body applied to a PPPoE session by `bbl_ctrl_session_ncp_open_close`. -/
def ncp_open_close (env : ctrl_env) (open_ ipcp : Bool) (session : bbl_session_) :
    bbl_session_ :=
  if open_ then bbl_ctrl_session_ncp_open session ipcp
  else bbl_ctrl_session_ncp_close env session ipcp

/-- Mirror of `bbl_ctrl_session_ncp_open_close`. -/
def bbl_ctrl_session_ncp_open_close (env : ctrl_env) (ctx : bbl_ctx_) (session_id : Nat)
    (open_ ipcp : Bool) : ctrl_out :=
  if session_id ≠ 0 then
    match bbl_session_get ctx session_id with
    | some p =>
      match session_deref ctx p with
      | some session =>
        if session.access_type = ACCESS_TYPE_PPPOE then
          (session_update ctx p (ncp_open_close env open_ ipcp),
            bbl_ctrl_status env "ok" 200 none)
        else
          (ctx, bbl_ctrl_status env "warning" 400 (some "matching session is not of type pppoe"))
      | none => (ctx, bbl_ctrl_status env "warning" 404 (some "session not found"))
    | none => (ctx, bbl_ctrl_status env "warning" 404 (some "session not found"))
  else
    (sessions_iterate ctx (fun session =>
        if session.access_type = ACCESS_TYPE_PPPOE then ncp_open_close env open_ ipcp session
        else session),
      bbl_ctrl_status env "ok" 200 none)

/-- Mirror of `bbl_ctrl_session_ipcp_open`. -/
def bbl_ctrl_session_ipcp_open (env : ctrl_env) (ctx : bbl_ctx_) (session_id : Nat)
    (_arguments : Option json_t) : ctrl_out :=
  bbl_ctrl_session_ncp_open_close env ctx session_id true true

/-- Mirror of `bbl_ctrl_session_ipcp_close`. -/
def bbl_ctrl_session_ipcp_close (env : ctrl_env) (ctx : bbl_ctx_) (session_id : Nat)
    (_arguments : Option json_t) : ctrl_out :=
  bbl_ctrl_session_ncp_open_close env ctx session_id false true

/-- Mirror of `bbl_ctrl_session_ip6cp_open`. -/
def bbl_ctrl_session_ip6cp_open (env : ctrl_env) (ctx : bbl_ctx_) (session_id : Nat)
    (_arguments : Option json_t) : ctrl_out :=
  bbl_ctrl_session_ncp_open_close env ctx session_id true false

/-- Mirror of `bbl_ctrl_session_ip6cp_close`. -/
def bbl_ctrl_session_ip6cp_close (env : ctrl_env) (ctx : bbl_ctx_) (session_id : Nat)
    (_arguments : Option json_t) : ctrl_out :=
  bbl_ctrl_session_ncp_open_close env ctx session_id false false

/-- Mirror of `bbl_ctrl_li_flows`. -/
def bbl_ctrl_li_flows (env : ctrl_env) (ctx : bbl_ctx_) (_session_id : Nat)
    (_arguments : Option json_t) : ctrl_out :=
  (ctx, ctrl_dump env [("li-flows", env.li_flows_json ctx)])

/-- Mirror of `bbl_ctrl_l2tp_tunnels`. -/
def bbl_ctrl_l2tp_tunnels (env : ctrl_env) (ctx : bbl_ctx_) (_session_id : Nat)
    (_arguments : Option json_t) : ctrl_out :=
  (ctx, ctrl_dump env [("l2tp-tunnels", env.l2tp_tunnels_json ctx)])
/-- The tunnel a pointer refers to: the entry of `l2tp_tunnels` at that
position. -/
def l2tp_tunnel_deref (ctx : bbl_ctx_) (p : Nat) : Option bbl_l2tp_tunnel_t :=
  ctx.l2tp_tunnels[p]?

/-- A write through a tunnel pointer. -/
def l2tp_tunnel_update (ctx : bbl_ctx_) (p : Nat)
    (f : bbl_l2tp_tunnel_t → bbl_l2tp_tunnel_t) : bbl_ctx_ :=
  { ctx with l2tp_tunnels := ctx.l2tp_tunnels.modify f p }

/-- Modelled from the spec: `bbl_l2tp_send` of `bbl_l2tp.c` emits a control
message of the given type for the tunnel and, if given, the session; the
model records the message in `l2tp_tx`. -/
def bbl_l2tp_send (ctx : bbl_ctx_) (l2tp_tunnel : Nat) (l2tp_session : Option Nat)
    (l2tp_type : Nat) : bbl_ctx_ :=
  { ctx with l2tp_tx := ctx.l2tp_tx ++ [⟨l2tp_tunnel, l2tp_session, l2tp_type⟩] }

/-- Modelled from the spec: `bbl_l2tp_tunnel_update_state` of `bbl_l2tp.c`
moves the tunnel to the given state. -/
def bbl_l2tp_tunnel_update_state (l2tp_tunnel : bbl_l2tp_tunnel_t)
    (state : l2tp_tunnel_state_t) : bbl_l2tp_tunnel_t :=
  { l2tp_tunnel with state := state }

/-- The search `dict_search(ctx->l2tp_session_dict, &l2tp_key)` with the
key built from the two ids, each converted to 16 bits. -/
def l2tp_session_search (ctx : bbl_ctx_) (l2tp_tunnel_id l2tp_session_id : Int) :
    Option bbl_l2tp_session_t :=
  dict_search bbl_l2tp_session_t.key
    (l2tp_key (to_uint 16 l2tp_tunnel_id) (to_uint 16 l2tp_session_id)) ctx.l2tp_session_dict

/-- The sessions in the queue `session_qhead` of a tunnel, without the
tunnel session: the entries of the session dictionary that point to the
tunnel and have a session id other than 0. -/
def l2tp_tunnel_sessions (ctx : bbl_ctx_) (l2tp_tunnel : Nat) : List bbl_l2tp_session_t :=
  ctx.l2tp_session_dict.filter (fun s => s.tunnel = l2tp_tunnel ∧ s.key % 2 ^ 16 ≠ 0)

/-- Mirror of `bbl_ctrl_l2tp_sessions`. -/
def bbl_ctrl_l2tp_sessions (env : ctrl_env) (ctx : bbl_ctx_) (_session_id : Nat)
    (arguments : Option json_t) : ctrl_out :=
  let l2tp_tunnel_id := (json_unpack_int arguments "tunnel-id").getD 0
  let l2tp_session_id := (json_unpack_int arguments "session-id").getD 0
  if l2tp_tunnel_id ≠ 0 ∧ l2tp_session_id ≠ 0 then
    match l2tp_session_search ctx l2tp_tunnel_id l2tp_session_id with
    | some l2tp_session =>
      (ctx, ctrl_dump env
        [("l2tp-sessions", json_t.array [env.l2tp_session_json l2tp_session])])
    | none => (ctx, bbl_ctrl_status env "warning" 404 (some "session not found"))
  else if l2tp_tunnel_id ≠ 0 then
    match l2tp_session_search ctx l2tp_tunnel_id 0 with
    | some l2tp_session =>
      (ctx, ctrl_dump env
        [("l2tp-sessions", json_t.array
          ((l2tp_tunnel_sessions ctx l2tp_session.tunnel).map env.l2tp_session_json))])
    | none => (ctx, bbl_ctrl_status env "warning" 404 (some "tunnel not found"))
  else
    (ctx, ctrl_dump env
      [("l2tp-sessions", json_t.array
        (((List.range ctx.l2tp_tunnels.length).flatMap (l2tp_tunnel_sessions ctx)).map
          env.l2tp_session_json))])

/-- The array `csurq_requests` that `bbl_ctrl_l2tp_csurq` fills from the
argument `sessions`: a number is stored converted to 16 bits; for an element
that is not a number the code leaves the allocated element as it is, the
model takes 0. -/
def l2tp_csurq_requests (sessions : List json_t) : List Nat :=
  sessions.map (fun number =>
    if json_is_number number then to_uint 16 (json_number_value number) else 0)

/-- Mirror of `bbl_ctrl_l2tp_csurq`.  A tunnel pointer that refers to no
tunnel has no counterpart in the code; the model then does nothing. -/
def bbl_ctrl_l2tp_csurq (env : ctrl_env) (ctx : bbl_ctx_) (_session_id : Nat)
    (arguments : Option json_t) : ctrl_out :=
  match json_unpack_int arguments "tunnel-id" with
  | none => (ctx, bbl_ctrl_status env "error" 400 (some "missing tunnel-id"))
  | some l2tp_tunnel_id =>
  match l2tp_session_search ctx l2tp_tunnel_id 0 with
  | none => (ctx, bbl_ctrl_status env "warning" 404 (some "tunnel not found"))
  | some l2tp_session =>
  match l2tp_tunnel_deref ctx l2tp_session.tunnel with
  | none => (ctx, [])
  | some l2tp_tunnel =>
    if l2tp_tunnel.state ≠ BBL_L2TP_TUNNEL_ESTABLISHED then
      (ctx, bbl_ctrl_status env "warning" 400 (some "tunnel not established"))
    else
      match json_object_get arguments "sessions" with
      | some (json_t.array sessions) =>
        (bbl_l2tp_send
          (l2tp_tunnel_update ctx l2tp_session.tunnel (fun l2tp_tunnel =>
            { l2tp_tunnel with
              csurq_requests_len := sessions.length
              csurq_requests := l2tp_csurq_requests sessions }))
          l2tp_session.tunnel none L2TP_MESSAGE_CSURQ,
          bbl_ctrl_status env "ok" 200 none)
      | _ => (ctx, bbl_ctrl_status env "error" 400 (some "invalid request"))

/-- Mirror of `bbl_ctrl_l2tp_tunnel_terminate`.  A tunnel pointer that
refers to no tunnel has no counterpart in the code; the model then does
nothing. -/
def bbl_ctrl_l2tp_tunnel_terminate (env : ctrl_env) (ctx : bbl_ctx_) (_session_id : Nat)
    (arguments : Option json_t) : ctrl_out :=
  match json_unpack_int arguments "tunnel-id" with
  | none => (ctx, bbl_ctrl_status env "error" 400 (some "missing tunnel-id"))
  | some l2tp_tunnel_id =>
  match l2tp_session_search ctx l2tp_tunnel_id 0 with
  | none => (ctx, bbl_ctrl_status env "warning" 404 (some "tunnel not found"))
  | some l2tp_session =>
  match l2tp_tunnel_deref ctx l2tp_session.tunnel with
  | none => (ctx, [])
  | some l2tp_tunnel =>
    if l2tp_tunnel.state ≠ BBL_L2TP_TUNNEL_ESTABLISHED then
      (ctx, bbl_ctrl_status env "warning" 400 (some "tunnel not established"))
    else
      (bbl_l2tp_send
        (l2tp_tunnel_update ctx l2tp_session.tunnel (fun l2tp_tunnel =>
          { bbl_l2tp_tunnel_update_state l2tp_tunnel BBL_L2TP_TUNNEL_SEND_STOPCCN with
            result_code := (json_unpack_int arguments "result-code").getD 1
            error_code := (json_unpack_int arguments "error-code").getD 0
            error_message := json_unpack_string arguments "error-message" }))
        l2tp_session.tunnel none L2TP_MESSAGE_STOPCCN,
        bbl_ctrl_status env "ok" 200 none)

/-- The writes of `bbl_ctrl_l2tp_session_terminate` to the L2TP session. -/
def l2tp_session_terminate_write (arguments : Option json_t)
    (l2tp_session : bbl_l2tp_session_t) : bbl_l2tp_session_t :=
  { l2tp_session with
    result_code := (json_unpack_int arguments "result-code").getD 2
    error_code := (json_unpack_int arguments "error-code").getD 0
    error_message := json_unpack_string arguments "error-message"
    disconnect_code := (json_unpack_int arguments "disconnect-code").getD 0
    disconnect_protocol := (json_unpack_int arguments "disconnect-protocol").getD 0
    disconnect_direction := (json_unpack_int arguments "disconnect-direction").getD 0
    disconnect_message := json_unpack_string arguments "disconnect-message" }

/-- Mirror of `bbl_ctrl_l2tp_session_terminate`.  A pointer that refers to
no L2TP session or tunnel has no counterpart in the code; the model then
does nothing. -/
def bbl_ctrl_l2tp_session_terminate (env : ctrl_env) (ctx : bbl_ctx_) (session_id : Nat)
    (arguments : Option json_t) : ctrl_out :=
  if session_id = 0 then (ctx, bbl_ctrl_status env "error" 400 (some "missing session-id"))
  else
  match (bbl_session_get ctx session_id).bind (session_deref ctx) with
  | none => (ctx, bbl_ctrl_status env "warning" 404 (some "session not found"))
  | some session =>
  match session.l2tp_session with
  | none => (ctx, bbl_ctrl_status env "error" 400 (some "no L2TP session"))
  | some k =>
  match dict_search bbl_l2tp_session_t.key k ctx.l2tp_session_dict with
  | none => (ctx, [])
  | some l2tp_session =>
  match l2tp_tunnel_deref ctx l2tp_session.tunnel with
  | none => (ctx, [])
  | some l2tp_tunnel =>
    if l2tp_tunnel.state ≠ BBL_L2TP_TUNNEL_ESTABLISHED then
      (ctx, bbl_ctrl_status env "warning" 400 (some "tunnel not established"))
    else if l2tp_session.state ≠ BBL_L2TP_SESSION_ESTABLISHED then
      (ctx, bbl_ctrl_status env "warning" 400 (some "session not established"))
    else
      (env.bbl_l2tp_session_delete
        (bbl_l2tp_send
          { ctx with l2tp_session_dict :=
              (dict_update bbl_l2tp_session_t.key k (l2tp_session_terminate_write arguments)
                ctx.l2tp_session_dict) }
          l2tp_session.tunnel (some k) L2TP_MESSAGE_CDN) k,
        bbl_ctrl_status env "ok" 200 none)

/-- Mirror of `bbl_ctrl_session_streams`. -/
def bbl_ctrl_session_streams (env : ctrl_env) (ctx : bbl_ctx_) (session_id : Nat)
    (_arguments : Option json_t) : ctrl_out :=
  if session_id = 0 then (ctx, bbl_ctrl_status env "error" 400 (some "missing session-id"))
  else
  match (bbl_session_get ctx session_id).bind (session_deref ctx) with
  | none => (ctx, bbl_ctrl_status env "warning" 404 (some "session not found"))
  | some session =>
    (ctx, ctrl_dump env [("session-streams", json_t.object (env.session_streams_json session))])

/-- Mirror of `bbl_ctrl_stream_traffic`. -/
def bbl_ctrl_stream_traffic (env : ctrl_env) (ctx : bbl_ctx_) (session_id : Nat)
    (status : Bool) : ctrl_out :=
  ctrl_session_flag env ctx session_id (fun session => { session with stream_traffic := status })

/-- Mirror of `bbl_ctrl_stream_traffic_start`. -/
def bbl_ctrl_stream_traffic_start (env : ctrl_env) (ctx : bbl_ctx_) (session_id : Nat)
    (_arguments : Option json_t) : ctrl_out :=
  bbl_ctrl_stream_traffic env ctx session_id true

/-- Mirror of `bbl_ctrl_stream_traffic_stop`. -/
def bbl_ctrl_stream_traffic_stop (env : ctrl_env) (ctx : bbl_ctx_) (session_id : Nat)
    (_arguments : Option json_t) : ctrl_out :=
  bbl_ctrl_stream_traffic env ctx session_id false

/-- The record `bbl_ctrl_sessions_pending` builds for a session. -/
def sessions_pending_record (env : ctrl_env) (session : bbl_session_) : json_t :=
  json_t.object
    [("session-id", json_t.integer session.session_id),
     ("session-state", json_t.string (env.session_state_string session.session_state)),
     ("session-traffic-flows", json_t.integer session.session_traffic_flows),
     ("session-traffic-flows-verified", json_t.integer session.session_traffic_flows_verified)]

/-- Mirror of `bbl_ctrl_sessions_pending`. -/
def bbl_ctrl_sessions_pending (env : ctrl_env) (ctx : bbl_ctx_) (_session_id : Nat)
    (_arguments : Option json_t) : ctrl_out :=
  (ctx, ctrl_dump env
    [("sessions-pending", json_t.array
      ((((List.range ctx.sessions).filterMap (session_deref ctx)).filter (fun session =>
          session.session_state ≠ BBL_ESTABLISHED ∨
          session.session_traffic_flows ≠ session.session_traffic_flows_verified)).map
        (sessions_pending_record env)))])

/-- Mirror of `bbl_ctrl_cfm_cc_start_stop`. -/
def bbl_ctrl_cfm_cc_start_stop (env : ctrl_env) (ctx : bbl_ctx_) (session_id : Nat)
    (status : Bool) : ctrl_out :=
  ctrl_session_flag env ctx session_id (fun session => { session with cfm_cc := status })

/-- Mirror of `bbl_ctrl_cfm_cc_start`. -/
def bbl_ctrl_cfm_cc_start (env : ctrl_env) (ctx : bbl_ctx_) (session_id : Nat)
    (_arguments : Option json_t) : ctrl_out :=
  bbl_ctrl_cfm_cc_start_stop env ctx session_id true

/-- Mirror of `bbl_ctrl_cfm_cc_stop`. -/
def bbl_ctrl_cfm_cc_stop (env : ctrl_env) (ctx : bbl_ctx_) (session_id : Nat)
    (_arguments : Option json_t) : ctrl_out :=
  bbl_ctrl_cfm_cc_start_stop env ctx session_id false

/-- Mirror of `bbl_ctrl_cfm_cc_rdi`. -/
def bbl_ctrl_cfm_cc_rdi (env : ctrl_env) (ctx : bbl_ctx_) (session_id : Nat)
    (status : Bool) : ctrl_out :=
  ctrl_session_flag env ctx session_id (fun session => { session with cfm_rdi := status })

/-- Mirror of `bbl_ctrl_cfm_cc_rdi_on`. -/
def bbl_ctrl_cfm_cc_rdi_on (env : ctrl_env) (ctx : bbl_ctx_) (session_id : Nat)
    (_arguments : Option json_t) : ctrl_out :=
  bbl_ctrl_cfm_cc_rdi env ctx session_id true

/-- Mirror of `bbl_ctrl_cfm_cc_rdi_off`. -/
def bbl_ctrl_cfm_cc_rdi_off (env : ctrl_env) (ctx : bbl_ctx_) (session_id : Nat)
    (_arguments : Option json_t) : ctrl_out :=
  bbl_ctrl_cfm_cc_rdi env ctx session_id false

/-- Mirror of `bbl_ctrl_stream_stats`. -/
def bbl_ctrl_stream_stats (env : ctrl_env) (ctx : bbl_ctx_) (_session_id : Nat)
    (_arguments : Option json_t) : ctrl_out :=
  (ctx, ctrl_dump_only env
    [("stream-stats", json_t.object
      [("total-flows", json_t.integer ctx.stats_stream_traffic_flows),
       ("verified-flows", json_t.integer ctx.stats_stream_traffic_flows_verified)])])

/-- Mirror of `bbl_ctrl_stream_info`.  The format `so*` leaves the member
`stream-info` out when `bbl_stream_json` gives NULL. -/
def bbl_ctrl_stream_info (env : ctrl_env) (ctx : bbl_ctx_) (_session_id : Nat)
    (arguments : Option json_t) : ctrl_out :=
  match json_unpack_int arguments "flow-id" with
  | none => (ctx, bbl_ctrl_status env "error" 400 (some "missing flow-id"))
  | some number =>
    match dict_search bbl_stream.flow_id (to_uint 64 number) ctx.stream_flow_dict with
    | some stream =>
      match env.bbl_stream_json stream with
      | some json_stream => (ctx, ctrl_dump env [("stream-info", json_stream)])
      | none => (ctx, ctrl_dump env [])
    | none => (ctx, bbl_ctrl_status env "warning" 404 (some "stream not found"))

/-- Mirror of `bbl_ctrl_traffic`. -/
def bbl_ctrl_traffic (env : ctrl_env) (ctx : bbl_ctx_) (session_id : Nat)
    (status : Bool) : ctrl_out :=
  ctrl_session_flag env ctx session_id (fun session => { session with stream_traffic := status })

/-- Mirror of `bbl_ctrl_traffic_start`. -/
def bbl_ctrl_traffic_start (env : ctrl_env) (ctx : bbl_ctx_) (_session_id : Nat)
    (_arguments : Option json_t) : ctrl_out :=
  (env.enable_disable_traffic ctx true, bbl_ctrl_status env "ok" 200 none)

/-- Mirror of `bbl_ctrl_traffic_stop`. -/
def bbl_ctrl_traffic_stop (env : ctrl_env) (ctx : bbl_ctx_) (_session_id : Nat)
    (_arguments : Option json_t) : ctrl_out :=
  (env.enable_disable_traffic ctx false, bbl_ctrl_status env "ok" 200 none)

/-- Mirror of `bbl_ctrl_isis_adjacencies`. -/
def bbl_ctrl_isis_adjacencies (env : ctrl_env) (ctx : bbl_ctx_) (_session_id : Nat)
    (_arguments : Option json_t) : ctrl_out :=
  (ctx, ctrl_dump env [("isis-adjacencies", env.isis_adjacencies_json ctx)])

/-- The search for the instance with `config->id == instance_id` in the
list `ctx->isis_instances` from position `i` on: the position of the first
match. -/
def isis_instance_search (instance_id : Int) : List ctrl_isis_instance_t → Nat → Option Nat
  | [], _ => none
  | c :: rest, i =>
    if (c.id : Int) = instance_id then some i else isis_instance_search instance_id rest (i + 1)

/-- Mirror of `bbl_ctrl_isis_database`. -/
def bbl_ctrl_isis_database (env : ctrl_env) (ctx : bbl_ctx_) (_session_id : Nat)
    (arguments : Option json_t) : ctrl_out :=
  match json_unpack_int arguments "instance" with
  | none => (ctx, bbl_ctrl_status env "error" 400 (some "missing ISIS instance"))
  | some instance_id =>
  match json_unpack_int arguments "level" with
  | none => (ctx, bbl_ctrl_status env "error" 400 (some "missing ISIS level"))
  | some level =>
    if ¬ (level = ISIS_LEVEL_1 ∨ level = ISIS_LEVEL_2) then
      (ctx, bbl_ctrl_status env "error" 400 (some "invalid ISIS level"))
    else
      match (isis_instance_search instance_id ctx.isis_instances 0).bind
          (fun i => ctx.isis_instances[i]?) with
      | none => (ctx, bbl_ctrl_status env "error" 400 (some "ISIS instance not found"))
      | some c =>
        if ¬ (if level = ISIS_LEVEL_1 then c.level1_lsdb else c.level2_lsdb) then
          (ctx, bbl_ctrl_status env "error" 400 (some "ISIS database not found"))
        else
          match env.isis_ctrl_database c.inst level.toNat with
          | some database => (ctx, ctrl_dump env [("isis-database", database)])
          | none => (ctx, bbl_ctrl_status env "error" 500 (some "internal error"))

/-- A write through an instance pointer. -/
def isis_instance_update (ctx : bbl_ctx_) (i : Nat) (inst : isis_instance_t) : bbl_ctx_ :=
  { ctx with isis_instances :=
      ctx.isis_instances.modify (fun c => { c with inst := inst }) i }

/-- Mirror of `bbl_ctrl_isis_load_mrt`. -/
def bbl_ctrl_isis_load_mrt (env : ctrl_env) (ctx : bbl_ctx_) (_session_id : Nat)
    (arguments : Option json_t) : ctrl_out :=
  match json_unpack_string arguments "file" with
  | none => (ctx, bbl_ctrl_status env "error" 400 (some "missing MRT file"))
  | some file_path =>
  match json_unpack_int arguments "instance" with
  | none => (ctx, bbl_ctrl_status env "error" 400 (some "missing ISIS instance"))
  | some instance_id =>
  match isis_instance_search instance_id ctx.isis_instances 0 with
  | none => (ctx, bbl_ctrl_status env "error" 404 (some "ISIS instance not found"))
  | some i =>
  match ctx.isis_instances[i]? with
  | none => (ctx, bbl_ctrl_status env "error" 404 (some "ISIS instance not found"))
  | some c =>
    if ¬ (env.isis_mrt_load c.inst file_path).2 then
      (isis_instance_update ctx i (env.isis_mrt_load c.inst file_path).1,
        bbl_ctrl_status env "error" 500 (some "failed to load ISIS MRT file"))
    else
      (isis_instance_update ctx i (env.isis_mrt_load c.inst file_path).1,
        bbl_ctrl_status env "ok" 200 none)

/-- The loop of `bbl_ctrl_isis_lsp_update` over the PDU array: the
instance after the loop and the message of the error return, if any. -/
def isis_lsp_update_loop (env : ctrl_env) :
    List json_t → isis_instance_t → isis_instance_t × Option String
  | [], inst => (inst, none)
  | value :: rest, inst =>
    match json_string_value (some value) with
    | none => (inst, some "failed to read ISIS PDU")
    | some pdu_string =>
      match env.isis_pdu_load pdu_string with
      | none => (inst, some "failed to decode ISIS PDU")
      | some pdu =>
        if ¬ (env.isis_lsp_update_external inst pdu).2 then
          ((env.isis_lsp_update_external inst pdu).1, some "failed to update ISIS LSP")
        else isis_lsp_update_loop env rest (env.isis_lsp_update_external inst pdu).1

/-- Mirror of `bbl_ctrl_isis_lsp_update`. -/
def bbl_ctrl_isis_lsp_update (env : ctrl_env) (ctx : bbl_ctx_) (_session_id : Nat)
    (arguments : Option json_t) : ctrl_out :=
  match json_unpack_int arguments "instance" with
  | none => (ctx, bbl_ctrl_status env "error" 400 (some "missing ISIS instance"))
  | some instance_id =>
  match isis_instance_search instance_id ctx.isis_instances 0 with
  | none => (ctx, bbl_ctrl_status env "error" 404 (some "ISIS instance not found"))
  | some i =>
  match ctx.isis_instances[i]? with
  | none => (ctx, bbl_ctrl_status env "error" 404 (some "ISIS instance not found"))
  | some c =>
    match json_object_get arguments "pdu" with
    | some (json_t.array value) =>
      match (isis_lsp_update_loop env value c.inst).2 with
      | some message =>
        (isis_instance_update ctx i (isis_lsp_update_loop env value c.inst).1,
          bbl_ctrl_status env "error" 500 (some message))
      | none =>
        (isis_instance_update ctx i (isis_lsp_update_loop env value c.inst).1,
          bbl_ctrl_status env "ok" 200 none)
    | _ => (ctx, bbl_ctrl_status env "error" 400 (some "missing PDU list"))
/-! ## Control socket: action table and dispatcher -/

/-- The type of a handler (`callback_function`), without the descriptor. -/
abbrev callback_function := ctrl_env → bbl_ctx_ → Nat → Option json_t → ctrl_out

/-- Mirror of the table `actions`, without the closing entry. -/
def actions : List (String × callback_function) :=
  [("interfaces", bbl_ctrl_interfaces),
   ("terminate", bbl_ctrl_session_terminate),
   ("ipcp-open", bbl_ctrl_session_ipcp_open),
   ("ipcp-close", bbl_ctrl_session_ipcp_close),
   ("ip6cp-open", bbl_ctrl_session_ip6cp_open),
   ("ip6cp-close", bbl_ctrl_session_ip6cp_close),
   ("session-counters", bbl_ctrl_session_counters),
   ("session-info", bbl_ctrl_session_info),
   ("session-traffic", bbl_ctrl_session_traffic_stats),
   ("session-traffic-enabled", bbl_ctrl_session_traffic_start),
   ("session-traffic-start", bbl_ctrl_session_traffic_start),
   ("session-traffic-disabled", bbl_ctrl_session_traffic_stop),
   ("session-traffic-stop", bbl_ctrl_session_traffic_stop),
   ("multicast-traffic-start", bbl_ctrl_multicast_traffic_start),
   ("multicast-traffic-stop", bbl_ctrl_multicast_traffic_stop),
   ("igmp-join", bbl_ctrl_igmp_join),
   ("igmp-leave", bbl_ctrl_igmp_leave),
   ("igmp-info", bbl_ctrl_igmp_info),
   ("li-flows", bbl_ctrl_li_flows),
   ("l2tp-tunnels", bbl_ctrl_l2tp_tunnels),
   ("l2tp-sessions", bbl_ctrl_l2tp_sessions),
   ("l2tp-csurq", bbl_ctrl_l2tp_csurq),
   ("l2tp-tunnel-terminate", bbl_ctrl_l2tp_tunnel_terminate),
   ("l2tp-session-terminate", bbl_ctrl_l2tp_session_terminate),
   ("session-streams", bbl_ctrl_session_streams),
   ("stream-traffic-enabled", bbl_ctrl_stream_traffic_start),
   ("stream-traffic-start", bbl_ctrl_stream_traffic_start),
   ("stream-traffic-disabled", bbl_ctrl_stream_traffic_stop),
   ("stream-traffic-stop", bbl_ctrl_stream_traffic_stop),
   ("stream-info", bbl_ctrl_stream_info),
   ("stream-stats", bbl_ctrl_stream_stats),
   ("sessions-pending", bbl_ctrl_sessions_pending),
   ("cfm-cc-start", bbl_ctrl_cfm_cc_start),
   ("cfm-cc-stop", bbl_ctrl_cfm_cc_stop),
   ("cfm-cc-rdi-on", bbl_ctrl_cfm_cc_rdi_on),
   ("cfm-cc-rdi-off", bbl_ctrl_cfm_cc_rdi_off),
   ("traffic-start", bbl_ctrl_traffic_start),
   ("traffic-stop", bbl_ctrl_traffic_stop),
   ("isis-adjacencies", bbl_ctrl_isis_adjacencies),
   ("isis-database", bbl_ctrl_isis_database),
   ("isis-load-mrt", bbl_ctrl_isis_load_mrt),
   ("isis-lsp-update", bbl_ctrl_isis_lsp_update)]

/-- What a connection delivers: nothing (`read` gives 0), a text that
`json_loads` rejects, or a JSON value. -/
inductive ctrl_request where
  | empty
  | invalid
  | json (root : json_t)

/-- The locals of `bbl_ctrl_socket_job` that are declared before the loop
over the connections and live across its iterations. -/
structure ctrl_locals where
  command : Option String
  arguments : Option json_t
  session_id : Nat
  key : vlan_session_key_t

/-- The locals at the start of `bbl_ctrl_socket_job`. -/
def ctrl_locals_init : ctrl_locals :=
  { command := none, arguments := none, session_id := 0, key := ⟨0, 0, 0⟩ }

/-- A call of a handler of the table: the position of the entry, and the
session id and the arguments passed. -/
structure ctrl_call where
  action : Nat
  session_id : Nat
  arguments : Option json_t

/-- What the handling of one connection leaves behind: context, locals,
the replies written and the call of a handler, if one was made. -/
structure ctrl_result where
  ctx : bbl_ctx_
  locals : ctrl_locals
  replies : List ctrl_reply
  call : Option ctrl_call

/-- The library call `json_unpack(root, "{s:s, s?o}", "command", &command,
"arguments", &arguments)`: it fails when `root` is not an object or has no
string under `command`; on success `command` is set, and `arguments` is set
when the key is present and left as it is otherwise. -/
def json_unpack_request (root : json_t) (l : ctrl_locals) : Option ctrl_locals :=
  match json_unpack_string (some root) "command" with
  | none => none
  | some command =>
    match json_object_get (some root) "arguments" with
    | some arguments => some { l with command := some command, arguments := some arguments }
    | none => some { l with command := some command }

/-- One of the blocks of `bbl_ctrl_socket_job` that read a member of the
VLAN key from the arguments: absent keeps `old`, a number is converted to
`w` bits, anything else is invalid. -/
def ctrl_key_member (arguments : json_t) (name : String) (w : Nat) (old : Nat) :
    Option Nat :=
  match json_object_get (some arguments) name with
  | some value => if json_is_number value then some (to_uint w (json_number_value value)) else none
  | none => some old

/-- The search `dict_search(ctx->vlan_session_dict, &key)`: the session
pointer stored under the key. -/
def vlan_session_search (ctx : bbl_ctx_) (key : vlan_session_key_t) : Option Nat :=
  (ctx.vlan_session_dict.find? (fun e => e.1 = key)).map (fun e => e.2)

/-- The block `if(arguments)` of `bbl_ctrl_socket_job`, which settles the
session id: the locals afterwards and, when the block ends at `CLOSE`, the
replies written.  A session pointer of the dictionary that refers to no
session has no counterpart in the code; the model then goes to `CLOSE`
without a reply. -/
def ctrl_session_id (env : ctrl_env) (ctx : bbl_ctx_) (l : ctrl_locals) :
    ctrl_locals × Option (List ctrl_reply) :=
  match l.arguments with
  | none => (l, none)
  | some arguments =>
    match json_object_get (some arguments) "session-id" with
    | some value =>
      if json_is_number value then
        ({ l with session_id := to_uint 32 (json_number_value value) }, none)
      else (l, some (bbl_ctrl_status env "error" 400 (some "invalid session-id")))
    | none =>
      match (match json_object_get (some arguments) "ifindex" with
        | some value =>
          if json_is_number value then some (to_uint 32 (json_number_value value)) else none
        | none =>
          match ctx.access_if.head? with
          | some access_if => some access_if.ifindex
          | none => some l.key.ifindex) with
      | none => (l, some (bbl_ctrl_status env "error" 400 (some "invalid ifindex")))
      | some ifindex =>
        match ctrl_key_member arguments "outer-vlan" 16 l.key.outer_vlan_id with
        | none =>
          ({ l with key := { l.key with ifindex := ifindex } },
            some (bbl_ctrl_status env "error" 400 (some "invalid outer-vlan")))
        | some outer_vlan_id =>
          match ctrl_key_member arguments "inner-vlan" 16 l.key.inner_vlan_id with
          | none =>
            ({ l with key := { l.key with ifindex := ifindex, outer_vlan_id := outer_vlan_id } },
              some (bbl_ctrl_status env "error" 400 (some "invalid inner-vlan")))
          | some inner_vlan_id =>
            if outer_vlan_id ≠ 0 then
              match vlan_session_search ctx ⟨ifindex, outer_vlan_id, inner_vlan_id⟩ with
              | some p =>
                match session_deref ctx p with
                | some session =>
                  ({ l with key := ⟨ifindex, outer_vlan_id, inner_vlan_id⟩,
                            session_id := session.session_id }, none)
                | none => ({ l with key := ⟨ifindex, outer_vlan_id, inner_vlan_id⟩ }, some [])
              | none =>
                ({ l with key := ⟨ifindex, outer_vlan_id, inner_vlan_id⟩ },
                  some (bbl_ctrl_status env "warning" 404 (some "session not found")))
            else ({ l with key := ⟨ifindex, outer_vlan_id, inner_vlan_id⟩ }, none)

/-- The loop of `bbl_ctrl_socket_job` over the table from position `i` on:
the first entry whose name equals `command`, with its position. -/
def actions_search (command : String) :
    List (String × callback_function) → Nat → Option (Nat × callback_function)
  | [], _ => none
  | (name, fn) :: rest, i =>
    if name = command then some (i, fn) else actions_search command rest (i + 1)

/-- The body of the loop of `bbl_ctrl_socket_job` for one accepted
connection, from `read` to `CLOSE`. -/
def bbl_ctrl_socket_connection (env : ctrl_env) (ctx : bbl_ctx_) (l : ctrl_locals)
    (request : ctrl_request) : ctrl_result :=
  match request with
  | ctrl_request.empty => ⟨ctx, l, [], none⟩
  | ctrl_request.invalid =>
    ⟨ctx, l, bbl_ctrl_status env "error" 400 (some "invalid json"), none⟩
  | ctrl_request.json root =>
    match json_unpack_request root l with
    | none => ⟨ctx, l, bbl_ctrl_status env "error" 400 (some "invalid request"), none⟩
    | some l1 =>
      match ctrl_session_id env ctx l1 with
      | (l2, some replies) => ⟨ctx, l2, replies, none⟩
      | (l2, none) =>
        match actions_search (l2.command.getD "") actions 0 with
        | none => ⟨ctx, l2, bbl_ctrl_status env "error" 400 (some "unknown command"), none⟩
        | some (i, fn) =>
          ⟨(fn env ctx l2.session_id l2.arguments).1, l2,
            (fn env ctx l2.session_id l2.arguments).2, some ⟨i, l2.session_id, l2.arguments⟩⟩

/-- The loop of `bbl_ctrl_socket_job` over the connections accepted, in
order: the context, the locals and the results so far. -/
def bbl_ctrl_socket_loop (env : ctrl_env) :
    List ctrl_request → bbl_ctx_ → ctrl_locals → List ctrl_result → bbl_ctx_ × List ctrl_result
  | [], ctx, _, results => (ctx, results)
  | request :: rest, ctx, l, results =>
    bbl_ctrl_socket_loop env rest (bbl_ctrl_socket_connection env ctx l request).ctx
      (bbl_ctrl_socket_connection env ctx l request).locals
      (results ++ [bbl_ctrl_socket_connection env ctx l request])

/-- Mirror of `bbl_ctrl_socket_job`: one run of the job, which handles the
pending connections until `accept` reports that there is none left.  The
result is the context and, per connection, what its handling left. -/
def bbl_ctrl_socket_job (env : ctrl_env) (ctx : bbl_ctx_) (requests : List ctrl_request) :
    bbl_ctx_ × List ctrl_result :=
  bbl_ctrl_socket_loop env requests ctx ctrl_locals_init []

/-! ## Control socket: the reply envelope of the specification -/

/-- The envelope property of a reply: the status is one of `ok`, `warning`
and `error`, the code one of 200, 400, 404, 408, 409 and 500, and the status
is `ok` exactly when the code is 200. -/
def ctrl_envelope_ok (r : ctrl_reply) : Prop :=
  (r.status = "ok" ∨ r.status = "warning" ∨ r.status = "error") ∧
  (r.code = 200 ∨ r.code = 400 ∨ r.code = 404 ∨ r.code = 408 ∨ r.code = 409 ∨ r.code = 500) ∧
  (r.status = "ok" ↔ r.code = 200)

/-- Every reply of a list has the envelope property. -/
def ctrl_replies_ok (replies : List ctrl_reply) : Prop :=
  ∀ r ∈ replies, ctrl_envelope_ok r

/-! ## Control socket: example data -/

/-- Example environment: `json_pack` always succeeds, `inet_pton` knows the
address 239.0.0.1, `bbl_session_json` gives the session id, the session
operations leave the context as it is. -/
def ex_ctrl_env : ctrl_env :=
  { json_pack_ok := fun _ => true
    inet_pton := fun s => if s = "239.0.0.1" then some 4009754625 else none
    format_ipv4_address := fun _ => ""
    bbl_session_json := fun session => some (json_t.integer session.session_id)
    bbl_stream_json := fun _ => none
    session_streams_json := fun _ => []
    interfaces_json := fun _ => json_t.array []
    li_flows_json := fun _ => json_t.array []
    l2tp_tunnels_json := fun _ => json_t.array []
    l2tp_session_json := fun _ => json_t.null
    isis_adjacencies_json := fun _ => json_t.array []
    isis_ctrl_database := fun _ _ => none
    session_state_string := fun _ => ""
    bbl_session_clear := fun ctx _ => ctx
    bbl_dhcpv6_stop := fun session => session
    enable_disable_traffic := fun ctx _ => ctx
    bbl_l2tp_session_delete := fun ctx _ => ctx
    isis_mrt_load := fun inst _ => (inst, true)
    isis_pdu_load := fun _ => none
    isis_lsp_update_external := fun inst _ => (inst, true) }

/-- Example session: an established PPPoE session with the given id and an
empty IGMP group table. -/
def ex_ctrl_session (session_id : Nat) : bbl_session_ :=
  { session_id := session_id, access_type := ACCESS_TYPE_PPPOE
    session_state := BBL_ESTABLISHED, ipcp_state := BBL_PPP_OPENED
    ip6cp_state := BBL_PPP_OPENED, ipcp_request_code := 0, ip6cp_request_code := 0
    send_igmp := false, send_ipcp_request := false, send_ip6cp_request := false
    tx_qnode_inserted := false, ip_address := 0, peer_ip_address := 0, dns1 := 0, dns2 := 0
    ipv6_prefix_len := 0, icmpv6_ra_received := false, ipv6_dns1 := 0, ipv6_dns2 := 0
    dhcpv6_state := 0, session_traffic := false, stream_traffic := false, cfm_cc := false
    cfm_rdi := false, igmp_groups := List.replicate IGMP_MAX_GROUPS bbl_igmp_group_zero
    igmp_robustness := 2, l2tp_session := none, session_traffic_flows := 0
    session_traffic_flows_verified := 0 }

/-- Example context: one access interface with index 1 and one session,
with id 1, that holds the VLAN tags (10, 20) on that interface. -/
def ex_ctrl_ctx : bbl_ctx_ :=
  { sessions := 1, session_list := [some (ex_ctrl_session 1)]
    vlan_session_dict := [(⟨1, 10, 20⟩, 0)]
    access_if := [⟨"eth1", 1⟩], network_if := [], a10nsp_if := []
    multicast_traffic := false, g_teardown := false, g_teardown_request := false
    config_sessions := 1, sessions_established_max := 1, sessions_flapped := 0
    dhcpv6_established_max := 0, stats_session_traffic_flows := 0
    stats_session_traffic_flows_verified := 0, stats_stream_traffic_flows := 0
    stats_stream_traffic_flows_verified := 0, stream_flow_dict := []
    l2tp_tunnels := [], l2tp_session_dict := [], l2tp_tx := [], isis_instances := [] }

/-- The request `command` with the given members of `arguments`. -/
def ex_ctrl_request (command : String) (arguments : List (String × json_t)) : ctrl_request :=
  ctrl_request.json
    (json_t.object [("command", json_t.string command), ("arguments", json_t.object arguments)])

/-- The status and the code of each reply of a list. -/
def ctrl_status_codes (replies : List ctrl_reply) : List (String × Nat) :=
  replies.map (fun r => (r.status, r.code))

instance (f : Nat) (p : bbl_ethernet_header_t × bbl_ipv4_t) : Decidable (is_bbl_of_flow f p) := by
  unfold is_bbl_of_flow
  infer_instance

/-- Example group entry: the zeroed entry with the given group address,
state and zapping flag. -/
def ex_igmp_group (group : Nat) (state : igmp_group_state_t) (zapping : Bool) :
    bbl_igmp_group_s :=
  { bbl_igmp_group_zero with group := group, state := state, zapping := zapping }

/-- Example context: `ex_ctrl_ctx` with the given IGMP group table in its
session. -/
def ex_igmp_ctx (groups : List bbl_igmp_group_s) : bbl_ctx_ :=
  { ex_ctrl_ctx with
    session_list := [some { ex_ctrl_session 1 with igmp_groups := groups }] }

/-- The arguments of an igmp-join or igmp-leave request for the group
239.0.0.1, which `ex_ctrl_env` reads as 4009754625. -/
def ex_igmp_arguments : Option json_t :=
  some (json_t.object [("group", json_t.string "239.0.0.1")])

/-- What C24 allows an NCP open command to do to a session: nothing, or, for
a PPPoE session whose state is Established or PPP Network and whose NCP is
Closed, the move of that NCP to Init with a Configure-Request to send. -/
def ncp_open_allowed (ipcp : Bool) (s s' : bbl_session_) : Prop :=
  s' = s ∨
    (s.access_type = ACCESS_TYPE_PPPOE ∧
      (s.session_state = BBL_ESTABLISHED ∨ s.session_state = BBL_PPP_NETWORK) ∧
      (if ipcp then
        s.ipcp_state = BBL_PPP_CLOSED ∧
          s' = { s with
                 ipcp_state := BBL_PPP_INIT
                 ipcp_request_code := PPP_CODE_CONF_REQUEST
                 send_ipcp_request := true
                 tx_qnode_inserted := true }
      else
        s.ip6cp_state = BBL_PPP_CLOSED ∧
          s' = { s with
                 ip6cp_state := BBL_PPP_INIT
                 ip6cp_request_code := PPP_CODE_CONF_REQUEST
                 send_ip6cp_request := true
                 tx_qnode_inserted := true }))

/-- Example context: two sessions, an established PPPoE session with IPCP
Closed and IP6CP Opened, and an IPoE session. -/
def ex_ncp_ctx : bbl_ctx_ :=
  { ex_ctrl_ctx with
    sessions := 2
    session_list :=
      [some { ex_ctrl_session 1 with ipcp_state := BBL_PPP_CLOSED },
       some { ex_ctrl_session 2 with access_type := ACCESS_TYPE_IPOE
                                     ipcp_state := BBL_PPP_CLOSED }] }

/-- The replies are what `bbl_ctrl_status` writes for the given status, code
and message: the one envelope with them when `json_pack` builds it. -/
def ctrl_replied (env : ctrl_env) (replies : List ctrl_reply) (status : String) (code : Nat)
    (message : Option String) : Prop :=
  replies = bbl_ctrl_status env status code message ∧
    (env.json_pack_ok { status := status, code := code, message := message, body := [] } = true →
      replies = [{ status := status, code := code, message := message, body := [] }])

/-- Example context: `ex_ctrl_ctx` with one IS-IS instance, of id 1, with
both databases. -/
def ex_isis_ctx : bbl_ctx_ :=
  { ex_ctrl_ctx with isis_instances := [⟨1, true, true, ex_instance [] []⟩] }

/-- Example context: `ex_ctrl_ctx` with one L2TP tunnel, of id 1 and in the
given state, and its tunnel session. -/
def ex_l2tp_ctx (state : l2tp_tunnel_state_t) : bbl_ctx_ :=
  { ex_ctrl_ctx with
    l2tp_tunnels := [⟨1, state, 0, 0, none, 0, []⟩]
    l2tp_session_dict :=
      [⟨l2tp_key 1 0, 0, BBL_L2TP_SESSION_IDLE, 0, 0, none, 0, 0, 0, none⟩] }

/-- An instance whose single level-1 adjacency (window size 10) holds two
flood entries that are ready for transmission: LSP 5 with lifetime 100 and
LSP 6 with lifetime 30, both stamped at second 0. -/
def ex_tx_lifetime_instance : isis_instance_t :=
  ex_instance
    [{ ex_lsp 5 1 ⟨ISIS_SOURCE_SELF, none⟩ 1 with lifetime := 100 },
     { ex_lsp 6 1 ⟨ISIS_SOURCE_ADJACENCY, some 0⟩ 1 with lifetime := 30 }]
    [ex_adjacency 9 10 [⟨5, false, 0, ⟨0, 0⟩⟩, ⟨6, false, 0, ⟨0, 0⟩⟩] []]

/-- The remaining lifetime of an LSP at the time `now` as the specification
states it: lifetime minus the whole seconds since the timestamp when that is
positive, and 0 otherwise. -/
def lsp_remaining_lifetime (now : timespec) (lsp : isis_lsp_t) : Nat :=
  lsp.lifetime - (timespec_sub now lsp.timestamp).tv_sec

/-- The session id of the handler call of each connection of one run of
`bbl_ctrl_socket_job`, `none` for a connection that called no handler. -/
def ctrl_call_session_ids (results : List ctrl_result) : List (Option Nat) :=
  results.map (fun r => r.call.map ctrl_call.session_id)

/-- The reset of a flood entry that is found by `isis_lsp_flood_adjacency`. -/
def flood_entry_reset (flood : isis_flood_entry_t) : isis_flood_entry_t :=
  { flood with wait_ack := false, tx_count := 0 }

/-- An adjacency whose flood tree holds LSP 7, transmitted twice and waiting
for its acknowledgement, and LSP 9. -/
def ex_reflood_adjacency : isis_adjacency_t :=
  ex_adjacency 9 1 [⟨7, true, 2, ⟨30, 0⟩⟩, ⟨9, false, 0, ⟨0, 0⟩⟩] []

/-- The delay `delay_nsec` the verifier computes for a frame. -/
def delay_of (p : bbl_ethernet_header_t × bbl_ipv4_t) : Nat := delay_nsec p.1 p.2.next.next

/-- The maximum of `d, x1, x2, ...`. -/
def max_of (d : Nat) (xs : List Nat) : Nat := xs.foldl max d

/-- The minimum of `d, x1, x2, ...`. -/
def min_of (d : Nat) (xs : List Nat) : Nat := xs.foldl min d

/-- The values of the `uint8_t offset` at which the inner loop
`while(offset + ISIS_LSP_ENTRY_LEN <= tlv->len)` of `isis_lsp_process_entries`
reads an LSP entry, in order.  The fuel bounds the number of iterations. -/
def tlv_entry_offsets (len : Nat) : Nat → Nat → List Nat
  | 0, _ => []
  | fuel + 1, offset =>
    if offset + ISIS_LSP_ENTRY_LEN ≤ len then
      offset :: tlv_entry_offsets len fuel ((offset + ISIS_LSP_ENTRY_LEN) % 2 ^ 8)
    else []

/-! ## A10NSP: PPPoE discovery, PAP and IPCP (`bbl_a10nsp.c`) -/

def PPPOE_PADI : Nat := 0x09
def PPPOE_PADO : Nat := 0x07
def PPPOE_PADR : Nat := 0x19
def PPPOE_PADS : Nat := 0x65
def PPP_CODE_CONF_ACK : Nat := 2
def PPP_CODE_CONF_NAK : Nat := 3
def PPP_CODE_TERM_ACK : Nat := 6
def PAP_CODE_REQUEST : Nat := 1
def PAP_CODE_ACK : Nat := 2
def PAP_CODE_NAK : Nat := 3

/-- The macros that `bbl_a10nsp.c` takes from headers which are not part of
the sources at hand; their values are parameters.  The names and the reply
message are byte strings without the terminating NUL, so that
`sizeof(..) - 1` is the length of the list. -/
structure a10nsp_defines where
  A10NSP_PPPOE_SERVICE_NAME : List Nat
  A10NSP_PPPOE_AC_NAME : List Nat
  A10NSP_REPLY_MESSAGE : List Nat
  A10NSP_IP_REMOTE : Nat
  L2TP_IPCP_IP_LOCAL : Nat
  L2TP_IPCP_IP_REMOTE : Nat
  L2TP_IPCP_DNS1 : Nat
  L2TP_IPCP_DNS2 : Nat
deriving DecidableEq, Repr

/-- The address macros are values of an IPv4 address, a `uint32_t`. -/
def a10nsp_defines_ok (m : a10nsp_defines) : Prop :=
  m.A10NSP_IP_REMOTE < 2 ^ 32 ∧ m.L2TP_IPCP_IP_LOCAL < 2 ^ 32 ∧
    m.L2TP_IPCP_IP_REMOTE < 2 ^ 32 ∧ m.L2TP_IPCP_DNS1 < 2 ^ 32 ∧ m.L2TP_IPCP_DNS2 < 2 ^ 32

instance (m : a10nsp_defines) : Decidable (a10nsp_defines_ok m) := by
  unfold a10nsp_defines_ok; infer_instance

/-- Mirror of `access_line_t`; the profile pointer is not modelled. -/
structure access_line_t where
  aci : Option (List Nat)
  ari : Option (List Nat)
  up : Nat
  down : Nat
  dsl_type : Nat
deriving DecidableEq, Repr

/-- Mirror of `bbl_pppoe_discovery_t`; a pointer with its length is an
optional byte string. -/
structure bbl_pppoe_discovery_t where
  code : Nat
  session_id : Nat
  service_name : Option (List Nat)
  ac_name : Option (List Nat)
  ac_cookie : Option (List Nat)
  host_uniq : Option (List Nat)
  access_line : Option access_line_t
deriving DecidableEq, Repr

/-- The header fields of `bbl_pppoe_session_t`; `next` is the PPP payload
that goes with it. -/
structure bbl_pppoe_session_t where
  session_id : Nat
  protocol : Nat
deriving DecidableEq, Repr

/-- Mirror of `bbl_pap_t`; a pointer with its length is an optional byte
string. -/
structure bbl_pap_t where
  code : Nat
  identifier : Nat
  username : Option (List Nat)
  password : Option (List Nat)
  reply_message : Option (List Nat)
deriving DecidableEq, Repr

/-- Mirror of `bbl_ipcp_t`, apart from the pointer array `option`. -/
structure bbl_ipcp_t where
  code : Nat
  identifier : Nat
  options : Option (List Nat)
  options_len : Nat
  address : Nat
  dns1 : Nat
  dns2 : Nat
  option_address : Bool
  option_dns1 : Bool
  option_dns2 : Bool
  unknown_options : Bool
deriving DecidableEq, Repr

/-- Modelled from the spec: the fields of `bbl_a10nsp_session_t`
(`bbl_a10nsp.h`) that the discovery, PAP and IPCP handlers use. -/
structure bbl_a10nsp_session_t where
  pppoe_aci : Option (List Nat)
  pppoe_ari : Option (List Nat)
  stats_packets_tx : Nat
deriving DecidableEq, Repr

/-- The frame `eth` that a handler hands to `bbl_send_to_buffer`: the
Ethernet header with the headers it points to at that moment. -/
inductive a10nsp_frame_t where
  | pppoed (eth : bbl_ethernet_header_t) (pppoed : bbl_pppoe_discovery_t)
  | pap (eth : bbl_ethernet_header_t) (pppoes : bbl_pppoe_session_t) (pap : bbl_pap_t)
  | ipcp (eth : bbl_ethernet_header_t) (pppoes : bbl_pppoe_session_t) (ipcp : bbl_ipcp_t)
deriving DecidableEq, Repr

/-- What a handler works on: the interface with its send buffer, the A10NSP
session, and the frames handed to `bbl_send_to_buffer` so far, each with
whether the result was `BBL_SEND_OK`. -/
structure a10nsp_tx_state (σ : Type) where
  interface : σ
  a10nsp_session : bbl_a10nsp_session_t
  offered : List (a10nsp_frame_t × Bool)

/-- The statement `if(bbl_send_to_buffer(interface, eth) == BBL_SEND_OK)
a10nsp_session->stats.packets_tx++;` of the handlers.  `send` is
`bbl_send_to_buffer` on the interface, returning the new interface state and
whether the result was `BBL_SEND_OK`. -/
def a10nsp_send {σ : Type} (send : σ → a10nsp_frame_t → σ × Bool) (st : a10nsp_tx_state σ)
    (frame : a10nsp_frame_t) : a10nsp_tx_state σ :=
  let res := send st.interface frame
  { interface := res.1
    a10nsp_session :=
      if res.2 then
        { st.a10nsp_session with stats_packets_tx := st.a10nsp_session.stats_packets_tx + 1 }
      else st.a10nsp_session
    offered := st.offered ++ [(frame, res.2)] }

/-- The C function `bbl_a10nsp_pppoed_handler`.  `ac_cookie` is the 16 bytes
drawn from `rand()` for a PADO. -/
def bbl_a10nsp_pppoed_handler {σ : Type} (m : a10nsp_defines)
    (send : σ → a10nsp_frame_t → σ × Bool) (ac_cookie : List Nat) (st : a10nsp_tx_state σ)
    (session : bbl_session_s) (eth : bbl_ethernet_header_t) (pppoed : bbl_pppoe_discovery_t) :
    a10nsp_tx_state σ :=
  let reply (st : a10nsp_tx_state σ) (pppoed : bbl_pppoe_discovery_t) : a10nsp_tx_state σ :=
    a10nsp_send send st
      (a10nsp_frame_t.pppoed eth { pppoed with
        access_line := none
        service_name := some m.A10NSP_PPPOE_SERVICE_NAME
        ac_name := some m.A10NSP_PPPOE_AC_NAME })
  if pppoed.code = PPPOE_PADI then
    let a10nsp_session :=
      match pppoed.access_line with
      | none => st.a10nsp_session
      | some access_line =>
        let s := st.a10nsp_session
        let s := match access_line.aci with
          | some aci => { s with pppoe_aci := some aci }
          | none => s
        match access_line.ari with
        | some ari => { s with pppoe_ari := some ari }
        | none => s
    reply { st with a10nsp_session := a10nsp_session }
      { pppoed with code := PPPOE_PADO, ac_cookie := some (ac_cookie.map (fun b => b % 2 ^ 8)) }
  else if pppoed.code = PPPOE_PADR then
    reply st { pppoed with code := PPPOE_PADS, session_id := session.session_id % 2 ^ 16 }
  else st

/-- The C function `bbl_a10nsp_pap_handler`. -/
def bbl_a10nsp_pap_handler {σ : Type} (m : a10nsp_defines)
    (send : σ → a10nsp_frame_t → σ × Bool) (st : a10nsp_tx_state σ)
    (eth : bbl_ethernet_header_t) (pppoes : bbl_pppoe_session_t) (pap : bbl_pap_t) :
    a10nsp_tx_state σ :=
  let pap_response : bbl_pap_t :=
    { code := PAP_CODE_ACK, identifier := pap.identifier, username := none, password := none
      reply_message := some m.A10NSP_REPLY_MESSAGE }
  a10nsp_send send st (a10nsp_frame_t.pap eth pppoes pap_response)

/-- The C function `bbl_a10nsp_ipcp_handler`. -/
def bbl_a10nsp_ipcp_handler {σ : Type} (m : a10nsp_defines)
    (send : σ → a10nsp_frame_t → σ × Bool) (st : a10nsp_tx_state σ)
    (eth : bbl_ethernet_header_t) (pppoes : bbl_pppoe_session_t) (ipcp : bbl_ipcp_t) :
    a10nsp_tx_state σ :=
  if ipcp.code = PPP_CODE_CONF_REQUEST then
    let ipcp :=
      if ipcp.address = m.A10NSP_IP_REMOTE then { ipcp with code := PPP_CODE_CONF_ACK }
      else
        { ipcp with
          options := none, options_len := 0, code := PPP_CODE_CONF_NAK
          address := m.L2TP_IPCP_IP_REMOTE % 2 ^ 32, option_address := true
          dns1 := if ipcp.option_dns1 then m.L2TP_IPCP_DNS1 % 2 ^ 32 else ipcp.dns1
          dns2 := if ipcp.option_dns2 then m.L2TP_IPCP_DNS2 % 2 ^ 32 else ipcp.dns2 }
    let st := a10nsp_send send st (a10nsp_frame_t.ipcp eth pppoes ipcp)
    let ipcp_request : bbl_ipcp_t :=
      { code := PPP_CODE_CONF_REQUEST, identifier := 1, options := none, options_len := 0
        address := m.L2TP_IPCP_IP_LOCAL % 2 ^ 32, dns1 := 0, dns2 := 0, option_address := true
        option_dns1 := false, option_dns2 := false, unknown_options := false }
    a10nsp_send send st (a10nsp_frame_t.ipcp eth pppoes ipcp_request)
  else if ipcp.code = PPP_CODE_TERM_REQUEST then
    a10nsp_send send st (a10nsp_frame_t.ipcp eth pppoes { ipcp with code := PPP_CODE_TERM_ACK })
  else st

/-! ## A10NSP: example data -/

/-- Example values of the macros. -/
def ex_a10nsp_defines : a10nsp_defines :=
  { A10NSP_PPPOE_SERVICE_NAME := [97], A10NSP_PPPOE_AC_NAME := [98]
    A10NSP_REPLY_MESSAGE := [111, 107], A10NSP_IP_REMOTE := 167772162
    L2TP_IPCP_IP_LOCAL := 167772161, L2TP_IPCP_IP_REMOTE := 167772162
    L2TP_IPCP_DNS1 := 168430081, L2TP_IPCP_DNS2 := 168430082 }

/-- A send buffer that accepts every frame. -/
def a10nsp_send_ok (u : Unit) (_ : a10nsp_frame_t) : Unit × Bool := (u, true)

/-- A handler state with nothing sent yet. -/
def ex_a10nsp_tx_state : a10nsp_tx_state Unit :=
  { interface := (), a10nsp_session := ⟨none, none, 0⟩, offered := [] }

/-- A received Ethernet header. -/
def ex_a10nsp_eth : bbl_ethernet_header_t := ⟨64, 0, 0, ⟨10, 0⟩⟩

/-- A PADR without tags. -/
def ex_padr : bbl_pppoe_discovery_t :=
  { code := PPPOE_PADR, session_id := 0, service_name := none, ac_name := none
    ac_cookie := none, host_uniq := none, access_line := none }

/-- An IPCP Configure-Request with the given address and DNS options. -/
def ex_ipcp_request (address : Nat) (option_address option_dns1 option_dns2 : Bool) :
    bbl_ipcp_t :=
  { code := PPP_CODE_CONF_REQUEST, identifier := 7, options := some [3, 6], options_len := 2
    address := address, dns1 := 0, dns2 := 0, option_address := option_address
    option_dns1 := option_dns1, option_dns2 := option_dns2, unknown_options := false }

/-- The PPPoE session ids of the discovery frames of a list. -/
def pppoed_session_ids (offered : List (a10nsp_frame_t × Bool)) : List (Nat × Nat) :=
  offered.filterMap (fun f =>
    match f.1 with
    | a10nsp_frame_t.pppoed _ pppoed => some (pppoed.code, pppoed.session_id)
    | _ => none)

/-! ## Specification vocabulary: the walk of the TX job -/

/-- The state in which `isis_lsp_tx_job` starts the walk over the flood tree
of `adjacency`. -/
def isis_lsp_tx_start {σ : Type} (inst : isis_instance_t) (level : Nat)
    (adjacency : isis_adjacency_t) (interface : σ) : isis_tx_state σ :=
  { lsdb := (inst.level level).lsdb, interface := interface
    window := adjacency.window_size % 2 ^ 16, remaining_lifetime := 0
    lsp_tx := adjacency.stats_lsp_tx, sent := [] }

/-- The frame that the loop of `isis_lsp_tx_job`, in the state `st`, hands to
the send buffer for the flood entry of `lsp`. -/
def isis_lsp_tx_offer {σ : Type} (now : timespec) (adjacency : isis_adjacency_t)
    (st : isis_tx_state σ) (lsp : isis_lsp_t) : isis_frame_t :=
  isis_lsp_tx_frame adjacency
    { lsp.pdu with lifetime := isis_lsp_tx_remaining_lifetime now lsp st.remaining_lifetime }

/-- The state of the loop of `isis_lsp_tx_job` after the send buffer answered
for the frame of `entry`, whose LSP is `lsp`: the lifetime of the PDU is
rewritten in either case; the window, the counter and the list of frames
change when the frame was accepted. -/
def isis_lsp_tx_answered {σ : Type} (send : σ → isis_frame_t → σ × Bool) (now : timespec)
    (adjacency : isis_adjacency_t) (st : isis_tx_state σ) (entry : isis_flood_entry_t)
    (lsp : isis_lsp_t) : isis_tx_state σ :=
  let remaining_lifetime := isis_lsp_tx_remaining_lifetime now lsp st.remaining_lifetime
  let pdu := { lsp.pdu with lifetime := remaining_lifetime }
  let lsdb := dict_update lsp_key entry.lsp (fun l => { l with pdu := pdu }) st.lsdb
  let res := send st.interface (isis_lsp_tx_offer now adjacency st lsp)
  if res.2 then
    { lsdb := lsdb, interface := res.1
      window := if st.window ≠ 0 then st.window - 1 else st.window
      remaining_lifetime := remaining_lifetime
      lsp_tx := st.lsp_tx + 1
      sent := st.sent ++ [(entry.lsp, isis_lsp_tx_offer now adjacency st lsp)] }
  else { st with lsdb := lsdb, interface := res.1, remaining_lifetime := remaining_lifetime }

/-! # Theorems -/

/-! ## Dictionary lemmas -/

theorem dict_search_update_self {α : Type} (key : α → Nat) (k : Nat) (f : α → α)
    (hf : ∀ x, key x = k → key (f x) = k) (t : List α) :
    dict_search key k (dict_update key k f t) = (dict_search key k t).map f := by
  induction t with
  | nil => rfl
  | cons x xs ih =>
    by_cases h : key x = k
    · simp [dict_search, dict_update, h, hf x h]
    · simp [dict_search, dict_update, h, ih]

theorem dict_search_update_ne {α : Type} (key : α → Nat) (k k' : Nat) (f : α → α)
    (hf : ∀ x, key x = k → key (f x) = k) (hk : k' ≠ k) (t : List α) :
    dict_search key k' (dict_update key k f t) = dict_search key k' t := by
  induction t with
  | nil => rfl
  | cons x xs ih =>
    by_cases h : key x = k
    · have h' : ¬ key x = k' := fun e => hk (e ▸ h)
      simp [dict_search, dict_update, h, hf x h, h', Ne.symm hk]
    · simp [dict_search, dict_update, h, ih]

theorem a10nsp_stream_rx_flow_id (s : bbl_stream) (eth : bbl_ethernet_header_t)
    (ipv4 : bbl_ipv4_t) (bbl : bbl_bbl_t) : (a10nsp_stream_rx s eth ipv4 bbl).flow_id = s.flow_id := by
  unfold a10nsp_stream_rx
  simp only []
  split_ifs <;> rfl

theorem a10nsp_stream_rx_seq (s : bbl_stream) (eth : bbl_ethernet_header_t)
    (ipv4 : bbl_ipv4_t) (bbl : bbl_bbl_t) :
    (a10nsp_stream_rx s eth ipv4 bbl).rx_last_seq = bbl.flow_seq ∧
    (a10nsp_stream_rx s eth ipv4 bbl).rx_first_seq =
      (if s.rx_first_seq = 0 then bbl.flow_seq else s.rx_first_seq) ∧
    (a10nsp_stream_rx s eth ipv4 bbl).loss =
      (if s.rx_first_seq ≠ 0 ∧ (s.rx_last_seq + 1) % 2 ^ 64 ≠ bbl.flow_seq then s.loss + 1
       else s.loss) := by
  unfold a10nsp_stream_rx
  simp only []
  split_ifs <;> simp_all

theorem handler_ipv4_search (f : Nat) (st : a10nsp_state) (s : bbl_stream)
    (p : bbl_ethernet_header_t × bbl_ipv4_t) (hp : is_bbl_of_flow f p)
    (hs : dict_search bbl_stream.flow_id f st.stream_flow_dict = some s) :
    dict_search bbl_stream.flow_id f
        (bbl_a10nsp_pppoes_handler_ipv4 st p.1 p.2).stream_flow_dict =
      some (a10nsp_stream_rx s p.1 p.2 p.2.next.next) := by
  obtain ⟨h1, h2, h3⟩ := hp
  unfold bbl_a10nsp_pppoes_handler_ipv4
  simp only [h1, h2, h3, if_true, hs]
  rw [dict_search_update_self _ _ _
    (fun x hx => (a10nsp_stream_rx_flow_id x _ _ _).trans hx), hs]
  rfl

theorem succ_mod_ne_iff (last s : Nat) (hl : last < 2 ^ 64) (hs : s < 2 ^ 64) (h0 : s ≠ 0) :
    ((last + 1) % 2 ^ 64 ≠ s) ↔ (s ≠ last + 1) := by
  by_cases h : last + 1 < 2 ^ 64
  · rw [Nat.mod_eq_of_lt h]
    exact ⟨fun a b => a b.symm, fun a b => a b.symm⟩
  · have e : last + 1 = 2 ^ 64 := by omega
    rw [e, Nat.mod_self]
    constructor
    · intro _ b; omega
    · intro _ b; exact h0 b.symm

theorem getLast?_cons_last_of (x : Nat) (xs : List Nat) :
    (x :: xs).getLast? = some (last_of x xs) := by
  induction xs generalizing x with
  | nil => rfl
  | cons y ys ih => rw [List.getLast?_cons_cons, ih]; rfl

theorem a10nsp_rx_all_started (f : Nat) :
    ∀ (pkts : List (bbl_ethernet_header_t × bbl_ipv4_t)) (st : a10nsp_state) (s : bbl_stream),
      (∀ p ∈ pkts, is_bbl_of_flow f p ∧ flow_seq_of p ≠ 0 ∧ flow_seq_of p < 2 ^ 64) →
      dict_search bbl_stream.flow_id f st.stream_flow_dict = some s →
      s.rx_first_seq ≠ 0 → s.rx_last_seq < 2 ^ 64 →
      ∃ s', dict_search bbl_stream.flow_id f (a10nsp_rx_all st pkts).stream_flow_dict = some s' ∧
        s'.rx_first_seq = s.rx_first_seq ∧
        s'.rx_last_seq = last_of s.rx_last_seq (pkts.map flow_seq_of) ∧
        s'.loss = s.loss + seq_gaps s.rx_last_seq (pkts.map flow_seq_of) := by
  intro pkts
  induction pkts with
  | nil =>
    intro st s _ hs _ _
    exact ⟨s, hs, rfl, rfl, rfl⟩
  | cons p rest ih =>
    intro st s hall hs hfirst hlast
    obtain ⟨hp, hp0, hplt⟩ := hall p (List.mem_cons_self _ _)
    have hstep := handler_ipv4_search f st s p hp hs
    obtain ⟨e1, e2, e3⟩ := a10nsp_stream_rx_seq s p.1 p.2 p.2.next.next
    have hrest : ∀ q ∈ rest, is_bbl_of_flow f q ∧ flow_seq_of q ≠ 0 ∧ flow_seq_of q < 2 ^ 64 :=
      fun q hq => hall q (List.mem_cons_of_mem _ hq)
    have hfs : p.2.next.next.flow_seq = flow_seq_of p := rfl
    rw [if_neg hfirst] at e2
    rw [hfs] at e1 e3
    obtain ⟨s', h1, h2, h3, h4⟩ := ih _ _ hrest hstep (by rw [e2]; exact hfirst)
      (by rw [e1]; exact hplt)
    refine ⟨s', h1, by rw [h2, e2], ?_, ?_⟩
    · rw [h3, e1]; rfl
    · rw [h4, e1, e3]
      have hiff := succ_mod_ne_iff s.rx_last_seq (flow_seq_of p) hlast hplt hp0
      simp only [List.map_cons, seq_gaps]
      by_cases hg : flow_seq_of p = s.rx_last_seq + 1
      · have hn : ¬ ((s.rx_last_seq + 1) % 2 ^ 64 ≠ flow_seq_of p) := by
          rw [hiff]; exact fun a => a hg
        rw [if_neg (fun c => hn c.2), if_neg (fun c => c hg)]
        omega
      · rw [if_pos ⟨hfirst, hiff.mpr hg⟩, if_pos hg]
        omega

/-! ## C1: sequence tracking and loss accounting of the stream verifier -/

/-- C1. Stream verification in `bbl_a10nsp_pppoes_handler`: a stream flow of
the dictionary that starts fresh (`rx_first_seq = 0`, `rx_last_seq = 0`,
`loss = 0`) and receives a non-empty sequence of BBL packets of its flow id
with non-zero 64-bit `flow_seq` values `s1..sn` ends with `rx_first_seq = s1`,
`rx_last_seq = sn` and `loss` equal to the number of positions `i >= 2` with
`s_i != s_(i-1) + 1`: one per gap, whatever its size. -/
theorem stream_verifier_seq_loss (f : Nat) (st : a10nsp_state) (s : bbl_stream)
    (p : bbl_ethernet_header_t × bbl_ipv4_t) (rest : List (bbl_ethernet_header_t × bbl_ipv4_t))
    (hs : dict_search bbl_stream.flow_id f st.stream_flow_dict = some s)
    (hfresh : s.rx_first_seq = 0 ∧ s.rx_last_seq = 0 ∧ s.loss = 0)
    (hall : ∀ q ∈ p :: rest, is_bbl_of_flow f q ∧ flow_seq_of q ≠ 0 ∧ flow_seq_of q < 2 ^ 64) :
    ∃ s', dict_search bbl_stream.flow_id f
        (a10nsp_rx_all st (p :: rest)).stream_flow_dict = some s' ∧
      s'.rx_first_seq = flow_seq_of p ∧
      ((p :: rest).map flow_seq_of).getLast? = some s'.rx_last_seq ∧
      s'.loss = seq_gaps (flow_seq_of p) (rest.map flow_seq_of) := by
  obtain ⟨hp, hp0, hplt⟩ := hall p (List.mem_cons_self _ _)
  have hstep := handler_ipv4_search f st s p hp hs
  obtain ⟨e1, e2, e3⟩ := a10nsp_stream_rx_seq s p.1 p.2 p.2.next.next
  have hfs : p.2.next.next.flow_seq = flow_seq_of p := rfl
  rw [if_pos hfresh.1, hfs] at e2
  rw [hfs] at e1
  have e3' : (a10nsp_stream_rx s p.1 p.2 p.2.next.next).loss = 0 := by
    rw [e3]; simp [hfresh.1, hfresh.2.2]
  obtain ⟨s', h1, h2, h3, h4⟩ := a10nsp_rx_all_started f rest _ _
    (fun q hq => hall q (List.mem_cons_of_mem _ hq)) hstep (by rw [e2]; exact hp0)
    (by rw [e1]; exact hplt)
  refine ⟨s', h1, by rw [h2, e2], ?_, by rw [h4, e3', e1, Nat.zero_add]⟩
  rw [h3, e1, List.map_cons, getLast?_cons_last_of]

/-- C1 at the sequence 1,2,3,5,6: `rx_first_seq = 1`, `rx_last_seq = 6`,
`loss = 1`. -/
theorem stream_verifier_seq_loss_witness :
    ∃ s', dict_search bbl_stream.flow_id 7
        (a10nsp_rx_all ⟨[⟨7, 0, 0, 0, 0, 0, 0, 0, 0, 0, 0⟩], 0, 0, 0, 0, ⟨1, 99, 0, 0, 0, 0, 0, 0⟩⟩
          ((⟨100, 0, 0, ⟨10, 0⟩⟩, ⟨0, 0x11, ⟨2, ⟨7, 1, ⟨9, 500⟩⟩⟩⟩) ::
            [2, 3, 5, 6].map (fun n =>
              (⟨100, 0, 0, ⟨10, 0⟩⟩, ⟨0, 0x11, ⟨2, ⟨7, n, ⟨9, 500⟩⟩⟩⟩)))).stream_flow_dict
        = some s' ∧
      s'.rx_first_seq = 1 ∧ some 6 = some s'.rx_last_seq ∧ s'.loss = 1 :=
  stream_verifier_seq_loss 7
    ⟨[⟨7, 0, 0, 0, 0, 0, 0, 0, 0, 0, 0⟩], 0, 0, 0, 0, ⟨1, 99, 0, 0, 0, 0, 0, 0⟩⟩
    ⟨7, 0, 0, 0, 0, 0, 0, 0, 0, 0, 0⟩
    (⟨100, 0, 0, ⟨10, 0⟩⟩, ⟨0, 0x11, ⟨2, ⟨7, 1, ⟨9, 500⟩⟩⟩⟩)
    ([2, 3, 5, 6].map (fun n => (⟨100, 0, 0, ⟨10, 0⟩⟩, ⟨0, 0x11, ⟨2, ⟨7, n, ⟨9, 500⟩⟩⟩⟩)))
    (by decide) (by decide)
    (by
      intro q hq
      simp only [List.map, List.mem_cons, List.mem_singleton, List.not_mem_nil, or_false] at hq
      rcases hq with h | h | h | h | h <;> subst h <;>
        exact ⟨⟨rfl, rfl, rfl⟩, by decide, by decide⟩)

/-! ## Instance lemmas -/

theorem level_set_level (inst : isis_instance_t) (l : Nat) (x : isis_level_t) :
    (inst.set_level l x).level l = x := by
  unfold isis_instance_t.set_level isis_instance_t.level
  split_ifs <;> rfl

theorem level_set_level_ne (inst : isis_instance_t) (l l' : Nat) (x : isis_level_t)
    (h : ¬ (l = ISIS_LEVEL_1 ↔ l' = ISIS_LEVEL_1)) :
    (inst.set_level l x).level l' = inst.level l' := by
  unfold isis_instance_t.set_level isis_instance_t.level
  by_cases h1 : l = ISIS_LEVEL_1 <;> by_cases h2 : l' = ISIS_LEVEL_1
  · exact absurd ⟨fun _ => h2, fun _ => h1⟩ h
  · simp [h1, h2]
  · simp [h1, h2]
  · exact absurd ⟨fun c => absurd c h1, fun c => absurd c h2⟩ h

theorem level_set_level_eq (inst : isis_instance_t) (l l' : Nat) (x : isis_level_t)
    (h : (l = ISIS_LEVEL_1 ↔ l' = ISIS_LEVEL_1)) :
    (inst.set_level l x).level l' = x := by
  unfold isis_instance_t.set_level isis_instance_t.level
  by_cases h1 : l = ISIS_LEVEL_1
  · simp [h1, h.mp h1]
  · have : ¬ l' = ISIS_LEVEL_1 := fun c => h1 (h.mpr c)
    simp [h1, this]

theorem level_congr (inst : isis_instance_t) (l l' : Nat)
    (h : (l = ISIS_LEVEL_1 ↔ l' = ISIS_LEVEL_1)) : inst.level l = inst.level l' := by
  unfold isis_instance_t.level
  by_cases h1 : l = ISIS_LEVEL_1
  · simp [h1, h.mp h1]
  · have h2 : ¬ l' = ISIS_LEVEL_1 := fun c => h1 (h.mpr c)
    simp [h1, h2]

theorem config_set_level (inst : isis_instance_t) (l : Nat) (x : isis_level_t) :
    (inst.set_level l x).config = inst.config ∧ (inst.set_level l x).teardown = inst.teardown := by
  unfold isis_instance_t.set_level
  split_ifs <;> exact ⟨rfl, rfl⟩

theorem set_level_self (inst : isis_instance_t) (l : Nat) :
    inst.set_level l (inst.level l) = inst := by
  unfold isis_instance_t.set_level isis_instance_t.level
  split_ifs <;> rfl

/-! ## TX job -/

theorem isis_lsp_tx_loop_spec {σ : Type} (send : σ → isis_frame_t → σ × Bool) (now : timespec)
    (adjacency : isis_adjacency_t) :
    ∀ (l : List isis_flood_entry_t) (st : isis_tx_state σ),
      ∃ new : List (Nat × isis_frame_t),
        (isis_lsp_tx_loop send now adjacency l st).2.sent = st.sent ++ new ∧
        (isis_lsp_tx_loop send now adjacency l st).2.lsp_tx = st.lsp_tx + new.length ∧
        new.length ≤ max st.window 1 ∧
        (new.map Prod.fst).Sublist ((l.filter (fun e => !e.wait_ack)).map flood_key) := by
  intro l
  induction l with
  | nil => intro st; exact ⟨[], by simp [isis_lsp_tx_loop]⟩
  | cons entry rest ih =>
    intro st
    by_cases hw : entry.wait_ack = true
    · obtain ⟨new, h1, h2, h3, h4⟩ := ih st
      refine ⟨new, ?_, ?_, h3, ?_⟩
      · simpa [isis_lsp_tx_loop, hw] using h1
      · simpa [isis_lsp_tx_loop, hw] using h2
      · simpa [hw] using h4
    · have hw' : entry.wait_ack = false := by simpa using hw
      cases hs : dict_search lsp_key entry.lsp st.lsdb with
      | none =>
        obtain ⟨new, h1, h2, h3, h4⟩ := ih st
        refine ⟨new, ?_, ?_, h3, ?_⟩
        · simpa [isis_lsp_tx_loop, hw', hs] using h1
        · simpa [isis_lsp_tx_loop, hw', hs] using h2
        · simp only [List.filter, hw', Bool.not_false, List.map_cons]
          exact List.Sublist.cons _ h4
      | some lsp =>
        simp only [isis_lsp_tx_loop, hw', hs, Bool.false_eq_true, not_false_eq_true, if_true]
        generalize isis_lsp_tx_remaining_lifetime now lsp st.remaining_lifetime = rl
        generalize hres : send st.interface
          (isis_lsp_tx_frame adjacency { lsp.pdu with lifetime := rl }) = res
        by_cases hsend : res.2 = true
        · simp only [hsend, not_true_eq_false, if_false]
          by_cases hwin : (if st.window ≠ 0 then st.window - 1 else st.window) = 0
          · rw [if_pos hwin]
            refine ⟨[(entry.lsp, _)], rfl, rfl, by simp, ?_⟩
            simp only [List.filter, hw', Bool.not_false, List.map_cons, List.map_nil]
            exact List.Sublist.cons₂ _ (List.nil_sublist _)
          · rw [if_neg hwin]
            obtain ⟨new, h1, h2, h3, h4⟩ := ih
              { lsdb := dict_update lsp_key entry.lsp
                  (fun l => { l with pdu := { lsp.pdu with lifetime := rl } }) st.lsdb
                interface := res.1
                window := if st.window ≠ 0 then st.window - 1 else st.window
                remaining_lifetime := rl, lsp_tx := st.lsp_tx + 1
                sent := st.sent ++ [(entry.lsp,
                  isis_lsp_tx_frame adjacency { lsp.pdu with lifetime := rl })] }
            refine ⟨(entry.lsp,
              isis_lsp_tx_frame adjacency { lsp.pdu with lifetime := rl }) :: new, ?_, ?_, ?_, ?_⟩
            · simp only [h1]; simp
            · simp only [h2, List.length_cons]; omega
            · simp only at h3
              simp only [List.length_cons]
              split_ifs at h3 hwin with h0
              · omega
              · exact absurd (by omega) hwin
            · simp only [List.filter, hw', Bool.not_false, List.map_cons]
              exact List.Sublist.cons₂ _ h4
        · simp only [hsend, not_false_eq_true, if_true]
          exact ⟨[], by simp⟩

theorem adjacency_update_adjacency (inst : isis_instance_t) (level a : Nat)
    (f : isis_adjacency_t → isis_adjacency_t) :
    ((inst.update_adjacency level a f).level level).adjacency[a]? =
      ((inst.level level).adjacency[a]?).map f := by
  unfold isis_instance_t.update_adjacency isis_instance_t.set_adjacency
  rw [level_set_level]
  simp

theorem adjacency_set_lsdb (inst : isis_instance_t) (level l' : Nat) (db : List isis_lsp_t) :
    ((inst.set_lsdb level db).level l').adjacency = (inst.level l').adjacency := by
  unfold isis_instance_t.set_lsdb
  by_cases h : (level = ISIS_LEVEL_1 ↔ l' = ISIS_LEVEL_1)
  · rw [level_set_level_eq _ _ _ _ h]
    rw [level_congr inst level l' h]
  · rw [level_set_level_ne _ _ _ _ h]

/-! ## C2: window of the TX job -/

/-- C2 (amended). One run of `isis_lsp_tx_job` on an adjacency with window
size `w` (a `uint16_t`) raises `stats.lsp_tx` by the number of frames the
send buffer accepted, which is at most `max w 1`: at most `w` when `w >= 1`,
and at most one when `w = 0`.  The flood entries transmitted are, in tree
order, a sublist of the entries whose `wait_ack` was false, so that only such
entries are transmitted and each at most once. -/
theorem isis_lsp_tx_job_window {σ : Type} (send : σ → isis_frame_t → σ × Bool) (now : timespec)
    (inst : isis_instance_t) (level a : Nat) (interface : σ) (adj : isis_adjacency_t)
    (h : (inst.level level).adjacency[a]? = some adj) (hw : adj.window_size < 2 ^ 16) :
    ∃ adj', ((isis_lsp_tx_job send now inst level a interface).inst.level level).adjacency[a]?
        = some adj' ∧
      adj'.stats_lsp_tx =
        adj.stats_lsp_tx + (isis_lsp_tx_job send now inst level a interface).sent.length ∧
      (isis_lsp_tx_job send now inst level a interface).sent.length ≤ max adj.window_size 1 ∧
      ((isis_lsp_tx_job send now inst level a interface).sent.map Prod.fst).Sublist
        ((adj.flood_tree.filter (fun e => !e.wait_ack)).map flood_key) := by
  obtain ⟨new, h1, h2, h3, h4⟩ := isis_lsp_tx_loop_spec send now adj adj.flood_tree
    { lsdb := (inst.level level).lsdb, interface := interface
      window := adj.window_size % 2 ^ 16, remaining_lifetime := 0
      lsp_tx := adj.stats_lsp_tx, sent := [] }
  simp only [List.nil_append, Nat.mod_eq_of_lt hw] at h1 h2 h3
  unfold isis_lsp_tx_job
  simp only [h, Nat.mod_eq_of_lt hw]
  rw [adjacency_update_adjacency, adjacency_set_lsdb, h]
  refine ⟨_, rfl, ?_, ?_, ?_⟩
  · simp only [h2, h1]
  · simp only [h1]; exact h3
  · simp only [h1]; exact h4

/-- C2 at a concrete adjacency with window size 0 and one entry to send. -/
theorem isis_lsp_tx_job_window_witness :
    ∃ adj', ((isis_lsp_tx_job send_ok ⟨100, 0⟩ ex_tx_instance 1 0 ()).inst.level 1).adjacency[0]?
        = some adj' ∧
      adj'.stats_lsp_tx =
        (ex_adjacency 9 0 [⟨5, false, 0, ⟨0, 0⟩⟩] []).stats_lsp_tx +
          (isis_lsp_tx_job send_ok ⟨100, 0⟩ ex_tx_instance 1 0 ()).sent.length ∧
      (isis_lsp_tx_job send_ok ⟨100, 0⟩ ex_tx_instance 1 0 ()).sent.length ≤
        max (ex_adjacency 9 0 [⟨5, false, 0, ⟨0, 0⟩⟩] []).window_size 1 ∧
      ((isis_lsp_tx_job send_ok ⟨100, 0⟩ ex_tx_instance 1 0 ()).sent.map Prod.fst).Sublist
        (((ex_adjacency 9 0 [⟨5, false, 0, ⟨0, 0⟩⟩] []).flood_tree.filter
          (fun e => !e.wait_ack)).map flood_key) :=
  isis_lsp_tx_job_window send_ok ⟨100, 0⟩ ex_tx_instance 1 0 ()
    (ex_adjacency 9 0 [⟨5, false, 0, ⟨0, 0⟩⟩] []) (by decide) (by decide)

/-- C2 as stated fails for window size 0: the adjacency of `ex_tx_instance`
has `window_size = 0` and `stats.lsp_tx = 0`, and one run of the TX job
transmits one LSP, leaving `stats.lsp_tx = 1`. -/
theorem isis_lsp_tx_job_window_zero_counterexample :
    (ex_tx_instance.level 1).adjacency.map
        (fun adj => (adj.window_size, adj.stats_lsp_tx)) = [(0, 0)] ∧
      ((isis_lsp_tx_job send_ok ⟨100, 0⟩ ex_tx_instance 1 0 ()).inst.level 1).adjacency.map
        isis_adjacency_t.stats_lsp_tx = [1] ∧
      ¬ ((isis_lsp_tx_job send_ok ⟨100, 0⟩ ex_tx_instance 1 0 ()).sent.length ≤ 0) := by
  decide

/-! ## Flooding lemmas -/

theorem dict_search_key {α : Type} (key : α → Nat) (k : Nat) (x : α) (t : List α)
    (h : dict_search key k t = some x) : key x = k := by
  induction t with
  | nil => simp [dict_search] at h
  | cons y ys ih =>
    by_cases hy : key y = k
    · simp [dict_search, hy] at h; rw [← h]; exact hy
    · simp [dict_search, hy] at h; exact ih h

theorem dict_search_place_self {α : Type} (key : α → Nat) (x : α) (t : List α)
    (h : dict_search key (key x) t = none) :
    dict_search key (key x) (dict_place key x t) = some x := by
  induction t with
  | nil => simp [dict_place, dict_search]
  | cons y ys ih =>
    by_cases hy : key y = key x
    · simp [dict_search, hy] at h
    · simp only [dict_search, hy, if_false] at h
      unfold dict_place
      split_ifs
      · simp [dict_search]
      · simp [dict_search, hy, ih h]

theorem dict_search_place_ne {α : Type} (key : α → Nat) (x : α) (k : Nat) (t : List α)
    (h : k ≠ key x) :
    dict_search key k (dict_place key x t) = dict_search key k t := by
  induction t with
  | nil => simp [dict_place, dict_search, Ne.symm h]
  | cons y ys ih =>
    unfold dict_place
    split_ifs
    · simp [dict_search, Ne.symm h]
    · by_cases hy : key y = k
      · simp [dict_search, hy]
      · simp [dict_search, hy, ih]

theorem hb_tree_insert_absent {α : Type} (key : α → Nat) (x : α) (t : List α)
    (h : dict_search key (key x) t = none) :
    hb_tree_insert key x t = (dict_place key x t, true) := by
  unfold hb_tree_insert; rw [h]

theorem hb_tree_insert_present {α : Type} (key : α → Nat) (x y : α) (t : List α)
    (h : dict_search key (key x) t = some y) :
    hb_tree_insert key x t = (t, false) := by
  unfold hb_tree_insert; rw [h]

theorem flood_adjacency_found (lsp : isis_lsp_t) (adj : isis_adjacency_t)
    (e : isis_flood_entry_t) (h : dict_search flood_key lsp.id adj.flood_tree = some e) :
    isis_lsp_flood_adjacency lsp adj =
      (lsp, { adj with
        flood_tree := dict_update flood_key lsp.id
          (fun flood => { flood with wait_ack := false, tx_count := 0 }) adj.flood_tree }) := by
  unfold isis_lsp_flood_adjacency; rw [h]

theorem flood_adjacency_absent (lsp : isis_lsp_t) (adj : isis_adjacency_t)
    (h : dict_search flood_key lsp.id adj.flood_tree = none) :
    isis_lsp_flood_adjacency lsp adj =
      ({ lsp with refcount := lsp.refcount + 1 },
        { adj with flood_tree := dict_place flood_key ⟨lsp.id, false, 0, ⟨0, 0⟩⟩ adj.flood_tree }) := by
  unfold isis_lsp_flood_adjacency
  rw [h]
  simp only []
  rw [hb_tree_insert_absent flood_key ⟨lsp.id, false, 0, ⟨0, 0⟩⟩ _ h]
  simp

theorem flood_adjacency_lsp (lsp : isis_lsp_t) (adj : isis_adjacency_t) :
    (isis_lsp_flood_adjacency lsp adj).1 =
      { lsp with refcount := (isis_lsp_flood_adjacency lsp adj).1.refcount } := by
  cases h : dict_search flood_key lsp.id adj.flood_tree with
  | none => rw [flood_adjacency_absent lsp adj h]
  | some e => rw [flood_adjacency_found lsp adj e h]

theorem flood_adjacency_adj (lsp : isis_lsp_t) (adj : isis_adjacency_t) :
    (isis_lsp_flood_adjacency lsp adj).2 =
      { adj with flood_tree := (isis_lsp_flood_adjacency lsp adj).2.flood_tree } := by
  cases h : dict_search flood_key lsp.id adj.flood_tree with
  | none => rw [flood_adjacency_absent lsp adj h]
  | some e => rw [flood_adjacency_found lsp adj e h]

theorem flood_adjacency_id_only (lsp lsp' : isis_lsp_t) (adj : isis_adjacency_t)
    (h : lsp'.id = lsp.id) :
    (isis_lsp_flood_adjacency lsp' adj).2 = (isis_lsp_flood_adjacency lsp adj).2 := by
  cases hs : dict_search flood_key lsp.id adj.flood_tree with
  | none =>
    rw [flood_adjacency_absent lsp adj hs, flood_adjacency_absent lsp' adj (h ▸ hs), h]
  | some e =>
    rw [flood_adjacency_found lsp adj e hs, flood_adjacency_found lsp' adj e (h ▸ hs), h]

theorem flood_adjacency_search (lsp : isis_lsp_t) (adj : isis_adjacency_t) :
    ∃ e, dict_search flood_key lsp.id (isis_lsp_flood_adjacency lsp adj).2.flood_tree = some e ∧
      e.wait_ack = false ∧ e.tx_count = 0 := by
  cases hs : dict_search flood_key lsp.id adj.flood_tree with
  | none =>
    rw [flood_adjacency_absent lsp adj hs]
    exact ⟨_, dict_search_place_self flood_key ⟨lsp.id, false, 0, ⟨0, 0⟩⟩ _ hs, rfl, rfl⟩
  | some e =>
    rw [flood_adjacency_found lsp adj e hs]
    have h := dict_search_update_self flood_key lsp.id
      (fun flood => { flood with wait_ack := false, tx_count := 0 }) (fun _ hx => hx)
      adj.flood_tree
    rw [hs] at h
    exact ⟨_, h, rfl, rfl⟩

theorem flood_adjacency_search_ne (lsp : isis_lsp_t) (adj : isis_adjacency_t) (k : Nat)
    (hk : k ≠ lsp.id) :
    dict_search flood_key k (isis_lsp_flood_adjacency lsp adj).2.flood_tree =
      dict_search flood_key k adj.flood_tree := by
  cases hs : dict_search flood_key lsp.id adj.flood_tree with
  | none =>
    rw [flood_adjacency_absent lsp adj hs]
    exact dict_search_place_ne flood_key ⟨lsp.id, false, 0, ⟨0, 0⟩⟩ k _ hk
  | some e =>
    rw [flood_adjacency_found lsp adj e hs]
    exact dict_search_update_ne flood_key lsp.id k
      (fun flood => { flood with wait_ack := false, tx_count := 0 }) (fun _ hx => hx) hk
      adj.flood_tree

theorem flood_loop_lsp (sp : Option Nat) :
    ∀ (adjs : List isis_adjacency_t) (i : Nat) (lsp : isis_lsp_t),
      (isis_lsp_flood_loop sp i adjs lsp).1 =
        { lsp with refcount := (isis_lsp_flood_loop sp i adjs lsp).1.refcount } := by
  intro adjs
  induction adjs with
  | nil => intro i lsp; rfl
  | cons adj rest ih =>
    intro i lsp
    unfold isis_lsp_flood_loop
    split_ifs
    · exact ih (i + 1) lsp
    · exact ih (i + 1) lsp
    · simp only []
      rw [ih (i + 1) _, flood_adjacency_lsp lsp adj]

theorem flood_loop_get (sp : Option Nat) (lsp : isis_lsp_t) :
    ∀ (adjs : List isis_adjacency_t) (i : Nat) (lsp' : isis_lsp_t) (j : Nat),
      lsp'.id = lsp.id → lsp'.source = lsp.source →
      (isis_lsp_flood_loop sp i adjs lsp').2[j]? =
        (adjs[j]?).map (fun adj =>
          if isis_lsp_flood_skips lsp sp (i + j) adj then adj
          else (isis_lsp_flood_adjacency lsp adj).2) := by
  intro adjs
  induction adjs with
  | nil => intro i lsp' j _ _; simp [isis_lsp_flood_loop]
  | cons adj rest ih =>
    intro i lsp' j hid hsrc
    have hfa1 : (isis_lsp_flood_adjacency lsp' adj).1.id = lsp.id := by
      rw [flood_adjacency_lsp]; exact hid
    have hfa2 : (isis_lsp_flood_adjacency lsp' adj).1.source = lsp.source := by
      rw [flood_adjacency_lsp]; exact hsrc
    unfold isis_lsp_flood_loop
    cases j with
    | zero =>
      simp only [hsrc, Nat.add_zero, List.getElem?_cons_zero, Option.map_some']
      by_cases h1 : adj.state ≠ ISIS_ADJACENCY_STATE_UP
      · have hk : isis_lsp_flood_skips lsp sp i adj := Or.inl h1
        rw [if_pos h1, if_pos hk]; simp
      · rw [if_neg h1]
        by_cases h2 : lsp.source.type = ISIS_SOURCE_ADJACENCY ∧
            (lsp.source.adjacency = some i ∨ sp = some adj.peer_system_id)
        · have hk : isis_lsp_flood_skips lsp sp i adj := Or.inr h2
          rw [if_pos h2, if_pos hk]; simp
        · have hk : ¬ isis_lsp_flood_skips lsp sp i adj := fun c => c.elim h1 h2
          rw [if_neg h2, if_neg hk]
          simp only [List.getElem?_cons_zero]
          rw [flood_adjacency_id_only lsp lsp' adj hid]
    | succ j =>
      have e : i + (j + 1) = (i + 1) + j := by omega
      simp only [e]
      split_ifs
      · simp [ih (i + 1) lsp' j hid hsrc]
      · simp [ih (i + 1) lsp' j hid hsrc]
      · simp [ih (i + 1) _ j hfa1 hfa2]

theorem lsdb_set_adjacency (inst : isis_instance_t) (l l' : Nat) (adjs : List isis_adjacency_t) :
    ((inst.set_adjacency l adjs).level l').lsdb = (inst.level l').lsdb := by
  unfold isis_instance_t.set_adjacency
  by_cases h : (l = ISIS_LEVEL_1 ↔ l' = ISIS_LEVEL_1)
  · rw [level_set_level_eq _ _ _ _ h, level_congr inst l l' h]
  · rw [level_set_level_ne _ _ _ _ h]

theorem adjacency_set_adjacency_eq (inst : isis_instance_t) (l l' : Nat)
    (adjs : List isis_adjacency_t) (h : (l = ISIS_LEVEL_1 ↔ l' = ISIS_LEVEL_1)) :
    ((inst.set_adjacency l adjs).level l').adjacency = adjs := by
  unfold isis_instance_t.set_adjacency
  rw [level_set_level_eq _ _ _ _ h]

theorem adjacency_set_adjacency_ne (inst : isis_instance_t) (l l' : Nat)
    (adjs : List isis_adjacency_t) (h : ¬ (l = ISIS_LEVEL_1 ↔ l' = ISIS_LEVEL_1)) :
    ((inst.set_adjacency l adjs).level l').adjacency = (inst.level l').adjacency := by
  unfold isis_instance_t.set_adjacency
  rw [level_set_level_ne _ _ _ _ h]

theorem lsdb_set_lsdb_eq (inst : isis_instance_t) (l l' : Nat) (db : List isis_lsp_t)
    (h : (l = ISIS_LEVEL_1 ↔ l' = ISIS_LEVEL_1)) :
    ((inst.set_lsdb l db).level l').lsdb = db := by
  unfold isis_instance_t.set_lsdb
  rw [level_set_level_eq _ _ _ _ h]

theorem lsdb_set_lsdb_ne (inst : isis_instance_t) (l l' : Nat) (db : List isis_lsp_t)
    (h : ¬ (l = ISIS_LEVEL_1 ↔ l' = ISIS_LEVEL_1)) :
    ((inst.set_lsdb l db).level l').lsdb = (inst.level l').lsdb := by
  unfold isis_instance_t.set_lsdb
  rw [level_set_level_ne _ _ _ _ h]

theorem config_set_lsdb (inst : isis_instance_t) (l : Nat) (db : List isis_lsp_t) :
    (inst.set_lsdb l db).config = inst.config ∧ (inst.set_lsdb l db).teardown = inst.teardown :=
  config_set_level inst l _

theorem config_set_adjacency (inst : isis_instance_t) (l : Nat) (adjs : List isis_adjacency_t) :
    (inst.set_adjacency l adjs).config = inst.config ∧
      (inst.set_adjacency l adjs).teardown = inst.teardown :=
  config_set_level inst l _

theorem adjacency_update_lsp (inst : isis_instance_t) (l l' id : Nat)
    (f : isis_lsp_t → isis_lsp_t) :
    ((inst.update_lsp l id f).level l').adjacency = (inst.level l').adjacency :=
  adjacency_set_lsdb inst l l' _

theorem lsdb_update_lsp_eq (inst : isis_instance_t) (l l' id : Nat)
    (f : isis_lsp_t → isis_lsp_t) (h : (l = ISIS_LEVEL_1 ↔ l' = ISIS_LEVEL_1)) :
    ((inst.update_lsp l id f).level l').lsdb = dict_update lsp_key id f (inst.level l').lsdb := by
  unfold isis_instance_t.update_lsp
  rw [lsdb_set_lsdb_eq _ _ _ _ h, level_congr inst l l' h]

theorem lsdb_update_lsp_ne (inst : isis_instance_t) (l l' id : Nat)
    (f : isis_lsp_t → isis_lsp_t) (h : ¬ (l = ISIS_LEVEL_1 ↔ l' = ISIS_LEVEL_1)) :
    ((inst.update_lsp l id f).level l').lsdb = (inst.level l').lsdb :=
  lsdb_set_lsdb_ne inst l l' _ h

theorem config_update_lsp (inst : isis_instance_t) (l id : Nat) (f : isis_lsp_t → isis_lsp_t) :
    (inst.update_lsp l id f).config = inst.config ∧
      (inst.update_lsp l id f).teardown = inst.teardown :=
  config_set_level inst l _

theorem lsdb_update_adjacency (inst : isis_instance_t) (l l' a : Nat)
    (f : isis_adjacency_t → isis_adjacency_t) :
    ((inst.update_adjacency l a f).level l').lsdb = (inst.level l').lsdb :=
  lsdb_set_adjacency inst l l' _

theorem adjacency_update_adjacency_eq (inst : isis_instance_t) (l l' a : Nat)
    (f : isis_adjacency_t → isis_adjacency_t) (h : (l = ISIS_LEVEL_1 ↔ l' = ISIS_LEVEL_1)) :
    ((inst.update_adjacency l a f).level l').adjacency = (inst.level l').adjacency.modify f a := by
  unfold isis_instance_t.update_adjacency
  rw [adjacency_set_adjacency_eq _ _ _ _ h, level_congr inst l l' h]

theorem adjacency_update_adjacency_ne (inst : isis_instance_t) (l l' a : Nat)
    (f : isis_adjacency_t → isis_adjacency_t) (h : ¬ (l = ISIS_LEVEL_1 ↔ l' = ISIS_LEVEL_1)) :
    ((inst.update_adjacency l a f).level l').adjacency = (inst.level l').adjacency :=
  adjacency_set_adjacency_ne inst l l' _ h

theorem config_update_adjacency (inst : isis_instance_t) (l a : Nat)
    (f : isis_adjacency_t → isis_adjacency_t) :
    (inst.update_adjacency l a f).config = inst.config ∧
      (inst.update_adjacency l a f).teardown = inst.teardown :=
  config_set_level inst l _

theorem isis_lsp_flood_found (inst : isis_instance_t) (lsdb_level id : Nat) (lsp : isis_lsp_t)
    (hl : dict_search lsp_key id (inst.level lsdb_level).lsdb = some lsp) :
    isis_lsp_flood inst lsdb_level id =
      (inst.set_adjacency lsp.level
        (isis_lsp_flood_loop (isis_lsp_source_peer lsp (inst.level lsp.level).adjacency) 0
          (inst.level lsp.level).adjacency lsp).2).update_lsp lsdb_level id
        (fun _ => (isis_lsp_flood_loop (isis_lsp_source_peer lsp (inst.level lsp.level).adjacency)
          0 (inst.level lsp.level).adjacency lsp).1) := by
  unfold isis_lsp_flood; rw [hl]

theorem isis_lsp_flood_adjacency_get (inst : isis_instance_t) (lsdb_level id : Nat)
    (lsp : isis_lsp_t) (hl : dict_search lsp_key id (inst.level lsdb_level).lsdb = some lsp)
    (j : Nat) :
    ((isis_lsp_flood inst lsdb_level id).level lsp.level).adjacency[j]? =
      ((inst.level lsp.level).adjacency[j]?).map (fun adj =>
        if isis_lsp_flood_skips lsp
            (isis_lsp_source_peer lsp (inst.level lsp.level).adjacency) j adj then adj
        else (isis_lsp_flood_adjacency lsp adj).2) := by
  rw [isis_lsp_flood_found inst lsdb_level id lsp hl, adjacency_update_lsp,
    adjacency_set_adjacency_eq _ _ _ _ Iff.rfl,
    flood_loop_get _ lsp _ 0 lsp j rfl rfl, Nat.zero_add]

theorem isis_lsp_flood_adjacency_other (inst : isis_instance_t) (lsdb_level id l' : Nat)
    (lsp : isis_lsp_t) (hl : dict_search lsp_key id (inst.level lsdb_level).lsdb = some lsp)
    (h : ¬ (lsp.level = ISIS_LEVEL_1 ↔ l' = ISIS_LEVEL_1)) :
    ((isis_lsp_flood inst lsdb_level id).level l').adjacency = (inst.level l').adjacency := by
  rw [isis_lsp_flood_found inst lsdb_level id lsp hl, adjacency_update_lsp,
    adjacency_set_adjacency_ne _ _ _ _ h]

theorem isis_lsp_flood_config (inst : isis_instance_t) (lsdb_level id : Nat) :
    (isis_lsp_flood inst lsdb_level id).config = inst.config ∧
      (isis_lsp_flood inst lsdb_level id).teardown = inst.teardown := by
  unfold isis_lsp_flood
  split
  · exact ⟨rfl, rfl⟩
  · exact ⟨(config_update_lsp _ _ _ _).1.trans (config_set_adjacency _ _ _).1,
      (config_update_lsp _ _ _ _).2.trans (config_set_adjacency _ _ _).2⟩

/-! ## C3: targets of flooding -/

/-- C3. `isis_lsp_flood` for an LSP of the LSDB.  If the source of the LSP is
Adjacency(a), with `a` an adjacency of the LSP's level, then the adjacency
`a` itself, every adjacency whose peer system id equals that of `a` and every
adjacency that is not Up is left unchanged (in particular its flood tree),
and every other Up adjacency of the LSP's level holds the LSP in its flood
tree afterwards with `wait_ack = false`.  If the source is Self or External,
every Up adjacency of the level holds the LSP afterwards with
`wait_ack = false`. -/
theorem isis_lsp_flood_targets (inst : isis_instance_t) (lsdb_level id : Nat) (lsp : isis_lsp_t)
    (hl : dict_search lsp_key id (inst.level lsdb_level).lsdb = some lsp) :
    (∀ (a : Nat) (src : isis_adjacency_t), lsp.source.type = ISIS_SOURCE_ADJACENCY → lsp.source.adjacency = some a →
      (inst.level lsp.level).adjacency[a]? = some src →
      ∀ (j : Nat) (adj : isis_adjacency_t), (inst.level lsp.level).adjacency[j]? = some adj →
        ((j = a ∨ adj.peer_system_id = src.peer_system_id ∨
            adj.state ≠ ISIS_ADJACENCY_STATE_UP) →
          ((isis_lsp_flood inst lsdb_level id).level lsp.level).adjacency[j]? = some adj) ∧
        (j ≠ a → adj.peer_system_id ≠ src.peer_system_id →
            adj.state = ISIS_ADJACENCY_STATE_UP →
          ∃ (adj' : isis_adjacency_t) (e : isis_flood_entry_t),
            ((isis_lsp_flood inst lsdb_level id).level lsp.level).adjacency[j]? = some adj' ∧
            dict_search flood_key id adj'.flood_tree = some e ∧ e.wait_ack = false)) ∧
    (lsp.source.type ≠ ISIS_SOURCE_ADJACENCY →
      ∀ (j : Nat) (adj : isis_adjacency_t), (inst.level lsp.level).adjacency[j]? = some adj →
        adj.state = ISIS_ADJACENCY_STATE_UP →
        ∃ (adj' : isis_adjacency_t) (e : isis_flood_entry_t),
          ((isis_lsp_flood inst lsdb_level id).level lsp.level).adjacency[j]? = some adj' ∧
          dict_search flood_key id adj'.flood_tree = some e ∧ e.wait_ack = false) := by
  have hid : lsp.id = id := dict_search_key lsp_key id lsp _ hl
  have hget := isis_lsp_flood_adjacency_get inst lsdb_level id lsp hl
  constructor
  · intro a src hty hsrc ha j adj hj
    have hsp : isis_lsp_source_peer lsp (inst.level lsp.level).adjacency =
        some src.peer_system_id := by
      unfold isis_lsp_source_peer; rw [hsrc]; simp only []; rw [ha]; rfl
    rw [hget j, hj, hsp]
    simp only [Option.map_some']
    constructor
    · intro h
      have hk : isis_lsp_flood_skips lsp (some src.peer_system_id) j adj := by
        rcases h with h | h | h
        · exact Or.inr ⟨hty, Or.inl (h ▸ hsrc)⟩
        · exact Or.inr ⟨hty, Or.inr (by rw [h])⟩
        · exact Or.inl h
      rw [if_pos hk]
    · intro h1 h2 h3
      have hk : ¬ isis_lsp_flood_skips lsp (some src.peer_system_id) j adj := by
        rintro (h | ⟨_, h | h⟩)
        · exact h h3
        · rw [hsrc] at h; exact h1 (Option.some.inj h).symm
        · exact h2 (Option.some.inj h).symm
      rw [if_neg hk]
      obtain ⟨e, he, hw, _⟩ := flood_adjacency_search lsp adj
      exact ⟨_, e, rfl, hid ▸ he, hw⟩
  · intro hty j adj hj hup
    rw [hget j, hj]
    simp only [Option.map_some']
    have hk : ¬ isis_lsp_flood_skips lsp
        (isis_lsp_source_peer lsp (inst.level lsp.level).adjacency) j adj := by
      rintro (h | ⟨h, _⟩)
      · exact h hup
      · exact hty h
    rw [if_neg hk]
    obtain ⟨e, he, hw, _⟩ := flood_adjacency_search lsp adj
    exact ⟨_, e, rfl, hid ▸ he, hw⟩

/-- C3 at `ex_flood_instance`: LSP 7, received on adjacency 0 from peer 9, is
flooded to adjacency 2 (Up, peer 8). -/
theorem isis_lsp_flood_targets_witness :
    dict_search lsp_key 7 (ex_flood_instance.level 1).lsdb =
        some (ex_lsp 7 3 ⟨ISIS_SOURCE_ADJACENCY, some 0⟩ 0) ∧
      ∃ (adj' : isis_adjacency_t) (e : isis_flood_entry_t),
        ((isis_lsp_flood ex_flood_instance 1 7).level 1).adjacency[2]? = some adj' ∧
          dict_search flood_key 7 adj'.flood_tree = some e ∧ e.wait_ack = false :=
  ⟨by decide,
    ((isis_lsp_flood_targets ex_flood_instance 1 7
        (ex_lsp 7 3 ⟨ISIS_SOURCE_ADJACENCY, some 0⟩ 0) (by decide)).1
      0 (ex_adjacency 9 1 [] []) rfl rfl (by decide) 2 (ex_adjacency 8 1 [] [])
        (by decide)).2 (by decide) (by decide) (by decide)⟩

/-! ## LSDB lemmas -/

theorem lsdb_search_update_lsp (inst : isis_instance_t) (l l' id k : Nat)
    (f : isis_lsp_t → isis_lsp_t) (hf : ∀ x : isis_lsp_t, x.id = id → (f x).id = id) :
    dict_search lsp_key k ((inst.update_lsp l id f).level l').lsdb =
      if same_level l l' ∧ k = id then
        (dict_search lsp_key k (inst.level l').lsdb).map f
      else dict_search lsp_key k (inst.level l').lsdb := by
  by_cases h : same_level l l'
  · rw [lsdb_update_lsp_eq _ _ _ _ _ h]
    by_cases hk : k = id
    · rw [if_pos ⟨h, hk⟩, hk]
      exact dict_search_update_self lsp_key id f hf _
    · rw [if_neg (fun c => hk c.2)]
      exact dict_search_update_ne lsp_key id k f hf hk _
  · rw [lsdb_update_lsp_ne _ _ _ _ _ h, if_neg (fun c => h c.1)]

theorem option_map_refcount_self (o : Option isis_lsp_t) :
    ∃ n, o = o.map (fun x => { x with refcount := n }) := by
  cases o with
  | none => exact ⟨0, rfl⟩
  | some x => exact ⟨x.refcount, rfl⟩

theorem isis_lsp_flood_lsdb_search (inst : isis_instance_t) (lsdb_level id l' k : Nat) :
    ∃ n, dict_search lsp_key k ((isis_lsp_flood inst lsdb_level id).level l').lsdb =
      (dict_search lsp_key k (inst.level l').lsdb).map (fun x => { x with refcount := n }) := by
  cases hl : dict_search lsp_key id (inst.level lsdb_level).lsdb with
  | none =>
    have : isis_lsp_flood inst lsdb_level id = inst := by unfold isis_lsp_flood; rw [hl]
    rw [this]
    exact option_map_refcount_self _
  | some lsp =>
    rw [isis_lsp_flood_found inst lsdb_level id lsp hl]
    generalize isis_lsp_source_peer lsp (inst.level lsp.level).adjacency = sp
    have hlsp := flood_loop_lsp sp (inst.level lsp.level).adjacency 0 lsp
    generalize isis_lsp_flood_loop sp 0 (inst.level lsp.level).adjacency lsp = r at hlsp
    have hid : lsp.id = id := dict_search_key lsp_key id lsp _ hl
    rw [lsdb_search_update_lsp _ _ _ _ _ _ (by intro x _; rw [hlsp]; exact hid),
      lsdb_set_adjacency]
    split_ifs with h
    · obtain ⟨h1, h2⟩ := h
      rw [h2, ← level_congr inst lsdb_level l' h1, hl]
      exact ⟨r.1.refcount, by simp only [Option.map_some']; rw [hlsp]⟩
    · exact option_map_refcount_self _

theorem isis_lsp_handler_rx_ack_lsdb_search (inst : isis_instance_t) (level a id l' k : Nat) :
    ∃ n, dict_search lsp_key k ((isis_lsp_handler_rx_ack inst level a id).level l').lsdb =
      (dict_search lsp_key k (inst.level l').lsdb).map (fun x => { x with refcount := n }) := by
  unfold isis_lsp_handler_rx_ack
  split
  · exact option_map_refcount_self _
  · simp only []
    split_ifs
    · rw [lsdb_search_update_lsp _ _ _ _ _ (fun lsp => { lsp with refcount := lsp.refcount + 1 })
        (fun x hx => hx), lsdb_update_adjacency]
      split_ifs
      · cases dict_search lsp_key k (inst.level l').lsdb with
        | none => exact ⟨0, rfl⟩
        | some x => exact ⟨x.refcount + 1, rfl⟩
      · exact option_map_refcount_self _
    · exact option_map_refcount_self _

theorem set_lsdb_self (inst : isis_instance_t) (l : Nat) :
    inst.set_lsdb l (inst.level l).lsdb = inst := by
  unfold isis_instance_t.set_lsdb
  exact set_level_self inst l

theorem isis_lsp_self_update_found (now : timespec) (inst : isis_instance_t) (level : Nat)
    (lsp : isis_lsp_t)
    (h : dict_search lsp_key (isis_self_lsp_id inst.config) (inst.level level).lsdb = some lsp) :
    (isis_lsp_self_update now inst level).1 =
      isis_lsp_flood
        (inst.update_lsp level (isis_self_lsp_id inst.config)
          (isis_lsp_self_update_lsp now inst.config inst.teardown level
            (inst.level level).adjacency))
        level (isis_self_lsp_id inst.config) := by
  unfold isis_lsp_self_update
  simp only [h, set_lsdb_self]

theorem isis_lsp_self_update_lsp_id (now : timespec) (config : isis_config_t) (teardown : Bool)
    (level : Nat) (adjs : List isis_adjacency_t) (lsp : isis_lsp_t) :
    (isis_lsp_self_update_lsp now config teardown level adjs lsp).id = lsp.id := rfl

/-! ## C4: a newer copy of the self-originated LSP -/

/-- The bump of the self-LSP below the largest sequence number.  When
`isis_lsp_handler_rx` receives an authenticated LSP
whose id is that of the self-originated LSP stored with source Self, and
whose sequence number `r` is greater than the stored one and below
`2^32 - 1`, then afterwards the stored self-LSP still has source Self, has
sequence number `r + 1 > r`, and its PDU is the regenerated one carrying
`r + 1`, not the received PDU. -/
theorem isis_lsp_handler_rx_self_newer
    (validate_auth : isis_pdu_t → Nat → Option String → Bool) (now : timespec)
    (inst : isis_instance_t) (level a : Nat) (pdu : isis_pdu_t) (adj : isis_adjacency_t)
    (lsp : isis_lsp_t)
    (ha : (inst.level level).adjacency[a]? = some adj) (hlevel : adj.level = level)
    (hauth : validate_auth pdu (isis_lsp_handler_rx_auth inst.config level).1
      (isis_lsp_handler_rx_auth inst.config level).2 = true)
    (hid : pdu.lsp_id = isis_self_lsp_id inst.config)
    (hl : dict_search lsp_key (isis_self_lsp_id inst.config) (inst.level level).lsdb = some lsp)
    (hself : lsp.source.type = ISIS_SOURCE_SELF)
    (hseq : lsp.seq < pdu.seq) (hr : pdu.seq < 2 ^ 32 - 1) :
    ∃ lsp', dict_search lsp_key (isis_self_lsp_id inst.config)
        ((isis_lsp_handler_rx validate_auth now inst level a pdu).level level).lsdb = some lsp' ∧
      lsp'.source.type = ISIS_SOURCE_SELF ∧ lsp'.seq = pdu.seq + 1 ∧ pdu.seq < lsp'.seq ∧
      lsp'.pdu.seq = pdu.seq + 1 ∧ lsp'.pdu ≠ pdu := by
  have hid64 : pdu.lsp_id % 2 ^ 64 = isis_self_lsp_id inst.config := by
    rw [hid]; unfold isis_self_lsp_id
    have : inst.config.system_id % 2 ^ 48 < 2 ^ 48 := Nat.mod_lt _ (by norm_num)
    apply Nat.mod_eq_of_lt; omega
  have hseq32 : pdu.seq % 2 ^ 32 = pdu.seq := Nat.mod_eq_of_lt (by omega)
  unfold isis_lsp_handler_rx
  simp only [ha, hauth, hid64, hseq32, not_true_eq_false, if_false, lsdb_update_adjacency, hl,
    hself, if_true, hlevel]
  rw [if_neg (by omega), if_neg (by decide)]
  generalize hi1 : inst.update_adjacency level a
    (fun adj => { adj with stats_lsp_rx := adj.stats_lsp_rx + 1 }) = inst1
  have hc1 : inst1.config = inst.config := by rw [← hi1]; exact (config_update_adjacency _ _ _ _).1
  have hl1 : dict_search lsp_key (isis_self_lsp_id inst.config) (inst1.level level).lsdb =
      some lsp := by rw [← hi1, lsdb_update_adjacency]; exact hl
  generalize hi2 : inst1.update_lsp level (isis_self_lsp_id inst.config)
    (fun l => { l with seq := pdu.seq }) = inst2
  have hc2 : inst2.config = inst.config := by
    rw [← hi2]; exact (config_update_lsp _ _ _ _).1.trans hc1
  have hl2 : dict_search lsp_key (isis_self_lsp_id inst2.config) (inst2.level level).lsdb =
      some { lsp with seq := pdu.seq } := by
    rw [hc2, ← hi2, lsdb_search_update_lsp _ _ _ _ _ (fun l => { l with seq := pdu.seq })
      (fun x hx => hx), if_pos ⟨Iff.rfl, rfl⟩, hl1]
    rfl
  rw [isis_lsp_self_update_found now inst2 level _ hl2, hc2]
  obtain ⟨n1, h1⟩ := isis_lsp_handler_rx_ack_lsdb_search
    (isis_lsp_flood (inst2.update_lsp level (isis_self_lsp_id inst.config)
      (isis_lsp_self_update_lsp now inst.config inst2.teardown level
        (inst2.level level).adjacency)) level (isis_self_lsp_id inst.config))
    level a (isis_self_lsp_id inst.config) level (isis_self_lsp_id inst.config)
  obtain ⟨n2, h2⟩ := isis_lsp_flood_lsdb_search
    (inst2.update_lsp level (isis_self_lsp_id inst.config)
      (isis_lsp_self_update_lsp now inst.config inst2.teardown level
        (inst2.level level).adjacency)) level (isis_self_lsp_id inst.config)
    level (isis_self_lsp_id inst.config)
  rw [h1, h2, lsdb_search_update_lsp _ _ _ _ _
    (isis_lsp_self_update_lsp now inst.config inst2.teardown level (inst2.level level).adjacency)
    (fun x hx => hx), if_pos ⟨Iff.rfl, rfl⟩, ← hc2, hl2]
  have hmod : (pdu.seq + 1) % 2 ^ 32 = pdu.seq + 1 := Nat.mod_eq_of_lt (by omega)
  refine ⟨_, rfl, rfl, ?_, ?_, ?_, ?_⟩
  · simp only [isis_lsp_self_update_lsp, hmod]
  · simp only [isis_lsp_self_update_lsp, hmod]; omega
  · simp only [isis_lsp_self_update_lsp, isis_self_pdu, hmod]
  · intro c
    have : (pdu.seq + 1) % 2 ^ 32 = pdu.seq := by
      have := congrArg isis_pdu_t.seq c
      simpa only [isis_lsp_self_update_lsp, isis_self_pdu] using this
    omega

/-- The bump of the self-LSP at `ex_self_instance`: stored sequence number 5,
received sequence number 77. -/
theorem isis_lsp_handler_rx_self_newer_witness :
    ∃ lsp', dict_search lsp_key (isis_self_lsp_id ex_self_instance.config)
        ((isis_lsp_handler_rx auth_ok ⟨100, 0⟩ ex_self_instance 1 0
          (ex_rx_pdu 65536 77 1200)).level 1).lsdb = some lsp' ∧
      lsp'.source.type = ISIS_SOURCE_SELF ∧ lsp'.seq = (ex_rx_pdu 65536 77 1200).seq + 1 ∧
      (ex_rx_pdu 65536 77 1200).seq < lsp'.seq ∧
      lsp'.pdu.seq = (ex_rx_pdu 65536 77 1200).seq + 1 ∧ lsp'.pdu ≠ ex_rx_pdu 65536 77 1200 :=
  isis_lsp_handler_rx_self_newer auth_ok ⟨100, 0⟩ ex_self_instance 1 0 (ex_rx_pdu 65536 77 1200)
    (ex_adjacency 9 1 [⟨65536, true, 1, ⟨0, 0⟩⟩] []) (ex_lsp 65536 5 ⟨ISIS_SOURCE_SELF, none⟩ 1)
    (by decide) (by decide) rfl (by decide) (by decide) (by decide) (by decide) (by decide)

/-- C4 fails on the code.  The self-LSP of `ex_self_instance` is stored with
source Self and sequence number 5.  On the receipt of an authenticated copy
with the sequence number `r = 2^32 - 1`, `isis_lsp_handler_rx` stores `r` and
`isis_lsp_self_update` increments it in 32 bits: afterwards the stored
self-LSP has source Self and the sequence number 0, which is not greater than
`r`. -/
theorem isis_lsp_handler_rx_self_max_seq :
    (ex_self_instance.level 1).lsdb.map (fun l => (l.id, l.source.type, l.seq)) =
        [(isis_self_lsp_id ex_self_instance.config, ISIS_SOURCE_SELF, 5)] ∧
      ((isis_lsp_handler_rx auth_ok ⟨100, 0⟩ ex_self_instance 1 0
          (ex_rx_pdu 65536 (2 ^ 32 - 1) 1200)).level 1).lsdb.map
        (fun l => (l.id, l.source.type, l.seq)) =
        [(isis_self_lsp_id ex_self_instance.config, ISIS_SOURCE_SELF, 0)] ∧
      ¬ ((ex_rx_pdu 65536 (2 ^ 32 - 1) 1200).seq < 0) := by
  decide

/-! ## Acknowledgement lemmas -/

theorem modify_congr_at {α : Type} (f g : α → α) (l : List α) (a : Nat) (x : α)
    (h : l[a]? = some x) (hfg : f x = g x) : l.modify f a = l.modify g a := by
  apply List.ext_getElem?
  intro j
  rw [List.getElem?_modify, List.getElem?_modify]
  by_cases hj : a = j
  · subst hj; simp [h, hfg]
  · simp [hj]

theorem adjacency_get_update_adjacency (inst : isis_instance_t) (l l' a j : Nat)
    (f : isis_adjacency_t → isis_adjacency_t) :
    ((inst.update_adjacency l a f).level l').adjacency[j]? =
      if same_level l l' ∧ j = a then ((inst.level l').adjacency[j]?).map f
      else (inst.level l').adjacency[j]? := by
  by_cases h : same_level l l'
  · rw [adjacency_update_adjacency_eq _ _ _ _ _ h, List.getElem?_modify]
    by_cases hj : j = a
    · rw [if_pos ⟨h, hj⟩, hj]; simp
    · rw [if_neg (fun c => hj c.2)]
      simp [Ne.symm hj]
  · rw [adjacency_update_adjacency_ne _ _ _ _ _ h, if_neg (fun c => h c.1)]

theorem isis_lsp_handler_rx_ack_inserted (inst : isis_instance_t) (level a id : Nat)
    (adj : isis_adjacency_t) (ha : (inst.level level).adjacency[a]? = some adj)
    (hn : dict_search psnp_key id adj.psnp_tree = none) :
    isis_lsp_handler_rx_ack inst level a id =
      (inst.update_adjacency level a (psnp_inserted id)).update_lsp level id
        (fun lsp => { lsp with refcount := lsp.refcount + 1 }) := by
  unfold isis_lsp_handler_rx_ack
  simp only [ha, hb_tree_insert_absent psnp_key id adj.psnp_tree hn, if_true]
  congr 1
  unfold isis_instance_t.update_adjacency
  congr 1
  exact modify_congr_at _ _ _ a adj ha rfl

theorem isis_lsp_handler_rx_ack_present (inst : isis_instance_t) (level a id : Nat)
    (adj : isis_adjacency_t) (ha : (inst.level level).adjacency[a]? = some adj)
    (hn : dict_search psnp_key id adj.psnp_tree ≠ none) :
    isis_lsp_handler_rx_ack inst level a id = inst := by
  unfold isis_lsp_handler_rx_ack
  cases hs : dict_search psnp_key id adj.psnp_tree with
  | none => exact absurd hs hn
  | some y =>
    simp only [ha, hb_tree_insert_present psnp_key id y adj.psnp_tree hs]
    simp

theorem isis_lsp_handler_rx_ack_adjacency (inst : isis_instance_t) (level a id : Nat)
    (adj : isis_adjacency_t) (ha : (inst.level level).adjacency[a]? = some adj) (l' j : Nat) :
    ((isis_lsp_handler_rx_ack inst level a id).level l').adjacency[j]? =
      if same_level level l' ∧ j = a then some (psnp_acked id adj)
      else (inst.level l').adjacency[j]? := by
  by_cases hn : dict_search psnp_key id adj.psnp_tree = none
  · rw [isis_lsp_handler_rx_ack_inserted inst level a id adj ha hn, adjacency_update_lsp,
      adjacency_get_update_adjacency]
    split_ifs with h
    · obtain ⟨h1, h2⟩ := h
      rw [h2, ← level_congr inst level l' h1, ha]
      simp [psnp_acked, hn]
    · rfl
  · rw [isis_lsp_handler_rx_ack_present inst level a id adj ha hn]
    split_ifs with h
    · obtain ⟨h1, h2⟩ := h
      rw [h2, ← level_congr inst level l' h1, ha]
      simp [psnp_acked, hn]
    · rfl

theorem isis_lsp_handler_rx_ack_lsdb (inst : isis_instance_t) (level a id : Nat)
    (adj : isis_adjacency_t) (ha : (inst.level level).adjacency[a]? = some adj) (l' k : Nat) :
    dict_search lsp_key k ((isis_lsp_handler_rx_ack inst level a id).level l').lsdb =
      if same_level level l' ∧ k = id then
        (dict_search lsp_key k (inst.level l').lsdb).map (fun lsp =>
          { lsp with refcount :=
              if dict_search psnp_key id adj.psnp_tree = none then lsp.refcount + 1
              else lsp.refcount })
      else dict_search lsp_key k (inst.level l').lsdb := by
  by_cases hn : dict_search psnp_key id adj.psnp_tree = none
  · rw [isis_lsp_handler_rx_ack_inserted inst level a id adj ha hn,
      lsdb_search_update_lsp _ _ _ _ _ (fun lsp => { lsp with refcount := lsp.refcount + 1 })
        (fun x hx => hx), lsdb_update_adjacency]
    simp only [hn, if_true]
  · rw [isis_lsp_handler_rx_ack_present inst level a id adj ha hn]
    simp only [hn, if_false]
    split_ifs
    · cases dict_search lsp_key k (inst.level l').lsdb <;> rfl
    · rfl

theorem isis_lsp_handler_rx_ack_config (inst : isis_instance_t) (level a id : Nat) :
    (isis_lsp_handler_rx_ack inst level a id).config = inst.config ∧
      (isis_lsp_handler_rx_ack inst level a id).teardown = inst.teardown := by
  unfold isis_lsp_handler_rx_ack
  split
  · exact ⟨rfl, rfl⟩
  · simp only []
    split_ifs
    · exact ⟨(config_update_lsp _ _ _ _).1.trans (config_update_adjacency _ _ _ _).1,
        (config_update_lsp _ _ _ _).2.trans (config_update_adjacency _ _ _ _).2⟩
    · exact ⟨rfl, rfl⟩

/-! ## Receipt of an LSP that is only acknowledged -/

theorem isis_lsp_handler_rx_auth_failed
    (validate_auth : isis_pdu_t → Nat → Option String → Bool) (now : timespec)
    (inst : isis_instance_t) (level a : Nat) (pdu : isis_pdu_t) (adj : isis_adjacency_t)
    (ha : (inst.level level).adjacency[a]? = some adj)
    (hauth : validate_auth pdu (isis_lsp_handler_rx_auth inst.config level).1
      (isis_lsp_handler_rx_auth inst.config level).2 = false) :
    isis_lsp_handler_rx validate_auth now inst level a pdu =
      inst.update_adjacency level a lsp_rx_counted := by
  unfold isis_lsp_handler_rx
  simp only [ha, hauth, Bool.false_eq_true, not_false_eq_true, if_true]
  rfl

theorem isis_lsp_handler_rx_ack_only
    (validate_auth : isis_pdu_t → Nat → Option String → Bool) (now : timespec)
    (inst : isis_instance_t) (level a : Nat) (pdu : isis_pdu_t) (adj : isis_adjacency_t)
    (lsp : isis_lsp_t)
    (ha : (inst.level level).adjacency[a]? = some adj)
    (hauth : validate_auth pdu (isis_lsp_handler_rx_auth inst.config level).1
      (isis_lsp_handler_rx_auth inst.config level).2 = true)
    (hl : dict_search lsp_key (pdu.lsp_id % 2 ^ 64) (inst.level level).lsdb = some lsp)
    (h : pdu.seq % 2 ^ 32 ≤ lsp.seq ∨ lsp.source.type = ISIS_SOURCE_EXTERNAL) :
    isis_lsp_handler_rx validate_auth now inst level a pdu =
      isis_lsp_handler_rx_ack (inst.update_adjacency level a lsp_rx_counted) level a
        (pdu.lsp_id % 2 ^ 64) := by
  unfold isis_lsp_handler_rx
  simp only [ha, hauth, not_true_eq_false, if_false, lsdb_update_adjacency, hl]
  by_cases h1 : lsp.seq ≥ pdu.seq % 2 ^ 32
  · rw [if_pos h1]; rfl
  · rw [if_neg h1]
    have h2 : lsp.source.type = ISIS_SOURCE_EXTERNAL := h.resolve_left (fun c => h1 c)
    rw [if_pos h2]; rfl

/-- The state after a received LSP was only acknowledged. -/
theorem isis_lsp_handler_rx_ack_only_state
    (validate_auth : isis_pdu_t → Nat → Option String → Bool) (now : timespec)
    (inst : isis_instance_t) (level a : Nat) (pdu : isis_pdu_t) (adj : isis_adjacency_t)
    (lsp : isis_lsp_t)
    (ha : (inst.level level).adjacency[a]? = some adj)
    (hauth : validate_auth pdu (isis_lsp_handler_rx_auth inst.config level).1
      (isis_lsp_handler_rx_auth inst.config level).2 = true)
    (hl : dict_search lsp_key (pdu.lsp_id % 2 ^ 64) (inst.level level).lsdb = some lsp)
    (h : pdu.seq % 2 ^ 32 ≤ lsp.seq ∨ lsp.source.type = ISIS_SOURCE_EXTERNAL) :
    dict_search lsp_key (pdu.lsp_id % 2 ^ 64)
        ((isis_lsp_handler_rx validate_auth now inst level a pdu).level level).lsdb =
      some { lsp with refcount :=
        if dict_search psnp_key (pdu.lsp_id % 2 ^ 64) adj.psnp_tree = none then lsp.refcount + 1
        else lsp.refcount } ∧
    (∀ l' k, ¬ (same_level level l' ∧ k = pdu.lsp_id % 2 ^ 64) →
      dict_search lsp_key k
          ((isis_lsp_handler_rx validate_auth now inst level a pdu).level l').lsdb =
        dict_search lsp_key k (inst.level l').lsdb) ∧
    ((isis_lsp_handler_rx validate_auth now inst level a pdu).level level).adjacency[a]? =
      some (psnp_acked (pdu.lsp_id % 2 ^ 64) (lsp_rx_counted adj)) ∧
    (∀ l' j, ¬ (same_level level l' ∧ j = a) →
      ((isis_lsp_handler_rx validate_auth now inst level a pdu).level l').adjacency[j]? =
        (inst.level l').adjacency[j]?) ∧
    (isis_lsp_handler_rx validate_auth now inst level a pdu).config = inst.config ∧
    (isis_lsp_handler_rx validate_auth now inst level a pdu).teardown = inst.teardown := by
  rw [isis_lsp_handler_rx_ack_only validate_auth now inst level a pdu adj lsp ha hauth hl h]
  have ha1 : ((inst.update_adjacency level a lsp_rx_counted).level level).adjacency[a]? =
      some (lsp_rx_counted adj) := by
    rw [adjacency_get_update_adjacency, if_pos ⟨Iff.rfl, rfl⟩, ha]; rfl
  have hp : (lsp_rx_counted adj).psnp_tree = adj.psnp_tree := rfl
  refine ⟨?_, ?_, ?_, ?_, ?_, ?_⟩
  · rw [isis_lsp_handler_rx_ack_lsdb _ _ _ _ _ ha1, if_pos ⟨Iff.rfl, rfl⟩,
      lsdb_update_adjacency, hl, hp]
    rfl
  · intro l' k hk
    rw [isis_lsp_handler_rx_ack_lsdb _ _ _ _ _ ha1, if_neg hk, lsdb_update_adjacency]
  · rw [isis_lsp_handler_rx_ack_adjacency _ _ _ _ _ ha1, if_pos ⟨Iff.rfl, rfl⟩]
  · intro l' j hj
    rw [isis_lsp_handler_rx_ack_adjacency _ _ _ _ _ ha1, if_neg hj,
      adjacency_get_update_adjacency, if_neg hj]
  · exact (isis_lsp_handler_rx_ack_config _ _ _ _).1.trans (config_update_adjacency _ _ _ _).1
  · exact (isis_lsp_handler_rx_ack_config _ _ _ _).2.trans (config_update_adjacency _ _ _ _).2

theorem psnp_acked_search (id : Nat) (adj : isis_adjacency_t) :
    dict_search psnp_key id (psnp_acked id adj).psnp_tree = some id := by
  unfold psnp_acked
  cases hs : dict_search psnp_key id adj.psnp_tree with
  | none =>
    rw [if_pos rfl]
    exact dict_search_place_self psnp_key id adj.psnp_tree hs
  | some y =>
    rw [if_neg (by simp), hs]
    have := dict_search_key psnp_key id y _ hs
    simp only [psnp_key, id_eq] at this
    rw [this]

theorem psnp_acked_flood_tree (id : Nat) (adj : isis_adjacency_t) :
    (psnp_acked id adj).flood_tree = adj.flood_tree ∧
      (psnp_acked id adj).stats_lsp_rx = adj.stats_lsp_rx := by
  unfold psnp_acked psnp_inserted
  split_ifs <;> exact ⟨rfl, rfl⟩

/-! ## C5: an external LSP is never overwritten -/

/-- C5. For every received LSP whose id matches an LSDB entry with source
External, whatever the received sequence number and whether or not the
authentication is valid, `isis_lsp_handler_rx` leaves the stored entry
unchanged in every field but the reference count (sequence number, source,
lifetime, expired flag, PDU), leaves every other LSP and every flood tree
unchanged, and changes the receiving adjacency only in `stats.lsp_rx`, which
is incremented, and, when the authentication is valid, in the PSNP tree
(with its timer), which holds the LSP afterwards; every other adjacency is
unchanged. -/
theorem isis_lsp_handler_rx_external
    (validate_auth : isis_pdu_t → Nat → Option String → Bool) (now : timespec)
    (inst : isis_instance_t) (level a : Nat) (pdu : isis_pdu_t) (adj : isis_adjacency_t)
    (lsp : isis_lsp_t)
    (ha : (inst.level level).adjacency[a]? = some adj)
    (hid : pdu.lsp_id < 2 ^ 64)
    (hl : dict_search lsp_key pdu.lsp_id (inst.level level).lsdb = some lsp)
    (hext : lsp.source.type = ISIS_SOURCE_EXTERNAL) :
    (∃ n, dict_search lsp_key pdu.lsp_id
        ((isis_lsp_handler_rx validate_auth now inst level a pdu).level level).lsdb =
      some { lsp with refcount := n }) ∧
    (∀ l' k, ¬ (same_level level l' ∧ k = pdu.lsp_id) →
      dict_search lsp_key k
          ((isis_lsp_handler_rx validate_auth now inst level a pdu).level l').lsdb =
        dict_search lsp_key k (inst.level l').lsdb) ∧
    (∃ adj', ((isis_lsp_handler_rx validate_auth now inst level a pdu).level level).adjacency[a]?
        = some adj' ∧
      adj'.flood_tree = adj.flood_tree ∧ adj'.stats_lsp_rx = adj.stats_lsp_rx + 1 ∧
      (adj' = lsp_rx_counted adj ∨ adj' = psnp_inserted pdu.lsp_id (lsp_rx_counted adj)) ∧
      (validate_auth pdu (isis_lsp_handler_rx_auth inst.config level).1
          (isis_lsp_handler_rx_auth inst.config level).2 = true →
        dict_search psnp_key pdu.lsp_id adj'.psnp_tree = some pdu.lsp_id)) ∧
    (∀ l' j, ¬ (same_level level l' ∧ j = a) →
      ((isis_lsp_handler_rx validate_auth now inst level a pdu).level l').adjacency[j]? =
        (inst.level l').adjacency[j]?) ∧
    (isis_lsp_handler_rx validate_auth now inst level a pdu).config = inst.config ∧
    (isis_lsp_handler_rx validate_auth now inst level a pdu).teardown = inst.teardown := by
  have hmod : pdu.lsp_id % 2 ^ 64 = pdu.lsp_id := Nat.mod_eq_of_lt hid
  cases hauth : validate_auth pdu (isis_lsp_handler_rx_auth inst.config level).1
      (isis_lsp_handler_rx_auth inst.config level).2 with
  | false =>
    rw [isis_lsp_handler_rx_auth_failed validate_auth now inst level a pdu adj ha hauth]
    refine ⟨⟨lsp.refcount, ?_⟩, ?_, ⟨lsp_rx_counted adj, ?_, rfl, rfl, Or.inl rfl, ?_⟩, ?_,
      (config_update_adjacency _ _ _ _).1, (config_update_adjacency _ _ _ _).2⟩
    · rw [lsdb_update_adjacency, hl]
    · intro l' k _; rw [lsdb_update_adjacency]
    · rw [adjacency_get_update_adjacency, if_pos ⟨Iff.rfl, rfl⟩, ha]; rfl
    · intro c; exact absurd c (by simp)
    · intro l' j hj; rw [adjacency_get_update_adjacency, if_neg hj]
  | true =>
    obtain ⟨h1, h2, h3, h4, h5, h6⟩ := isis_lsp_handler_rx_ack_only_state validate_auth now inst
      level a pdu adj lsp ha hauth (by rw [hmod]; exact hl) (Or.inr hext)
    rw [hmod] at h1 h2 h3
    refine ⟨⟨_, h1⟩, h2, ⟨_, h3, ?_, ?_, ?_, fun _ => psnp_acked_search _ _⟩, h4, h5, h6⟩
    · exact (psnp_acked_flood_tree _ _).1
    · rw [(psnp_acked_flood_tree _ _).2]; rfl
    · unfold psnp_acked
      split_ifs
      · exact Or.inr rfl
      · exact Or.inl rfl

/-! ## C7: a received LSP that is not newer is only acknowledged -/

/-- C7. When `isis_lsp_handler_rx` receives an authenticated LSP whose id is
in the LSDB with stored sequence number >= the received one, the stored
record is unchanged in every field (sequence number, source, lifetime,
expired flag, PDU) except the reference count, which is incremented exactly
when the LSP was not yet in the PSNP tree of the receiving adjacency; every
other LSP and every flood tree is unchanged; the receiving adjacency has
`stats.lsp_rx + 1` and holds the LSP in its PSNP tree (the PSNP timer being
started with the insertion), and every other adjacency is unchanged. -/
theorem isis_lsp_handler_rx_not_newer
    (validate_auth : isis_pdu_t → Nat → Option String → Bool) (now : timespec)
    (inst : isis_instance_t) (level a : Nat) (pdu : isis_pdu_t) (adj : isis_adjacency_t)
    (lsp : isis_lsp_t)
    (ha : (inst.level level).adjacency[a]? = some adj)
    (hauth : validate_auth pdu (isis_lsp_handler_rx_auth inst.config level).1
      (isis_lsp_handler_rx_auth inst.config level).2 = true)
    (hid : pdu.lsp_id < 2 ^ 64) (hs : pdu.seq < 2 ^ 32)
    (hl : dict_search lsp_key pdu.lsp_id (inst.level level).lsdb = some lsp)
    (hseq : pdu.seq ≤ lsp.seq) :
    dict_search lsp_key pdu.lsp_id
        ((isis_lsp_handler_rx validate_auth now inst level a pdu).level level).lsdb =
      some { lsp with refcount :=
        if dict_search psnp_key pdu.lsp_id adj.psnp_tree = none then lsp.refcount + 1
        else lsp.refcount } ∧
    (∀ l' k, ¬ (same_level level l' ∧ k = pdu.lsp_id) →
      dict_search lsp_key k
          ((isis_lsp_handler_rx validate_auth now inst level a pdu).level l').lsdb =
        dict_search lsp_key k (inst.level l').lsdb) ∧
    (∃ adj', ((isis_lsp_handler_rx validate_auth now inst level a pdu).level level).adjacency[a]?
        = some adj' ∧
      adj' = psnp_acked pdu.lsp_id (lsp_rx_counted adj) ∧
      adj'.flood_tree = adj.flood_tree ∧ adj'.stats_lsp_rx = adj.stats_lsp_rx + 1 ∧
      dict_search psnp_key pdu.lsp_id adj'.psnp_tree = some pdu.lsp_id) ∧
    (∀ l' j, ¬ (same_level level l' ∧ j = a) →
      ((isis_lsp_handler_rx validate_auth now inst level a pdu).level l').adjacency[j]? =
        (inst.level l').adjacency[j]?) ∧
    (isis_lsp_handler_rx validate_auth now inst level a pdu).config = inst.config ∧
    (isis_lsp_handler_rx validate_auth now inst level a pdu).teardown = inst.teardown := by
  have hmod : pdu.lsp_id % 2 ^ 64 = pdu.lsp_id := Nat.mod_eq_of_lt hid
  have hmods : pdu.seq % 2 ^ 32 = pdu.seq := Nat.mod_eq_of_lt hs
  obtain ⟨h1, h2, h3, h4, h5, h6⟩ := isis_lsp_handler_rx_ack_only_state validate_auth now inst
    level a pdu adj lsp ha hauth (by rw [hmod]; exact hl) (Or.inl (by rw [hmods]; exact hseq))
  rw [hmod] at h1 h2 h3
  refine ⟨h1, h2, ⟨_, h3, rfl, ?_, ?_, psnp_acked_search _ _⟩, h4, h5, h6⟩
  · exact (psnp_acked_flood_tree _ _).1
  · rw [(psnp_acked_flood_tree _ _).2]; rfl

/-- C5 at `ex_rx_instance`: a copy of the external LSP 7 with the higher
sequence number 9 leaves the stored record as it is. -/
theorem isis_lsp_handler_rx_external_witness :
    ∃ n, dict_search lsp_key (ex_rx_pdu 7 9 1200).lsp_id
        ((isis_lsp_handler_rx auth_ok ⟨100, 0⟩ ex_rx_instance 1 0
          (ex_rx_pdu 7 9 1200)).level 1).lsdb =
      some { ex_lsp 7 3 ⟨ISIS_SOURCE_EXTERNAL, none⟩ 0 with refcount := n } :=
  (isis_lsp_handler_rx_external auth_ok ⟨100, 0⟩ ex_rx_instance 1 0 (ex_rx_pdu 7 9 1200)
    (ex_adjacency 9 1 [] []) (ex_lsp 7 3 ⟨ISIS_SOURCE_EXTERNAL, none⟩ 0)
    (by decide) (by decide) (by decide) (by decide)).1

/-- C7 at `ex_rx_instance`: a copy of LSP 8 with the equal sequence number 4
raises the reference count by one and nothing else in the record. -/
theorem isis_lsp_handler_rx_not_newer_witness :
    dict_search lsp_key (ex_rx_pdu 8 4 1200).lsp_id
        ((isis_lsp_handler_rx auth_ok ⟨100, 0⟩ ex_rx_instance 1 0
          (ex_rx_pdu 8 4 1200)).level 1).lsdb =
      some { ex_lsp 8 4 ⟨ISIS_SOURCE_ADJACENCY, some 1⟩ 0 with refcount := 1 } :=
  (isis_lsp_handler_rx_not_newer auth_ok ⟨100, 0⟩ ex_rx_instance 1 0 (ex_rx_pdu 8 4 1200)
    (ex_adjacency 9 1 [] []) (ex_lsp 8 4 ⟨ISIS_SOURCE_ADJACENCY, some 1⟩ 0)
    (by decide) rfl (by decide) (by decide) (by decide) (by decide)).1

/-! ## Keys of the LSDB -/

theorem dict_update_keys {α : Type} (key : α → Nat) (k : Nat) (f : α → α)
    (hf : ∀ x, key x = k → key (f x) = k) (t : List α) :
    (dict_update key k f t).map key = t.map key := by
  induction t with
  | nil => rfl
  | cons x xs ih =>
    by_cases h : key x = k
    · simp [dict_update, h, hf x h]
    · simp [dict_update, h, ih]

theorem dict_place_keys_count {α : Type} (key : α → Nat) (x : α) (k : Nat) (t : List α) :
    ((dict_place key x t).map key).count k =
      (t.map key).count k + (if key x = k then 1 else 0) := by
  induction t with
  | nil => simp [dict_place, List.count_cons]
  | cons y ys ih =>
    by_cases h1 : key x < key y
    · simp only [dict_place, h1, if_true, List.map_cons, List.count_cons, beq_iff_eq]
    · simp only [dict_place, h1, if_false, List.map_cons, List.count_cons, ih]
      omega

theorem dict_search_none_not_mem {α : Type} (key : α → Nat) (k : Nat) (t : List α)
    (h : dict_search key k t = none) : k ∉ t.map key := by
  induction t with
  | nil => simp
  | cons y ys ih =>
    by_cases hy : key y = k
    · simp [dict_search, hy] at h
    · simp only [dict_search, hy, if_false] at h
      simp only [List.map_cons, List.mem_cons, not_or]
      exact ⟨fun c => hy c.symm, ih h⟩

theorem dict_search_some_mem {α : Type} (key : α → Nat) (k : Nat) (x : α) (t : List α)
    (h : dict_search key k t = some x) : k ∈ t.map key := by
  induction t with
  | nil => simp [dict_search] at h
  | cons y ys ih =>
    by_cases hy : key y = k
    · simp [hy]
    · simp only [dict_search, hy, if_false] at h
      simp only [List.map_cons, List.mem_cons]
      exact Or.inr (ih h)

theorem lsdb_keys_update_lsp (inst : isis_instance_t) (l l' id : Nat)
    (f : isis_lsp_t → isis_lsp_t) (hf : ∀ x : isis_lsp_t, x.id = id → (f x).id = id) :
    ((inst.update_lsp l id f).level l').lsdb.map lsp_key = (inst.level l').lsdb.map lsp_key := by
  by_cases h : same_level l l'
  · rw [lsdb_update_lsp_eq _ _ _ _ _ h]
    exact dict_update_keys lsp_key id f hf _
  · rw [lsdb_update_lsp_ne _ _ _ _ _ h]

theorem lsdb_keys_flood (inst : isis_instance_t) (lsdb_level id l' : Nat) :
    ((isis_lsp_flood inst lsdb_level id).level l').lsdb.map lsp_key =
      (inst.level l').lsdb.map lsp_key := by
  cases hl : dict_search lsp_key id (inst.level lsdb_level).lsdb with
  | none =>
    have : isis_lsp_flood inst lsdb_level id = inst := by unfold isis_lsp_flood; rw [hl]
    rw [this]
  | some lsp =>
    rw [isis_lsp_flood_found inst lsdb_level id lsp hl]
    generalize isis_lsp_source_peer lsp (inst.level lsp.level).adjacency = sp
    have hlsp := flood_loop_lsp sp (inst.level lsp.level).adjacency 0 lsp
    generalize isis_lsp_flood_loop sp 0 (inst.level lsp.level).adjacency lsp = r at hlsp
    have hid : lsp.id = id := dict_search_key lsp_key id lsp _ hl
    rw [lsdb_keys_update_lsp _ _ _ _ _ (by intro x _; rw [hlsp]; exact hid), lsdb_set_adjacency]

theorem lsdb_keys_ack (inst : isis_instance_t) (level a id l' : Nat) :
    ((isis_lsp_handler_rx_ack inst level a id).level l').lsdb.map lsp_key =
      (inst.level l').lsdb.map lsp_key := by
  unfold isis_lsp_handler_rx_ack
  split
  · rfl
  · simp only []
    split_ifs
    · rw [lsdb_keys_update_lsp _ _ _ _ (fun lsp => { lsp with refcount := lsp.refcount + 1 })
        (fun x hx => hx), lsdb_update_adjacency]
    · rfl

/-! ## Receipt of an LSP that is stored and flooded -/

theorem isis_lsp_handler_rx_store_eq (now : timespec) (inst : isis_instance_t) (level a : Nat)
    (pdu : isis_pdu_t) (lsp_id seq : Nat) :
    isis_lsp_handler_rx_store now inst level a pdu lsp_id seq =
      isis_lsp_flood (inst.update_lsp level lsp_id (lsp_stored now level a pdu seq))
        level lsp_id := rfl

theorem isis_lsp_handler_rx_stored_state (now : timespec) (inst : isis_instance_t)
    (level a : Nat) (pdu : isis_pdu_t) (id seq : Nat) (adj : isis_adjacency_t) (x : isis_lsp_t)
    (ha : (inst.level level).adjacency[a]? = some adj)
    (hl : dict_search lsp_key id (inst.level level).lsdb = some x) :
    (∃ n, dict_search lsp_key id
        ((isis_lsp_handler_rx_ack (isis_lsp_handler_rx_store now inst level a pdu id seq)
          level a id).level level).lsdb =
      some { lsp_stored now level a pdu seq x with refcount := n }) ∧
    ((isis_lsp_handler_rx_ack (isis_lsp_handler_rx_store now inst level a pdu id seq)
        level a id).level level).lsdb.map lsp_key = (inst.level level).lsdb.map lsp_key ∧
    (∀ (j : Nat) (adjj : isis_adjacency_t), (inst.level level).adjacency[j]? = some adjj →
      j ≠ a → adjj.state = ISIS_ADJACENCY_STATE_UP →
      adjj.peer_system_id ≠ adj.peer_system_id →
      ∃ (adj' : isis_adjacency_t) (e : isis_flood_entry_t),
        ((isis_lsp_handler_rx_ack (isis_lsp_handler_rx_store now inst level a pdu id seq)
          level a id).level level).adjacency[j]? = some adj' ∧
        dict_search flood_key id adj'.flood_tree = some e ∧ e.wait_ack = false) ∧
    ((isis_lsp_handler_rx_ack (isis_lsp_handler_rx_store now inst level a pdu id seq)
        level a id).level level).adjacency[a]? = some (psnp_acked id adj) := by
  rw [isis_lsp_handler_rx_store_eq]
  have hxid : x.id = id := dict_search_key lsp_key id x _ hl
  have hs3 : dict_search lsp_key id
      ((inst.update_lsp level id (lsp_stored now level a pdu seq)).level
        (lsp_stored now level a pdu seq x).level).lsdb =
      some (lsp_stored now level a pdu seq x) := by
    show dict_search lsp_key id
      ((inst.update_lsp level id (lsp_stored now level a pdu seq)).level level).lsdb = _
    rw [lsdb_search_update_lsp _ _ _ _ _ (lsp_stored now level a pdu seq) (fun y hy => hy),
      if_pos ⟨Iff.rfl, rfl⟩, hl]
    rfl
  have hadj3 : ((inst.update_lsp level id (lsp_stored now level a pdu seq)).level
      (lsp_stored now level a pdu seq x).level).adjacency = (inst.level level).adjacency :=
    adjacency_update_lsp inst level level id _
  have hsp : isis_lsp_source_peer (lsp_stored now level a pdu seq x)
      (inst.level level).adjacency = some adj.peer_system_id := by
    unfold isis_lsp_source_peer
    show ((inst.level level).adjacency[a]?).map isis_adjacency_t.peer_system_id = _
    rw [ha]; rfl
  have hget : ∀ j, ((isis_lsp_flood (inst.update_lsp level id (lsp_stored now level a pdu seq))
      level id).level level).adjacency[j]? =
      ((inst.level level).adjacency[j]?).map (fun adjj =>
        if isis_lsp_flood_skips (lsp_stored now level a pdu seq x)
          (some adj.peer_system_id) j adjj then adjj
        else (isis_lsp_flood_adjacency (lsp_stored now level a pdu seq x) adjj).2) := by
    intro j
    have := isis_lsp_flood_adjacency_get _ level id _ hs3 j
    rw [hadj3, hsp] at this
    exact this
  have ha4 : ((isis_lsp_flood (inst.update_lsp level id (lsp_stored now level a pdu seq))
      level id).level level).adjacency[a]? = some adj := by
    rw [hget a, ha]
    have hk : isis_lsp_flood_skips (lsp_stored now level a pdu seq x)
        (some adj.peer_system_id) a adj := Or.inr ⟨rfl, Or.inl rfl⟩
    simp only [Option.map_some', if_pos hk]
  refine ⟨?_, ?_, ?_, ?_⟩
  · obtain ⟨n2, h2⟩ := isis_lsp_flood_lsdb_search
      (inst.update_lsp level id (lsp_stored now level a pdu seq)) level id level id
    rw [isis_lsp_handler_rx_ack_lsdb _ _ _ _ _ ha4, if_pos ⟨Iff.rfl, rfl⟩, h2]
    have hs3' : dict_search lsp_key id
        ((inst.update_lsp level id (lsp_stored now level a pdu seq)).level level).lsdb =
        some (lsp_stored now level a pdu seq x) := hs3
    rw [hs3']
    exact ⟨_, rfl⟩
  · rw [lsdb_keys_ack, lsdb_keys_flood,
      lsdb_keys_update_lsp _ _ _ _ (lsp_stored now level a pdu seq) (fun y hy => hy)]
  · intro j adjj hj hja hup hpeer
    rw [isis_lsp_handler_rx_ack_adjacency _ _ _ _ _ ha4, if_neg (fun c => hja c.2), hget j, hj]
    have hk : ¬ isis_lsp_flood_skips (lsp_stored now level a pdu seq x)
        (some adj.peer_system_id) j adjj := by
      rintro (h | ⟨_, h | h⟩)
      · exact h hup
      · exact hja (Option.some.inj h).symm
      · exact hpeer (Option.some.inj h).symm
    simp only [Option.map_some', if_neg hk]
    obtain ⟨e, he, hw, _⟩ := flood_adjacency_search (lsp_stored now level a pdu seq x) adjj
    have hsid : (lsp_stored now level a pdu seq x).id = id := hxid
    rw [hsid] at he
    exact ⟨_, e, rfl, he, hw⟩
  · rw [isis_lsp_handler_rx_ack_adjacency _ _ _ _ _ ha4, if_pos ⟨Iff.rfl, rfl⟩]

theorem isis_lsp_handler_rx_store_known
    (validate_auth : isis_pdu_t → Nat → Option String → Bool) (now : timespec)
    (inst : isis_instance_t) (level a : Nat) (pdu : isis_pdu_t) (adj : isis_adjacency_t)
    (lsp : isis_lsp_t)
    (ha : (inst.level level).adjacency[a]? = some adj)
    (hauth : validate_auth pdu (isis_lsp_handler_rx_auth inst.config level).1
      (isis_lsp_handler_rx_auth inst.config level).2 = true)
    (hl : dict_search lsp_key (pdu.lsp_id % 2 ^ 64) (inst.level level).lsdb = some lsp)
    (hsrc : lsp.source.type = ISIS_SOURCE_ADJACENCY) (hseq : lsp.seq < pdu.seq % 2 ^ 32) :
    isis_lsp_handler_rx validate_auth now inst level a pdu =
      isis_lsp_handler_rx_ack
        (isis_lsp_handler_rx_store now (inst.update_adjacency level a lsp_rx_counted) level a pdu
          (pdu.lsp_id % 2 ^ 64) (pdu.seq % 2 ^ 32))
        level a (pdu.lsp_id % 2 ^ 64) := by
  unfold isis_lsp_handler_rx
  simp only [ha, hauth, not_true_eq_false, if_false, lsdb_update_adjacency, hl, hsrc]
  rw [if_neg (by omega), if_neg (by decide), if_neg (by decide)]
  rfl

theorem isis_lsp_handler_rx_store_unknown
    (validate_auth : isis_pdu_t → Nat → Option String → Bool) (now : timespec)
    (inst : isis_instance_t) (level a : Nat) (pdu : isis_pdu_t) (adj : isis_adjacency_t)
    (ha : (inst.level level).adjacency[a]? = some adj)
    (hauth : validate_auth pdu (isis_lsp_handler_rx_auth inst.config level).1
      (isis_lsp_handler_rx_auth inst.config level).2 = true)
    (hl : dict_search lsp_key (pdu.lsp_id % 2 ^ 64) (inst.level level).lsdb = none) :
    isis_lsp_handler_rx validate_auth now inst level a pdu =
      isis_lsp_handler_rx_ack
        (isis_lsp_handler_rx_store now
          ((inst.update_adjacency level a lsp_rx_counted).set_lsdb level
            (dict_place lsp_key (isis_lsp_new (pdu.lsp_id % 2 ^ 64) level)
              (inst.level level).lsdb))
          level a pdu (pdu.lsp_id % 2 ^ 64) (pdu.seq % 2 ^ 32))
        level a (pdu.lsp_id % 2 ^ 64) := by
  unfold isis_lsp_handler_rx
  have hins := hb_tree_insert_absent lsp_key (isis_lsp_new (pdu.lsp_id % 2 ^ 64) level)
    (inst.level level).lsdb hl
  simp only [ha, hauth, not_true_eq_false, if_false, lsdb_update_adjacency, hl, hins, if_true]
  rfl

theorem dict_wf_count_one {α : Type} (key : α → Nat) (k : Nat) (x : α) (t : List α)
    (hwf : dict_wf key t) (h : dict_search key k t = some x) : (t.map key).count k = 1 :=
  List.count_eq_one_of_mem hwf (dict_search_some_mem key k x t h)

/-! ## C6: a new or newer LSP is stored, flooded and acknowledged -/

/-- C6. When `isis_lsp_handler_rx` receives an authenticated LSP (with a
64-bit id, 32-bit sequence number and 16-bit remaining lifetime) whose id is
unknown to the LSDB of the level, or is known with source Adjacency and a
stored sequence number smaller than the received one, then afterwards the
LSDB (whose ids were pairwise distinct) holds exactly one record for that id,
with `seq` = received sequence number, source = Adjacency(receiver),
`expired = false`, `lifetime` = the remaining lifetime of the PDU and the
received PDU; every Up adjacency of the level other than the receiver whose
peer system id differs from that of the receiver holds the LSP in its flood
tree with `wait_ack = false`; the flood tree of the receiver is unchanged and
its PSNP tree holds the LSP. -/
theorem isis_lsp_handler_rx_newer
    (validate_auth : isis_pdu_t → Nat → Option String → Bool) (now : timespec)
    (inst : isis_instance_t) (level a : Nat) (pdu : isis_pdu_t) (adj : isis_adjacency_t)
    (ha : (inst.level level).adjacency[a]? = some adj)
    (hauth : validate_auth pdu (isis_lsp_handler_rx_auth inst.config level).1
      (isis_lsp_handler_rx_auth inst.config level).2 = true)
    (hid : pdu.lsp_id < 2 ^ 64) (hs : pdu.seq < 2 ^ 32) (hlt : pdu.lifetime < 2 ^ 16)
    (hwf : dict_wf lsp_key (inst.level level).lsdb)
    (hcase : dict_search lsp_key pdu.lsp_id (inst.level level).lsdb = none ∨
      ∃ lsp, dict_search lsp_key pdu.lsp_id (inst.level level).lsdb = some lsp ∧
        lsp.source.type = ISIS_SOURCE_ADJACENCY ∧ lsp.seq < pdu.seq) :
    (((isis_lsp_handler_rx validate_auth now inst level a pdu).level level).lsdb.map
        lsp_key).count pdu.lsp_id = 1 ∧
    (∃ lsp', dict_search lsp_key pdu.lsp_id
        ((isis_lsp_handler_rx validate_auth now inst level a pdu).level level).lsdb = some lsp' ∧
      lsp'.seq = pdu.seq ∧ lsp'.source = ⟨ISIS_SOURCE_ADJACENCY, some a⟩ ∧
      lsp'.expired = false ∧ lsp'.lifetime = pdu.lifetime ∧ lsp'.pdu = pdu) ∧
    (∀ (j : Nat) (adjj : isis_adjacency_t), (inst.level level).adjacency[j]? = some adjj →
      j ≠ a → adjj.state = ISIS_ADJACENCY_STATE_UP →
      adjj.peer_system_id ≠ adj.peer_system_id →
      ∃ (adj' : isis_adjacency_t) (e : isis_flood_entry_t),
        ((isis_lsp_handler_rx validate_auth now inst level a pdu).level level).adjacency[j]?
          = some adj' ∧
        dict_search flood_key pdu.lsp_id adj'.flood_tree = some e ∧ e.wait_ack = false) ∧
    (∃ adj', ((isis_lsp_handler_rx validate_auth now inst level a pdu).level level).adjacency[a]?
        = some adj' ∧
      adj'.flood_tree = adj.flood_tree ∧
      dict_search psnp_key pdu.lsp_id adj'.psnp_tree = some pdu.lsp_id) := by
  have hmod : pdu.lsp_id % 2 ^ 64 = pdu.lsp_id := Nat.mod_eq_of_lt hid
  have hmods : pdu.seq % 2 ^ 32 = pdu.seq := Nat.mod_eq_of_lt hs
  have hmodl : pdu.lifetime % 2 ^ 16 = pdu.lifetime := Nat.mod_eq_of_lt hlt
  -- the instance in which the PDU is stored, and the record it is stored in
  obtain ⟨inst2, x, heq, ha2, hl2, hkeys, hadj2⟩ :
      ∃ (inst2 : isis_instance_t) (x : isis_lsp_t),
        isis_lsp_handler_rx validate_auth now inst level a pdu =
          isis_lsp_handler_rx_ack
            (isis_lsp_handler_rx_store now inst2 level a pdu pdu.lsp_id pdu.seq)
            level a pdu.lsp_id ∧
        (inst2.level level).adjacency[a]? = some (lsp_rx_counted adj) ∧
        dict_search lsp_key pdu.lsp_id (inst2.level level).lsdb = some x ∧
        ((inst2.level level).lsdb.map lsp_key).count pdu.lsp_id = 1 ∧
        (∀ j, j ≠ a → (inst2.level level).adjacency[j]? = (inst.level level).adjacency[j]?) := by
    have ha1 : ((inst.update_adjacency level a lsp_rx_counted).level level).adjacency[a]? =
        some (lsp_rx_counted adj) := by
      rw [adjacency_get_update_adjacency, if_pos ⟨Iff.rfl, rfl⟩, ha]; rfl
    have hadj1 : ∀ j, j ≠ a →
        ((inst.update_adjacency level a lsp_rx_counted).level level).adjacency[j]? =
          (inst.level level).adjacency[j]? := by
      intro j hj
      rw [adjacency_get_update_adjacency, if_neg (fun c => hj c.2)]
    rcases hcase with hnone | ⟨lsp, hl, hsrc, hseq⟩
    · refine ⟨(inst.update_adjacency level a lsp_rx_counted).set_lsdb level
          (dict_place lsp_key (isis_lsp_new pdu.lsp_id level) (inst.level level).lsdb),
        isis_lsp_new pdu.lsp_id level, ?_, ?_, ?_, ?_, ?_⟩
      · have := isis_lsp_handler_rx_store_unknown validate_auth now inst level a pdu adj ha
          hauth (by rw [hmod]; exact hnone)
        rw [hmod, hmods] at this
        exact this
      · rw [adjacency_set_lsdb]; exact ha1
      · rw [lsdb_set_lsdb_eq _ _ _ _ Iff.rfl]
        exact dict_search_place_self lsp_key (isis_lsp_new pdu.lsp_id level) _ hnone
      · rw [lsdb_set_lsdb_eq _ _ _ _ Iff.rfl, dict_place_keys_count,
          List.count_eq_zero_of_not_mem (dict_search_none_not_mem lsp_key _ _ hnone)]
        simp [isis_lsp_new]
      · intro j hj; rw [adjacency_set_lsdb]; exact hadj1 j hj
    · refine ⟨inst.update_adjacency level a lsp_rx_counted, lsp, ?_, ha1, ?_, ?_, hadj1⟩
      · have := isis_lsp_handler_rx_store_known validate_auth now inst level a pdu adj lsp ha
          hauth (by rw [hmod]; exact hl) hsrc (by rw [hmods]; exact hseq)
        rw [hmod, hmods] at this
        exact this
      · rw [lsdb_update_adjacency]; exact hl
      · rw [lsdb_update_adjacency]
        exact dict_wf_count_one lsp_key _ lsp _ hwf hl
  obtain ⟨⟨n, h1⟩, h2, h3, h4⟩ := isis_lsp_handler_rx_stored_state now inst2 level a pdu
    pdu.lsp_id pdu.seq (lsp_rx_counted adj) x ha2 hl2
  rw [heq]
  refine ⟨by rw [h2]; exact hkeys, ⟨_, h1, rfl, rfl, rfl, hmodl, rfl⟩, ?_, ?_⟩
  · intro j adjj hj hja hup hpeer
    exact h3 j adjj (by rw [hadj2 j hja]; exact hj) hja hup hpeer
  · exact ⟨_, h4, (psnp_acked_flood_tree _ _).1, psnp_acked_search _ _⟩

/-- C6 at `ex_rx_instance`: a copy of LSP 8 (stored with sequence number 4,
source Adjacency) with sequence number 6, received on adjacency 0. -/
theorem isis_lsp_handler_rx_newer_witness :
    (((isis_lsp_handler_rx auth_ok ⟨100, 0⟩ ex_rx_instance 1 0 (ex_rx_pdu 8 6 1200)).level 1).lsdb.map
        lsp_key).count (ex_rx_pdu 8 6 1200).lsp_id = 1 ∧
    ∃ lsp', dict_search lsp_key (ex_rx_pdu 8 6 1200).lsp_id
        ((isis_lsp_handler_rx auth_ok ⟨100, 0⟩ ex_rx_instance 1 0
          (ex_rx_pdu 8 6 1200)).level 1).lsdb = some lsp' ∧
      lsp'.seq = (ex_rx_pdu 8 6 1200).seq ∧ lsp'.source = ⟨ISIS_SOURCE_ADJACENCY, some 0⟩ ∧
      lsp'.expired = false ∧ lsp'.lifetime = (ex_rx_pdu 8 6 1200).lifetime ∧
      lsp'.pdu = ex_rx_pdu 8 6 1200 :=
  ⟨(isis_lsp_handler_rx_newer auth_ok ⟨100, 0⟩ ex_rx_instance 1 0 (ex_rx_pdu 8 6 1200)
      (ex_adjacency 9 1 [] []) (by decide) rfl (by decide) (by decide) (by decide)
      (by unfold dict_wf; decide)
      (Or.inr ⟨ex_lsp 8 4 ⟨ISIS_SOURCE_ADJACENCY, some 1⟩ 0, by decide, by decide,
        by decide⟩)).1,
    (isis_lsp_handler_rx_newer auth_ok ⟨100, 0⟩ ex_rx_instance 1 0 (ex_rx_pdu 8 6 1200)
      (ex_adjacency 9 1 [] []) (by decide) rfl (by decide) (by decide) (by decide)
      (by unfold dict_wf; decide)
      (Or.inr ⟨ex_lsp 8 4 ⟨ISIS_SOURCE_ADJACENCY, some 1⟩ 0, by decide, by decide,
        by decide⟩)).2.1⟩

/-! ## Sequence numbers under the operations on the LSDB -/

theorem isis_lsp_self_update_lsdb_seq (now : timespec) (inst : isis_instance_t)
    (level l' k : Nat) (x : isis_lsp_t)
    (hx : dict_search lsp_key k (inst.level l').lsdb = some x) :
    ∃ x', dict_search lsp_key k ((isis_lsp_self_update now inst level).1.level l').lsdb =
        some x' ∧
      (x'.seq = x.seq ∨ x'.seq = (x.seq + 1) % 2 ^ 32) := by
  -- the instance holding the self-LSP, found or created
  have key : ∀ (inst2 : isis_instance_t),
      dict_search lsp_key k (inst2.level l').lsdb = some x →
      ∃ x', dict_search lsp_key k
          ((isis_lsp_flood (inst2.update_lsp level (isis_self_lsp_id inst.config)
            (isis_lsp_self_update_lsp now inst.config inst2.teardown level
              (inst2.level level).adjacency)) level (isis_self_lsp_id inst.config)).level
            l').lsdb = some x' ∧
        (x'.seq = x.seq ∨ x'.seq = (x.seq + 1) % 2 ^ 32) := by
    intro inst2 h2
    obtain ⟨n, hn⟩ := isis_lsp_flood_lsdb_search
      (inst2.update_lsp level (isis_self_lsp_id inst.config)
        (isis_lsp_self_update_lsp now inst.config inst2.teardown level
          (inst2.level level).adjacency)) level (isis_self_lsp_id inst.config) l' k
    rw [hn, lsdb_search_update_lsp _ _ _ _ _
      (isis_lsp_self_update_lsp now inst.config inst2.teardown level
        (inst2.level level).adjacency) (fun y hy => hy), h2]
    split_ifs
    · exact ⟨_, rfl, Or.inr rfl⟩
    · exact ⟨_, rfl, Or.inl rfl⟩
  unfold isis_lsp_self_update
  cases hs : dict_search lsp_key (isis_self_lsp_id inst.config) (inst.level level).lsdb with
  | some lsp =>
    simp only [hs, set_lsdb_self]
    exact key inst hx
  | none =>
    simp only [hs, hb_tree_insert_absent lsp_key
      (isis_lsp_new (isis_self_lsp_id inst.config) level) _ hs, if_true]
    apply key
    by_cases hlv : same_level level l'
    · rw [lsdb_set_lsdb_eq _ _ _ _ hlv]
      have hne : k ≠ isis_self_lsp_id inst.config := by
        intro c
        rw [c, ← level_congr inst level l' hlv, hs] at hx
        exact absurd hx (by simp)
      rw [dict_search_place_ne lsp_key _ k _ hne, level_congr inst level l' hlv]
      exact hx
    · rw [lsdb_set_lsdb_ne _ _ _ _ hlv]; exact hx

theorem isis_lsp_refresh_job_lsdb_seq (now : timespec) (inst : isis_instance_t)
    (level id l' k : Nat) (x : isis_lsp_t)
    (hx : dict_search lsp_key k (inst.level l').lsdb = some x) :
    ∃ x', dict_search lsp_key k ((isis_lsp_refresh_job now inst level id).level l').lsdb =
        some x' ∧
      (x'.seq = x.seq ∨ x'.seq = (x.seq + 1) % 2 ^ 32) := by
  unfold isis_lsp_refresh_job
  split
  · exact ⟨x, hx, Or.inl rfl⟩
  · obtain ⟨n, hn⟩ := isis_lsp_flood_lsdb_search
      (inst.update_lsp level id (isis_lsp_refresh_lsp now)) level id l' k
    rw [hn, lsdb_search_update_lsp _ _ _ _ _ (isis_lsp_refresh_lsp now) (fun y hy => hy), hx]
    split_ifs
    · exact ⟨_, rfl, Or.inr rfl⟩
    · exact ⟨_, rfl, Or.inl rfl⟩

theorem isis_lsp_purge_external_step_lsdb_seq (now : timespec) (inst : isis_instance_t)
    (level id l' k : Nat) (x : isis_lsp_t)
    (hx : dict_search lsp_key k (inst.level l').lsdb = some x) :
    ∃ x', dict_search lsp_key k
        ((isis_lsp_purge_external_step now level inst id).level l').lsdb = some x' ∧
      (x'.seq = x.seq ∨ (k = id ∧ x'.seq = (x.seq + 1) % 2 ^ 32)) := by
  unfold isis_lsp_purge_external_step
  split
  · exact ⟨x, hx, Or.inl rfl⟩
  · split_ifs
    · obtain ⟨n, hn⟩ := isis_lsp_flood_lsdb_search
        (inst.update_lsp level id (isis_lsp_purge_lsp now inst.config level)) level id l' k
      rw [hn, lsdb_search_update_lsp _ _ _ _ _ (isis_lsp_purge_lsp now inst.config level)
        (fun y hy => hy), hx]
      split_ifs with h
      · exact ⟨_, rfl, Or.inr ⟨h.2, rfl⟩⟩
      · exact ⟨_, rfl, Or.inl rfl⟩
    · exact ⟨x, hx, Or.inl rfl⟩

theorem isis_lsp_purge_external_fold_lsdb_seq (now : timespec) (level l' k : Nat) :
    ∀ (ids : List Nat) (inst : isis_instance_t) (x : isis_lsp_t), ids.Nodup →
      dict_search lsp_key k (inst.level l').lsdb = some x →
      ∃ x', dict_search lsp_key k
          ((ids.foldl (isis_lsp_purge_external_step now level) inst).level l').lsdb = some x' ∧
        (x'.seq = x.seq ∨ x'.seq = (x.seq + 1) % 2 ^ 32) := by
  have strong : ∀ (ids : List Nat) (inst : isis_instance_t) (x : isis_lsp_t), ids.Nodup →
      dict_search lsp_key k (inst.level l').lsdb = some x →
      ∃ x', dict_search lsp_key k
          ((ids.foldl (isis_lsp_purge_external_step now level) inst).level l').lsdb = some x' ∧
        (x'.seq = x.seq ∨ (k ∈ ids ∧ x'.seq = (x.seq + 1) % 2 ^ 32)) := by
    intro ids
    induction ids with
    | nil => intro inst x _ hx; exact ⟨x, hx, Or.inl rfl⟩
    | cons id rest ih =>
      intro inst x hnd hx
      obtain ⟨hid, hrest⟩ := List.nodup_cons.mp hnd
      obtain ⟨x1, h1, hs1⟩ := isis_lsp_purge_external_step_lsdb_seq now inst level id l' k x hx
      obtain ⟨x', h', hs'⟩ := ih (isis_lsp_purge_external_step now level inst id) x1 hrest h1
      refine ⟨x', h', ?_⟩
      rcases hs1 with e1 | ⟨hk, e1⟩
      · rcases hs' with e2 | ⟨hm, e2⟩
        · exact Or.inl (e2.trans e1)
        · exact Or.inr ⟨List.mem_cons_of_mem _ hm, by rw [e2, e1]⟩
      · rcases hs' with e2 | ⟨hm, _⟩
        · exact Or.inr ⟨by rw [hk]; exact List.mem_cons_self _ _, by rw [e2, e1]⟩
        · exact absurd (hk ▸ hm) hid
  intro ids inst x hnd hx
  obtain ⟨x', h', hs'⟩ := strong ids inst x hnd hx
  exact ⟨x', h', hs'.imp id (fun h => h.2)⟩

theorem isis_lsp_handler_rx_ack_lsdb_seq (inst : isis_instance_t) (level a id l' k : Nat)
    (x : isis_lsp_t) (hx : dict_search lsp_key k (inst.level l').lsdb = some x) :
    ∃ x', dict_search lsp_key k ((isis_lsp_handler_rx_ack inst level a id).level l').lsdb =
        some x' ∧ x'.seq = x.seq := by
  obtain ⟨n, hn⟩ := isis_lsp_handler_rx_ack_lsdb_search inst level a id l' k
  rw [hn, hx]
  exact ⟨_, rfl, rfl⟩

theorem isis_lsp_handler_rx_store_lsdb_seq (now : timespec) (inst : isis_instance_t)
    (level a : Nat) (pdu : isis_pdu_t) (id seq l' k : Nat) (x : isis_lsp_t)
    (hx : dict_search lsp_key k (inst.level l').lsdb = some x) :
    ∃ x', dict_search lsp_key k
        ((isis_lsp_handler_rx_ack (isis_lsp_handler_rx_store now inst level a pdu id seq)
          level a id).level l').lsdb = some x' ∧
      x'.seq = (if same_level level l' ∧ k = id then seq else x.seq) := by
  obtain ⟨n1, h1⟩ := isis_lsp_handler_rx_ack_lsdb_search
    (isis_lsp_handler_rx_store now inst level a pdu id seq) level a id l' k
  obtain ⟨n2, h2⟩ := isis_lsp_flood_lsdb_search
    (inst.update_lsp level id (lsp_stored now level a pdu seq)) level id l' k
  rw [h1, isis_lsp_handler_rx_store_eq, h2,
    lsdb_search_update_lsp _ _ _ _ _ (lsp_stored now level a pdu seq) (fun y hy => hy), hx]
  split_ifs
  · exact ⟨_, rfl, rfl⟩
  · exact ⟨_, rfl, rfl⟩

theorem isis_lsp_handler_rx_lsdb_seq
    (validate_auth : isis_pdu_t → Nat → Option String → Bool) (now : timespec)
    (inst : isis_instance_t) (level a : Nat) (pdu : isis_pdu_t) (l' k : Nat) (x : isis_lsp_t)
    (hx : dict_search lsp_key k (inst.level l').lsdb = some x) :
    ∃ x', dict_search lsp_key k
        ((isis_lsp_handler_rx validate_auth now inst level a pdu).level l').lsdb = some x' ∧
      (x'.seq = x.seq ∨ x'.seq = (x.seq + 1) % 2 ^ 32 ∨
        (x.seq < pdu.seq % 2 ^ 32 ∧
          (x'.seq = pdu.seq % 2 ^ 32 ∨ x'.seq = (pdu.seq % 2 ^ 32 + 1) % 2 ^ 32))) := by
  unfold isis_lsp_handler_rx
  cases ha : (inst.level level).adjacency[a]? with
  | none => exact ⟨x, hx, Or.inl rfl⟩
  | some adj =>
    simp only []
    have hx1 : dict_search lsp_key k
        ((inst.update_adjacency level a
          (fun adj => { adj with stats_lsp_rx := adj.stats_lsp_rx + 1 })).level l').lsdb =
        some x := by rw [lsdb_update_adjacency]; exact hx
    generalize inst.update_adjacency level a
      (fun adj => { adj with stats_lsp_rx := adj.stats_lsp_rx + 1 }) = inst1 at hx1
    by_cases hauth : validate_auth pdu (isis_lsp_handler_rx_auth inst.config level).1
        (isis_lsp_handler_rx_auth inst.config level).2 = true
    · simp only [hauth, not_true_eq_false, if_false]
      cases hl : dict_search lsp_key (pdu.lsp_id % 2 ^ 64) (inst1.level level).lsdb with
      | some lsp =>
        simp only []
        split_ifs with h1 h2 h3
        · obtain ⟨x', h', e⟩ := isis_lsp_handler_rx_ack_lsdb_seq inst1 level a
            (pdu.lsp_id % 2 ^ 64) l' k x hx1
          exact ⟨x', h', Or.inl e⟩
        · obtain ⟨x', h', e⟩ := isis_lsp_handler_rx_ack_lsdb_seq inst1 level a
            (pdu.lsp_id % 2 ^ 64) l' k x hx1
          exact ⟨x', h', Or.inl e⟩
        · -- self-originated: the sequence number is set to the received one, then bumped
          have hx2 := lsdb_search_update_lsp inst1 level l' (pdu.lsp_id % 2 ^ 64) k
            (fun l => { l with seq := pdu.seq % 2 ^ 32 }) (fun y hy => hy)
          rw [hx1] at hx2
          by_cases hc : same_level level l' ∧ k = pdu.lsp_id % 2 ^ 64
          · rw [if_pos hc] at hx2
            have hxl : x = lsp := by
              have := hl
              rw [level_congr inst1 level l' hc.1, ← hc.2, hx1] at this
              exact Option.some.inj this
            obtain ⟨x3, h3', e3⟩ := isis_lsp_self_update_lsdb_seq now _ adj.level l' k _ hx2
            obtain ⟨x', h', e⟩ := isis_lsp_handler_rx_ack_lsdb_seq _ level a
              (pdu.lsp_id % 2 ^ 64) l' k x3 h3'
            refine ⟨x', h', Or.inr (Or.inr ⟨by rw [hxl]; omega, ?_⟩)⟩
            rcases e3 with e3 | e3
            · exact Or.inl (e.trans e3)
            · exact Or.inr (e.trans e3)
          · rw [if_neg hc] at hx2
            obtain ⟨x3, h3', e3⟩ := isis_lsp_self_update_lsdb_seq now _ adj.level l' k _ hx2
            obtain ⟨x', h', e⟩ := isis_lsp_handler_rx_ack_lsdb_seq _ level a
              (pdu.lsp_id % 2 ^ 64) l' k x3 h3'
            refine ⟨x', h', ?_⟩
            rcases e3 with e3 | e3
            · exact Or.inl (e.trans e3)
            · exact Or.inr (Or.inl (e.trans e3))
        · obtain ⟨x', h', e⟩ := isis_lsp_handler_rx_store_lsdb_seq now inst1 level a pdu
            (pdu.lsp_id % 2 ^ 64) (pdu.seq % 2 ^ 32) l' k x hx1
          refine ⟨x', h', ?_⟩
          by_cases hc : same_level level l' ∧ k = pdu.lsp_id % 2 ^ 64
          · rw [if_pos hc] at e
            have hxl : x = lsp := by
              have := hl
              rw [level_congr inst1 level l' hc.1, ← hc.2, hx1] at this
              exact Option.some.inj this
            exact Or.inr (Or.inr ⟨by rw [hxl]; omega, Or.inl e⟩)
          · rw [if_neg hc] at e
            exact Or.inl e
      | none =>
        simp only [hb_tree_insert_absent lsp_key (isis_lsp_new (pdu.lsp_id % 2 ^ 64) level) _ hl,
          if_true]
        have hx2 : dict_search lsp_key k
            ((inst1.set_lsdb level (dict_place lsp_key
              (isis_lsp_new (pdu.lsp_id % 2 ^ 64) level) (inst1.level level).lsdb)).level
              l').lsdb = some x := by
          by_cases hlv : same_level level l'
          · rw [lsdb_set_lsdb_eq _ _ _ _ hlv]
            have hne : k ≠ pdu.lsp_id % 2 ^ 64 := by
              intro c
              rw [c, ← level_congr inst1 level l' hlv, hl] at hx1
              exact absurd hx1 (by simp)
            rw [dict_search_place_ne lsp_key _ k _ hne, level_congr inst1 level l' hlv]
            exact hx1
          · rw [lsdb_set_lsdb_ne _ _ _ _ hlv]; exact hx1
        obtain ⟨x', h', e⟩ := isis_lsp_handler_rx_store_lsdb_seq now _ level a pdu
          (pdu.lsp_id % 2 ^ 64) (pdu.seq % 2 ^ 32) l' k x hx2
        refine ⟨x', h', ?_⟩
        by_cases hc : same_level level l' ∧ k = pdu.lsp_id % 2 ^ 64
        · exfalso
          rw [hc.2, ← level_congr inst1 level l' hc.1, hl] at hx1
          exact absurd hx1 (by simp)
        · rw [if_neg hc] at e
          exact Or.inl e
    · simp only [hauth, not_false_eq_true, if_true]
      exact ⟨x, hx1, Or.inl rfl⟩

theorem seq_step_le (s s' : Nat) (hs : s < 2 ^ 32 - 1)
    (h : s' = s ∨ s' = (s + 1) % 2 ^ 32) : s ≤ s' := by
  rcases h with h | h
  · omega
  · rw [h, Nat.mod_eq_of_lt (by omega)]; omega

/-! ## C8: sequence numbers do not decrease -/

/-- C8 (amended). For every LSP id present in an LSDB with a stored sequence
number below `2^32 - 1`, each of the operations `isis_lsp_handler_rx` (for a
received sequence number below `2^32 - 1`), `isis_lsp_self_update`,
`isis_lsp_refresh_job` and `isis_lsp_purge_external` (on an LSDB whose ids
are pairwise distinct) leaves the id in the LSDB with a stored sequence
number greater than or equal to its value before the operation. -/
theorem isis_lsp_seq_non_decreasing
    (validate_auth : isis_pdu_t → Nat → Option String → Bool) (now : timespec)
    (inst : isis_instance_t) (level a id : Nat) (pdu : isis_pdu_t) (l' k : Nat) (x : isis_lsp_t)
    (hx : dict_search lsp_key k (inst.level l').lsdb = some x) (hmax : x.seq < 2 ^ 32 - 1) :
    (pdu.seq < 2 ^ 32 - 1 →
      ∃ x', dict_search lsp_key k
          ((isis_lsp_handler_rx validate_auth now inst level a pdu).level l').lsdb = some x' ∧
        x.seq ≤ x'.seq) ∧
    (∃ x', dict_search lsp_key k ((isis_lsp_self_update now inst level).1.level l').lsdb =
        some x' ∧ x.seq ≤ x'.seq) ∧
    (∃ x', dict_search lsp_key k ((isis_lsp_refresh_job now inst level id).level l').lsdb =
        some x' ∧ x.seq ≤ x'.seq) ∧
    (dict_wf lsp_key (inst.level level).lsdb →
      ∃ x', dict_search lsp_key k ((isis_lsp_purge_external now inst level).level l').lsdb =
        some x' ∧ x.seq ≤ x'.seq) := by
  refine ⟨?_, ?_, ?_, ?_⟩
  · intro hr
    obtain ⟨x', h', e⟩ := isis_lsp_handler_rx_lsdb_seq validate_auth now inst level a pdu l' k x hx
    refine ⟨x', h', ?_⟩
    have hmod : pdu.seq % 2 ^ 32 = pdu.seq := Nat.mod_eq_of_lt (by omega)
    rw [hmod] at e
    rcases e with e | e | ⟨hlt, e | e⟩
    · omega
    · exact seq_step_le _ _ hmax (Or.inr e)
    · omega
    · rw [e, Nat.mod_eq_of_lt (by omega)]; omega
  · obtain ⟨x', h', e⟩ := isis_lsp_self_update_lsdb_seq now inst level l' k x hx
    exact ⟨x', h', seq_step_le _ _ hmax e⟩
  · obtain ⟨x', h', e⟩ := isis_lsp_refresh_job_lsdb_seq now inst level id l' k x hx
    exact ⟨x', h', seq_step_le _ _ hmax e⟩
  · intro hwf
    obtain ⟨x', h', e⟩ := isis_lsp_purge_external_fold_lsdb_seq now level l' k
      ((inst.level level).lsdb.map isis_lsp_t.id) inst x hwf hx
    exact ⟨x', h', seq_step_le _ _ hmax e⟩

/-- C8 (amended) at `ex_rx_instance`: LSP 8, stored with sequence number 4,
after the receipt of a copy with sequence number 6. -/
theorem isis_lsp_seq_non_decreasing_witness :
    ∃ x', dict_search lsp_key 8
        ((isis_lsp_handler_rx auth_ok ⟨100, 0⟩ ex_rx_instance 1 0
          (ex_rx_pdu 8 6 1200)).level 1).lsdb = some x' ∧
      (ex_lsp 8 4 ⟨ISIS_SOURCE_ADJACENCY, some 1⟩ 0).seq ≤ x'.seq :=
  (isis_lsp_seq_non_decreasing auth_ok ⟨100, 0⟩ ex_rx_instance 1 0 8 (ex_rx_pdu 8 6 1200) 1 8
    (ex_lsp 8 4 ⟨ISIS_SOURCE_ADJACENCY, some 1⟩ 0) (by decide) (by decide)).1 (by decide)

/-- C8 as stated fails at the largest 32-bit sequence number: the LSP 65536
of `ex_max_seq_instance` is stored with sequence number `2^32 - 1`, and after
`isis_lsp_refresh_job` its stored sequence number is 0. -/
theorem isis_lsp_refresh_job_wrap_counterexample :
    (ex_max_seq_instance.level 1).lsdb.map (fun l => (l.id, l.seq)) = [(65536, 2 ^ 32 - 1)] ∧
      ((isis_lsp_refresh_job ⟨100, 0⟩ ex_max_seq_instance 1 65536).level 1).lsdb.map
        (fun l => (l.id, l.seq)) = [(65536, 0)] ∧
      ¬ (2 ^ 32 - 1 ≤ 0) := by
  decide

/-! ## Removal from a tree -/

theorem hb_tree_remove_search_ne {α : Type} (key : α → Nat) (k k' : Nat) (t : List α)
    (h : k' ≠ k) : dict_search key k' (hb_tree_remove key k t).1 = dict_search key k' t := by
  induction t with
  | nil => rfl
  | cons x xs ih =>
    by_cases hx : key x = k
    · have hx' : ¬ key x = k' := fun c => h (c ▸ hx)
      simp only [hb_tree_remove, hx, if_true]
      rw [dict_search, if_neg hx']
    · simp only [hb_tree_remove, hx, if_false, dict_search, ih]

theorem hb_tree_remove_search_self {α : Type} (key : α → Nat) (k : Nat) (t : List α)
    (hwf : dict_wf key t) : dict_search key k (hb_tree_remove key k t).1 = none := by
  induction t with
  | nil => rfl
  | cons x xs ih =>
    unfold dict_wf at hwf ih
    rw [List.map_cons, List.nodup_cons] at hwf
    by_cases hx : key x = k
    · simp only [hb_tree_remove, hx, if_true]
      cases hs : dict_search key k xs with
      | none => rfl
      | some y => exact absurd (dict_search_some_mem key k y xs hs) (hx ▸ hwf.1)
    · simp only [hb_tree_remove, hx, if_false, dict_search]
      exact ih hwf.2

theorem hb_tree_remove_flag {α : Type} (key : α → Nat) (k : Nat) (t : List α) :
    (hb_tree_remove key k t).2 = (dict_search key k t).isSome := by
  induction t with
  | nil => rfl
  | cons x xs ih =>
    by_cases hx : key x = k
    · simp [hb_tree_remove, dict_search, hx]
    · simp only [hb_tree_remove, hx, if_false, dict_search, ih]

theorem hb_tree_remove_sublist {α : Type} (key : α → Nat) (k : Nat) (t : List α) :
    (hb_tree_remove key k t).1.Sublist t := by
  induction t with
  | nil => exact List.Sublist.slnil
  | cons x xs ih =>
    by_cases hx : key x = k
    · simp only [hb_tree_remove, hx, if_true]
      exact List.sublist_cons_self x xs
    · simp only [hb_tree_remove, hx, if_false]
      exact List.Sublist.cons₂ x ih

theorem hb_tree_remove_wf {α : Type} (key : α → Nat) (k : Nat) (t : List α)
    (hwf : dict_wf key t) : dict_wf key (hb_tree_remove key k t).1 :=
  List.Nodup.sublist ((hb_tree_remove_sublist key k t).map key) hwf

theorem dict_place_keys_perm {α : Type} (key : α → Nat) (x : α) (t : List α) :
    ((dict_place key x t).map key).Perm (key x :: t.map key) := by
  induction t with
  | nil => exact List.Perm.refl _
  | cons y ys ih =>
    by_cases h : key x < key y
    · simp only [dict_place, h, if_true, List.map_cons]
      exact List.Perm.refl _
    · simp only [dict_place, h, if_false, List.map_cons]
      exact (List.Perm.cons _ ih).trans (List.Perm.swap _ _ _)

theorem dict_place_wf {α : Type} (key : α → Nat) (x : α) (t : List α)
    (hwf : dict_wf key t) (h : dict_search key (key x) t = none) :
    dict_wf key (dict_place key x t) := by
  unfold dict_wf
  rw [(dict_place_keys_perm key x t).nodup_iff, List.nodup_cons]
  exact ⟨dict_search_none_not_mem key _ t h, hwf⟩

theorem flood_adjacency_wf (lsp : isis_lsp_t) (adj : isis_adjacency_t)
    (hwf : dict_wf flood_key adj.flood_tree) :
    dict_wf flood_key (isis_lsp_flood_adjacency lsp adj).2.flood_tree := by
  cases hs : dict_search flood_key lsp.id adj.flood_tree with
  | none =>
    rw [flood_adjacency_absent lsp adj hs]
    exact dict_place_wf flood_key ⟨lsp.id, false, 0, ⟨0, 0⟩⟩ _ hwf hs
  | some e =>
    rw [flood_adjacency_found lsp adj e hs]
    unfold dict_wf
    rw [dict_update_keys flood_key lsp.id
      (fun flood => { flood with wait_ack := false, tx_count := 0 }) (fun _ hx => hx)]
    exact hwf

theorem flood_adjacency_refcount (lsp : isis_lsp_t) (adj : isis_adjacency_t) :
    (isis_lsp_flood_adjacency lsp adj).1.refcount =
      if dict_search flood_key lsp.id adj.flood_tree = none then lsp.refcount + 1
      else lsp.refcount := by
  cases hs : dict_search flood_key lsp.id adj.flood_tree with
  | none => rw [flood_adjacency_absent lsp adj hs]; simp
  | some e => rw [flood_adjacency_found lsp adj e hs]; simp

/-! ## One LSP entry of a CSNP/PSNP -/

theorem process_entry_unknown (csnp_scan : Nat) (st : isis_adjacency_t × List isis_lsp_t)
    (id seq : Nat) (h : dict_search lsp_key id st.2 = none) :
    isis_lsp_process_entry csnp_scan st id seq = st := by
  unfold isis_lsp_process_entry
  simp only [h]

theorem process_entry_older (csnp_scan : Nat) (st : isis_adjacency_t × List isis_lsp_t)
    (id seq : Nat) (lsp : isis_lsp_t) (h : dict_search lsp_key id st.2 = some lsp)
    (hseq : seq < lsp.seq) :
    isis_lsp_process_entry csnp_scan st id seq =
      ((isis_lsp_flood_adjacency { lsp with csnp_scan := csnp_scan } st.1).2,
        dict_update lsp_key id
          (fun _ => (isis_lsp_flood_adjacency { lsp with csnp_scan := csnp_scan } st.1).1)
          st.2) := by
  unfold isis_lsp_process_entry
  simp only [h, hseq, if_true]

theorem process_entry_acked (csnp_scan : Nat) (st : isis_adjacency_t × List isis_lsp_t)
    (id seq : Nat) (lsp : isis_lsp_t) (h : dict_search lsp_key id st.2 = some lsp)
    (hseq : ¬ seq < lsp.seq) :
    isis_lsp_process_entry csnp_scan st id seq =
      ({ st.1 with flood_tree := (hb_tree_remove flood_key id st.1.flood_tree).1 },
        dict_update lsp_key id
          (fun _ =>
            { lsp with
              csnp_scan := csnp_scan
              refcount :=
                if dict_search flood_key id st.1.flood_tree = none then lsp.refcount
                else lsp.refcount - 1 })
          st.2) := by
  have hid : lsp.id = id := dict_search_key lsp_key id lsp _ h
  unfold isis_lsp_process_entry
  simp only [h, hseq, if_false, hid, hb_tree_remove_flag]
  cases hs : dict_search flood_key id st.1.flood_tree with
  | none => simp
  | some e =>
    simp only [Option.isSome_some, if_true]
    by_cases h0 : lsp.refcount = 0
    · simp [h0]
    · simp [h0]

theorem process_entry_frame (csnp_scan : Nat) (st : isis_adjacency_t × List isis_lsp_t)
    (id seq k : Nat) (hk : k ≠ id) :
    dict_search flood_key k (isis_lsp_process_entry csnp_scan st id seq).1.flood_tree =
        dict_search flood_key k st.1.flood_tree ∧
      dict_search lsp_key k (isis_lsp_process_entry csnp_scan st id seq).2 =
        dict_search lsp_key k st.2 := by
  cases h : dict_search lsp_key id st.2 with
  | none => rw [process_entry_unknown csnp_scan st id seq h]; exact ⟨rfl, rfl⟩
  | some lsp =>
    have hid : lsp.id = id := dict_search_key lsp_key id lsp _ h
    by_cases hseq : seq < lsp.seq
    · rw [process_entry_older csnp_scan st id seq lsp h hseq]
      refine ⟨flood_adjacency_search_ne _ st.1 k (by rw [← hid] at hk; exact hk), ?_⟩
      exact dict_search_update_ne lsp_key id k _
        (by intro y _; rw [flood_adjacency_lsp]; exact hid) hk st.2
    · rw [process_entry_acked csnp_scan st id seq lsp h hseq]
      exact ⟨hb_tree_remove_search_ne flood_key id k _ hk,
        dict_search_update_ne lsp_key id k
          (fun _ => ({ lsp with
            csnp_scan := csnp_scan
            refcount :=
              if dict_search flood_key id st.1.flood_tree = none then lsp.refcount
              else lsp.refcount - 1 } : isis_lsp_t)) (fun y _ => hid) hk st.2⟩

theorem process_entry_wf (csnp_scan : Nat) (st : isis_adjacency_t × List isis_lsp_t)
    (id seq : Nat) (hwf : dict_wf flood_key st.1.flood_tree) :
    dict_wf flood_key (isis_lsp_process_entry csnp_scan st id seq).1.flood_tree := by
  cases h : dict_search lsp_key id st.2 with
  | none => rw [process_entry_unknown csnp_scan st id seq h]; exact hwf
  | some lsp =>
    by_cases hseq : seq < lsp.seq
    · rw [process_entry_older csnp_scan st id seq lsp h hseq]
      exact flood_adjacency_wf _ st.1 hwf
    · rw [process_entry_acked csnp_scan st id seq lsp h hseq]
      exact hb_tree_remove_wf flood_key id _ hwf

theorem process_entry_list_frame (csnp_scan : Nat) (k : Nat) :
    ∀ (entries : List (Nat × Nat)) (st : isis_adjacency_t × List isis_lsp_t),
      (∀ e ∈ entries, e.1 ≠ k) →
      dict_search flood_key k (isis_lsp_process_entry_list csnp_scan entries st).1.flood_tree =
          dict_search flood_key k st.1.flood_tree ∧
        dict_search lsp_key k (isis_lsp_process_entry_list csnp_scan entries st).2 =
          dict_search lsp_key k st.2 := by
  intro entries
  induction entries with
  | nil => intro st _; exact ⟨rfl, rfl⟩
  | cons e rest ih =>
    intro st h
    have h1 := process_entry_frame csnp_scan st e.1 e.2 k
      (Ne.symm (h e (List.mem_cons_self _ _)))
    have h2 := ih (isis_lsp_process_entry csnp_scan st e.1 e.2)
      (fun e' he' => h e' (List.mem_cons_of_mem _ he'))
    exact ⟨h2.1.trans h1.1, h2.2.trans h1.2⟩

/-- The effect of the step for an entry on its own LSP. -/
theorem process_entry_own (csnp_scan : Nat) (st : isis_adjacency_t × List isis_lsp_t)
    (id seq : Nat) (lsp : isis_lsp_t) (h : dict_search lsp_key id st.2 = some lsp)
    (hwf : dict_wf flood_key st.1.flood_tree) :
    (lsp.seq ≤ seq →
      dict_search flood_key id (isis_lsp_process_entry csnp_scan st id seq).1.flood_tree = none ∧
      ∃ lsp', dict_search lsp_key id (isis_lsp_process_entry csnp_scan st id seq).2 =
          some lsp' ∧
        (dict_search flood_key id st.1.flood_tree = none → lsp'.refcount = lsp.refcount) ∧
        (dict_search flood_key id st.1.flood_tree ≠ none → 0 < lsp.refcount →
          lsp'.refcount + 1 = lsp.refcount)) ∧
    (seq < lsp.seq →
      ∃ e, dict_search flood_key id (isis_lsp_process_entry csnp_scan st id seq).1.flood_tree =
          some e ∧ e.wait_ack = false ∧ e.tx_count = 0) := by
  have hid : lsp.id = id := dict_search_key lsp_key id lsp _ h
  constructor
  · intro hseq
    rw [process_entry_acked csnp_scan st id seq lsp h (by omega)]
    refine ⟨hb_tree_remove_search_self flood_key id _ hwf, ?_⟩
    have hu := dict_search_update_self lsp_key id
      (fun _ => ({ lsp with
        csnp_scan := csnp_scan
        refcount :=
          if dict_search flood_key id st.1.flood_tree = none then lsp.refcount
          else lsp.refcount - 1 } : isis_lsp_t)) (fun y _ => hid) st.2
    rw [h] at hu
    refine ⟨_, hu, ?_, ?_⟩
    · intro hn; simp [hn]
    · intro hn hpos; simp only [hn, if_false]; omega
  · intro hseq
    rw [process_entry_older csnp_scan st id seq lsp h hseq]
    obtain ⟨e, he, hw, ht⟩ := flood_adjacency_search { lsp with csnp_scan := csnp_scan } st.1
    exact ⟨e, hid ▸ he, hw, ht⟩

/-! ## The walk over the TLVs -/

theorem process_tlv_eq_list (csnp_scan len : Nat) (value : List Nat) :
    ∀ (fuel offset : Nat) (st : isis_adjacency_t × List isis_lsp_t),
      isis_lsp_process_tlv csnp_scan len value fuel offset st =
        isis_lsp_process_entry_list csnp_scan (tlv_lsp_entries len value fuel offset) st := by
  intro fuel
  induction fuel with
  | zero => intro offset st; rfl
  | succ n ih =>
    intro offset st
    unfold isis_lsp_process_tlv tlv_lsp_entries
    split_ifs
    · rw [ih]; rfl
    · rfl

theorem process_entry_list_append (csnp_scan : Nat) (l1 l2 : List (Nat × Nat))
    (st : isis_adjacency_t × List isis_lsp_t) :
    isis_lsp_process_entry_list csnp_scan (l1 ++ l2) st =
      isis_lsp_process_entry_list csnp_scan l2 (isis_lsp_process_entry_list csnp_scan l1 st) := by
  unfold isis_lsp_process_entry_list
  rw [List.foldl_append]

theorem process_entries_eq_list (adjacency : isis_adjacency_t) (lsdb : List isis_lsp_t)
    (pdu : isis_pdu_t) (csnp_scan : Nat) :
    isis_lsp_process_entries adjacency lsdb pdu csnp_scan =
      isis_lsp_process_entry_list csnp_scan (pdu_lsp_entries pdu) (adjacency, lsdb) := by
  unfold isis_lsp_process_entries pdu_lsp_entries
  generalize (adjacency, lsdb) = st
  induction pdu.tlvs generalizing st with
  | nil => rfl
  | cons tlv rest ih =>
    rw [List.foldl_cons, List.flatMap_cons, process_entry_list_append, ih]
    congr 1
    cases tlv with
    | raw type len value =>
      simp only []
      split_ifs
      · exact process_tlv_eq_list csnp_scan _ value 256 0 st
      · rfl
    | _ => rfl

theorem dict_search_update_isSome {α : Type} (key : α → Nat) (k k0 : Nat) (f : α → α)
    (hf : ∀ x, key x = k0 → key (f x) = k0) (t : List α) :
    (dict_search key k (dict_update key k0 f t)).isSome = (dict_search key k t).isSome := by
  by_cases hk : k = k0
  · subst hk
    rw [dict_search_update_self key k f hf t]
    cases dict_search key k t <;> rfl
  · rw [dict_search_update_ne key k0 k f hf hk t]

theorem process_entry_known (csnp_scan : Nat) (st : isis_adjacency_t × List isis_lsp_t)
    (id seq k : Nat) :
    (dict_search lsp_key k (isis_lsp_process_entry csnp_scan st id seq).2).isSome =
      (dict_search lsp_key k st.2).isSome := by
  cases h : dict_search lsp_key id st.2 with
  | none => rw [process_entry_unknown csnp_scan st id seq h]
  | some lsp =>
    have hid : lsp.id = id := dict_search_key lsp_key id lsp _ h
    by_cases hseq : seq < lsp.seq
    · rw [process_entry_older csnp_scan st id seq lsp h hseq]
      apply dict_search_update_isSome
      intro y _
      rw [flood_adjacency_lsp]
      exact hid
    · rw [process_entry_acked csnp_scan st id seq lsp h hseq]
      apply dict_search_update_isSome
      intro y _
      exact hid

theorem process_entry_list_filter (csnp_scan : Nat) (lsdb : List isis_lsp_t) :
    ∀ (entries : List (Nat × Nat)) (st : isis_adjacency_t × List isis_lsp_t),
      (∀ k, (dict_search lsp_key k st.2).isSome = (dict_search lsp_key k lsdb).isSome) →
      isis_lsp_process_entry_list csnp_scan entries st =
        isis_lsp_process_entry_list csnp_scan
          (entries.filter (fun e => (dict_search lsp_key e.1 lsdb).isSome)) st := by
  intro entries
  induction entries with
  | nil => intro st _; rfl
  | cons e rest ih =>
    intro st hst
    have hnext : ∀ k, (dict_search lsp_key k
        (isis_lsp_process_entry csnp_scan st e.1 e.2).2).isSome =
        (dict_search lsp_key k lsdb).isSome := by
      intro k; rw [process_entry_known]; exact hst k
    cases hk : (dict_search lsp_key e.1 lsdb).isSome with
    | true =>
      rw [List.filter_cons_of_pos (by simpa using hk)]
      exact ih _ hnext
    | false =>
      rw [List.filter_cons_of_neg (by simp [hk])]
      have hnone : dict_search lsp_key e.1 st.2 = none := by
        have := hst e.1
        rw [hk] at this
        simpa using this
      have hstep : isis_lsp_process_entry_list csnp_scan (e :: rest) st =
          isis_lsp_process_entry_list csnp_scan rest
            (isis_lsp_process_entry csnp_scan st e.1 e.2) := rfl
      rw [hstep, process_entry_unknown csnp_scan st e.1 e.2 hnone]
      exact ih st hst

theorem process_entry_list_spec (csnp_scan : Nat) :
    ∀ (entries : List (Nat × Nat)) (st : isis_adjacency_t × List isis_lsp_t),
      (entries.map Prod.fst).Nodup → dict_wf flood_key st.1.flood_tree →
      ∀ (id seq : Nat) (lsp : isis_lsp_t), (id, seq) ∈ entries →
        dict_search lsp_key id st.2 = some lsp →
        (lsp.seq ≤ seq →
          dict_search flood_key id
              (isis_lsp_process_entry_list csnp_scan entries st).1.flood_tree = none ∧
          ∃ lsp', dict_search lsp_key id (isis_lsp_process_entry_list csnp_scan entries st).2 =
              some lsp' ∧
            (dict_search flood_key id st.1.flood_tree = none → lsp'.refcount = lsp.refcount) ∧
            (dict_search flood_key id st.1.flood_tree ≠ none → 0 < lsp.refcount →
              lsp'.refcount + 1 = lsp.refcount)) ∧
        (seq < lsp.seq →
          ∃ e, dict_search flood_key id
              (isis_lsp_process_entry_list csnp_scan entries st).1.flood_tree = some e ∧
            e.wait_ack = false ∧ e.tx_count = 0) := by
  intro entries
  induction entries with
  | nil => intro st _ _ id seq lsp hmem; simp at hmem
  | cons e rest ih =>
    intro st hnd hwf id seq lsp hmem hl
    rw [List.map_cons, List.nodup_cons] at hnd
    have hstep : isis_lsp_process_entry_list csnp_scan (e :: rest) st =
        isis_lsp_process_entry_list csnp_scan rest
          (isis_lsp_process_entry csnp_scan st e.1 e.2) := rfl
    rw [hstep]
    rcases List.mem_cons.mp hmem with heq | hin
    · -- the entry of the LSP itself: later entries have other ids
      have he1 : e.1 = id := by rw [← heq]
      have he2 : e.2 = seq := by rw [← heq]
      have hframe := process_entry_list_frame csnp_scan id rest
        (isis_lsp_process_entry csnp_scan st e.1 e.2)
        (by
          intro e' he' c
          exact hnd.1 (he1 ▸ c ▸ List.mem_map_of_mem Prod.fst he'))
      rw [hframe.1, hframe.2, he1, he2]
      exact process_entry_own csnp_scan st id seq lsp hl hwf
    · -- an entry with another id first
      have hne : id ≠ e.1 := by
        intro c
        exact hnd.1 (c ▸ List.mem_map_of_mem Prod.fst hin)
      have hf := process_entry_frame csnp_scan st e.1 e.2 id hne
      have := ih (isis_lsp_process_entry csnp_scan st e.1 e.2) hnd.2
        (process_entry_wf csnp_scan st e.1 e.2 hwf) id seq lsp hin (by rw [hf.2]; exact hl)
      rw [hf.1] at this
      exact this

/-! ## C9: LSP entries of a CSNP/PSNP -/

/-- C9. `isis_lsp_process_entries` for a CSNP/PSNP whose LSP entries have
pairwise distinct ids, on an adjacency whose flood tree has pairwise distinct
keys.  For every entry whose id is in the LSDB: if the sequence number of the
entry is >= the local one, the LSP is absent from the flood tree of the
adjacency afterwards, and its reference count is unchanged when it was absent
before and one less when it was present before (the count of a referenced
LSP being positive); if the sequence number of the entry is < the local one,
the LSP is present in the flood tree afterwards with `wait_ack = false` and
`tx_count = 0`.  Entries whose id is not in the LSDB change nothing: the
result is the one of the PDU without them. -/
theorem isis_lsp_process_entries_spec (adjacency : isis_adjacency_t) (lsdb : List isis_lsp_t)
    (pdu : isis_pdu_t) (csnp_scan : Nat)
    (hd : ((pdu_lsp_entries pdu).map Prod.fst).Nodup)
    (hwf : dict_wf flood_key adjacency.flood_tree) :
    (∀ (id seq : Nat) (lsp : isis_lsp_t), (id, seq) ∈ pdu_lsp_entries pdu →
      dict_search lsp_key id lsdb = some lsp →
      (lsp.seq ≤ seq →
        dict_search flood_key id
            (isis_lsp_process_entries adjacency lsdb pdu csnp_scan).1.flood_tree = none ∧
        ∃ lsp', dict_search lsp_key id (isis_lsp_process_entries adjacency lsdb pdu csnp_scan).2 =
            some lsp' ∧
          (dict_search flood_key id adjacency.flood_tree = none →
            lsp'.refcount = lsp.refcount) ∧
          (dict_search flood_key id adjacency.flood_tree ≠ none → 0 < lsp.refcount →
            lsp'.refcount + 1 = lsp.refcount)) ∧
      (seq < lsp.seq →
        ∃ e, dict_search flood_key id
            (isis_lsp_process_entries adjacency lsdb pdu csnp_scan).1.flood_tree = some e ∧
          e.wait_ack = false ∧ e.tx_count = 0)) ∧
    isis_lsp_process_entries adjacency lsdb pdu csnp_scan =
      isis_lsp_process_entry_list csnp_scan
        ((pdu_lsp_entries pdu).filter (fun e => (dict_search lsp_key e.1 lsdb).isSome))
        (adjacency, lsdb) := by
  rw [process_entries_eq_list]
  refine ⟨?_, process_entry_list_filter csnp_scan lsdb _ (adjacency, lsdb) (fun _ => rfl)⟩
  intro id seq lsp hmem hl
  exact process_entry_list_spec csnp_scan (pdu_lsp_entries pdu) (adjacency, lsdb) hd hwf
    id seq lsp hmem hl

/-- C9 at a PSNP that lists LSP 7 with sequence number 5, the local copy
having sequence number 3 and an entry in the flood tree. -/
theorem isis_lsp_process_entries_spec_witness :
    dict_search flood_key 7
        (isis_lsp_process_entries ex_snp_adjacency ex_snp_lsdb ex_snp_pdu 1).1.flood_tree = none ∧
      ∃ lsp', dict_search lsp_key 7
          (isis_lsp_process_entries ex_snp_adjacency ex_snp_lsdb ex_snp_pdu 1).2 = some lsp' ∧
        (dict_search flood_key 7 ex_snp_adjacency.flood_tree = none →
          lsp'.refcount = (ex_lsp 7 3 ⟨ISIS_SOURCE_SELF, none⟩ 1).refcount) ∧
        (dict_search flood_key 7 ex_snp_adjacency.flood_tree ≠ none →
          0 < (ex_lsp 7 3 ⟨ISIS_SOURCE_SELF, none⟩ 1).refcount →
          lsp'.refcount + 1 = (ex_lsp 7 3 ⟨ISIS_SOURCE_SELF, none⟩ 1).refcount) :=
  ((isis_lsp_process_entries_spec ex_snp_adjacency ex_snp_lsdb ex_snp_pdu 1 (by decide)
    (by unfold dict_wf; decide)).1 7 5 (ex_lsp 7 3 ⟨ISIS_SOURCE_SELF, none⟩ 1)
    (by decide) (by decide)).1 (by decide)

/-! ## C10: retry job -/

theorem isis_lsp_retry_loop_spec (now : timespec) (interval : Nat) :
    ∀ (t : List isis_flood_entry_t) (i : Nat) (e : isis_flood_entry_t), t[i]? = some e →
      ∃ e', (isis_lsp_retry_loop now interval t)[i]? = some e' ∧
        e' = { e with wait_ack := e'.wait_ack } ∧
        (e.wait_ack = true → retry_timed_out now interval e →
          (∀ (j : Nat) (ej : isis_flood_entry_t), j < i → t[j]? = some ej → ej.wait_ack = true) →
          e'.wait_ack = false) ∧
        (¬ (e.wait_ack = true ∧ retry_timed_out now interval e) → e'.wait_ack = e.wait_ack) := by
  intro t
  induction t with
  | nil => intro i e h; simp at h
  | cons x xs ih =>
    intro i e h
    by_cases hx : x.wait_ack = true
    · cases i with
      | zero =>
        simp only [List.getElem?_cons_zero, Option.some.injEq] at h
        subst h
        rw [isis_lsp_retry_loop, if_pos hx]
        simp only [List.getElem?_cons_zero]
        by_cases hto : (timespec_sub now x.tx_timestamp).tv_sec > interval
        · rw [if_pos hto]
          exact ⟨_, rfl, rfl, fun _ _ _ => rfl, fun c => absurd ⟨hx, hto⟩ c⟩
        · rw [if_neg hto]
          exact ⟨_, rfl, rfl, fun _ c _ => absurd c hto, fun _ => rfl⟩
      | succ i =>
        simp only [List.getElem?_cons_succ] at h
        obtain ⟨e', h1, h2, h3, h4⟩ := ih i e h
        rw [isis_lsp_retry_loop, if_pos hx]
        simp only [List.getElem?_cons_succ]
        refine ⟨e', h1, h2, ?_, h4⟩
        intro hw hto hpre
        exact h3 hw hto (fun j ej hj hej =>
          hpre (j + 1) ej (by omega) (by simpa using hej))
    · have hx' : x.wait_ack = false := by simpa using hx
      rw [isis_lsp_retry_loop, if_neg hx]
      refine ⟨e, h, rfl, ?_, fun _ => rfl⟩
      intro hw hto hpre
      cases i with
      | zero =>
        simp only [List.getElem?_cons_zero, Option.some.injEq] at h
        rw [← h, hx'] at hw
        exact absurd hw (by simp)
      | succ i =>
        have := hpre 0 x (by omega) (List.getElem?_cons_zero)
        rw [hx'] at this
        exact absurd this (by simp)

/-- C10 (amended). After one run of `isis_lsp_retry_job` on an adjacency,
every flood-tree entry keeps its position and all its fields but `wait_ack`;
an entry that had `wait_ack = true`, whose transmission lies more than
`lsp_retry_interval` whole seconds in the past and that is preceded in tree
order only by entries that had `wait_ack = true`, has `wait_ack = false`; an
entry that is not timed out in this sense keeps its `wait_ack` value. -/
theorem isis_lsp_retry_job_spec (now : timespec) (config : isis_config_t)
    (adjacency : isis_adjacency_t) (i : Nat) (e : isis_flood_entry_t)
    (hi : config.lsp_retry_interval < 2 ^ 16) (he : adjacency.flood_tree[i]? = some e) :
    ∃ e', (isis_lsp_retry_job now config adjacency).flood_tree[i]? = some e' ∧
      e' = { e with wait_ack := e'.wait_ack } ∧
      (e.wait_ack = true → retry_timed_out now config.lsp_retry_interval e →
        (∀ (j : Nat) (ej : isis_flood_entry_t), j < i →
          adjacency.flood_tree[j]? = some ej → ej.wait_ack = true) →
        e'.wait_ack = false) ∧
      (¬ (e.wait_ack = true ∧ retry_timed_out now config.lsp_retry_interval e) →
        e'.wait_ack = e.wait_ack) := by
  unfold isis_lsp_retry_job
  simp only [Nat.mod_eq_of_lt hi]
  exact isis_lsp_retry_loop_spec now config.lsp_retry_interval adjacency.flood_tree i e he

/-- C10 (amended) at `ex_retry_adjacency`, time 101 s: the first entry,
transmitted 6.5 s ago, is released for retransmission. -/
theorem isis_lsp_retry_job_spec_witness :
    ∃ e', (isis_lsp_retry_job ⟨101, 0⟩ ex_config ex_retry_adjacency).flood_tree[0]? = some e' ∧
      e'.wait_ack = false :=
  match isis_lsp_retry_job_spec ⟨101, 0⟩ ex_config ex_retry_adjacency 0
      ⟨1, true, 1, ⟨94, 500000000⟩⟩ (by decide) (by decide) with
  | ⟨e', h1, _, h3, _⟩ =>
    ⟨e', h1, h3 rfl (by decide) (fun j _ hj _ => absurd hj (Nat.not_lt_zero j))⟩

/-- C10 as stated fails at `ex_retry_adjacency` with `lsp_retry_interval = 5`
at time 100 s.  The entry of LSP 1 had `wait_ack = true` and was transmitted
5.5 s ago, which is more than 5 seconds, and the entry of LSP 3 had
`wait_ack = true` and was transmitted 100 s ago; both still have
`wait_ack = true` after the run: the first because only whole seconds are
compared, the second because the walk stops at the entry of LSP 2, which
was not waiting. -/
theorem isis_lsp_retry_job_counterexample :
    ex_config.lsp_retry_interval = 5 ∧
      ex_retry_adjacency.flood_tree.map
          (fun e => (e.lsp, e.wait_ack, e.tx_timestamp)) =
        [(1, true, ⟨94, 500000000⟩), (2, false, ⟨0, 0⟩), (3, true, ⟨0, 0⟩)] ∧
      (isis_lsp_retry_job ⟨100, 0⟩ ex_config ex_retry_adjacency).flood_tree.map
          (fun e => (e.lsp, e.wait_ack)) = [(1, true), (2, false), (3, true)] := by
  decide

/-! ## C11: the GC sweep -/

theorem dict_search_mem {α : Type} (key : α → Nat) (k : Nat) (x : α) (t : List α)
    (h : dict_search key k t = some x) : x ∈ t := by
  induction t with
  | nil => simp [dict_search] at h
  | cons y ys ih =>
    by_cases hy : key y = k
    · simp only [dict_search, hy, if_true, Option.some.injEq] at h
      rw [← h]; exact List.mem_cons_self _ _
    · simp only [dict_search, hy, if_false] at h
      exact List.mem_cons_of_mem _ (ih h)

theorem dict_wf_key_inj {α : Type} (key : α → Nat) (t : List α) (hwf : dict_wf key t)
    (x y : α) (hx : x ∈ t) (hy : y ∈ t) (h : key x = key y) : x = y :=
  List.inj_on_of_nodup_map hwf hx hy h

theorem dict_wf_mem_search {α : Type} (key : α → Nat) (t : List α) (hwf : dict_wf key t)
    (x : α) (hx : x ∈ t) : dict_search key (key x) t = some x := by
  cases hs : dict_search key (key x) t with
  | none => exact absurd (List.mem_map_of_mem key hx) (dict_search_none_not_mem key _ t hs)
  | some y =>
    have hy := dict_search_mem key _ y t hs
    have hk := dict_search_key key _ y t hs
    rw [dict_wf_key_inj key t hwf y x hy hx hk]

theorem hb_tree_remove_eq_filter {α : Type} (key : α → Nat) (k : Nat) (t : List α)
    (hwf : dict_wf key t) :
    (hb_tree_remove key k t).1 = t.filter (fun x => !decide (key x = k)) := by
  induction t with
  | nil => rfl
  | cons x xs ih =>
    unfold dict_wf at hwf ih
    rw [List.map_cons, List.nodup_cons] at hwf
    by_cases hx : key x = k
    · have hk : ∀ a ∈ xs, (!decide (key a = k)) = true := by
        intro a ha
        have : key a ≠ k := fun e => hwf.1 (by rw [hx, ← e]; exact List.mem_map_of_mem key ha)
        simp [this]
      rw [hb_tree_remove, if_pos hx, List.filter_cons, if_neg (by simp [hx]),
        List.filter_eq_self.2 hk]
    · rw [hb_tree_remove, if_neg hx, List.filter_cons, if_pos (by simp [hx]), ih hwf.2]

/-- One step of a sweep that removes the datum stored under `k` when it
satisfies `p`. -/
theorem dict_sweep_step_filter {α : Type} (key : α → Nat) (p : α → Bool) (k : Nat)
    (t : List α) (hwf : dict_wf key t) :
    (match dict_search key k t with
      | none => t
      | some x => if p x = true then (hb_tree_remove key (key x) t).1 else t) =
      t.filter (fun x => !(decide (key x = k) && p x)) := by
  cases hs : dict_search key k t with
  | none =>
    have hk := dict_search_none_not_mem key k t hs
    symm
    apply List.filter_eq_self.2
    intro a ha
    have : key a ≠ k := fun e => hk (by rw [← e]; exact List.mem_map_of_mem key ha)
    simp [this]
  | some x =>
    have hxk := dict_search_key key k x t hs
    have hxm := dict_search_mem key k x t hs
    by_cases hp : p x = true
    · simp only [hp, if_true]
      rw [hb_tree_remove_eq_filter key (key x) t hwf]
      apply List.filter_congr
      intro a ha
      by_cases hak : key a = k
      · have : a = x := dict_wf_key_inj key t hwf a x ha hxm (by rw [hak, hxk])
        simp [this, hxk, hp]
      · have : ¬ key a = key x := by rw [hxk]; exact hak
        simp [hak, this]
    · simp only [hp, if_false]
      symm
      apply List.filter_eq_self.2
      intro a ha
      by_cases hak : key a = k
      · have : a = x := dict_wf_key_inj key t hwf a x ha hxm (by rw [hak, hxk])
        simp [this, hp]
      · simp [hak]

theorem dict_wf_filter {α : Type} (key : α → Nat) (p : α → Bool) (t : List α)
    (hwf : dict_wf key t) : dict_wf key (t.filter p) := by
  unfold dict_wf at *
  exact hwf.sublist ((List.filter_sublist t).map key)

/-- The sweep over a list of keys, for a step function `g` that removes the
datum stored under `k` when it satisfies `p`. -/
theorem dict_sweep_filter {α : Type} (key : α → Nat) (p : α → Bool)
    (g : List α → Nat → List α)
    (hg : ∀ (t : List α) (k : Nat), dict_wf key t →
      g t k = t.filter (fun x => !(decide (key x = k) && p x))) :
    ∀ (ks : List Nat) (t : List α), dict_wf key t →
      ks.foldl g t = t.filter (fun x => !(decide (key x ∈ ks) && p x)) := by
  intro ks
  induction ks with
  | nil => intro t _; simp
  | cons k rest ih =>
    intro t hwf
    rw [List.foldl_cons, hg t k hwf, ih _ (dict_wf_filter _ _ _ hwf), List.filter_filter]
    apply List.filter_congr
    intro a _
    by_cases h1 : key a = k <;> by_cases h2 : key a ∈ rest <;> cases p a <;> simp [h1, h2]

theorem isis_lsp_gc_level_filter (lsdb : List isis_lsp_t) (hwf : dict_wf lsp_key lsdb) :
    isis_lsp_gc_level lsdb =
      lsdb.filter (fun l => !(l.expired && decide (l.refcount = 0))) := by
  unfold isis_lsp_gc_level
  rw [dict_sweep_filter lsp_key (fun l => l.expired && decide (l.refcount = 0)) _ ?_ _ _ hwf]
  · apply List.filter_congr
    intro l hl
    have : lsp_key l ∈ lsdb.map isis_lsp_t.id := List.mem_map_of_mem _ hl
    simp [this]
  · intro t k hwft
    rw [← dict_sweep_step_filter lsp_key (fun l => l.expired && decide (l.refcount = 0)) k t hwft]
    cases dict_search lsp_key k t with
    | none => rfl
    | some x => simp [lsp_key]
/-- C11. After one run of `isis_lsp_gc_job`, the LSDB of each level (a tree,
so with pairwise distinct LSP ids) holds exactly the LSPs it held before
that were not both expired and unreferenced, in the same order and
unchanged: every LSP with `expired = true` and `refcount = 0` is removed, no
LSP with `refcount > 0` and no unexpired LSP is removed, and nothing is
added.  The adjacencies are not touched. -/
theorem isis_lsp_gc_job_spec (inst : isis_instance_t) (l : Nat)
    (hwf : dict_wf lsp_key (inst.level l).lsdb) :
    ((isis_lsp_gc_job inst).level l).lsdb =
        (inst.level l).lsdb.filter (fun lsp => !(lsp.expired && decide (lsp.refcount = 0))) ∧
    (∀ lsp ∈ (inst.level l).lsdb, lsp.expired = true → lsp.refcount = 0 →
      lsp ∉ ((isis_lsp_gc_job inst).level l).lsdb) ∧
    (∀ lsp ∈ (inst.level l).lsdb, 0 < lsp.refcount →
      lsp ∈ ((isis_lsp_gc_job inst).level l).lsdb) ∧
    (∀ lsp ∈ (inst.level l).lsdb, lsp.expired = false →
      lsp ∈ ((isis_lsp_gc_job inst).level l).lsdb) ∧
    (∀ lsp ∈ ((isis_lsp_gc_job inst).level l).lsdb, lsp ∈ (inst.level l).lsdb) ∧
    ((isis_lsp_gc_job inst).level l).adjacency = (inst.level l).adjacency := by
  have hdb : ((isis_lsp_gc_job inst).level l).lsdb = isis_lsp_gc_level (inst.level l).lsdb := by
    by_cases h1 : l = ISIS_LEVEL_1
    · subst h1
      simp [isis_lsp_gc_job, isis_instance_t.set_lsdb, isis_instance_t.set_level,
        isis_instance_t.level, ISIS_LEVEL_1, ISIS_LEVEL_2]
    · simp [isis_lsp_gc_job, isis_instance_t.set_lsdb, isis_instance_t.set_level,
        isis_instance_t.level, ISIS_LEVEL_1, ISIS_LEVEL_2] at h1 ⊢
      simp [h1]
  have hadj : ((isis_lsp_gc_job inst).level l).adjacency = (inst.level l).adjacency := by
    by_cases h1 : l = ISIS_LEVEL_1
    · subst h1
      simp [isis_lsp_gc_job, isis_instance_t.set_lsdb, isis_instance_t.set_level,
        isis_instance_t.level, ISIS_LEVEL_1, ISIS_LEVEL_2]
    · simp [isis_lsp_gc_job, isis_instance_t.set_lsdb, isis_instance_t.set_level,
        isis_instance_t.level, ISIS_LEVEL_1, ISIS_LEVEL_2] at h1 ⊢
      simp [h1]
  rw [hdb, isis_lsp_gc_level_filter _ hwf]
  refine ⟨rfl, ?_, ?_, ?_, ?_, hadj⟩
  · intro lsp _ he hr
    simp [List.mem_filter, he, hr]
  · intro lsp hm hr
    have : lsp.refcount ≠ 0 := Nat.pos_iff_ne_zero.1 hr
    simp [List.mem_filter, hm, this]
  · intro lsp hm he
    simp [List.mem_filter, hm, he]
  · intro lsp hm
    exact (List.mem_filter.1 hm).1

/-- C11 at `ex_gc_instance`: of the LSPs 1 (expired, unreferenced), 2
(expired, referenced) and 3 (not expired), the sweep removes LSP 1 only. -/
theorem isis_lsp_gc_job_spec_witness :
    dict_wf lsp_key (ex_gc_instance.level 1).lsdb ∧
    ((isis_lsp_gc_job ex_gc_instance).level 1).lsdb.map isis_lsp_t.id = [2, 3] :=
  ⟨by decide,
    by rw [(isis_lsp_gc_job_spec ex_gc_instance 1 (by decide)).1]; decide⟩

/-! ## C16: the TX job and the send buffer -/

theorem lsdb_pdu_update_isSome (k id : Nat) (pdu : isis_pdu_t) (db : List isis_lsp_t) :
    (dict_search lsp_key k (dict_update lsp_key id
      (fun l => { l with pdu := pdu }) db)).isSome = (dict_search lsp_key k db).isSome := by
  apply dict_search_update_isSome
  intro x hx
  exact hx

theorem isis_lsp_tx_loop_known {σ : Type} (send : σ → isis_frame_t → σ × Bool)
    (now : timespec) (adjacency : isis_adjacency_t) (k : Nat) :
    ∀ (l : List isis_flood_entry_t) (st : isis_tx_state σ),
      (dict_search lsp_key k (isis_lsp_tx_loop send now adjacency l st).2.lsdb).isSome =
        (dict_search lsp_key k st.lsdb).isSome := by
  intro l
  induction l with
  | nil => intro st; simp [isis_lsp_tx_loop]
  | cons entry rest ih =>
    intro st
    by_cases hw : entry.wait_ack = true
    · simpa [isis_lsp_tx_loop, hw] using ih st
    · have hw' : entry.wait_ack = false := by simpa using hw
      cases hs : dict_search lsp_key entry.lsp st.lsdb with
      | none => simpa [isis_lsp_tx_loop, hw', hs] using ih st
      | some lsp =>
        simp only [isis_lsp_tx_loop, hw', hs, Bool.false_eq_true, not_false_eq_true, if_true]
        generalize isis_lsp_tx_remaining_lifetime now lsp st.remaining_lifetime = rl
        generalize send st.interface
          (isis_lsp_tx_frame adjacency { lsp.pdu with lifetime := rl }) = res
        have hupd : (dict_search lsp_key k (dict_update lsp_key entry.lsp
            (fun l => { l with pdu := { lsp.pdu with lifetime := rl } }) st.lsdb)).isSome =
            (dict_search lsp_key k st.lsdb).isSome :=
          lsdb_pdu_update_isSome k entry.lsp _ st.lsdb
        by_cases hsend : res.2 = true
        · simp only [hsend, not_true_eq_false, if_false]
          by_cases hwin : (if st.window ≠ 0 then st.window - 1 else st.window) = 0
          · rw [if_pos hwin]; exact hupd
          · rw [if_neg hwin]
            simp only
            rw [ih]; exact hupd
        · simp only [hsend, not_false_eq_true, if_true]; exact hupd

/-- The walk of `isis_lsp_tx_job` over a flood tree whose entries all point
to an LSP of the LSDB: the entries up to the place where the job stopped are
marked if they were ready, the entries from there on are untouched, and the
marked entries are the ones counted and handed to the send buffer. -/
theorem isis_lsp_tx_loop_walk {σ : Type} (send : σ → isis_frame_t → σ × Bool) (now : timespec)
    (adjacency : isis_adjacency_t) :
    ∀ (l : List isis_flood_entry_t) (st : isis_tx_state σ),
      (∀ e ∈ l, (dict_search lsp_key e.lsp st.lsdb).isSome = true) →
      ∃ n, n ≤ l.length ∧
        (isis_lsp_tx_loop send now adjacency l st).1 =
          (l.take n).map (tx_walked now) ++ l.drop n ∧
        (isis_lsp_tx_loop send now adjacency l st).2.lsp_tx =
          st.lsp_tx + ((l.take n).filter (fun e => !e.wait_ack)).length ∧
        (isis_lsp_tx_loop send now adjacency l st).2.sent.map Prod.fst =
          st.sent.map Prod.fst ++ ((l.take n).filter (fun e => !e.wait_ack)).map flood_key := by
  intro l
  induction l with
  | nil => intro st _; exact ⟨0, by simp [isis_lsp_tx_loop]⟩
  | cons entry rest ih =>
    intro st hres
    have hrest : ∀ e ∈ rest, (dict_search lsp_key e.lsp st.lsdb).isSome = true :=
      fun e he => hres e (List.mem_cons_of_mem _ he)
    by_cases hw : entry.wait_ack = true
    · obtain ⟨n, hn, h1, h2, h3⟩ := ih st hrest
      refine ⟨n + 1, by simpa using hn, ?_, ?_, ?_⟩
      · simp [isis_lsp_tx_loop, hw, h1, tx_walked]
      · simpa [isis_lsp_tx_loop, hw] using h2
      · simpa [isis_lsp_tx_loop, hw] using h3
    · have hw' : entry.wait_ack = false := by simpa using hw
      cases hs : dict_search lsp_key entry.lsp st.lsdb with
      | none =>
        have := hres entry (List.mem_cons_self _ _)
        rw [hs] at this
        simp at this
      | some lsp =>
        simp only [isis_lsp_tx_loop, hw', hs, Bool.false_eq_true, not_false_eq_true, if_true]
        generalize isis_lsp_tx_remaining_lifetime now lsp st.remaining_lifetime = rl
        generalize send st.interface
          (isis_lsp_tx_frame adjacency { lsp.pdu with lifetime := rl }) = res
        by_cases hsend : res.2 = true
        · simp only [hsend, not_true_eq_false, if_false]
          by_cases hwin : (if st.window ≠ 0 then st.window - 1 else st.window) = 0
          · rw [if_pos hwin]
            refine ⟨1, by simp, ?_, ?_, ?_⟩
            · simp [tx_walked, tx_marked, hw']
            · simp [hw']
            · simp [hw']
          · rw [if_neg hwin]
            obtain ⟨n, hn, h1, h2, h3⟩ := ih
              { lsdb := dict_update lsp_key entry.lsp
                  (fun l => { l with pdu := { lsp.pdu with lifetime := rl } }) st.lsdb
                interface := res.1
                window := if st.window ≠ 0 then st.window - 1 else st.window
                remaining_lifetime := rl, lsp_tx := st.lsp_tx + 1
                sent := st.sent ++ [(entry.lsp,
                  isis_lsp_tx_frame adjacency { lsp.pdu with lifetime := rl })] }
              (fun e he => by
                simp only
                rw [lsdb_pdu_update_isSome]
                exact hrest e he)
            refine ⟨n + 1, by simpa using hn, ?_, ?_, ?_⟩
            · simp only [h1]
              simp [tx_walked, tx_marked, hw']
            · simp only [h2]
              simp [hw']; omega
            · simp only [h3]
              simp [hw']
        · simp only [hsend, not_false_eq_true, if_true]
          exact ⟨0, by simp⟩

theorem isis_lsp_tx_loop_congr {σ : Type} (send : σ → isis_frame_t → σ × Bool)
    (now : timespec) (adj adj' : isis_adjacency_t)
    (hframe : ∀ pdu, isis_lsp_tx_frame adj' pdu = isis_lsp_tx_frame adj pdu) :
    ∀ (l : List isis_flood_entry_t) (st : isis_tx_state σ),
      isis_lsp_tx_loop send now adj' l st = isis_lsp_tx_loop send now adj l st := by
  intro l
  induction l with
  | nil => intro st; simp [isis_lsp_tx_loop]
  | cons entry rest ih =>
    intro st
    simp only [isis_lsp_tx_loop, ih, hframe]

/-- The adjacency and the frames after one run of `isis_lsp_tx_job`, in
terms of the walk over the flood tree. -/
theorem isis_lsp_tx_job_eq {σ : Type} (send : σ → isis_frame_t → σ × Bool) (now : timespec)
    (inst : isis_instance_t) (level a : Nat) (interface : σ) (adj : isis_adjacency_t)
    (h : (inst.level level).adjacency[a]? = some adj) :
    ((isis_lsp_tx_job send now inst level a interface).inst.level level).adjacency[a]? =
        some { adj with
          flood_tree := (isis_lsp_tx_loop send now adj adj.flood_tree
            { lsdb := (inst.level level).lsdb, interface := interface
              window := adj.window_size % 2 ^ 16, remaining_lifetime := 0
              lsp_tx := adj.stats_lsp_tx, sent := [] }).1
          stats_lsp_tx := (isis_lsp_tx_loop send now adj adj.flood_tree
            { lsdb := (inst.level level).lsdb, interface := interface
              window := adj.window_size % 2 ^ 16, remaining_lifetime := 0
              lsp_tx := adj.stats_lsp_tx, sent := [] }).2.lsp_tx } ∧
      (isis_lsp_tx_job send now inst level a interface).sent =
        (isis_lsp_tx_loop send now adj adj.flood_tree
          { lsdb := (inst.level level).lsdb, interface := interface
            window := adj.window_size % 2 ^ 16, remaining_lifetime := 0
            lsp_tx := adj.stats_lsp_tx, sent := [] }).2.sent ∧
      (isis_lsp_tx_job send now inst level a interface).interface =
        (isis_lsp_tx_loop send now adj adj.flood_tree
          { lsdb := (inst.level level).lsdb, interface := interface
            window := adj.window_size % 2 ^ 16, remaining_lifetime := 0
            lsp_tx := adj.stats_lsp_tx, sent := [] }).2.interface := by
  unfold isis_lsp_tx_job
  simp only [h]
  rw [adjacency_update_adjacency, adjacency_set_lsdb, h]
  refine ⟨?_, ?_, ?_⟩ <;> trivial

theorem isis_lsp_tx_loop_pass {σ : Type} (send : σ → isis_frame_t → σ × Bool)
    (now : timespec) (adjacency : isis_adjacency_t) (entry : isis_flood_entry_t)
    (rest : List isis_flood_entry_t) (st : isis_tx_state σ)
    (h : entry.wait_ack = true ∨ dict_search lsp_key entry.lsp st.lsdb = none) :
    isis_lsp_tx_loop send now adjacency (entry :: rest) st =
      (entry :: (isis_lsp_tx_loop send now adjacency rest st).1,
        (isis_lsp_tx_loop send now adjacency rest st).2) := by
  by_cases hw : entry.wait_ack = true
  · simp [isis_lsp_tx_loop, hw]
  · rcases h with h | h
    · exact absurd h hw
    · simp [isis_lsp_tx_loop, hw, h]

theorem isis_lsp_tx_loop_ready {σ : Type} (send : σ → isis_frame_t → σ × Bool)
    (now : timespec) (adjacency : isis_adjacency_t) (entry : isis_flood_entry_t)
    (rest : List isis_flood_entry_t) (st : isis_tx_state σ) (lsp : isis_lsp_t)
    (he : entry.wait_ack = false) (hs : dict_search lsp_key entry.lsp st.lsdb = some lsp) :
    isis_lsp_tx_loop send now adjacency (entry :: rest) st =
      if (send st.interface (isis_lsp_tx_offer now adjacency st lsp)).2 = true then
        if (isis_lsp_tx_answered send now adjacency st entry lsp).window = 0 then
          (tx_marked now entry :: rest, isis_lsp_tx_answered send now adjacency st entry lsp)
        else
          (tx_marked now entry ::
            (isis_lsp_tx_loop send now adjacency rest
              (isis_lsp_tx_answered send now adjacency st entry lsp)).1,
            (isis_lsp_tx_loop send now adjacency rest
              (isis_lsp_tx_answered send now adjacency st entry lsp)).2)
      else (entry :: rest, isis_lsp_tx_answered send now adjacency st entry lsp) := by
  by_cases hsend : (send st.interface (isis_lsp_tx_offer now adjacency st lsp)).2 = true
  · have hsend' := hsend
    unfold isis_lsp_tx_offer at hsend'
    rw [if_pos hsend]
    simp only [isis_lsp_tx_answered, isis_lsp_tx_offer, isis_lsp_tx_loop, he, hs, hsend',
      Bool.false_eq_true, not_false_eq_true, not_true_eq_false, if_true, if_false, tx_marked]
  · have hsend' := hsend
    unfold isis_lsp_tx_offer at hsend'
    rw [if_neg hsend]
    simp only [isis_lsp_tx_answered, isis_lsp_tx_offer, isis_lsp_tx_loop, he, hs, hsend',
      Bool.false_eq_true, not_false_eq_true, if_true, if_false]

theorem isis_lsp_tx_answered_accepted {σ : Type} (send : σ → isis_frame_t → σ × Bool)
    (now : timespec) (adjacency : isis_adjacency_t) (st : isis_tx_state σ)
    (entry : isis_flood_entry_t) (lsp : isis_lsp_t)
    (h : (send st.interface (isis_lsp_tx_offer now adjacency st lsp)).2 = true) :
    (isis_lsp_tx_answered send now adjacency st entry lsp).lsp_tx = st.lsp_tx + 1 ∧
      (isis_lsp_tx_answered send now adjacency st entry lsp).sent =
        st.sent ++ [(entry.lsp, isis_lsp_tx_offer now adjacency st lsp)] := by
  simp [isis_lsp_tx_answered, h]

theorem isis_lsp_tx_answered_refused {σ : Type} (send : σ → isis_frame_t → σ × Bool)
    (now : timespec) (adjacency : isis_adjacency_t) (st : isis_tx_state σ)
    (entry : isis_flood_entry_t) (lsp : isis_lsp_t)
    (h : (send st.interface (isis_lsp_tx_offer now adjacency st lsp)).2 = false) :
    (isis_lsp_tx_answered send now adjacency st entry lsp).lsp_tx = st.lsp_tx ∧
      (isis_lsp_tx_answered send now adjacency st entry lsp).sent = st.sent := by
  simp [isis_lsp_tx_answered, h]

theorem isis_lsp_tx_loop_grows {σ : Type} (send : σ → isis_frame_t → σ × Bool)
    (now : timespec) (adjacency : isis_adjacency_t) :
    ∀ (l : List isis_flood_entry_t) (st : isis_tx_state σ),
      (isis_lsp_tx_loop send now adjacency l st).1.map flood_key = l.map flood_key ∧
        st.lsp_tx ≤ (isis_lsp_tx_loop send now adjacency l st).2.lsp_tx ∧
        ∃ extra, (isis_lsp_tx_loop send now adjacency l st).2.sent = st.sent ++ extra := by
  intro l
  induction l with
  | nil => intro st; exact ⟨rfl, Nat.le_refl _, [], by simp [isis_lsp_tx_loop]⟩
  | cons entry rest ih =>
    intro st
    by_cases hp : entry.wait_ack = true ∨ dict_search lsp_key entry.lsp st.lsdb = none
    · rw [isis_lsp_tx_loop_pass send now adjacency entry rest st hp]
      obtain ⟨h1, h2, x, h3⟩ := ih st
      exact ⟨by simp [h1], h2, x, h3⟩
    · have he : entry.wait_ack = false := by
        cases h : entry.wait_ack
        · rfl
        · exact absurd (Or.inl h) hp
      cases hs : dict_search lsp_key entry.lsp st.lsdb with
      | none => exact absurd (Or.inr hs) hp
      | some lsp =>
        rw [isis_lsp_tx_loop_ready send now adjacency entry rest st lsp he hs]
        by_cases hsend : (send st.interface (isis_lsp_tx_offer now adjacency st lsp)).2 = true
        · obtain ⟨a1, a2⟩ := isis_lsp_tx_answered_accepted send now adjacency st entry lsp hsend
          rw [if_pos hsend]
          by_cases hwin : (isis_lsp_tx_answered send now adjacency st entry lsp).window = 0
          · rw [if_pos hwin]
            exact ⟨by simp [tx_marked, flood_key], by simp only [a1]; omega, _, a2⟩
          · rw [if_neg hwin]
            obtain ⟨h1, h2, x, h3⟩ := ih (isis_lsp_tx_answered send now adjacency st entry lsp)
            refine ⟨by simp [h1, tx_marked, flood_key], by simp only at h2 ⊢; omega,
              (entry.lsp, isis_lsp_tx_offer now adjacency st lsp) :: x, ?_⟩
            simp only [h3, a2]
            simp
        · have hsend' : (send st.interface (isis_lsp_tx_offer now adjacency st lsp)).2 = false := by
            simpa using hsend
          obtain ⟨a1, a2⟩ := isis_lsp_tx_answered_refused send now adjacency st entry lsp hsend'
          rw [if_neg hsend]
          exact ⟨rfl, by simp only [a1]; omega, [], by simp [a2]⟩

/-- The walk over `pre ++ l` when every entry of `pre` is left waiting for
its acknowledgement and the window is still open after `pre`: the walk over
`pre`, followed by the walk over `l` in the state reached. -/
theorem isis_lsp_tx_loop_append {σ : Type} (send : σ → isis_frame_t → σ × Bool)
    (now : timespec) (adjacency : isis_adjacency_t) (l : List isis_flood_entry_t) :
    ∀ (pre : List isis_flood_entry_t) (st : isis_tx_state σ),
      (∀ x ∈ (isis_lsp_tx_loop send now adjacency pre st).1, x.wait_ack = true) →
      ((isis_lsp_tx_loop send now adjacency pre st).2.lsp_tx = st.lsp_tx ∨
        (isis_lsp_tx_loop send now adjacency pre st).2.window ≠ 0) →
      isis_lsp_tx_loop send now adjacency (pre ++ l) st =
        ((isis_lsp_tx_loop send now adjacency pre st).1 ++
            (isis_lsp_tx_loop send now adjacency l
              (isis_lsp_tx_loop send now adjacency pre st).2).1,
          (isis_lsp_tx_loop send now adjacency l
            (isis_lsp_tx_loop send now adjacency pre st).2).2) := by
  intro pre
  induction pre with
  | nil => intro st _ _; simp [isis_lsp_tx_loop]
  | cons p ps ih =>
    intro st hall hwin
    by_cases hw : p.wait_ack = true
    · rw [isis_lsp_tx_loop_pass send now adjacency p ps st (Or.inl hw)] at hall hwin ⊢
      rw [List.cons_append, isis_lsp_tx_loop_pass send now adjacency p (ps ++ l) st (Or.inl hw),
        ih st (fun x hx => hall x (List.mem_cons_of_mem _ hx)) hwin]
      rfl
    · have he : p.wait_ack = false := by simpa using hw
      cases hs : dict_search lsp_key p.lsp st.lsdb with
      | none =>
        rw [isis_lsp_tx_loop_pass send now adjacency p ps st (Or.inr hs)] at hall
        exact absurd (hall p (List.mem_cons_self _ _)) hw
      | some lsp =>
        rw [isis_lsp_tx_loop_ready send now adjacency p ps st lsp he hs] at hall hwin ⊢
        rw [List.cons_append, isis_lsp_tx_loop_ready send now adjacency p (ps ++ l) st lsp he hs]
        by_cases hsend : (send st.interface (isis_lsp_tx_offer now adjacency st lsp)).2 = true
        · obtain ⟨a1, _⟩ := isis_lsp_tx_answered_accepted send now adjacency st p lsp hsend
          simp only [hsend, if_true] at hall hwin ⊢
          by_cases hwc : (isis_lsp_tx_answered send now adjacency st p lsp).window = 0
          · simp only [hwc, if_true] at hall hwin ⊢
            rcases hwin with h | h
            · simp only [a1] at h; omega
            · exact absurd rfl h
          · simp only [hwc, if_false] at hall hwin ⊢
            have hg := (isis_lsp_tx_loop_grows send now adjacency ps
              (isis_lsp_tx_answered send now adjacency st p lsp)).2.1
            rw [ih (isis_lsp_tx_answered send now adjacency st p lsp)
              (fun x hx => hall x (List.mem_cons_of_mem _ hx))
              (by
                rcases hwin with h | h
                · omega
                · exact Or.inr h)]
            rfl
        · simp only [hsend, if_false] at hall
          exact absurd (hall p (List.mem_cons_self _ _)) hw

/-- A frame that the send buffer refuses: the walk over `pre ++ e :: post`
ends at `e` at the latest, and leaves `e` and `post` as they are. -/
theorem isis_lsp_tx_loop_refusal {σ : Type} (send : σ → isis_frame_t → σ × Bool)
    (now : timespec) (adjacency : isis_adjacency_t) (e : isis_flood_entry_t)
    (post : List isis_flood_entry_t) (lsp : isis_lsp_t) (he : e.wait_ack = false) :
    ∀ (pre : List isis_flood_entry_t) (st : isis_tx_state σ),
      dict_search lsp_key e.lsp (isis_lsp_tx_loop send now adjacency pre st).2.lsdb = some lsp →
      (send (isis_lsp_tx_loop send now adjacency pre st).2.interface
        (isis_lsp_tx_offer now adjacency (isis_lsp_tx_loop send now adjacency pre st).2
          lsp)).2 = false →
      (isis_lsp_tx_loop send now adjacency (pre ++ e :: post) st).1 =
          (isis_lsp_tx_loop send now adjacency pre st).1 ++ e :: post ∧
        (isis_lsp_tx_loop send now adjacency (pre ++ e :: post) st).2.lsp_tx =
          (isis_lsp_tx_loop send now adjacency pre st).2.lsp_tx ∧
        (isis_lsp_tx_loop send now adjacency (pre ++ e :: post) st).2.sent =
          (isis_lsp_tx_loop send now adjacency pre st).2.sent := by
  intro pre
  induction pre with
  | nil =>
    intro st hk hfull
    simp only [isis_lsp_tx_loop] at hk hfull
    rw [List.nil_append, isis_lsp_tx_loop_ready send now adjacency e post st lsp he hk,
      if_neg (by rw [hfull]; decide)]
    obtain ⟨a1, a2⟩ := isis_lsp_tx_answered_refused send now adjacency st e lsp hfull
    exact ⟨rfl, a1, a2⟩
  | cons p ps ih =>
    intro st hk hfull
    by_cases hp : p.wait_ack = true ∨ dict_search lsp_key p.lsp st.lsdb = none
    · rw [isis_lsp_tx_loop_pass send now adjacency p ps st hp] at hk hfull ⊢
      rw [List.cons_append, isis_lsp_tx_loop_pass send now adjacency p (ps ++ e :: post) st hp]
      obtain ⟨h1, h2, h3⟩ := ih st hk hfull
      exact ⟨by simp only [h1]; rfl, h2, h3⟩
    · have hpe : p.wait_ack = false := by
        cases h : p.wait_ack
        · rfl
        · exact absurd (Or.inl h) hp
      cases hs : dict_search lsp_key p.lsp st.lsdb with
      | none => exact absurd (Or.inr hs) hp
      | some lsp0 =>
        rw [isis_lsp_tx_loop_ready send now adjacency p ps st lsp0 hpe hs] at hk hfull ⊢
        rw [List.cons_append,
          isis_lsp_tx_loop_ready send now adjacency p (ps ++ e :: post) st lsp0 hpe hs]
        by_cases hsend : (send st.interface (isis_lsp_tx_offer now adjacency st lsp0)).2 = true
        · simp only [hsend, if_true] at hk hfull ⊢
          by_cases hwc : (isis_lsp_tx_answered send now adjacency st p lsp0).window = 0
          · simp only [hwc, if_true] at hk hfull ⊢
            simp
          · simp only [hwc, if_false] at hk hfull ⊢
            obtain ⟨h1, h2, h3⟩ := ih _ hk hfull
            exact ⟨by simp only [h1]; rfl, h2, h3⟩
        · simp only [hsend, if_false] at hk hfull ⊢
          simp

theorem isis_lsp_tx_job_start {σ : Type} (send : σ → isis_frame_t → σ × Bool) (now : timespec)
    (inst : isis_instance_t) (level a : Nat) (interface : σ) (adj : isis_adjacency_t)
    (h : (inst.level level).adjacency[a]? = some adj) :
    ((isis_lsp_tx_job send now inst level a interface).inst.level level).adjacency[a]? =
        some { adj with
          flood_tree := (isis_lsp_tx_loop send now adj adj.flood_tree
            (isis_lsp_tx_start inst level adj interface)).1
          stats_lsp_tx := (isis_lsp_tx_loop send now adj adj.flood_tree
            (isis_lsp_tx_start inst level adj interface)).2.lsp_tx } ∧
      (isis_lsp_tx_job send now inst level a interface).sent =
        (isis_lsp_tx_loop send now adj adj.flood_tree
          (isis_lsp_tx_start inst level adj interface)).2.sent :=
  ⟨(isis_lsp_tx_job_eq send now inst level a interface adj h).1,
    (isis_lsp_tx_job_eq send now inst level a interface adj h).2.1⟩

/-- C16. One run of `isis_lsp_tx_job` on an adjacency whose flood tree is
`pre ++ e :: post`, with `e` ready (`wait_ack = false`) and pointing to `lsp`.
The walk of the job over `pre` gives the state of the interface and the frame
of `e` with which the send buffer is asked.  When the job gets to `e` (the
walk over `pre` leaves no entry with `wait_ack = false` and either has sent
nothing or has not used up the window) and the send buffer accepts that
frame, `e` has `wait_ack = true`, `tx_count + 1` and `tx_timestamp = now` at
its place, `stats.lsp_tx` counts it and the frame is among the frames sent.
When the send buffer refuses that frame, the job stops: `e` and every entry
after it are unchanged at their places, and `stats.lsp_tx` and the frames
sent are those of the walk over `pre`, so nothing is counted for `e` and its
successors, which are left for a later run.  In either case every entry of
the flood tree keeps its place. -/
theorem isis_lsp_tx_job_send {σ : Type} (send : σ → isis_frame_t → σ × Bool) (now : timespec)
    (inst : isis_instance_t) (level a : Nat) (interface : σ) (adj : isis_adjacency_t)
    (pre : List isis_flood_entry_t) (e : isis_flood_entry_t) (post : List isis_flood_entry_t)
    (lsp : isis_lsp_t)
    (h : (inst.level level).adjacency[a]? = some adj)
    (hsplit : adj.flood_tree = pre ++ e :: post) (he : e.wait_ack = false)
    (hlsp : dict_search lsp_key e.lsp
      (isis_lsp_tx_loop send now adj pre (isis_lsp_tx_start inst level adj interface)).2.lsdb =
        some lsp) :
    ∃ adj' : isis_adjacency_t,
      ((isis_lsp_tx_job send now inst level a interface).inst.level level).adjacency[a]? =
        some adj' ∧
      adj'.flood_tree.map flood_key = adj.flood_tree.map flood_key ∧
      ((∀ x ∈ (isis_lsp_tx_loop send now adj pre
            (isis_lsp_tx_start inst level adj interface)).1, x.wait_ack = true) →
        ((isis_lsp_tx_loop send now adj pre
            (isis_lsp_tx_start inst level adj interface)).2.lsp_tx = adj.stats_lsp_tx ∨
          (isis_lsp_tx_loop send now adj pre
            (isis_lsp_tx_start inst level adj interface)).2.window ≠ 0) →
        (send (isis_lsp_tx_loop send now adj pre
            (isis_lsp_tx_start inst level adj interface)).2.interface
          (isis_lsp_tx_offer now adj (isis_lsp_tx_loop send now adj pre
            (isis_lsp_tx_start inst level adj interface)).2 lsp)).2 = true →
        ∃ post' extra,
          adj'.flood_tree =
            (isis_lsp_tx_loop send now adj pre
                (isis_lsp_tx_start inst level adj interface)).1 ++
              { e with wait_ack := true, tx_count := e.tx_count + 1, tx_timestamp := now } ::
                post' ∧
          (isis_lsp_tx_loop send now adj pre
              (isis_lsp_tx_start inst level adj interface)).2.lsp_tx + 1 ≤ adj'.stats_lsp_tx ∧
          (isis_lsp_tx_job send now inst level a interface).sent =
            (isis_lsp_tx_loop send now adj pre
                (isis_lsp_tx_start inst level adj interface)).2.sent ++
              (e.lsp, isis_lsp_tx_offer now adj (isis_lsp_tx_loop send now adj pre
                (isis_lsp_tx_start inst level adj interface)).2 lsp) :: extra) ∧
      ((send (isis_lsp_tx_loop send now adj pre
            (isis_lsp_tx_start inst level adj interface)).2.interface
          (isis_lsp_tx_offer now adj (isis_lsp_tx_loop send now adj pre
            (isis_lsp_tx_start inst level adj interface)).2 lsp)).2 = false →
        adj'.flood_tree =
            (isis_lsp_tx_loop send now adj pre
              (isis_lsp_tx_start inst level adj interface)).1 ++ e :: post ∧
          adj'.stats_lsp_tx =
            (isis_lsp_tx_loop send now adj pre
              (isis_lsp_tx_start inst level adj interface)).2.lsp_tx ∧
          (isis_lsp_tx_job send now inst level a interface).sent =
            (isis_lsp_tx_loop send now adj pre
              (isis_lsp_tx_start inst level adj interface)).2.sent) := by
  obtain ⟨hj1, hj2⟩ := isis_lsp_tx_job_start send now inst level a interface adj h
  refine ⟨_, hj1, (isis_lsp_tx_loop_grows send now adj adj.flood_tree _).1, ?_, ?_⟩
  · intro hall hwin hsend
    have happ := isis_lsp_tx_loop_append send now adj (e :: post) pre
      (isis_lsp_tx_start inst level adj interface) hall hwin
    have hready := isis_lsp_tx_loop_ready send now adj e post
      (isis_lsp_tx_loop send now adj pre (isis_lsp_tx_start inst level adj interface)).2 lsp
      he hlsp
    rw [if_pos hsend] at hready
    obtain ⟨a1, a2⟩ := isis_lsp_tx_answered_accepted send now adj
      (isis_lsp_tx_loop send now adj pre (isis_lsp_tx_start inst level adj interface)).2 e lsp
      hsend
    rw [hj2]
    simp only [hsplit, happ, hready]
    split_ifs with hwc
    · exact ⟨post, [], rfl, by simp only [a1]; omega, by simp only [a2]⟩
    · obtain ⟨_, g2, x, g3⟩ := isis_lsp_tx_loop_grows send now adj post
        (isis_lsp_tx_answered send now adj
          (isis_lsp_tx_loop send now adj pre (isis_lsp_tx_start inst level adj interface)).2
          e lsp)
      refine ⟨_, x, rfl, by simp only at g2 ⊢; omega, ?_⟩
      simp only [g3, a2]
      simp
  · intro hsend
    obtain ⟨r1, r2, r3⟩ := isis_lsp_tx_loop_refusal send now adj e post lsp he pre
      (isis_lsp_tx_start inst level adj interface) hlsp hsend
    rw [hj2]
    simp only [hsplit]
    exact ⟨r1, r2, r3⟩

/-- C16 at `ex_tx3_instance` with a send buffer that has room for one frame.
The frame of LSP 5, the first entry, is accepted: the entry is marked and
counted.  The frame of LSP 6 is refused in the state after the walk over the
entry of LSP 5: the entries of LSP 6 and LSP 7 stay as they were, and
`stats.lsp_tx` is 1. -/
theorem isis_lsp_tx_job_send_witness :
    ((isis_lsp_tx_job send_room ⟨100, 0⟩ ex_tx3_instance 1 0 1).inst.level 1).adjacency.map
        (fun x => (x.flood_tree, x.stats_lsp_tx)) =
      [([⟨5, true, 1, ⟨100, 0⟩⟩, ⟨6, false, 0, ⟨0, 0⟩⟩, ⟨7, false, 0, ⟨0, 0⟩⟩], 1)] ∧
    (∃ (adj' : isis_adjacency_t) (post' : List isis_flood_entry_t),
      ((isis_lsp_tx_job send_room ⟨100, 0⟩ ex_tx3_instance 1 0 1).inst.level 1).adjacency[0]? =
        some adj' ∧
      adj'.flood_tree = ⟨5, true, 1, ⟨100, 0⟩⟩ :: post' ∧ 1 ≤ adj'.stats_lsp_tx) ∧
    (∃ adj' : isis_adjacency_t,
      ((isis_lsp_tx_job send_room ⟨100, 0⟩ ex_tx3_instance 1 0 1).inst.level 1).adjacency[0]? =
        some adj' ∧
      adj'.flood_tree =
        [⟨5, true, 1, ⟨100, 0⟩⟩] ++ ⟨6, false, 0, ⟨0, 0⟩⟩ :: [⟨7, false, 0, ⟨0, 0⟩⟩] ∧
      adj'.stats_lsp_tx = 1) := by
  refine ⟨by decide, ?_, ?_⟩
  · obtain ⟨adj', h1, _, hacc, _⟩ := isis_lsp_tx_job_send send_room ⟨100, 0⟩ ex_tx3_instance
      1 0 1
      (ex_adjacency 9 10
        [⟨5, false, 0, ⟨0, 0⟩⟩, ⟨6, false, 0, ⟨0, 0⟩⟩, ⟨7, false, 0, ⟨0, 0⟩⟩] [])
      [] ⟨5, false, 0, ⟨0, 0⟩⟩ [⟨6, false, 0, ⟨0, 0⟩⟩, ⟨7, false, 0, ⟨0, 0⟩⟩]
      (ex_lsp 5 1 ⟨ISIS_SOURCE_SELF, none⟩ 1) (by decide) rfl rfl (by decide)
    obtain ⟨post', _, h2, h3, _⟩ := hacc (by decide) (by decide) (by decide)
    exact ⟨adj', post', h1, h2, h3⟩
  · obtain ⟨adj', h1, _, _, href⟩ := isis_lsp_tx_job_send send_room ⟨100, 0⟩ ex_tx3_instance
      1 0 1
      (ex_adjacency 9 10
        [⟨5, false, 0, ⟨0, 0⟩⟩, ⟨6, false, 0, ⟨0, 0⟩⟩, ⟨7, false, 0, ⟨0, 0⟩⟩] [])
      [⟨5, false, 0, ⟨0, 0⟩⟩] ⟨6, false, 0, ⟨0, 0⟩⟩ [⟨7, false, 0, ⟨0, 0⟩⟩]
      (ex_lsp 6 1 ⟨ISIS_SOURCE_SELF, none⟩ 1) (by decide) rfl rfl (by decide)
    exact ⟨adj', h1, (href (by decide)).1, (href (by decide)).2.1⟩

/-! ## C17: failed authentication of a received LSP -/

/-- C17. If the validation of the authentication of a received LSP fails in
`isis_lsp_handler_rx`, the only change of state is `stats.lsp_rx + 1` on the
receiving adjacency: the LSDB of every level, with every LSP record and its
timers, is unchanged; the receiving adjacency keeps its flood tree, its PSNP
tree and its PSNP timer; every other adjacency, the configuration and the
teardown flag are unchanged. -/
theorem isis_lsp_handler_rx_auth_failure
    (validate_auth : isis_pdu_t → Nat → Option String → Bool) (now : timespec)
    (inst : isis_instance_t) (level a : Nat) (pdu : isis_pdu_t) (adj : isis_adjacency_t)
    (ha : (inst.level level).adjacency[a]? = some adj)
    (hauth : validate_auth pdu (isis_lsp_handler_rx_auth inst.config level).1
      (isis_lsp_handler_rx_auth inst.config level).2 = false) :
    (∀ l', ((isis_lsp_handler_rx validate_auth now inst level a pdu).level l').lsdb =
      (inst.level l').lsdb) ∧
    ((isis_lsp_handler_rx validate_auth now inst level a pdu).level level).adjacency[a]? =
      some { adj with stats_lsp_rx := adj.stats_lsp_rx + 1 } ∧
    (∀ l' j, ¬ (same_level level l' ∧ j = a) →
      ((isis_lsp_handler_rx validate_auth now inst level a pdu).level l').adjacency[j]? =
        (inst.level l').adjacency[j]?) ∧
    (isis_lsp_handler_rx validate_auth now inst level a pdu).config = inst.config ∧
    (isis_lsp_handler_rx validate_auth now inst level a pdu).teardown = inst.teardown := by
  rw [isis_lsp_handler_rx_auth_failed validate_auth now inst level a pdu adj ha hauth]
  refine ⟨fun l' => lsdb_update_adjacency inst level l' a _, ?_, ?_,
    (config_update_adjacency inst level a _).1, (config_update_adjacency inst level a _).2⟩
  · rw [adjacency_update_adjacency, ha]; rfl
  · intro l' j h
    rw [adjacency_get_update_adjacency, if_neg h]

/-- C17 at `ex_rx_instance`: a copy of LSP 8 with a higher sequence number
that fails authentication leaves the LSDB as it is and counts the PDU. -/
theorem isis_lsp_handler_rx_auth_failure_witness :
    (∀ l', ((isis_lsp_handler_rx auth_fail ⟨100, 0⟩ ex_rx_instance 1 0
        (ex_rx_pdu 8 6 1200)).level l').lsdb = (ex_rx_instance.level l').lsdb) ∧
    ((isis_lsp_handler_rx auth_fail ⟨100, 0⟩ ex_rx_instance 1 0
        (ex_rx_pdu 8 6 1200)).level 1).adjacency[0]? =
      some { ex_adjacency 9 1 [] [] with stats_lsp_rx := 1 } :=
  ⟨(isis_lsp_handler_rx_auth_failure auth_fail ⟨100, 0⟩ ex_rx_instance 1 0
      (ex_rx_pdu 8 6 1200) (ex_adjacency 9 1 [] []) (by decide) rfl).1,
    (isis_lsp_handler_rx_auth_failure auth_fail ⟨100, 0⟩ ex_rx_instance 1 0
      (ex_rx_pdu 8 6 1200) (ex_adjacency 9 1 [] []) (by decide) rfl).2.1⟩

/-! ## The self-originated LSP after `isis_lsp_self_update` -/

theorem isis_lsp_self_update_eq (now : timespec) (inst : isis_instance_t) (level : Nat) :
    isis_lsp_self_update now inst level =
      (isis_lsp_flood
        ((inst.set_lsdb level (isis_self_lsdb inst level)).update_lsp level
          (isis_self_lsp_id inst.config)
          (isis_lsp_self_update_lsp now inst.config inst.teardown level
            (inst.level level).adjacency))
        level (isis_self_lsp_id inst.config), true) := by
  unfold isis_lsp_self_update isis_self_lsdb
  cases hs : dict_search lsp_key (isis_self_lsp_id inst.config) (inst.level level).lsdb with
  | some lsp =>
    simp only [hs, (config_set_lsdb inst level _).2, adjacency_set_lsdb]
  | none =>
    simp only [hs, hb_tree_insert_absent lsp_key
      (isis_lsp_new (isis_self_lsp_id inst.config) level) _ hs, if_true,
      (config_set_lsdb inst level _).2, adjacency_set_lsdb]

theorem isis_self_lsdb_search (inst : isis_instance_t) (level : Nat) :
    dict_search lsp_key (isis_self_lsp_id inst.config) (isis_self_lsdb inst level) =
      some (isis_self_lsp inst level) := by
  unfold isis_self_lsdb isis_self_lsp
  cases hs : dict_search lsp_key (isis_self_lsp_id inst.config) (inst.level level).lsdb with
  | some lsp => simp only [hs]
  | none =>
    simp only
    exact dict_search_place_self lsp_key (isis_lsp_new (isis_self_lsp_id inst.config) level) _ hs

theorem isis_self_lsdb_search_ne (inst : isis_instance_t) (level k : Nat)
    (hk : k ≠ isis_self_lsp_id inst.config) :
    dict_search lsp_key k (isis_self_lsdb inst level) =
      dict_search lsp_key k (inst.level level).lsdb := by
  unfold isis_self_lsdb
  cases hs : dict_search lsp_key (isis_self_lsp_id inst.config) (inst.level level).lsdb with
  | some lsp => rfl
  | none =>
    simp only
    exact dict_search_place_ne lsp_key _ k _ hk

theorem isis_self_lsp_id_eq (inst : isis_instance_t) (level : Nat) :
    (isis_self_lsp inst level).id = isis_self_lsp_id inst.config := by
  have := dict_search_key lsp_key _ _ _ (isis_self_lsdb_search inst level)
  exact this

/-- The self-LSP stored after `isis_lsp_self_update`: the record the update
wrote, up to the reference count. -/
theorem isis_lsp_self_update_search (now : timespec) (inst : isis_instance_t) (level : Nat) :
    ∃ n, dict_search lsp_key (isis_self_lsp_id inst.config)
        ((isis_lsp_self_update now inst level).1.level level).lsdb =
      some { isis_lsp_self_update_lsp now inst.config inst.teardown level
        (inst.level level).adjacency (isis_self_lsp inst level) with refcount := n } := by
  rw [isis_lsp_self_update_eq]
  obtain ⟨n, hn⟩ := isis_lsp_flood_lsdb_search
    ((inst.set_lsdb level (isis_self_lsdb inst level)).update_lsp level
      (isis_self_lsp_id inst.config)
      (isis_lsp_self_update_lsp now inst.config inst.teardown level
        (inst.level level).adjacency)) level (isis_self_lsp_id inst.config) level
    (isis_self_lsp_id inst.config)
  refine ⟨n, ?_⟩
  simp only
  rw [hn, lsdb_search_update_lsp _ _ _ _ _
    (isis_lsp_self_update_lsp now inst.config inst.teardown level
      (inst.level level).adjacency) (fun y hy => hy),
    if_pos ⟨by unfold same_level; exact Iff.rfl, rfl⟩,
    lsdb_set_lsdb_eq _ _ _ _ Iff.rfl, isis_self_lsdb_search]
  rfl

/-- The adjacencies of the level after `isis_lsp_self_update`: the self-LSP
is flooded to every adjacency that is Up. -/
theorem isis_lsp_self_update_adjacency (now : timespec) (inst : isis_instance_t)
    (level j : Nat) :
    ((isis_lsp_self_update now inst level).1.level level).adjacency[j]? =
      ((inst.level level).adjacency[j]?).map (fun adj =>
        if adj.state ≠ ISIS_ADJACENCY_STATE_UP then adj
        else (isis_lsp_flood_adjacency
          (isis_lsp_self_update_lsp now inst.config inst.teardown level
            (inst.level level).adjacency (isis_self_lsp inst level)) adj).2) := by
  rw [isis_lsp_self_update_eq]
  have hs : dict_search lsp_key (isis_self_lsp_id inst.config)
      (((inst.set_lsdb level (isis_self_lsdb inst level)).update_lsp level
        (isis_self_lsp_id inst.config)
        (isis_lsp_self_update_lsp now inst.config inst.teardown level
          (inst.level level).adjacency)).level level).lsdb =
      some (isis_lsp_self_update_lsp now inst.config inst.teardown level
        (inst.level level).adjacency (isis_self_lsp inst level)) := by
    rw [lsdb_search_update_lsp _ _ _ _ _
      (isis_lsp_self_update_lsp now inst.config inst.teardown level
        (inst.level level).adjacency) (fun y hy => hy),
      if_pos ⟨by unfold same_level; exact Iff.rfl, rfl⟩,
      lsdb_set_lsdb_eq _ _ _ _ Iff.rfl, isis_self_lsdb_search]
    rfl
  have hg := isis_lsp_flood_adjacency_get _ level _ _ hs j
  have hlevel : (isis_lsp_self_update_lsp now inst.config inst.teardown level
      (inst.level level).adjacency (isis_self_lsp inst level)).level = level := rfl
  rw [hlevel] at hg
  simp only
  rw [hg, adjacency_update_lsp, adjacency_set_lsdb]
  cases (inst.level level).adjacency[j]? with
  | none => rfl
  | some adj =>
    simp only [Option.map_some', Option.some.injEq]
    by_cases hst : adj.state = ISIS_ADJACENCY_STATE_UP
    · have hns : ¬ isis_lsp_flood_skips
          (isis_lsp_self_update_lsp now inst.config inst.teardown level
            (inst.level level).adjacency (isis_self_lsp inst level))
          (isis_lsp_source_peer
            (isis_lsp_self_update_lsp now inst.config inst.teardown level
              (inst.level level).adjacency (isis_self_lsp inst level))
            (inst.level level).adjacency) j adj := by
        unfold isis_lsp_flood_skips
        simp [hst, isis_lsp_self_update_lsp]
      rw [if_neg hns, if_neg (by simp [hst])]
    · have hs' : isis_lsp_flood_skips
          (isis_lsp_self_update_lsp now inst.config inst.teardown level
            (inst.level level).adjacency (isis_self_lsp inst level))
          (isis_lsp_source_peer
            (isis_lsp_self_update_lsp now inst.config inst.teardown level
              (inst.level level).adjacency (isis_self_lsp inst level))
            (inst.level level).adjacency) j adj := Or.inl hst
      rw [if_pos hs', if_pos hst]
theorem isis_lsp_self_update_config (now : timespec) (inst : isis_instance_t) (level : Nat) :
    (isis_lsp_self_update now inst level).1.config = inst.config ∧
      (isis_lsp_self_update now inst level).1.teardown = inst.teardown := by
  rw [isis_lsp_self_update_eq]
  simp only
  rw [(isis_lsp_flood_config _ _ _).1, (isis_lsp_flood_config _ _ _).2,
    (config_update_lsp _ _ _ _).1, (config_update_lsp _ _ _ _).2,
    (config_set_lsdb _ _ _).1, (config_set_lsdb _ _ _).2]
  exact ⟨rfl, rfl⟩

theorem flood_adjacency_count (lsp : isis_lsp_t) (adj : isis_adjacency_t)
    (hwf : dict_wf flood_key adj.flood_tree) :
    ((isis_lsp_flood_adjacency lsp adj).2.flood_tree.map flood_key).count lsp.id = 1 := by
  obtain ⟨e, he, _⟩ := flood_adjacency_search lsp adj
  exact dict_wf_count_one flood_key lsp.id e _ (flood_adjacency_wf lsp adj hwf) he

theorem flood_adjacency_state (lsp : isis_lsp_t) (adj : isis_adjacency_t) :
    (isis_lsp_flood_adjacency lsp adj).2.state = adj.state := by
  rw [flood_adjacency_adj]

/-- What `isis_lsp_self_update` keeps: the state of every adjacency of the
level and the tree invariant of its flood tree. -/
theorem isis_lsp_self_update_keeps (now : timespec) (inst : isis_instance_t) (level : Nat)
    (hwf : ∀ (j : Nat) (adj : isis_adjacency_t), (inst.level level).adjacency[j]? = some adj →
      dict_wf flood_key adj.flood_tree) :
    (∀ (j : Nat) (adj : isis_adjacency_t),
      ((isis_lsp_self_update now inst level).1.level level).adjacency[j]? = some adj →
      dict_wf flood_key adj.flood_tree) ∧
    (∀ j : Nat, (((isis_lsp_self_update now inst level).1.level level).adjacency[j]?).map
        isis_adjacency_t.state = ((inst.level level).adjacency[j]?).map isis_adjacency_t.state) := by
  constructor
  · intro j adj' h
    rw [isis_lsp_self_update_adjacency] at h
    cases ha : (inst.level level).adjacency[j]? with
    | none => rw [ha] at h; simp at h
    | some adj =>
      rw [ha] at h
      simp only [Option.map_some', Option.some.injEq] at h
      rw [← h]
      split_ifs
      · exact hwf j adj ha
      · exact flood_adjacency_wf _ adj (hwf j adj ha)
  · intro j
    rw [isis_lsp_self_update_adjacency]
    cases (inst.level level).adjacency[j]? with
    | none => rfl
    | some adj =>
      simp only [Option.map_some', Option.some.injEq]
      split_ifs
      · rfl
      · exact flood_adjacency_state _ adj

/-- What any number of calls of `isis_lsp_self_update` keeps. -/
theorem isis_lsp_self_update_all_keeps (level : Nat) :
    ∀ (times : List timespec) (inst : isis_instance_t),
      (∀ (j : Nat) (adj : isis_adjacency_t), (inst.level level).adjacency[j]? = some adj →
        dict_wf flood_key adj.flood_tree) →
      (isis_lsp_self_update_all times inst level).config = inst.config ∧
      (isis_lsp_self_update_all times inst level).teardown = inst.teardown ∧
      (∀ (j : Nat) (adj : isis_adjacency_t),
        ((isis_lsp_self_update_all times inst level).level level).adjacency[j]? = some adj →
        dict_wf flood_key adj.flood_tree) ∧
      (∀ j : Nat, (((isis_lsp_self_update_all times inst level).level level).adjacency[j]?).map
          isis_adjacency_t.state =
        ((inst.level level).adjacency[j]?).map isis_adjacency_t.state) := by
  intro times
  induction times with
  | nil => intro inst hwf; exact ⟨rfl, rfl, hwf, fun _ => rfl⟩
  | cons now rest ih =>
    intro inst hwf
    obtain ⟨k1, k2⟩ := isis_lsp_self_update_keeps now inst level hwf
    obtain ⟨c1, c2⟩ := isis_lsp_self_update_config now inst level
    obtain ⟨i1, i2, i3, i4⟩ := ih (isis_lsp_self_update now inst level).1 k1
    unfold isis_lsp_self_update_all at *
    rw [List.foldl_cons]
    refine ⟨i1.trans c1, i2.trans c2, i3, fun j => (i4 j).trans (k2 j)⟩
/-! ## C13: update of the self-originated LSP -/

/-- C13 (amended). A call of `isis_lsp_self_update(instance, level)` outside
teardown, after any number of earlier calls (`inst0` is the instance after
the calls at `times`), on an instance whose flood trees have pairwise
distinct keys: the call returns true; the self-LSP of the level is stored
with the sequence number it had before the call plus one modulo `2^32` (so
plus one exactly when it was below `2^32 - 1`, and 1 when the self-LSP was
absent), with source Self and lifetime `config.lsp_lifetime`; and the flood
tree of every Up adjacency of the level holds exactly one entry for the
self-LSP id, with `wait_ack = false`. -/
theorem isis_lsp_self_update_spec (times : List timespec) (now : timespec)
    (inst inst0 : isis_instance_t) (level : Nat)
    (h0 : inst0 = isis_lsp_self_update_all times inst level)
    (htd : inst.teardown = false)
    (hwf : ∀ adj ∈ (inst.level level).adjacency, dict_wf flood_key adj.flood_tree) :
    (isis_lsp_self_update now inst0 level).2 = true ∧
    (∃ lsp', dict_search lsp_key (isis_self_lsp_id inst.config)
        ((isis_lsp_self_update now inst0 level).1.level level).lsdb = some lsp' ∧
      lsp'.seq = ((isis_self_lsp inst0 level).seq + 1) % 2 ^ 32 ∧
      ((isis_self_lsp inst0 level).seq < 2 ^ 32 - 1 →
        lsp'.seq = (isis_self_lsp inst0 level).seq + 1) ∧
      (dict_search lsp_key (isis_self_lsp_id inst.config) (inst0.level level).lsdb = none →
        lsp'.seq = 1) ∧
      lsp'.source.type = ISIS_SOURCE_SELF ∧ lsp'.lifetime = inst.config.lsp_lifetime) ∧
    (∀ (j : Nat) (adj : isis_adjacency_t), (inst.level level).adjacency[j]? = some adj →
      adj.state = ISIS_ADJACENCY_STATE_UP →
      ∃ (adj' : isis_adjacency_t) (e : isis_flood_entry_t),
        ((isis_lsp_self_update now inst0 level).1.level level).adjacency[j]? = some adj' ∧
        (adj'.flood_tree.map flood_key).count (isis_self_lsp_id inst.config) = 1 ∧
        dict_search flood_key (isis_self_lsp_id inst.config) adj'.flood_tree = some e ∧
        e.wait_ack = false) := by
  have hwf' : ∀ (j : Nat) (adj : isis_adjacency_t), (inst.level level).adjacency[j]? = some adj →
      dict_wf flood_key adj.flood_tree := fun j adj h => hwf adj (List.getElem?_mem h)
  obtain ⟨hc, ht, hw0, hs0⟩ := isis_lsp_self_update_all_keeps level times inst hwf'
  rw [← h0] at hc ht hw0 hs0
  refine ⟨by rw [isis_lsp_self_update_eq], ?_, ?_⟩
  · obtain ⟨n, hn⟩ := isis_lsp_self_update_search now inst0 level
    rw [hc] at hn
    refine ⟨_, hn, rfl, ?_, ?_, rfl, ?_⟩
    · intro hlt
      show ((isis_self_lsp inst0 level).seq + 1) % 2 ^ 32 = _
      exact Nat.mod_eq_of_lt (by omega)
    · intro hnone
      show ((isis_self_lsp inst0 level).seq + 1) % 2 ^ 32 = 1
      unfold isis_self_lsp
      rw [hc, hnone]
      rfl
    · show (if inst0.teardown = true then ISIS_DEFAULT_PURGE_LIFETIME
        else inst.config.lsp_lifetime) = _
      rw [ht, htd]; rfl
  · intro j adj ha hup
    have hst := hs0 j
    rw [ha] at hst
    cases ha0 : (inst0.level level).adjacency[j]? with
    | none => rw [ha0] at hst; simp at hst
    | some adj0 =>
      rw [ha0] at hst
      simp only [Option.map_some', Option.some.injEq] at hst
      have hup0 : adj0.state = ISIS_ADJACENCY_STATE_UP := hst.trans hup
      have hadj := isis_lsp_self_update_adjacency now inst0 level j
      rw [ha0] at hadj
      simp only [Option.map_some', hup0, ne_eq, not_true_eq_false, if_false] at hadj
      have hid : (isis_lsp_self_update_lsp now inst0.config inst0.teardown level
          (inst0.level level).adjacency (isis_self_lsp inst0 level)).id =
          isis_self_lsp_id inst.config := by
        rw [isis_lsp_self_update_lsp_id, isis_self_lsp_id_eq, hc]
      obtain ⟨e, he, hwa, _⟩ := flood_adjacency_search
        (isis_lsp_self_update_lsp now inst0.config inst0.teardown level
          (inst0.level level).adjacency (isis_self_lsp inst0 level)) adj0
      have hcnt := flood_adjacency_count
        (isis_lsp_self_update_lsp now inst0.config inst0.teardown level
          (inst0.level level).adjacency (isis_self_lsp inst0 level)) adj0 (hw0 j adj0 ha0)
      rw [hid] at he hcnt
      exact ⟨_, e, hadj, hcnt, he, hwa⟩

/-- C13 (amended) at `ex_self_instance` (self-LSP stored with sequence
number 5): the third call stores sequence number 8, and the flood tree of
the adjacency holds one entry for the self-LSP. -/
theorem isis_lsp_self_update_spec_witness :
    ∃ lsp', dict_search lsp_key (isis_self_lsp_id ex_self_instance.config)
        ((isis_lsp_self_update ⟨100, 0⟩
          (isis_lsp_self_update_all [⟨10, 0⟩, ⟨20, 0⟩] ex_self_instance 1) 1).1.level 1).lsdb =
        some lsp' ∧
      lsp'.seq = ((isis_self_lsp
        (isis_lsp_self_update_all [⟨10, 0⟩, ⟨20, 0⟩] ex_self_instance 1) 1).seq + 1) % 2 ^ 32 ∧
      lsp'.seq = 8 :=
  match (isis_lsp_self_update_spec [⟨10, 0⟩, ⟨20, 0⟩] ⟨100, 0⟩ ex_self_instance _ 1 rfl rfl
    (by decide)).2.1 with
  | ⟨lsp', h1, h2, _⟩ => ⟨lsp', h1, h2, by rw [h2]; decide⟩

/-- C13 as stated fails at the largest 32-bit sequence number: outside
teardown, the self-LSP of `ex_max_seq_instance` is stored with sequence
number `2^32 - 1`, and after `isis_lsp_self_update` its sequence number is
0, not `2^32`. -/
theorem isis_lsp_self_update_wrap_counterexample :
    ex_max_seq_instance.teardown = false ∧
      (ex_max_seq_instance.level 1).lsdb.map (fun l => (l.id, l.seq)) =
        [(isis_self_lsp_id ex_max_seq_instance.config, 2 ^ 32 - 1)] ∧
      ((isis_lsp_self_update ⟨100, 0⟩ ex_max_seq_instance 1).1.level 1).lsdb.map
        (fun l => (l.id, l.seq)) = [(isis_self_lsp_id ex_max_seq_instance.config, 0)] ∧
      ¬ (0 = 2 ^ 32 - 1 + 1) := by
  decide
/-! ## C14: the self-originated LSP at teardown -/

/-- The self-LSP at teardown.  When `instance.teardown` is set,
`isis_lsp_self_update` returns true and stores the self-LSP of the level with lifetime
`ISIS_DEFAULT_PURGE_LIFETIME`, with the sequence number it had before plus
one modulo `2^32` (plus one exactly when it was below `2^32 - 1`), without
refresh timer, and with a rebuilt PDU that carries this sequence number, the
purge lifetime and the LSP id in its header and the authentication TLV of
the level as the first TLV; and every Up adjacency of the level holds the
self-LSP in its flood tree with `wait_ack = false`. -/
theorem isis_lsp_self_update_teardown (now : timespec) (inst : isis_instance_t) (level : Nat)
    (htd : inst.teardown = true) :
    (isis_lsp_self_update now inst level).2 = true ∧
    (∃ lsp', dict_search lsp_key (isis_self_lsp_id inst.config)
        ((isis_lsp_self_update now inst level).1.level level).lsdb = some lsp' ∧
      lsp'.lifetime = ISIS_DEFAULT_PURGE_LIFETIME ∧
      lsp'.seq = ((isis_self_lsp inst level).seq + 1) % 2 ^ 32 ∧
      ((isis_self_lsp inst level).seq < 2 ^ 32 - 1 →
        lsp'.seq = (isis_self_lsp inst level).seq + 1) ∧
      lsp'.timer_refresh = none ∧
      lsp'.pdu.seq = lsp'.seq ∧ lsp'.pdu.lifetime = ISIS_DEFAULT_PURGE_LIFETIME ∧
      lsp'.pdu.lsp_id = isis_self_lsp_id inst.config ∧
      lsp'.pdu.tlvs.head? = some (isis_tlv_t.auth
        (if level = ISIS_LEVEL_1 then inst.config.level1_auth else inst.config.level2_auth)
        (if level = ISIS_LEVEL_1 then inst.config.level1_key else inst.config.level2_key))) ∧
    (∀ (j : Nat) (adj : isis_adjacency_t), (inst.level level).adjacency[j]? = some adj →
      adj.state = ISIS_ADJACENCY_STATE_UP →
      ∃ (adj' : isis_adjacency_t) (e : isis_flood_entry_t),
        ((isis_lsp_self_update now inst level).1.level level).adjacency[j]? = some adj' ∧
        dict_search flood_key (isis_self_lsp_id inst.config) adj'.flood_tree = some e ∧
        e.wait_ack = false) := by
  refine ⟨by rw [isis_lsp_self_update_eq], ?_, ?_⟩
  · obtain ⟨n, hn⟩ := isis_lsp_self_update_search now inst level
    refine ⟨_, hn, ?_, rfl, ?_, ?_, rfl, ?_, rfl, ?_⟩
    · show (if inst.teardown = true then ISIS_DEFAULT_PURGE_LIFETIME
        else inst.config.lsp_lifetime) = _
      rw [htd]; rfl
    · intro hlt
      show ((isis_self_lsp inst level).seq + 1) % 2 ^ 32 = _
      exact Nat.mod_eq_of_lt (by omega)
    · show (if inst.teardown = true then none else some inst.config.lsp_refresh_interval) = _
      rw [htd]; rfl
    · show (if inst.teardown = true then ISIS_DEFAULT_PURGE_LIFETIME
        else inst.config.lsp_lifetime) = _
      rw [htd]; rfl
    · simp [isis_lsp_self_update_lsp, isis_self_pdu]
  · intro j adj ha hup
    have hadj := isis_lsp_self_update_adjacency now inst level j
    rw [ha] at hadj
    simp only [Option.map_some', hup, ne_eq, not_true_eq_false, if_false] at hadj
    have hid : (isis_lsp_self_update_lsp now inst.config inst.teardown level
        (inst.level level).adjacency (isis_self_lsp inst level)).id =
        isis_self_lsp_id inst.config := by
      rw [isis_lsp_self_update_lsp_id, isis_self_lsp_id_eq]
    obtain ⟨e, he, hwa, _⟩ := flood_adjacency_search
      (isis_lsp_self_update_lsp now inst.config inst.teardown level
        (inst.level level).adjacency (isis_self_lsp inst level)) adj
    rw [hid] at he
    exact ⟨_, e, hadj, he, hwa⟩

/-- The self-LSP at teardown of `ex_teardown_instance`: the self-LSP, stored
with sequence number 5, is stored with sequence number 6 and the purge lifetime. -/
theorem isis_lsp_self_update_teardown_witness :
    ∃ lsp', dict_search lsp_key (isis_self_lsp_id ex_teardown_instance.config)
        ((isis_lsp_self_update ⟨100, 0⟩ ex_teardown_instance 1).1.level 1).lsdb = some lsp' ∧
      lsp'.lifetime = ISIS_DEFAULT_PURGE_LIFETIME ∧ lsp'.seq = 6 :=
  match (isis_lsp_self_update_teardown ⟨100, 0⟩ ex_teardown_instance 1 rfl).2.1 with
  | ⟨lsp', h1, h2, h3, _⟩ => ⟨lsp', h1, h2, by rw [h3]; decide⟩

/-- C14 fails on the code.  At `ex_teardown_instance` (teardown set, self-LSP
with sequence number 5, one Up adjacency to peer 9) `isis_lsp_self_update`
stores the self-LSP with sequence number 6 and the purge lifetime, and the TLV
section of the rebuilt PDU holds, after the authentication TLV, the area,
protocols, hostname, interface address, router-id and reachability TLVs, where
the claim has the authentication TLV alone.  `isis_lsp_purge_external`, run on
`ex_purge_instance`, rebuilds the PDU of the external LSP 7 with the
authentication TLV alone. -/
theorem isis_lsp_self_update_teardown_tlvs :
    ex_teardown_instance.teardown = true ∧
      (ex_teardown_instance.level 1).lsdb.map (fun l => (l.id, l.seq)) = [(65536, 5)] ∧
      ((isis_lsp_self_update ⟨100, 0⟩ ex_teardown_instance 1).1.level 1).lsdb.map
        (fun l => (l.id, l.seq, l.lifetime, l.pdu.tlvs)) =
        [(65536, 6, ISIS_DEFAULT_PURGE_LIFETIME,
          [isis_tlv_t.auth 0 none, isis_tlv_t.area [] 0, isis_tlv_t.protocols true false,
           isis_tlv_t.hostname "r1", isis_tlv_t.ipv4_int_address 1, isis_tlv_t.te_router_id 1,
           isis_tlv_t.ext_reachability 9 10])] ∧
      ((isis_lsp_self_update ⟨100, 0⟩ ex_teardown_instance 1).1.level 1).lsdb.map
        (fun l => l.pdu.tlvs) ≠ [[isis_tlv_t.auth 0 none]] ∧
      ((isis_lsp_purge_external ⟨100, 0⟩ ex_purge_instance 1).level 1).lsdb.map
        (fun l => (l.id, l.source.type, l.pdu.tlvs)) =
        [(7, ISIS_SOURCE_EXTERNAL, [isis_tlv_t.auth 0 none]),
         (8, ISIS_SOURCE_ADJACENCY, [])] := by
  decide

/-! ## What `isis_lsp_flood` leaves alone -/

theorem isis_lsp_flood_lsdb_search_ne (inst : isis_instance_t) (lsdb_level id l' k : Nat)
    (h : k ≠ id ∨ ¬ same_level lsdb_level l') :
    dict_search lsp_key k ((isis_lsp_flood inst lsdb_level id).level l').lsdb =
      dict_search lsp_key k (inst.level l').lsdb := by
  cases hl : dict_search lsp_key id (inst.level lsdb_level).lsdb with
  | none =>
    have : isis_lsp_flood inst lsdb_level id = inst := by unfold isis_lsp_flood; rw [hl]
    rw [this]
  | some lsp =>
    rw [isis_lsp_flood_found inst lsdb_level id lsp hl]
    have hf : ∀ x : isis_lsp_t, x.id = id →
        ((fun _ => (isis_lsp_flood_loop
          (isis_lsp_source_peer lsp (inst.level lsp.level).adjacency) 0
          (inst.level lsp.level).adjacency lsp).1) x).id = id := by
      intro x _
      rw [flood_loop_lsp]
      exact dict_search_key lsp_key id lsp _ hl
    rw [lsdb_search_update_lsp _ _ _ _ _ _ hf, if_neg (by
      rintro ⟨h1, h2⟩
      rcases h with h | h
      · exact h h2
      · exact h h1), lsdb_set_adjacency]

theorem isis_lsp_flood_adjacency_any (inst : isis_instance_t) (lsdb_level id l' j : Nat) :
    ∃ f : isis_adjacency_t → isis_adjacency_t,
      (∀ adj, f adj = adj ∨ ∃ lsp : isis_lsp_t, lsp.id = id ∧
        f adj = (isis_lsp_flood_adjacency lsp adj).2) ∧
      ((isis_lsp_flood inst lsdb_level id).level l').adjacency[j]? =
        ((inst.level l').adjacency[j]?).map f := by
  cases hl : dict_search lsp_key id (inst.level lsdb_level).lsdb with
  | none =>
    have : isis_lsp_flood inst lsdb_level id = inst := by unfold isis_lsp_flood; rw [hl]
    rw [this]
    exact ⟨fun a => a, fun a => Or.inl rfl, by simp⟩
  | some lsp =>
    have hid : lsp.id = id := dict_search_key lsp_key id lsp _ hl
    by_cases hlv : (lsp.level = ISIS_LEVEL_1 ↔ l' = ISIS_LEVEL_1)
    · have hg := isis_lsp_flood_adjacency_get inst lsdb_level id lsp hl j
      rw [level_congr _ lsp.level l' hlv, level_congr inst lsp.level l' hlv] at hg
      refine ⟨_, ?_, hg⟩
      intro adj
      by_cases hsk : isis_lsp_flood_skips lsp
          (isis_lsp_source_peer lsp (inst.level l').adjacency) j adj
      · exact Or.inl (if_pos hsk)
      · exact Or.inr ⟨lsp, hid, if_neg hsk⟩
    · rw [isis_lsp_flood_adjacency_other inst lsdb_level id l' lsp hl hlv]
      exact ⟨fun a => a, fun a => Or.inl rfl, by simp⟩

theorem isis_lsp_flood_adj_search_ne (inst : isis_instance_t) (lsdb_level id l' j k : Nat)
    (hk : k ≠ id) :
    (((isis_lsp_flood inst lsdb_level id).level l').adjacency[j]?).map
        (fun a => dict_search flood_key k a.flood_tree) =
      ((inst.level l').adjacency[j]?).map (fun a => dict_search flood_key k a.flood_tree) := by
  obtain ⟨f, hf, he⟩ := isis_lsp_flood_adjacency_any inst lsdb_level id l' j
  rw [he]
  cases (inst.level l').adjacency[j]? with
  | none => rfl
  | some adj =>
    simp only [Option.map_some', Option.some.injEq]
    rcases hf adj with h | ⟨lsp, hid, h⟩
    · rw [h]
    · rw [h, flood_adjacency_search_ne lsp adj k (by rw [hid]; exact hk)]

theorem isis_lsp_flood_adj_state (inst : isis_instance_t) (lsdb_level id l' j : Nat) :
    (((isis_lsp_flood inst lsdb_level id).level l').adjacency[j]?).map isis_adjacency_t.state =
      ((inst.level l').adjacency[j]?).map isis_adjacency_t.state := by
  obtain ⟨f, hf, he⟩ := isis_lsp_flood_adjacency_any inst lsdb_level id l' j
  rw [he]
  cases (inst.level l').adjacency[j]? with
  | none => rfl
  | some adj =>
    simp only [Option.map_some', Option.some.injEq]
    rcases hf adj with h | ⟨lsp, _, h⟩
    · rw [h]
    · rw [h, flood_adjacency_state]
/-! ## C15: purge of the external LSPs -/

theorem isis_lsp_purge_external_step_skip (now : timespec) (level : Nat)
    (inst : isis_instance_t) (id : Nat)
    (h : ∀ lsp, dict_search lsp_key id (inst.level level).lsdb = some lsp →
      lsp.source.type ≠ ISIS_SOURCE_EXTERNAL) :
    isis_lsp_purge_external_step now level inst id = inst := by
  unfold isis_lsp_purge_external_step
  cases hs : dict_search lsp_key id (inst.level level).lsdb with
  | none => rfl
  | some lsp => simp only [if_neg (h lsp hs)]

theorem isis_lsp_purge_external_step_purge (now : timespec) (level : Nat)
    (inst : isis_instance_t) (id : Nat) (lsp : isis_lsp_t)
    (hs : dict_search lsp_key id (inst.level level).lsdb = some lsp)
    (hx : lsp.source.type = ISIS_SOURCE_EXTERNAL) :
    isis_lsp_purge_external_step now level inst id =
      isis_lsp_flood (inst.update_lsp level id (isis_lsp_purge_lsp now inst.config level))
        level id := by
  unfold isis_lsp_purge_external_step
  simp only [hs, if_pos hx]

theorem isis_lsp_purge_external_step_keeps (now : timespec) (level : Nat)
    (inst : isis_instance_t) (id : Nat) :
    (isis_lsp_purge_external_step now level inst id).config = inst.config ∧
    (∀ l' j : Nat, (((isis_lsp_purge_external_step now level inst id).level l').adjacency[j]?).map
        isis_adjacency_t.state = ((inst.level l').adjacency[j]?).map isis_adjacency_t.state) := by
  unfold isis_lsp_purge_external_step
  cases hs : dict_search lsp_key id (inst.level level).lsdb with
  | none => exact ⟨rfl, fun _ _ => rfl⟩
  | some lsp =>
    simp only
    split_ifs
    · refine ⟨?_, fun l' j => ?_⟩
      · rw [(isis_lsp_flood_config _ _ _).1, (config_update_lsp _ _ _ _).1]
      · rw [isis_lsp_flood_adj_state, adjacency_update_lsp]
    · exact ⟨rfl, fun _ _ => rfl⟩

/-- A step of the purge for the LSP `id` leaves the LSP `k` and the flood
entries for `k` alone when `k` is another LSP or is not external. -/
theorem isis_lsp_purge_external_step_frame (now : timespec) (level : Nat)
    (inst : isis_instance_t) (id k : Nat)
    (h : k ≠ id ∨ ∀ lsp, dict_search lsp_key k (inst.level level).lsdb = some lsp →
      lsp.source.type ≠ ISIS_SOURCE_EXTERNAL) :
    dict_search lsp_key k ((isis_lsp_purge_external_step now level inst id).level level).lsdb =
      dict_search lsp_key k (inst.level level).lsdb ∧
    (∀ j : Nat, (((isis_lsp_purge_external_step now level inst id).level level).adjacency[j]?).map
        (fun a => dict_search flood_key k a.flood_tree) =
      ((inst.level level).adjacency[j]?).map (fun a => dict_search flood_key k a.flood_tree)) := by
  by_cases hk : k = id
  · have h' : ∀ lsp, dict_search lsp_key id (inst.level level).lsdb = some lsp →
        lsp.source.type ≠ ISIS_SOURCE_EXTERNAL := by
      rcases h with h | h
      · exact absurd hk h
      · rw [← hk]; exact h
    rw [isis_lsp_purge_external_step_skip now level inst id h']
    exact ⟨rfl, fun _ => rfl⟩
  · cases hs : dict_search lsp_key id (inst.level level).lsdb with
    | none =>
      rw [isis_lsp_purge_external_step_skip now level inst id (by
        intro lsp hl; rw [hs] at hl; simp at hl)]
      exact ⟨rfl, fun _ => rfl⟩
    | some lsp =>
      by_cases hx : lsp.source.type = ISIS_SOURCE_EXTERNAL
      · rw [isis_lsp_purge_external_step_purge now level inst id lsp hs hx]
        refine ⟨?_, fun j => ?_⟩
        · rw [isis_lsp_flood_lsdb_search_ne _ _ _ _ _ (Or.inl hk),
            lsdb_search_update_lsp _ _ _ _ _ (isis_lsp_purge_lsp now inst.config level)
              (fun y hy => hy), if_neg (fun c => hk c.2)]
        · rw [isis_lsp_flood_adj_search_ne _ _ _ _ _ _ hk, adjacency_update_lsp]
      · rw [isis_lsp_purge_external_step_skip now level inst id (by
          intro lsp' hl; rw [hs] at hl; cases hl; exact hx)]
        exact ⟨rfl, fun _ => rfl⟩

/-- A step of the purge for an external LSP. -/
theorem isis_lsp_purge_external_step_own (now : timespec) (level : Nat)
    (inst : isis_instance_t) (id : Nat) (lsp : isis_lsp_t)
    (hs : dict_search lsp_key id (inst.level level).lsdb = some lsp)
    (hx : lsp.source.type = ISIS_SOURCE_EXTERNAL) (hlv : same_level lsp.level level) :
    (∃ n, dict_search lsp_key id
        ((isis_lsp_purge_external_step now level inst id).level level).lsdb =
      some { isis_lsp_purge_lsp now inst.config level lsp with refcount := n }) ∧
    (∀ (j : Nat) (adj : isis_adjacency_t), (inst.level level).adjacency[j]? = some adj →
      adj.state = ISIS_ADJACENCY_STATE_UP →
      ∃ e, (((isis_lsp_purge_external_step now level inst id).level level).adjacency[j]?).map
          (fun a => dict_search flood_key id a.flood_tree) = some (some e) ∧
        e.wait_ack = false) := by
  rw [isis_lsp_purge_external_step_purge now level inst id lsp hs hx]
  have hs' : dict_search lsp_key id
      ((inst.update_lsp level id (isis_lsp_purge_lsp now inst.config level)).level level).lsdb =
      some (isis_lsp_purge_lsp now inst.config level lsp) := by
    rw [lsdb_search_update_lsp _ _ _ _ _ (isis_lsp_purge_lsp now inst.config level)
      (fun y hy => hy), if_pos ⟨by unfold same_level; exact Iff.rfl, rfl⟩, hs]
    rfl
  constructor
  · obtain ⟨n, hn⟩ := isis_lsp_flood_lsdb_search
      (inst.update_lsp level id (isis_lsp_purge_lsp now inst.config level)) level id level id
    exact ⟨n, by rw [hn, hs']; rfl⟩
  · intro j adj ha hup
    have hlv' : ((isis_lsp_purge_lsp now inst.config level lsp).level = ISIS_LEVEL_1 ↔
        level = ISIS_LEVEL_1) := hlv
    have hg := isis_lsp_flood_adjacency_get _ level id _ hs' j
    rw [level_congr _ _ level hlv', level_congr
      (inst.update_lsp level id (isis_lsp_purge_lsp now inst.config level)) _ level hlv',
      adjacency_update_lsp, ha] at hg
    have hns : ¬ isis_lsp_flood_skips (isis_lsp_purge_lsp now inst.config level lsp)
        (isis_lsp_source_peer (isis_lsp_purge_lsp now inst.config level lsp)
          (inst.level level).adjacency) j adj := by
      unfold isis_lsp_flood_skips
      have : (isis_lsp_purge_lsp now inst.config level lsp).source.type =
          ISIS_SOURCE_EXTERNAL := hx
      simp [hup, this]
    simp only [Option.map_some', if_neg hns] at hg
    obtain ⟨e, he, hwa, _⟩ := flood_adjacency_search
      (isis_lsp_purge_lsp now inst.config level lsp) adj
    have hid : (isis_lsp_purge_lsp now inst.config level lsp).id = id :=
      dict_search_key lsp_key id lsp _ hs
    rw [hid] at he
    exact ⟨e, by rw [hg]; simp [he], hwa⟩
theorem isis_lsp_purge_external_fold_keeps (now : timespec) (level : Nat) :
    ∀ (ids : List Nat) (inst : isis_instance_t),
      (ids.foldl (isis_lsp_purge_external_step now level) inst).config = inst.config ∧
      (∀ l' j : Nat,
        (((ids.foldl (isis_lsp_purge_external_step now level) inst).level l').adjacency[j]?).map
          isis_adjacency_t.state = ((inst.level l').adjacency[j]?).map isis_adjacency_t.state) := by
  intro ids
  induction ids with
  | nil => intro inst; exact ⟨rfl, fun _ _ => rfl⟩
  | cons id rest ih =>
    intro inst
    obtain ⟨k1, k2⟩ := isis_lsp_purge_external_step_keeps now level inst id
    obtain ⟨i1, i2⟩ := ih (isis_lsp_purge_external_step now level inst id)
    rw [List.foldl_cons]
    exact ⟨i1.trans k1, fun l' j => (i2 l' j).trans (k2 l' j)⟩

theorem isis_lsp_purge_external_fold_frame (now : timespec) (level k : Nat) :
    ∀ (ids : List Nat) (inst : isis_instance_t),
      (k ∉ ids ∨ ∀ lsp, dict_search lsp_key k (inst.level level).lsdb = some lsp →
        lsp.source.type ≠ ISIS_SOURCE_EXTERNAL) →
      dict_search lsp_key k
          ((ids.foldl (isis_lsp_purge_external_step now level) inst).level level).lsdb =
        dict_search lsp_key k (inst.level level).lsdb ∧
      (∀ j : Nat,
        (((ids.foldl (isis_lsp_purge_external_step now level) inst).level level).adjacency[j]?).map
          (fun a => dict_search flood_key k a.flood_tree) =
        ((inst.level level).adjacency[j]?).map
          (fun a => dict_search flood_key k a.flood_tree)) := by
  intro ids
  induction ids with
  | nil => intro inst _; exact ⟨rfl, fun _ => rfl⟩
  | cons id rest ih =>
    intro inst h
    have hstep : k ≠ id ∨ ∀ lsp, dict_search lsp_key k (inst.level level).lsdb = some lsp →
        lsp.source.type ≠ ISIS_SOURCE_EXTERNAL := by
      rcases h with h | h
      · exact Or.inl (fun c => h (by rw [c]; exact List.mem_cons_self _ _))
      · exact Or.inr h
    obtain ⟨s1, s2⟩ := isis_lsp_purge_external_step_frame now level inst id k hstep
    have hrest : k ∉ rest ∨ ∀ lsp, dict_search lsp_key k
        ((isis_lsp_purge_external_step now level inst id).level level).lsdb = some lsp →
        lsp.source.type ≠ ISIS_SOURCE_EXTERNAL := by
      rcases h with h | h
      · exact Or.inl (fun c => h (List.mem_cons_of_mem _ c))
      · right; rw [s1]; exact h
    obtain ⟨i1, i2⟩ := ih (isis_lsp_purge_external_step now level inst id) hrest
    rw [List.foldl_cons]
    exact ⟨i1.trans s1, fun j => (i2 j).trans (s2 j)⟩

theorem isis_lsp_purge_external_fold_own (now : timespec) (level k : Nat) :
    ∀ (ids : List Nat) (inst : isis_instance_t) (lsp : isis_lsp_t), ids.Nodup → k ∈ ids →
      dict_search lsp_key k (inst.level level).lsdb = some lsp →
      lsp.source.type = ISIS_SOURCE_EXTERNAL → same_level lsp.level level →
      (∃ n, dict_search lsp_key k
          ((ids.foldl (isis_lsp_purge_external_step now level) inst).level level).lsdb =
        some { isis_lsp_purge_lsp now inst.config level lsp with refcount := n }) ∧
      (∀ (j : Nat) (adj : isis_adjacency_t), (inst.level level).adjacency[j]? = some adj →
        adj.state = ISIS_ADJACENCY_STATE_UP →
        ∃ e,
          (((ids.foldl (isis_lsp_purge_external_step now level) inst).level level).adjacency[j]?).map
            (fun a => dict_search flood_key k a.flood_tree) = some (some e) ∧
          e.wait_ack = false) := by
  intro ids
  induction ids with
  | nil => intro inst lsp _ hk; simp at hk
  | cons id rest ih =>
    intro inst lsp hnd hk hs hx hlv
    rw [List.nodup_cons] at hnd
    rw [List.foldl_cons]
    by_cases hid : k = id
    · subst hid
      obtain ⟨⟨n, o1⟩, o2⟩ := isis_lsp_purge_external_step_own now level inst k lsp hs hx hlv
      obtain ⟨f1, f2⟩ := isis_lsp_purge_external_fold_frame now level k rest
        (isis_lsp_purge_external_step now level inst k) (Or.inl hnd.1)
      refine ⟨⟨n, f1.trans o1⟩, fun j adj ha hup => ?_⟩
      obtain ⟨e, he, hwa⟩ := o2 j adj ha hup
      exact ⟨e, (f2 j).trans he, hwa⟩
    · have hkr : k ∈ rest := by
        rcases List.mem_cons.1 hk with h | h
        · exact absurd h hid
        · exact h
      obtain ⟨s1, _⟩ := isis_lsp_purge_external_step_frame now level inst id k (Or.inl hid)
      obtain ⟨c1, c2⟩ := isis_lsp_purge_external_step_keeps now level inst id
      obtain ⟨i1, i2⟩ := ih (isis_lsp_purge_external_step now level inst id) lsp hnd.2 hkr
        (s1.trans hs) hx hlv
      rw [c1] at i1
      refine ⟨i1, fun j adj ha hup => ?_⟩
      have hst := c2 level j
      rw [ha] at hst
      cases ha' : ((isis_lsp_purge_external_step now level inst id).level level).adjacency[j]? with
      | none => rw [ha'] at hst; simp at hst
      | some adj0 =>
        rw [ha'] at hst
        simp only [Option.map_some', Option.some.injEq] at hst
        exact i2 j adj0 ha' (hst.trans hup)

/-- C15 (amended). `isis_lsp_purge_external(instance, level)` on an LSDB with
pairwise distinct LSP ids whose records carry the level of the LSDB: every
LSP with source External is stored afterwards with its sequence number plus
one modulo `2^32` (plus one exactly when it was below `2^32 - 1`), with
lifetime `ISIS_DEFAULT_PURGE_LIFETIME` and with the rebuilt PDU whose TLV
section is the authentication TLV alone, and every Up adjacency of the level
holds it in its flood tree with `wait_ack = false`; every LSP with source
Self or Adjacency is stored unchanged (sequence number, lifetime, PDU and
every other field), and the search for it in the flood tree of every
adjacency of the level gives what it gave before, so it is added to no flood
tree. -/
theorem isis_lsp_purge_external_spec (now : timespec) (inst : isis_instance_t) (level : Nat)
    (hwf : dict_wf lsp_key (inst.level level).lsdb)
    (hlv : ∀ lsp ∈ (inst.level level).lsdb, same_level lsp.level level) :
    ∀ lsp ∈ (inst.level level).lsdb,
      (lsp.source.type = ISIS_SOURCE_EXTERNAL →
        (∃ lsp', dict_search lsp_key lsp.id
            ((isis_lsp_purge_external now inst level).level level).lsdb = some lsp' ∧
          lsp'.seq = (lsp.seq + 1) % 2 ^ 32 ∧
          (lsp.seq < 2 ^ 32 - 1 → lsp'.seq = lsp.seq + 1) ∧
          lsp'.lifetime = ISIS_DEFAULT_PURGE_LIFETIME ∧
          lsp'.pdu = isis_purge_pdu inst.config level lsp.id lsp'.seq
            ISIS_DEFAULT_PURGE_LIFETIME ∧
          lsp'.pdu.tlvs = [isis_tlv_t.auth
            (if level = ISIS_LEVEL_1 then inst.config.level1_auth else inst.config.level2_auth)
            (if level = ISIS_LEVEL_1 then inst.config.level1_key
              else inst.config.level2_key)]) ∧
        (∀ (j : Nat) (adj : isis_adjacency_t), (inst.level level).adjacency[j]? = some adj →
          adj.state = ISIS_ADJACENCY_STATE_UP →
          ∃ (adj' : isis_adjacency_t) (e : isis_flood_entry_t),
            ((isis_lsp_purge_external now inst level).level level).adjacency[j]? = some adj' ∧
            dict_search flood_key lsp.id adj'.flood_tree = some e ∧ e.wait_ack = false)) ∧
      (lsp.source.type ≠ ISIS_SOURCE_EXTERNAL →
        dict_search lsp_key lsp.id
            ((isis_lsp_purge_external now inst level).level level).lsdb = some lsp ∧
        (∀ (j : Nat) (adj : isis_adjacency_t), (inst.level level).adjacency[j]? = some adj →
          ∃ adj' : isis_adjacency_t,
            ((isis_lsp_purge_external now inst level).level level).adjacency[j]? = some adj' ∧
            dict_search flood_key lsp.id adj'.flood_tree =
              dict_search flood_key lsp.id adj.flood_tree)) := by
  intro lsp hm
  have hs : dict_search lsp_key lsp.id (inst.level level).lsdb = some lsp :=
    dict_wf_mem_search lsp_key _ hwf lsp hm
  unfold isis_lsp_purge_external
  constructor
  · intro hx
    obtain ⟨⟨n, o1⟩, o2⟩ := isis_lsp_purge_external_fold_own now level lsp.id
      ((inst.level level).lsdb.map isis_lsp_t.id) inst lsp hwf (List.mem_map_of_mem _ hm) hs hx
      (hlv lsp hm)
    constructor
    · refine ⟨_, o1, rfl, ?_, rfl, rfl, rfl⟩
      intro hlt
      show (lsp.seq + 1) % 2 ^ 32 = _
      exact Nat.mod_eq_of_lt (by omega)
    · intro j adj ha hup
      obtain ⟨e, he, hwa⟩ := o2 j adj ha hup
      cases ha' : ((((inst.level level).lsdb.map isis_lsp_t.id).foldl
          (isis_lsp_purge_external_step now level) inst).level level).adjacency[j]? with
      | none => rw [ha'] at he; simp at he
      | some adj' =>
        rw [ha'] at he
        simp only [Option.map_some', Option.some.injEq] at he
        exact ⟨adj', e, rfl, he, hwa⟩
  · intro hx
    obtain ⟨f1, f2⟩ := isis_lsp_purge_external_fold_frame now level lsp.id
      ((inst.level level).lsdb.map isis_lsp_t.id) inst
      (Or.inr (fun l hl => by rw [hs] at hl; cases hl; exact hx))
    refine ⟨f1.trans hs, fun j adj ha => ?_⟩
    have := f2 j
    rw [ha] at this
    cases ha' : ((((inst.level level).lsdb.map isis_lsp_t.id).foldl
        (isis_lsp_purge_external_step now level) inst).level level).adjacency[j]? with
    | none => rw [ha'] at this; simp at this
    | some adj' =>
      rw [ha'] at this
      simp only [Option.map_some', Option.some.injEq] at this
      exact ⟨adj', rfl, this⟩

/-- C15 (amended) at `ex_purge_instance`: the external LSP 7, stored with
sequence number 3, is purged with sequence number 4. -/
theorem isis_lsp_purge_external_spec_witness :
    ∃ lsp', dict_search lsp_key 7
        ((isis_lsp_purge_external ⟨100, 0⟩ ex_purge_instance 1).level 1).lsdb = some lsp' ∧
      lsp'.seq = 4 ∧ lsp'.lifetime = ISIS_DEFAULT_PURGE_LIFETIME ∧
      lsp'.pdu.tlvs = [isis_tlv_t.auth 0 none] :=
  match ((isis_lsp_purge_external_spec ⟨100, 0⟩ ex_purge_instance 1 (by decide) (by decide)
    (ex_lsp 7 3 ⟨ISIS_SOURCE_EXTERNAL, none⟩ 0) (by decide)).1 rfl).1 with
  | ⟨lsp', h1, h2, _, h4, _, h6⟩ => ⟨lsp', h1, h2, h4, h6⟩

/-- C15 as stated fails at the largest 32-bit sequence number: the external
LSP 7 of `ex_purge_max_seq_instance` is stored with sequence number
`2^32 - 1`, and after `isis_lsp_purge_external` its sequence number is 0,
not `2^32`. -/
theorem isis_lsp_purge_external_wrap_counterexample :
    (ex_purge_max_seq_instance.level 1).lsdb.map (fun l => (l.id, l.source.type, l.seq)) =
        [(7, ISIS_SOURCE_EXTERNAL, 2 ^ 32 - 1)] ∧
      ((isis_lsp_purge_external ⟨100, 0⟩ ex_purge_max_seq_instance 1).level 1).lsdb.map
        (fun l => (l.id, l.seq)) = [(7, 0)] ∧
      ¬ (0 = 2 ^ 32 - 1 + 1) := by
  decide

/-! ## C12: the reference-count invariant -/

theorem countP_modify_delta {α : Type} (p : α → Bool) (f : α → α) :
    ∀ (l : List α) (a : Nat) (old : α), l[a]? = some old →
      (l.modify f a).countP p + (if p old then 1 else 0) =
        l.countP p + (if p (f old) then 1 else 0) := by
  intro l
  induction l with
  | nil => intro a old h; simp at h
  | cons x xs ih =>
    intro a old h
    cases a with
    | zero =>
      simp only [List.getElem?_cons_zero, Option.some.injEq] at h
      subst h
      simp only [List.modify_zero_cons, List.countP_cons]
      omega
    | succ n =>
      simp only [List.getElem?_cons_succ] at h
      have := ih n old h
      simp only [List.modify_succ_cons, List.countP_cons]
      omega

theorem countP_modify_same {α : Type} (p : α → Bool) (f : α → α) (hf : ∀ x, p (f x) = p x) :
    ∀ (l : List α) (a : Nat), (l.modify f a).countP p = l.countP p := by
  intro l
  induction l with
  | nil => intro a; cases a <;> simp
  | cons x xs ih =>
    intro a
    cases a with
    | zero => simp only [List.modify_zero_cons, List.countP_cons, hf]
    | succ n => simp only [List.modify_succ_cons, List.countP_cons, ih n]

theorem countP_set_delta {α : Type} (p : α → Bool) (x : α) :
    ∀ (l : List α) (a : Nat) (old : α), l[a]? = some old →
      (l.set a x).countP p + (if p old then 1 else 0) =
        l.countP p + (if p x then 1 else 0) := by
  intro l
  induction l with
  | nil => intro a old h; simp at h
  | cons y ys ih =>
    intro a old h
    cases a with
    | zero =>
      simp only [List.getElem?_cons_zero, Option.some.injEq] at h
      subst h
      simp only [List.set_cons_zero, List.countP_cons]
      omega
    | succ n =>
      simp only [List.getElem?_cons_succ] at h
      have := ih n old h
      simp only [List.set_cons_succ, List.countP_cons]
      omega

theorem dict_search_isSome_of_mem {α : Type} (key : α → Nat) (x : α) (t : List α)
    (h : x ∈ t) : (dict_search key (key x) t).isSome = true := by
  cases hs : dict_search key (key x) t with
  | none => exact absurd (List.mem_map_of_mem key h) (dict_search_none_not_mem key _ t hs)
  | some y => rfl

theorem isis_lsdb_refcount_some (lsdb : List isis_lsp_t) (id : Nat) (lsp : isis_lsp_t)
    (h : dict_search lsp_key id lsdb = some lsp) : isis_lsdb_refcount lsdb id = lsp.refcount := by
  unfold isis_lsdb_refcount; rw [h]

theorem isis_lsdb_refcount_none (lsdb : List isis_lsp_t) (id : Nat)
    (h : dict_search lsp_key id lsdb = none) : isis_lsdb_refcount lsdb id = 0 := by
  unfold isis_lsdb_refcount; rw [h]

/-- The two forms of the reference-count invariant agree. -/
theorem isis_refcount_ok_iff (lsdb : List isis_lsp_t) (adjs : List isis_adjacency_t) :
    isis_refcount_ok lsdb adjs ↔ isis_refcount_inv lsdb adjs := by
  constructor
  · rintro ⟨hwf, hfw, hval, heq⟩
    refine ⟨hwf, hfw, fun id => ?_⟩
    cases hs : dict_search lsp_key id lsdb with
    | some lsp =>
      rw [isis_lsdb_refcount_some lsdb id lsp hs, heq lsp (dict_search_mem lsp_key id lsp lsdb hs)]
      have : lsp.id = id := dict_search_key lsp_key id lsp lsdb hs
      rw [this]
    | none =>
      rw [isis_lsdb_refcount_none lsdb id hs]
      symm
      unfold isis_lsp_references
      have h1 : adjs.countP (holds_flood id) = 0 := by
        rw [List.countP_eq_zero]
        intro adj hadj hh
        unfold holds_flood at hh
        cases hf : dict_search flood_key id adj.flood_tree with
        | none => rw [hf] at hh; simp at hh
        | some e =>
          have hm := dict_search_mem flood_key id e _ hf
          have hk : e.lsp = id := dict_search_key flood_key id e _ hf
          have := (hval adj hadj).1 e hm
          rw [hk, hs] at this
          simp at this
      have h2 : adjs.countP (holds_psnp id) = 0 := by
        rw [List.countP_eq_zero]
        intro adj hadj hh
        unfold holds_psnp at hh
        cases hf : dict_search psnp_key id adj.psnp_tree with
        | none => rw [hf] at hh; simp at hh
        | some e =>
          have hm := dict_search_mem psnp_key id e _ hf
          have hk : e = id := dict_search_key psnp_key id e _ hf
          have := (hval adj hadj).2 e hm
          rw [hk, hs] at this
          simp at this
      rw [h1, h2]
  · rintro ⟨hwf, hfw, hinv⟩
    refine ⟨hwf, hfw, fun adj hadj => ⟨fun e he => ?_, fun k hk => ?_⟩, fun lsp hm => ?_⟩
    · cases hs : dict_search lsp_key e.lsp lsdb with
      | some _ => rfl
      | none =>
        have h0 := hinv e.lsp
        rw [isis_lsdb_refcount_none lsdb _ hs] at h0
        have hpos : 0 < adjs.countP (holds_flood e.lsp) :=
          List.countP_pos_iff.2 ⟨adj, hadj, dict_search_isSome_of_mem flood_key e _ he⟩
        unfold isis_lsp_references at h0
        omega
    · cases hs : dict_search lsp_key k lsdb with
      | some _ => rfl
      | none =>
        have h0 := hinv k
        rw [isis_lsdb_refcount_none lsdb _ hs] at h0
        have hpos : 0 < adjs.countP (holds_psnp k) :=
          List.countP_pos_iff.2 ⟨adj, hadj, dict_search_isSome_of_mem psnp_key k _ hk⟩
        unfold isis_lsp_references at h0
        omega
    · have hs := dict_wf_mem_search lsp_key lsdb hwf lsp hm
      have := hinv lsp.id
      rw [isis_lsdb_refcount_some lsdb _ lsp hs] at this
      exact this
theorem flood_adjacency_holds (lsp : isis_lsp_t) (adj : isis_adjacency_t) :
    holds_flood lsp.id (isis_lsp_flood_adjacency lsp adj).2 = true ∧
    (∀ k, k ≠ lsp.id →
      holds_flood k (isis_lsp_flood_adjacency lsp adj).2 = holds_flood k adj) ∧
    (∀ k, holds_psnp k (isis_lsp_flood_adjacency lsp adj).2 = holds_psnp k adj) ∧
    (isis_lsp_flood_adjacency lsp adj).1.refcount =
      lsp.refcount + (if holds_flood lsp.id adj then 0 else 1) ∧
    (isis_lsp_flood_adjacency lsp adj).1.id = lsp.id := by
  refine ⟨?_, ?_, ?_, ?_, ?_⟩
  · obtain ⟨e, he, _⟩ := flood_adjacency_search lsp adj
    unfold holds_flood; rw [he]; rfl
  · intro k hk
    unfold holds_flood
    rw [flood_adjacency_search_ne lsp adj k hk]
  · intro k
    unfold holds_psnp
    rw [flood_adjacency_adj]
  · rw [flood_adjacency_refcount]
    unfold holds_flood
    cases dict_search flood_key lsp.id adj.flood_tree <;> simp
  · rw [flood_adjacency_lsp]

/-- The reference count of the LSP and the number of flood trees that hold
it grow together in the loop of `isis_lsp_flood`. -/
theorem flood_loop_refs (sp : Option Nat) :
    ∀ (adjs : List isis_adjacency_t) (i : Nat) (lsp : isis_lsp_t),
      (isis_lsp_flood_loop sp i adjs lsp).1.refcount + adjs.countP (holds_flood lsp.id) =
        lsp.refcount + (isis_lsp_flood_loop sp i adjs lsp).2.countP (holds_flood lsp.id) ∧
      (∀ k, k ≠ lsp.id →
        (isis_lsp_flood_loop sp i adjs lsp).2.countP (holds_flood k) =
          adjs.countP (holds_flood k)) ∧
      (∀ k, (isis_lsp_flood_loop sp i adjs lsp).2.countP (holds_psnp k) =
        adjs.countP (holds_psnp k)) ∧
      ((∀ adj ∈ adjs, dict_wf flood_key adj.flood_tree) →
        ∀ adj ∈ (isis_lsp_flood_loop sp i adjs lsp).2, dict_wf flood_key adj.flood_tree) := by
  intro adjs
  induction adjs with
  | nil => intro i lsp; simp [isis_lsp_flood_loop]
  | cons adj rest ih =>
    intro i lsp
    by_cases hskip : adj.state ≠ ISIS_ADJACENCY_STATE_UP ∨
        (lsp.source.type = ISIS_SOURCE_ADJACENCY ∧
          (lsp.source.adjacency = some i ∨ sp = some adj.peer_system_id))
    · have hloop : isis_lsp_flood_loop sp i (adj :: rest) lsp =
          ((isis_lsp_flood_loop sp (i + 1) rest lsp).1,
            adj :: (isis_lsp_flood_loop sp (i + 1) rest lsp).2) := by
        rcases hskip with h | h
        · simp only [isis_lsp_flood_loop, if_pos h]
        · by_cases h0 : adj.state ≠ ISIS_ADJACENCY_STATE_UP
          · simp only [isis_lsp_flood_loop, if_pos h0]
          · simp only [isis_lsp_flood_loop, if_neg h0, if_pos h]
      obtain ⟨i1, i2, i3, i4⟩ := ih (i + 1) lsp
      rw [hloop]
      refine ⟨?_, ?_, ?_, ?_⟩
      · simp only [List.countP_cons]; omega
      · intro k hk; simp only [List.countP_cons, i2 k hk]
      · intro k; simp only [List.countP_cons, i3 k]
      · intro hwf a ha
        rcases List.mem_cons.1 ha with h | h
        · rw [h]; exact hwf adj (List.mem_cons_self _ _)
        · exact i4 (fun b hb => hwf b (List.mem_cons_of_mem _ hb)) a h
    · have h1 : ¬ adj.state ≠ ISIS_ADJACENCY_STATE_UP := fun c => hskip (Or.inl c)
      have h2 : ¬ (lsp.source.type = ISIS_SOURCE_ADJACENCY ∧
          (lsp.source.adjacency = some i ∨ sp = some adj.peer_system_id)) :=
        fun c => hskip (Or.inr c)
      have hloop : isis_lsp_flood_loop sp i (adj :: rest) lsp =
          ((isis_lsp_flood_loop sp (i + 1) rest (isis_lsp_flood_adjacency lsp adj).1).1,
            (isis_lsp_flood_adjacency lsp adj).2 ::
              (isis_lsp_flood_loop sp (i + 1) rest (isis_lsp_flood_adjacency lsp adj).1).2) := by
        simp only [isis_lsp_flood_loop, if_neg h1, if_neg h2]
      obtain ⟨f1, f2, f3, f4, f5⟩ := flood_adjacency_holds lsp adj
      obtain ⟨i1, i2, i3, i4⟩ := ih (i + 1) (isis_lsp_flood_adjacency lsp adj).1
      rw [f5] at i1 i2
      rw [hloop]
      refine ⟨?_, ?_, ?_, ?_⟩
      · simp only [List.countP_cons, f1, if_true]
        rw [f4] at i1
        split_ifs at i1 ⊢ <;> omega
      · intro k hk; simp only [List.countP_cons, i2 k hk, f2 k hk]
      · intro k; simp only [List.countP_cons, i3 k, f3 k]
      · intro hwf a ha
        rcases List.mem_cons.1 ha with h | h
        · rw [h]; exact flood_adjacency_wf lsp adj (hwf adj (List.mem_cons_self _ _))
        · exact i4 (fun b hb => hwf b (List.mem_cons_of_mem _ hb)) a h

theorem dict_update_wf {α : Type} (key : α → Nat) (k : Nat) (f : α → α)
    (hf : ∀ x, key x = k → key (f x) = k) (t : List α) (hwf : dict_wf key t) :
    dict_wf key (dict_update key k f t) := by
  unfold dict_wf at *
  rw [dict_update_keys key k f hf]; exact hwf

theorem isis_lsdb_refcount_update (lsdb : List isis_lsp_t) (id k : Nat)
    (f : isis_lsp_t → isis_lsp_t) (hf : ∀ x : isis_lsp_t, x.id = id → (f x).id = id) :
    isis_lsdb_refcount (dict_update lsp_key id f lsdb) k =
      if k = id then
        (match dict_search lsp_key id lsdb with
          | some lsp => (f lsp).refcount
          | none => 0)
      else isis_lsdb_refcount lsdb k := by
  unfold isis_lsdb_refcount
  by_cases hk : k = id
  · subst hk
    rw [if_pos rfl, dict_search_update_self lsp_key k f hf]
    cases dict_search lsp_key k lsdb <;> rfl
  · rw [if_neg hk, dict_search_update_ne lsp_key id k f hf hk]

/-- The invariant is kept by the loop of `isis_lsp_flood` for an LSP of the
LSDB, with the LSP written back. -/
theorem flood_loop_inv (sp : Option Nat) (lsdb : List isis_lsp_t)
    (adjs : List isis_adjacency_t) (id : Nat) (lsp : isis_lsp_t)
    (hinv : isis_refcount_inv lsdb adjs) (hs : dict_search lsp_key id lsdb = some lsp) :
    isis_refcount_inv
      (dict_update lsp_key id (fun _ => (isis_lsp_flood_loop sp 0 adjs lsp).1) lsdb)
      (isis_lsp_flood_loop sp 0 adjs lsp).2 := by
  obtain ⟨hwf, hfw, hcnt⟩ := hinv
  have hid : lsp.id = id := dict_search_key lsp_key id lsp lsdb hs
  obtain ⟨l1, l2, l3, l4⟩ := flood_loop_refs sp adjs 0 lsp
  have hrid : (isis_lsp_flood_loop sp 0 adjs lsp).1.id = id := by
    rw [flood_loop_lsp]; exact hid
  have hf : ∀ x : isis_lsp_t, x.id = id →
      ((fun _ => (isis_lsp_flood_loop sp 0 adjs lsp).1) x).id = id := fun _ _ => hrid
  refine ⟨dict_update_wf lsp_key id _ hf lsdb hwf, l4 hfw, fun k => ?_⟩
  rw [isis_lsdb_refcount_update lsdb id k _ hf]
  unfold isis_lsp_references
  by_cases hk : k = id
  · subst hk
    rw [if_pos rfl, hs]
    have h0 := hcnt k
    rw [isis_lsdb_refcount_some lsdb k lsp hs] at h0
    unfold isis_lsp_references at h0
    rw [hid] at l1
    have := l3 k
    simp only
    omega
  · rw [if_neg hk, hcnt k, l2 k (by rw [hid]; exact hk), l3 k]
    rfl
theorem isis_instance_refcount_ok_iff (inst : isis_instance_t) :
    isis_instance_refcount_ok inst ↔ isis_instance_refcount_inv inst := by
  unfold isis_instance_refcount_ok isis_instance_refcount_inv
  exact forall_congr' (fun l => isis_refcount_ok_iff _ _)

theorem mem_modify {α : Type} (f : α → α) :
    ∀ (l : List α) (a : Nat) (x : α), x ∈ l.modify f a → x ∈ l ∨ ∃ y ∈ l, x = f y := by
  intro l
  induction l with
  | nil => intro a x h; cases a <;> simp at h
  | cons y ys ih =>
    intro a x h
    cases a with
    | zero =>
      simp only [List.modify_zero_cons, List.mem_cons] at h
      rcases h with h | h
      · exact Or.inr ⟨y, List.mem_cons_self _ _, h⟩
      · exact Or.inl (List.mem_cons_of_mem _ h)
    | succ n =>
      simp only [List.modify_succ_cons, List.mem_cons] at h
      rcases h with h | h
      · exact Or.inl (by rw [h]; exact List.mem_cons_self _ _)
      · rcases ih n x h with h' | ⟨z, hz, hx⟩
        · exact Or.inl (List.mem_cons_of_mem _ h')
        · exact Or.inr ⟨z, List.mem_cons_of_mem _ hz, hx⟩

/-- The invariant of a level is kept when an adjacency is rewritten without
a change of its trees. -/
theorem refcount_inv_modify_trees (lsdb : List isis_lsp_t) (adjs : List isis_adjacency_t)
    (a : Nat) (f : isis_adjacency_t → isis_adjacency_t)
    (hf : ∀ x, (f x).flood_tree = x.flood_tree ∧ (f x).psnp_tree = x.psnp_tree)
    (hinv : isis_refcount_inv lsdb adjs) : isis_refcount_inv lsdb (adjs.modify f a) := by
  obtain ⟨hwf, hfw, hcnt⟩ := hinv
  refine ⟨hwf, ?_, fun k => ?_⟩
  · intro adj hadj
    rcases mem_modify f adjs a adj hadj with h | ⟨y, hy, hx⟩
    · exact hfw adj h
    · rw [hx, (hf y).1]; exact hfw y hy
  · rw [hcnt k]
    unfold isis_lsp_references
    rw [countP_modify_same (holds_flood k) f (fun x => by unfold holds_flood; rw [(hf x).1]),
      countP_modify_same (holds_psnp k) f (fun x => by unfold holds_psnp; rw [(hf x).2])]

/-- The invariant of a level is kept when an LSP record is rewritten without
a change of its id and reference count. -/
theorem refcount_inv_update (lsdb : List isis_lsp_t) (adjs : List isis_adjacency_t)
    (id : Nat) (f : isis_lsp_t → isis_lsp_t)
    (hid : ∀ x : isis_lsp_t, x.id = id → (f x).id = id)
    (hrc : ∀ x : isis_lsp_t, (f x).refcount = x.refcount)
    (hinv : isis_refcount_inv lsdb adjs) :
    isis_refcount_inv (dict_update lsp_key id f lsdb) adjs := by
  obtain ⟨hwf, hfw, hcnt⟩ := hinv
  refine ⟨dict_update_wf lsp_key id f hid lsdb hwf, hfw, fun k => ?_⟩
  rw [isis_lsdb_refcount_update lsdb id k f hid, ← hcnt k]
  by_cases hk : k = id
  · subst hk
    rw [if_pos rfl]
    unfold isis_lsdb_refcount
    cases dict_search lsp_key k lsdb with
    | none => rfl
    | some lsp => exact hrc lsp
  · rw [if_neg hk]

/-- The invariant of a level is kept when a new, unreferenced LSP record is
placed in the LSDB. -/
theorem refcount_inv_place (lsdb : List isis_lsp_t) (adjs : List isis_adjacency_t)
    (new : isis_lsp_t) (hrc : new.refcount = 0)
    (hs : dict_search lsp_key new.id lsdb = none)
    (hinv : isis_refcount_inv lsdb adjs) :
    isis_refcount_inv (dict_place lsp_key new lsdb) adjs := by
  obtain ⟨hwf, hfw, hcnt⟩ := hinv
  refine ⟨dict_place_wf lsp_key new lsdb hwf hs, hfw, fun k => ?_⟩
  rw [← hcnt k]
  unfold isis_lsdb_refcount
  by_cases hk : k = new.id
  · subst hk
    rw [dict_search_place_self lsp_key new lsdb hs, hs]
    exact hrc
  · rw [dict_search_place_ne lsp_key new k lsdb hk]

theorem holds_psnp_inserted_ne (id k : Nat) (adj : isis_adjacency_t) (hk : k ≠ id) :
    holds_psnp k (psnp_inserted id adj) = holds_psnp k adj := by
  unfold holds_psnp psnp_inserted
  have := dict_search_place_ne psnp_key id k adj.psnp_tree hk
  simp only
  rw [this]

theorem holds_psnp_inserted_self (id : Nat) (adj : isis_adjacency_t)
    (hn : dict_search psnp_key id adj.psnp_tree = none) :
    holds_psnp id (psnp_inserted id adj) = true := by
  unfold holds_psnp psnp_inserted
  have := dict_search_place_self psnp_key id adj.psnp_tree hn
  simp only [psnp_key, id_eq] at this
  simp only [psnp_key]
  rw [this]; rfl

/-- The invariant of a level is kept by the `ACK:` part of
`isis_lsp_handler_rx` when it inserts an LSP of the LSDB into the PSNP tree. -/
theorem refcount_inv_ack (lsdb : List isis_lsp_t) (adjs : List isis_adjacency_t)
    (a id : Nat) (adj : isis_adjacency_t) (lsp : isis_lsp_t)
    (ha : adjs[a]? = some adj) (hn : dict_search psnp_key id adj.psnp_tree = none)
    (hs : dict_search lsp_key id lsdb = some lsp) (hinv : isis_refcount_inv lsdb adjs) :
    isis_refcount_inv
      (dict_update lsp_key id (fun l => { l with refcount := l.refcount + 1 }) lsdb)
      (adjs.modify (psnp_inserted id) a) := by
  obtain ⟨hwf, hfw, hcnt⟩ := hinv
  have hid : ∀ x : isis_lsp_t, x.id = id →
      ((fun l : isis_lsp_t => { l with refcount := l.refcount + 1 }) x).id = id :=
    fun _ hx => hx
  refine ⟨dict_update_wf lsp_key id _ hid lsdb hwf, ?_, fun k => ?_⟩
  · intro x hx
    rcases mem_modify (psnp_inserted id) adjs a x hx with h | ⟨y, hy, hxy⟩
    · exact hfw x h
    · rw [hxy]; exact hfw y hy
  · rw [isis_lsdb_refcount_update lsdb id k _ hid]
    unfold isis_lsp_references
    rw [countP_modify_same (holds_flood k) (psnp_inserted id) (fun x => rfl)]
    by_cases hk : k = id
    · subst hk
      rw [if_pos rfl, hs]
      have h0 := hcnt k
      rw [isis_lsdb_refcount_some lsdb k lsp hs] at h0
      unfold isis_lsp_references at h0
      have hd := countP_modify_delta (holds_psnp k) (psnp_inserted k) adjs a adj ha
      rw [holds_psnp_inserted_self k adj hn] at hd
      have hold : holds_psnp k adj = false := by unfold holds_psnp; rw [hn]; rfl
      rw [hold] at hd
      simp only [Bool.false_eq_true, if_false, if_true] at hd
      show lsp.refcount + 1 = _
      omega
    · rw [if_neg hk, hcnt k,
        countP_modify_same (holds_psnp k) (psnp_inserted id)
          (fun x => holds_psnp_inserted_ne id k x hk)]
      rfl

/-! ### The invariant of an instance -/

theorem instance_inv_update_adjacency (inst : isis_instance_t) (level a : Nat)
    (f : isis_adjacency_t → isis_adjacency_t)
    (hf : ∀ x, (f x).flood_tree = x.flood_tree ∧ (f x).psnp_tree = x.psnp_tree)
    (hinv : isis_instance_refcount_inv inst) :
    isis_instance_refcount_inv (inst.update_adjacency level a f) := by
  intro l
  rw [lsdb_update_adjacency]
  by_cases h : (level = ISIS_LEVEL_1 ↔ l = ISIS_LEVEL_1)
  · rw [adjacency_update_adjacency_eq _ _ _ _ _ h]
    exact refcount_inv_modify_trees _ _ a f hf (hinv l)
  · rw [adjacency_update_adjacency_ne _ _ _ _ _ h]
    exact hinv l

theorem instance_inv_update_lsp (inst : isis_instance_t) (level id : Nat)
    (f : isis_lsp_t → isis_lsp_t)
    (hid : ∀ x : isis_lsp_t, x.id = id → (f x).id = id)
    (hrc : ∀ x : isis_lsp_t, (f x).refcount = x.refcount)
    (hinv : isis_instance_refcount_inv inst) :
    isis_instance_refcount_inv (inst.update_lsp level id f) := by
  intro l
  rw [adjacency_update_lsp]
  by_cases h : (level = ISIS_LEVEL_1 ↔ l = ISIS_LEVEL_1)
  · rw [lsdb_update_lsp_eq _ _ _ _ _ h]
    exact refcount_inv_update _ _ id f hid hrc (hinv l)
  · rw [lsdb_update_lsp_ne _ _ _ _ _ h]
    exact hinv l

theorem instance_inv_place (inst : isis_instance_t) (level : Nat) (new : isis_lsp_t)
    (hrc : new.refcount = 0)
    (hs : dict_search lsp_key new.id (inst.level level).lsdb = none)
    (hinv : isis_instance_refcount_inv inst) :
    isis_instance_refcount_inv
      (inst.set_lsdb level (dict_place lsp_key new (inst.level level).lsdb)) := by
  intro l
  rw [adjacency_set_lsdb]
  by_cases h : (level = ISIS_LEVEL_1 ↔ l = ISIS_LEVEL_1)
  · rw [lsdb_set_lsdb_eq _ _ _ _ h, level_congr inst level l h]
    rw [level_congr inst level l h] at hs
    exact refcount_inv_place _ _ new hrc hs (hinv l)
  · rw [lsdb_set_lsdb_ne _ _ _ _ h]
    exact hinv l

/-- `isis_lsp_flood` keeps the invariant, for an LSP that carries the level
of the LSDB it is stored in. -/
theorem isis_lsp_flood_inv (inst : isis_instance_t) (lv id : Nat)
    (hlv : ∀ lsp, dict_search lsp_key id (inst.level lv).lsdb = some lsp →
      same_level lsp.level lv)
    (hinv : isis_instance_refcount_inv inst) :
    isis_instance_refcount_inv (isis_lsp_flood inst lv id) := by
  cases hl : dict_search lsp_key id (inst.level lv).lsdb with
  | none =>
    have : isis_lsp_flood inst lv id = inst := by unfold isis_lsp_flood; rw [hl]
    rw [this]; exact hinv
  | some lsp =>
    have hsl : (lsp.level = ISIS_LEVEL_1 ↔ lv = ISIS_LEVEL_1) := hlv lsp hl
    rw [isis_lsp_flood_found inst lv id lsp hl]
    intro l
    rw [adjacency_update_lsp]
    by_cases h : (lv = ISIS_LEVEL_1 ↔ l = ISIS_LEVEL_1)
    · have h' : (lsp.level = ISIS_LEVEL_1 ↔ l = ISIS_LEVEL_1) := hsl.trans h
      rw [lsdb_update_lsp_eq _ _ _ _ _ h, lsdb_set_adjacency,
        adjacency_set_adjacency_eq _ _ _ _ h', level_congr inst lsp.level l h']
      rw [level_congr inst lv l h] at hl
      exact flood_loop_inv _ _ _ id lsp (hinv l) hl
    · have h' : ¬ (lsp.level = ISIS_LEVEL_1 ↔ l = ISIS_LEVEL_1) :=
        fun c => h (hsl.symm.trans c)
      rw [lsdb_update_lsp_ne _ _ _ _ _ h, lsdb_set_adjacency,
        adjacency_set_adjacency_ne _ _ _ _ h']
      exact hinv l

/-- The `ACK:` part of `isis_lsp_handler_rx` keeps the invariant, for an LSP
of the LSDB. -/
theorem isis_lsp_handler_rx_ack_inv (inst : isis_instance_t) (level a id : Nat)
    (lsp : isis_lsp_t) (hs : dict_search lsp_key id (inst.level level).lsdb = some lsp)
    (hinv : isis_instance_refcount_inv inst) :
    isis_instance_refcount_inv (isis_lsp_handler_rx_ack inst level a id) := by
  cases ha : (inst.level level).adjacency[a]? with
  | none =>
    have : isis_lsp_handler_rx_ack inst level a id = inst := by
      unfold isis_lsp_handler_rx_ack; rw [ha]
    rw [this]; exact hinv
  | some adj =>
    cases hn : dict_search psnp_key id adj.psnp_tree with
    | some x =>
      rw [isis_lsp_handler_rx_ack_present inst level a id adj ha (by rw [hn]; simp)]
      exact hinv
    | none =>
      rw [isis_lsp_handler_rx_ack_inserted inst level a id adj ha hn]
      intro l
      rw [adjacency_update_lsp]
      by_cases h : (level = ISIS_LEVEL_1 ↔ l = ISIS_LEVEL_1)
      · rw [lsdb_update_lsp_eq _ _ _ _ _ h, lsdb_update_adjacency,
          adjacency_update_adjacency_eq _ _ _ _ _ h]
        rw [level_congr inst level l h] at hs ha
        exact refcount_inv_ack _ _ a id adj lsp ha hn hs (hinv l)
      · rw [lsdb_update_lsp_ne _ _ _ _ _ h, lsdb_update_adjacency,
          adjacency_update_adjacency_ne _ _ _ _ _ h]
        exact hinv l
/-- `isis_lsp_self_update` keeps the invariant. -/
theorem isis_lsp_self_update_inv (now : timespec) (inst : isis_instance_t) (level : Nat)
    (hinv : isis_instance_refcount_inv inst) :
    isis_instance_refcount_inv (isis_lsp_self_update now inst level).1 := by
  rw [isis_lsp_self_update_eq]
  have h1 : isis_instance_refcount_inv (inst.set_lsdb level (isis_self_lsdb inst level)) := by
    unfold isis_self_lsdb
    cases hs : dict_search lsp_key (isis_self_lsp_id inst.config) (inst.level level).lsdb with
    | some lsp => simp only; rw [set_lsdb_self]; exact hinv
    | none =>
      simp only
      exact instance_inv_place inst level (isis_lsp_new (isis_self_lsp_id inst.config) level)
        rfl hs hinv
  have h2 := instance_inv_update_lsp _ level (isis_self_lsp_id inst.config)
    (isis_lsp_self_update_lsp now inst.config inst.teardown level (inst.level level).adjacency)
    (fun _ hx => hx) (fun _ => rfl) h1
  apply isis_lsp_flood_inv _ _ _ _ h2
  intro lsp hl
  rw [lsdb_search_update_lsp _ _ _ _ _
    (isis_lsp_self_update_lsp now inst.config inst.teardown level
      (inst.level level).adjacency) (fun y hy => hy),
    if_pos ⟨by unfold same_level; exact Iff.rfl, rfl⟩,
    lsdb_set_lsdb_eq _ _ _ _ Iff.rfl, isis_self_lsdb_search] at hl
  simp only [Option.map_some', Option.some.injEq] at hl
  rw [← hl]
  unfold same_level
  exact Iff.rfl

theorem isis_lsp_handler_rx_self_eq
    (validate_auth : isis_pdu_t → Nat → Option String → Bool) (now : timespec)
    (inst : isis_instance_t) (level a : Nat) (pdu : isis_pdu_t) (adj : isis_adjacency_t)
    (lsp : isis_lsp_t)
    (ha : (inst.level level).adjacency[a]? = some adj)
    (hauth : validate_auth pdu (isis_lsp_handler_rx_auth inst.config level).1
      (isis_lsp_handler_rx_auth inst.config level).2 = true)
    (hl : dict_search lsp_key (pdu.lsp_id % 2 ^ 64) (inst.level level).lsdb = some lsp)
    (hsrc : lsp.source.type = ISIS_SOURCE_SELF) (hseq : lsp.seq < pdu.seq % 2 ^ 32) :
    isis_lsp_handler_rx validate_auth now inst level a pdu =
      isis_lsp_handler_rx_ack
        (isis_lsp_self_update now
          ((inst.update_adjacency level a lsp_rx_counted).update_lsp level
            (pdu.lsp_id % 2 ^ 64) (fun l => { l with seq := pdu.seq % 2 ^ 32 }))
          adj.level).1
        level a (pdu.lsp_id % 2 ^ 64) := by
  unfold isis_lsp_handler_rx
  simp only [ha, hauth, not_true_eq_false, if_false, lsdb_update_adjacency, hl, hsrc]
  rw [if_neg (by omega), if_neg (by decide), if_pos trivial]
  rfl

/-- Storing a received LSP in a record of the LSDB, flooding it and adding it
to the PSNP tree keeps the invariant. -/
theorem isis_lsp_handler_rx_store_inv (now : timespec) (inst : isis_instance_t)
    (level a : Nat) (pdu : isis_pdu_t) (id seq : Nat) (x : isis_lsp_t)
    (hs : dict_search lsp_key id (inst.level level).lsdb = some x)
    (hinv : isis_instance_refcount_inv inst) :
    isis_instance_refcount_inv
      (isis_lsp_handler_rx_ack (isis_lsp_handler_rx_store now inst level a pdu id seq)
        level a id) := by
  rw [isis_lsp_handler_rx_store_eq]
  have hsu : dict_search lsp_key id
      ((inst.update_lsp level id (lsp_stored now level a pdu seq)).level level).lsdb =
      some (lsp_stored now level a pdu seq x) := by
    rw [lsdb_search_update_lsp _ _ _ _ _ (lsp_stored now level a pdu seq) (fun y hy => hy),
      if_pos ⟨by unfold same_level; exact Iff.rfl, rfl⟩, hs]
    rfl
  have h1 := instance_inv_update_lsp inst level id (lsp_stored now level a pdu seq)
    (fun _ hx => hx) (fun _ => rfl) hinv
  have h2 := isis_lsp_flood_inv _ level id (by
    intro lsp hl
    rw [hsu] at hl
    cases hl
    unfold same_level
    exact Iff.rfl) h1
  obtain ⟨n, hn⟩ := isis_lsp_flood_lsdb_search
    (inst.update_lsp level id (lsp_stored now level a pdu seq)) level id level id
  rw [hsu] at hn
  exact isis_lsp_handler_rx_ack_inv _ level a id _ hn h2

/-- `isis_lsp_handler_rx` keeps the invariant. -/
theorem isis_lsp_handler_rx_inv
    (validate_auth : isis_pdu_t → Nat → Option String → Bool) (now : timespec)
    (inst : isis_instance_t) (level a : Nat) (pdu : isis_pdu_t)
    (hinv : isis_instance_refcount_inv inst) :
    isis_instance_refcount_inv (isis_lsp_handler_rx validate_auth now inst level a pdu) := by
  cases ha : (inst.level level).adjacency[a]? with
  | none =>
    have : isis_lsp_handler_rx validate_auth now inst level a pdu = inst := by
      unfold isis_lsp_handler_rx; rw [ha]
    rw [this]; exact hinv
  | some adj =>
    have h1 : isis_instance_refcount_inv (inst.update_adjacency level a lsp_rx_counted) :=
      instance_inv_update_adjacency inst level a lsp_rx_counted (fun _ => ⟨rfl, rfl⟩) hinv
    cases hauth : validate_auth pdu (isis_lsp_handler_rx_auth inst.config level).1
        (isis_lsp_handler_rx_auth inst.config level).2 with
    | false =>
      rw [isis_lsp_handler_rx_auth_failed validate_auth now inst level a pdu adj ha hauth]
      exact h1
    | true =>
      cases hl : dict_search lsp_key (pdu.lsp_id % 2 ^ 64) (inst.level level).lsdb with
      | none =>
        rw [isis_lsp_handler_rx_store_unknown validate_auth now inst level a pdu adj ha hauth hl]
        have hl1 : dict_search lsp_key (isis_lsp_new (pdu.lsp_id % 2 ^ 64) level).id
            ((inst.update_adjacency level a lsp_rx_counted).level level).lsdb = none := by
          rw [lsdb_update_adjacency]; exact hl
        have h2 := instance_inv_place _ level (isis_lsp_new (pdu.lsp_id % 2 ^ 64) level)
          rfl hl1 h1
        rw [lsdb_update_adjacency] at h2
        apply isis_lsp_handler_rx_store_inv now _ level a pdu _ _
          (isis_lsp_new (pdu.lsp_id % 2 ^ 64) level) _ h2
        rw [lsdb_set_lsdb_eq _ _ _ _ Iff.rfl]
        exact dict_search_place_self lsp_key (isis_lsp_new (pdu.lsp_id % 2 ^ 64) level) _ hl
      | some lsp =>
        have hl1 : dict_search lsp_key (pdu.lsp_id % 2 ^ 64)
            ((inst.update_adjacency level a lsp_rx_counted).level level).lsdb = some lsp := by
          rw [lsdb_update_adjacency]; exact hl
        by_cases hold : pdu.seq % 2 ^ 32 ≤ lsp.seq ∨ lsp.source.type = ISIS_SOURCE_EXTERNAL
        · rw [isis_lsp_handler_rx_ack_only validate_auth now inst level a pdu adj lsp ha hauth
            hl hold]
          exact isis_lsp_handler_rx_ack_inv _ level a _ lsp hl1 h1
        · have hseq : lsp.seq < pdu.seq % 2 ^ 32 := by
            by_contra c
            exact hold (Or.inl (by omega))
          have hne : lsp.source.type ≠ ISIS_SOURCE_EXTERNAL := fun c => hold (Or.inr c)
          cases hsrc : lsp.source.type with
          | ISIS_SOURCE_EXTERNAL => exact absurd hsrc hne
          | ISIS_SOURCE_ADJACENCY =>
            rw [isis_lsp_handler_rx_store_known validate_auth now inst level a pdu adj lsp ha
              hauth hl hsrc hseq]
            exact isis_lsp_handler_rx_store_inv now _ level a pdu _ _ lsp hl1 h1
          | ISIS_SOURCE_SELF =>
            rw [isis_lsp_handler_rx_self_eq validate_auth now inst level a pdu adj lsp ha
              hauth hl hsrc hseq]
            have h2 := instance_inv_update_lsp _ level (pdu.lsp_id % 2 ^ 64)
              (fun l => { l with seq := pdu.seq % 2 ^ 32 }) (fun _ hx => hx) (fun _ => rfl) h1
            have h3 := isis_lsp_self_update_inv now _ adj.level h2
            have hl2 : dict_search lsp_key (pdu.lsp_id % 2 ^ 64)
                (((inst.update_adjacency level a lsp_rx_counted).update_lsp level
                  (pdu.lsp_id % 2 ^ 64)
                  (fun l => { l with seq := pdu.seq % 2 ^ 32 })).level level).lsdb =
                some { lsp with seq := pdu.seq % 2 ^ 32 } := by
              rw [lsdb_search_update_lsp _ _ _ _ _
                (fun l : isis_lsp_t => { l with seq := pdu.seq % 2 ^ 32 }) (fun y hy => hy),
                if_pos ⟨by unfold same_level; exact Iff.rfl, rfl⟩, hl1]
              rfl
            obtain ⟨x', hx', _⟩ := isis_lsp_self_update_lsdb_seq now _ adj.level level
              (pdu.lsp_id % 2 ^ 64) _ hl2
            exact isis_lsp_handler_rx_ack_inv _ level a _ x' hx' h3
theorem set_getElem?_same {α : Type} :
    ∀ (l : List α) (a : Nat) (x : α), l[a]? = some x → l.set a x = l := by
  intro l
  induction l with
  | nil => intro a x h; simp at h
  | cons y ys ih =>
    intro a x h
    cases a with
    | zero =>
      simp only [List.getElem?_cons_zero, Option.some.injEq] at h
      rw [List.set_cons_zero, h]
    | succ n =>
      simp only [List.getElem?_cons_succ] at h
      rw [List.set_cons_succ, ih n x h]

/-- `isis_lsp_flood_adjacency` keeps the invariant of the level, for an
adjacency of the level and an LSP of its LSDB, with the LSP written back. -/
theorem refcount_inv_flood_adjacency (lsdb : List isis_lsp_t) (adjs : List isis_adjacency_t)
    (a id : Nat) (adj : isis_adjacency_t) (lsp0 lsp : isis_lsp_t)
    (ha : adjs[a]? = some adj) (hs : dict_search lsp_key id lsdb = some lsp0)
    (hid : lsp.id = id) (hrc : lsp.refcount = lsp0.refcount)
    (hinv : isis_refcount_inv lsdb adjs) :
    isis_refcount_inv
      (dict_update lsp_key id (fun _ => (isis_lsp_flood_adjacency lsp adj).1) lsdb)
      (adjs.set a (isis_lsp_flood_adjacency lsp adj).2) := by
  obtain ⟨hwf, hfw, hcnt⟩ := hinv
  obtain ⟨f1, f2, f3, f4, f5⟩ := flood_adjacency_holds lsp adj
  have hf : ∀ x : isis_lsp_t, x.id = id →
      ((fun _ => (isis_lsp_flood_adjacency lsp adj).1) x).id = id :=
    fun _ _ => f5.trans hid
  refine ⟨dict_update_wf lsp_key id _ hf lsdb hwf, ?_, fun k => ?_⟩
  · intro x hx
    rcases List.mem_or_eq_of_mem_set hx with h | h
    · exact hfw x h
    · rw [h]; exact flood_adjacency_wf lsp adj (hfw adj (List.getElem?_mem ha))
  · rw [isis_lsdb_refcount_update lsdb id k _ hf]
    unfold isis_lsp_references
    have dp := countP_set_delta (holds_psnp k) (isis_lsp_flood_adjacency lsp adj).2 adjs a adj ha
    rw [f3 k] at dp
    have df := countP_set_delta (holds_flood k) (isis_lsp_flood_adjacency lsp adj).2 adjs a adj ha
    by_cases hk : k = id
    · subst hk
      rw [if_pos rfl, hs]
      have h0 := hcnt k
      rw [isis_lsdb_refcount_some lsdb k lsp0 hs] at h0
      unfold isis_lsp_references at h0
      rw [hid] at f1 f4
      rw [f1] at df
      simp only [if_true] at df
      show (isis_lsp_flood_adjacency lsp adj).1.refcount = _
      rw [f4, hrc]
      split_ifs at df ⊢ <;> omega
    · rw [if_neg hk, hcnt k]
      rw [f2 k (by rw [hid]; exact hk)] at df
      unfold isis_lsp_references
      omega

/-- The removal of an acknowledged LSP from the flood tree of an adjacency,
with the reference count lowered when an entry was removed, keeps the
invariant of the level. -/
theorem refcount_inv_remove (lsdb : List isis_lsp_t) (adjs : List isis_adjacency_t)
    (a id : Nat) (adj : isis_adjacency_t) (lsp0 r : isis_lsp_t)
    (ha : adjs[a]? = some adj) (hs : dict_search lsp_key id lsdb = some lsp0)
    (hid : r.id = id)
    (hrc : r.refcount =
      if dict_search flood_key id adj.flood_tree = none then lsp0.refcount
      else lsp0.refcount - 1)
    (hinv : isis_refcount_inv lsdb adjs) :
    isis_refcount_inv (dict_update lsp_key id (fun _ => r) lsdb)
      (adjs.set a { adj with flood_tree := (hb_tree_remove flood_key id adj.flood_tree).1 }) := by
  obtain ⟨hwf, hfw, hcnt⟩ := hinv
  have hadjwf : dict_wf flood_key adj.flood_tree := hfw adj (List.getElem?_mem ha)
  have hf : ∀ x : isis_lsp_t, x.id = id → ((fun _ => r) x).id = id := fun _ _ => hid
  refine ⟨dict_update_wf lsp_key id _ hf lsdb hwf, ?_, fun k => ?_⟩
  · intro x hx
    rcases List.mem_or_eq_of_mem_set hx with h | h
    · exact hfw x h
    · rw [h]; exact hb_tree_remove_wf flood_key id adj.flood_tree hadjwf
  · rw [isis_lsdb_refcount_update lsdb id k _ hf]
    unfold isis_lsp_references
    have dp := countP_set_delta (holds_psnp k)
      { adj with flood_tree := (hb_tree_remove flood_key id adj.flood_tree).1 } adjs a adj ha
    have hp : holds_psnp k
        { adj with flood_tree := (hb_tree_remove flood_key id adj.flood_tree).1 } =
        holds_psnp k adj := rfl
    rw [hp] at dp
    have df := countP_set_delta (holds_flood k)
      { adj with flood_tree := (hb_tree_remove flood_key id adj.flood_tree).1 } adjs a adj ha
    by_cases hk : k = id
    · subst hk
      rw [if_pos rfl, hs]
      have h0 := hcnt k
      rw [isis_lsdb_refcount_some lsdb k lsp0 hs] at h0
      unfold isis_lsp_references at h0
      have hnew : holds_flood k
          { adj with flood_tree := (hb_tree_remove flood_key k adj.flood_tree).1 } = false := by
        unfold holds_flood
        simp only
        rw [hb_tree_remove_search_self flood_key k adj.flood_tree hadjwf]
        rfl
      rw [hnew] at df
      simp only [Bool.false_eq_true, if_false] at df
      show r.refcount = _
      rw [hrc]
      cases hh : dict_search flood_key k adj.flood_tree with
      | none =>
        have : holds_flood k adj = false := by unfold holds_flood; rw [hh]; rfl
        rw [this] at df
        simp only [Bool.false_eq_true, if_false, if_true] at df ⊢
        omega
      | some e =>
        have : holds_flood k adj = true := by unfold holds_flood; rw [hh]; rfl
        rw [this] at df
        simp only [if_true, reduceCtorEq, if_false] at df ⊢
        omega
    · rw [if_neg hk, hcnt k]
      have hsame : holds_flood k
          { adj with flood_tree := (hb_tree_remove flood_key id adj.flood_tree).1 } =
          holds_flood k adj := by
        unfold holds_flood
        simp only
        rw [hb_tree_remove_search_ne flood_key id k adj.flood_tree hk]
      rw [hsame] at df
      unfold isis_lsp_references
      omega

/-- One LSP entry of a CSNP/PSNP keeps the invariant of the level. -/
theorem process_entry_inv (csnp_scan : Nat) (adjs : List isis_adjacency_t) (a : Nat)
    (ha : a < adjs.length) (st : isis_adjacency_t × List isis_lsp_t) (id seq : Nat)
    (hinv : isis_refcount_inv st.2 (adjs.set a st.1)) :
    isis_refcount_inv (isis_lsp_process_entry csnp_scan st id seq).2
      (adjs.set a (isis_lsp_process_entry csnp_scan st id seq).1) := by
  have hget : (adjs.set a st.1)[a]? = some st.1 := List.getElem?_set_self ha
  cases hs : dict_search lsp_key id st.2 with
  | none => rw [process_entry_unknown csnp_scan st id seq hs]; exact hinv
  | some lsp =>
    by_cases hseq : seq < lsp.seq
    · rw [process_entry_older csnp_scan st id seq lsp hs hseq]
      have := refcount_inv_flood_adjacency st.2 (adjs.set a st.1) a id st.1 lsp
        { lsp with csnp_scan := csnp_scan } hget hs (dict_search_key lsp_key id lsp st.2 hs) rfl
        hinv
      rw [List.set_set] at this
      exact this
    · rw [process_entry_acked csnp_scan st id seq lsp hs hseq]
      have := refcount_inv_remove st.2 (adjs.set a st.1) a id st.1 lsp
        { lsp with
          csnp_scan := csnp_scan
          refcount :=
            if dict_search flood_key id st.1.flood_tree = none then lsp.refcount
            else lsp.refcount - 1 } hget hs (dict_search_key lsp_key id lsp st.2 hs) rfl hinv
      rw [List.set_set] at this
      exact this

theorem process_entry_list_inv (csnp_scan : Nat) (adjs : List isis_adjacency_t) (a : Nat)
    (ha : a < adjs.length) :
    ∀ (entries : List (Nat × Nat)) (st : isis_adjacency_t × List isis_lsp_t),
      isis_refcount_inv st.2 (adjs.set a st.1) →
      isis_refcount_inv (isis_lsp_process_entry_list csnp_scan entries st).2
        (adjs.set a (isis_lsp_process_entry_list csnp_scan entries st).1) := by
  intro entries
  induction entries with
  | nil => intro st h; exact h
  | cons e rest ih =>
    intro st h
    unfold isis_lsp_process_entry_list at ih ⊢
    rw [List.foldl_cons]
    exact ih _ (process_entry_inv csnp_scan adjs a ha st e.1 e.2 h)

/-- `isis_lsp_process_entries` keeps the invariant of the level, for an
adjacency of the level and its LSDB. -/
theorem isis_lsp_process_entries_inv (lsdb : List isis_lsp_t) (adjs : List isis_adjacency_t)
    (a : Nat) (adj : isis_adjacency_t) (pdu : isis_pdu_t) (csnp_scan : Nat)
    (ha : adjs[a]? = some adj) (hinv : isis_refcount_inv lsdb adjs) :
    isis_refcount_inv (isis_lsp_process_entries adj lsdb pdu csnp_scan).2
      (adjs.set a (isis_lsp_process_entries adj lsdb pdu csnp_scan).1) := by
  rw [process_entries_eq_list]
  have hlen : a < adjs.length := by
    by_contra c
    have : adjs[a]? = none := List.getElem?_eq_none (by omega)
    rw [this] at ha
    simp at ha
  apply process_entry_list_inv csnp_scan adjs a hlen
  simp only
  rw [set_getElem?_same adjs a adj ha]
  exact hinv
/-- C12. The reference-count invariant: the trees have pairwise distinct
keys, every flood entry and every PSNP datum points to an LSP of the LSDB,
and for every LSP of the LSDB `refcount` equals the number of adjacency flood
trees that hold an entry for the LSP plus the number of adjacency PSNP trees
that hold it.  If the invariant holds, it holds again after
`isis_lsp_flood_adjacency` (for an adjacency of the level and an LSP of its
LSDB, the LSP written back), after `isis_lsp_flood` (for an LSP that carries
the level of its LSDB), after `isis_lsp_process_entries` (for an adjacency of
the level and its LSDB) and after `isis_lsp_handler_rx`; and under the
invariant an LSP that is held by a flood tree or a PSNP tree has
`refcount > 0` and survives the GC sweep. -/
theorem isis_refcount_invariant :
    (∀ (lsdb : List isis_lsp_t) (adjs : List isis_adjacency_t) (a : Nat)
        (adj : isis_adjacency_t) (lsp : isis_lsp_t),
      isis_refcount_ok lsdb adjs → adjs[a]? = some adj → lsp ∈ lsdb →
      isis_refcount_ok
        (dict_update lsp_key lsp.id (fun _ => (isis_lsp_flood_adjacency lsp adj).1) lsdb)
        (adjs.set a (isis_lsp_flood_adjacency lsp adj).2)) ∧
    (∀ (inst : isis_instance_t) (lv id : Nat), isis_instance_refcount_ok inst →
      (∀ lsp, dict_search lsp_key id (inst.level lv).lsdb = some lsp →
        same_level lsp.level lv) →
      isis_instance_refcount_ok (isis_lsp_flood inst lv id)) ∧
    (∀ (lsdb : List isis_lsp_t) (adjs : List isis_adjacency_t) (a : Nat)
        (adj : isis_adjacency_t) (pdu : isis_pdu_t) (csnp_scan : Nat),
      isis_refcount_ok lsdb adjs → adjs[a]? = some adj →
      isis_refcount_ok (isis_lsp_process_entries adj lsdb pdu csnp_scan).2
        (adjs.set a (isis_lsp_process_entries adj lsdb pdu csnp_scan).1)) ∧
    (∀ (validate_auth : isis_pdu_t → Nat → Option String → Bool) (now : timespec)
        (inst : isis_instance_t) (level a : Nat) (pdu : isis_pdu_t),
      isis_instance_refcount_ok inst →
      isis_instance_refcount_ok (isis_lsp_handler_rx validate_auth now inst level a pdu)) ∧
    (∀ (lsdb : List isis_lsp_t) (adjs : List isis_adjacency_t) (lsp : isis_lsp_t),
      isis_refcount_ok lsdb adjs → lsp ∈ lsdb →
      (∃ adj ∈ adjs, holds_flood lsp.id adj = true ∨ holds_psnp lsp.id adj = true) →
      0 < lsp.refcount ∧ lsp ∈ isis_lsp_gc_level lsdb) := by
  refine ⟨?_, ?_, ?_, ?_, ?_⟩
  · intro lsdb adjs a adj lsp hok ha hm
    rw [isis_refcount_ok_iff] at hok ⊢
    exact refcount_inv_flood_adjacency lsdb adjs a lsp.id adj lsp lsp ha
      (dict_wf_mem_search lsp_key lsdb hok.1 lsp hm) rfl rfl hok
  · intro inst lv id hok hlv
    rw [isis_instance_refcount_ok_iff] at hok ⊢
    exact isis_lsp_flood_inv inst lv id hlv hok
  · intro lsdb adjs a adj pdu csnp_scan hok ha
    rw [isis_refcount_ok_iff] at hok ⊢
    exact isis_lsp_process_entries_inv lsdb adjs a adj pdu csnp_scan ha hok
  · intro validate_auth now inst level a pdu hok
    rw [isis_instance_refcount_ok_iff] at hok ⊢
    exact isis_lsp_handler_rx_inv validate_auth now inst level a pdu hok
  · intro lsdb adjs lsp hok hm hheld
    obtain ⟨hwf, _, _, heq⟩ := hok
    have hpos : 0 < lsp.refcount := by
      rw [heq lsp hm]
      unfold isis_lsp_references
      obtain ⟨adj, hadj, h | h⟩ := hheld
      · have : 0 < adjs.countP (holds_flood lsp.id) := List.countP_pos_iff.2 ⟨adj, hadj, h⟩
        omega
      · have : 0 < adjs.countP (holds_psnp lsp.id) := List.countP_pos_iff.2 ⟨adj, hadj, h⟩
        omega
    refine ⟨hpos, ?_⟩
    rw [isis_lsp_gc_level_filter lsdb hwf, List.mem_filter]
    have : lsp.refcount ≠ 0 := by omega
    exact ⟨hm, by simp [this]⟩

/-- C12 at `ex_rx_instance`: the invariant holds before and after the receipt
of a newer copy of LSP 8 on adjacency 0, which leaves LSP 8 with reference
count 2 (the flood tree of adjacency 1 and the PSNP tree of adjacency 0). -/
theorem isis_refcount_invariant_witness :
    isis_instance_refcount_ok ex_rx_instance ∧
    isis_instance_refcount_ok
      (isis_lsp_handler_rx auth_ok ⟨100, 0⟩ ex_rx_instance 1 0 (ex_rx_pdu 8 6 1200)) ∧
    ((isis_lsp_handler_rx auth_ok ⟨100, 0⟩ ex_rx_instance 1 0 (ex_rx_pdu 8 6 1200)).level
      1).lsdb.map (fun l => (l.id, l.refcount)) = [(7, 0), (8, 2)] :=
  ⟨fun l => by unfold isis_instance_t.level; split <;> decide,
    isis_refcount_invariant.2.2.2.1 auth_ok ⟨100, 0⟩ ex_rx_instance 1 0 (ex_rx_pdu 8 6 1200)
      (fun l => by unfold isis_instance_t.level; split <;> decide),
    by decide⟩

/-! ## C18: the reply envelope of the control socket -/

theorem ctrl_replies_ok_nil : ctrl_replies_ok [] := by
  intro r hr
  exact absurd hr (List.not_mem_nil r)

theorem ctrl_replies_ok_append (a b : List ctrl_reply) (ha : ctrl_replies_ok a)
    (hb : ctrl_replies_ok b) : ctrl_replies_ok (a ++ b) := by
  intro r hr
  rcases List.mem_append.mp hr with h | h
  · exact ha r h
  · exact hb r h

theorem bbl_ctrl_status_envelope (env : ctrl_env) (status : String) (code : Nat)
    (message : Option String)
    (h : ctrl_envelope_ok { status := status, code := code, message := message, body := [] }) :
    ctrl_replies_ok (bbl_ctrl_status env status code message) := by
  intro r hr
  unfold bbl_ctrl_status at hr
  by_cases hp : env.json_pack_ok
      { status := status, code := code, message := message, body := [] } = true
  · simp only [hp, if_true, List.mem_singleton] at hr
    rw [hr]
    exact h
  · simp only [hp, if_false] at hr
    exact absurd hr (List.not_mem_nil r)

theorem status_ok_200 (env : ctrl_env) (m : Option String) :
    ctrl_replies_ok (bbl_ctrl_status env "ok" 200 m) :=
  bbl_ctrl_status_envelope env _ _ _ (by simp [ctrl_envelope_ok])

theorem status_warning_400 (env : ctrl_env) (m : Option String) :
    ctrl_replies_ok (bbl_ctrl_status env "warning" 400 m) :=
  bbl_ctrl_status_envelope env _ _ _ (by simp [ctrl_envelope_ok])

theorem status_warning_404 (env : ctrl_env) (m : Option String) :
    ctrl_replies_ok (bbl_ctrl_status env "warning" 404 m) :=
  bbl_ctrl_status_envelope env _ _ _ (by simp [ctrl_envelope_ok])

theorem status_error_400 (env : ctrl_env) (m : Option String) :
    ctrl_replies_ok (bbl_ctrl_status env "error" 400 m) :=
  bbl_ctrl_status_envelope env _ _ _ (by simp [ctrl_envelope_ok])

theorem status_error_404 (env : ctrl_env) (m : Option String) :
    ctrl_replies_ok (bbl_ctrl_status env "error" 404 m) :=
  bbl_ctrl_status_envelope env _ _ _ (by simp [ctrl_envelope_ok])

theorem status_error_408 (env : ctrl_env) (m : Option String) :
    ctrl_replies_ok (bbl_ctrl_status env "error" 408 m) :=
  bbl_ctrl_status_envelope env _ _ _ (by simp [ctrl_envelope_ok])

theorem status_error_409 (env : ctrl_env) (m : Option String) :
    ctrl_replies_ok (bbl_ctrl_status env "error" 409 m) :=
  bbl_ctrl_status_envelope env _ _ _ (by simp [ctrl_envelope_ok])

theorem status_error_500 (env : ctrl_env) (m : Option String) :
    ctrl_replies_ok (bbl_ctrl_status env "error" 500 m) :=
  bbl_ctrl_status_envelope env _ _ _ (by simp [ctrl_envelope_ok])

theorem ctrl_root_envelope (body : List (String × json_t)) :
    ctrl_envelope_ok (ctrl_root body) := by
  simp [ctrl_envelope_ok, ctrl_root]

theorem ctrl_dump_envelope (env : ctrl_env) (body : List (String × json_t)) :
    ctrl_replies_ok (ctrl_dump env body) := by
  unfold ctrl_dump
  by_cases hp : env.json_pack_ok (ctrl_root body) = true
  · rw [if_pos hp]
    intro r hr
    rw [List.mem_singleton.mp hr]
    exact ctrl_root_envelope body
  · rw [if_neg hp]
    exact status_error_500 env _

theorem ctrl_dump_only_envelope (env : ctrl_env) (body : List (String × json_t)) :
    ctrl_replies_ok (ctrl_dump_only env body) := by
  unfold ctrl_dump_only
  by_cases hp : env.json_pack_ok (ctrl_root body) = true
  · rw [if_pos hp]
    intro r hr
    rw [List.mem_singleton.mp hr]
    exact ctrl_root_envelope body
  · rw [if_neg hp]
    exact ctrl_replies_ok_nil

theorem ctrl_session_flag_envelope (env : ctrl_env) (ctx : bbl_ctx_) (session_id : Nat)
    (f : bbl_session_ → bbl_session_) :
    ctrl_replies_ok (ctrl_session_flag env ctx session_id f).2 := by
  unfold ctrl_session_flag
  split
  · split
    · exact status_ok_200 env _
    · exact status_warning_404 env _
  · exact status_ok_200 env _

theorem bbl_ctrl_igmp_join_envelope (env : ctrl_env) (ctx : bbl_ctx_) (session_id : Nat)
    (arguments : Option json_t) :
    ctrl_replies_ok (bbl_ctrl_igmp_join env ctx session_id arguments).2 := by
  unfold bbl_ctrl_igmp_join
  repeat' split
  all_goals first
    | exact status_ok_200 env _
    | exact status_warning_404 env _
    | exact status_error_400 env _
    | exact status_error_409 env _

theorem bbl_ctrl_igmp_leave_envelope (env : ctrl_env) (ctx : bbl_ctx_) (session_id : Nat)
    (arguments : Option json_t) :
    ctrl_replies_ok (bbl_ctrl_igmp_leave env ctx session_id arguments).2 := by
  unfold bbl_ctrl_igmp_leave
  repeat' split
  all_goals first
    | exact status_ok_200 env _
    | exact status_warning_404 env _
    | exact status_error_400 env _
    | exact status_error_408 env _

theorem bbl_ctrl_igmp_info_envelope (env : ctrl_env) (ctx : bbl_ctx_) (session_id : Nat)
    (arguments : Option json_t) :
    ctrl_replies_ok (bbl_ctrl_igmp_info env ctx session_id arguments).2 := by
  unfold bbl_ctrl_igmp_info
  repeat' split
  all_goals first
    | exact status_warning_404 env _
    | exact status_error_400 env _
    | exact ctrl_dump_envelope env _

theorem bbl_ctrl_session_info_envelope (env : ctrl_env) (ctx : bbl_ctx_) (session_id : Nat)
    (arguments : Option json_t) :
    ctrl_replies_ok (bbl_ctrl_session_info env ctx session_id arguments).2 := by
  unfold bbl_ctrl_session_info
  repeat' split
  all_goals first
    | exact status_warning_404 env _
    | exact status_error_400 env _
    | exact ctrl_dump_envelope env _
    | exact ctrl_replies_ok_append _ _ (status_error_500 env _) (ctrl_dump_envelope env _)

theorem bbl_ctrl_session_terminate_envelope (env : ctrl_env) (ctx : bbl_ctx_)
    (session_id : Nat) (arguments : Option json_t) :
    ctrl_replies_ok (bbl_ctrl_session_terminate env ctx session_id arguments).2 := by
  unfold bbl_ctrl_session_terminate
  repeat' split
  all_goals first
    | exact status_ok_200 env _
    | exact status_warning_404 env _

theorem bbl_ctrl_session_ncp_open_close_envelope (env : ctrl_env) (ctx : bbl_ctx_)
    (session_id : Nat) (open_ ipcp : Bool) :
    ctrl_replies_ok (bbl_ctrl_session_ncp_open_close env ctx session_id open_ ipcp).2 := by
  unfold bbl_ctrl_session_ncp_open_close
  repeat' split
  all_goals first
    | exact status_ok_200 env _
    | exact status_warning_404 env _
    | exact status_warning_400 env _

theorem bbl_ctrl_l2tp_sessions_envelope (env : ctrl_env) (ctx : bbl_ctx_) (session_id : Nat)
    (arguments : Option json_t) :
    ctrl_replies_ok (bbl_ctrl_l2tp_sessions env ctx session_id arguments).2 := by
  unfold bbl_ctrl_l2tp_sessions
  dsimp only
  repeat' split
  all_goals first
    | exact status_warning_404 env _
    | exact ctrl_dump_envelope env _

theorem bbl_ctrl_l2tp_csurq_envelope (env : ctrl_env) (ctx : bbl_ctx_) (session_id : Nat)
    (arguments : Option json_t) :
    ctrl_replies_ok (bbl_ctrl_l2tp_csurq env ctx session_id arguments).2 := by
  unfold bbl_ctrl_l2tp_csurq
  repeat' split
  all_goals first
    | exact status_ok_200 env _
    | exact status_warning_404 env _
    | exact status_warning_400 env _
    | exact status_error_400 env _
    | exact ctrl_replies_ok_nil

theorem bbl_ctrl_l2tp_tunnel_terminate_envelope (env : ctrl_env) (ctx : bbl_ctx_)
    (session_id : Nat) (arguments : Option json_t) :
    ctrl_replies_ok (bbl_ctrl_l2tp_tunnel_terminate env ctx session_id arguments).2 := by
  unfold bbl_ctrl_l2tp_tunnel_terminate
  repeat' split
  all_goals first
    | exact status_ok_200 env _
    | exact status_warning_404 env _
    | exact status_warning_400 env _
    | exact status_error_400 env _
    | exact ctrl_replies_ok_nil

theorem bbl_ctrl_l2tp_session_terminate_envelope (env : ctrl_env) (ctx : bbl_ctx_)
    (session_id : Nat) (arguments : Option json_t) :
    ctrl_replies_ok (bbl_ctrl_l2tp_session_terminate env ctx session_id arguments).2 := by
  unfold bbl_ctrl_l2tp_session_terminate
  repeat' split
  all_goals first
    | exact status_ok_200 env _
    | exact status_warning_404 env _
    | exact status_warning_400 env _
    | exact status_error_400 env _
    | exact ctrl_replies_ok_nil

theorem bbl_ctrl_session_streams_envelope (env : ctrl_env) (ctx : bbl_ctx_)
    (session_id : Nat) (arguments : Option json_t) :
    ctrl_replies_ok (bbl_ctrl_session_streams env ctx session_id arguments).2 := by
  unfold bbl_ctrl_session_streams
  repeat' split
  all_goals first
    | exact status_warning_404 env _
    | exact status_error_400 env _
    | exact ctrl_dump_envelope env _

theorem bbl_ctrl_stream_info_envelope (env : ctrl_env) (ctx : bbl_ctx_)
    (session_id : Nat) (arguments : Option json_t) :
    ctrl_replies_ok (bbl_ctrl_stream_info env ctx session_id arguments).2 := by
  unfold bbl_ctrl_stream_info
  repeat' split
  all_goals first
    | exact status_warning_404 env _
    | exact status_error_400 env _
    | exact ctrl_dump_envelope env _

theorem bbl_ctrl_isis_database_envelope (env : ctrl_env) (ctx : bbl_ctx_)
    (session_id : Nat) (arguments : Option json_t) :
    ctrl_replies_ok (bbl_ctrl_isis_database env ctx session_id arguments).2 := by
  unfold bbl_ctrl_isis_database
  repeat' split
  all_goals first
    | exact status_error_400 env _
    | exact status_error_500 env _
    | exact ctrl_dump_envelope env _

theorem bbl_ctrl_isis_load_mrt_envelope (env : ctrl_env) (ctx : bbl_ctx_)
    (session_id : Nat) (arguments : Option json_t) :
    ctrl_replies_ok (bbl_ctrl_isis_load_mrt env ctx session_id arguments).2 := by
  unfold bbl_ctrl_isis_load_mrt
  repeat' split
  all_goals first
    | exact status_ok_200 env _
    | exact status_error_400 env _
    | exact status_error_404 env _
    | exact status_error_500 env _

theorem bbl_ctrl_isis_lsp_update_envelope (env : ctrl_env) (ctx : bbl_ctx_)
    (session_id : Nat) (arguments : Option json_t) :
    ctrl_replies_ok (bbl_ctrl_isis_lsp_update env ctx session_id arguments).2 := by
  unfold bbl_ctrl_isis_lsp_update
  repeat' split
  all_goals first
    | exact status_ok_200 env _
    | exact status_error_400 env _
    | exact status_error_404 env _
    | exact status_error_500 env _

theorem actions_envelope :
    ∀ e ∈ actions, ∀ (env : ctrl_env) (ctx : bbl_ctx_) (session_id : Nat)
      (arguments : Option json_t), ctrl_replies_ok (e.2 env ctx session_id arguments).2 := by
  unfold actions
  simp only [List.forall_mem_cons]
  refine ⟨?_, ?_, ?_, ?_, ?_, ?_, ?_, ?_, ?_, ?_, ?_, ?_, ?_, ?_, ?_, ?_, ?_, ?_, ?_, ?_, ?_,
    ?_, ?_, ?_, ?_, ?_, ?_, ?_, ?_, ?_, ?_, ?_, ?_, ?_, ?_, ?_, ?_, ?_, ?_, ?_, ?_, ?_, ?_⟩
  all_goals first
    | (intro e he; exact absurd he (List.not_mem_nil e))
    | (intro env ctx session_id arguments
       first
        | exact ctrl_dump_envelope env _
        | exact ctrl_dump_only_envelope env _
        | exact status_ok_200 env _
        | exact ctrl_session_flag_envelope env ctx session_id _
        | exact bbl_ctrl_igmp_join_envelope env ctx session_id arguments
        | exact bbl_ctrl_igmp_leave_envelope env ctx session_id arguments
        | exact bbl_ctrl_igmp_info_envelope env ctx session_id arguments
        | exact bbl_ctrl_session_info_envelope env ctx session_id arguments
        | exact bbl_ctrl_session_terminate_envelope env ctx session_id arguments
        | exact bbl_ctrl_session_ncp_open_close_envelope env ctx session_id _ _
        | exact bbl_ctrl_l2tp_sessions_envelope env ctx session_id arguments
        | exact bbl_ctrl_l2tp_csurq_envelope env ctx session_id arguments
        | exact bbl_ctrl_l2tp_tunnel_terminate_envelope env ctx session_id arguments
        | exact bbl_ctrl_l2tp_session_terminate_envelope env ctx session_id arguments
        | exact bbl_ctrl_session_streams_envelope env ctx session_id arguments
        | exact bbl_ctrl_stream_info_envelope env ctx session_id arguments
        | exact bbl_ctrl_isis_database_envelope env ctx session_id arguments
        | exact bbl_ctrl_isis_load_mrt_envelope env ctx session_id arguments
        | exact bbl_ctrl_isis_lsp_update_envelope env ctx session_id arguments)

theorem actions_search_mem (command : String) :
    ∀ (t : List (String × callback_function)) (i j : Nat) (fn : callback_function),
      actions_search command t i = some (j, fn) → ∃ name, (name, fn) ∈ t := by
  intro t
  induction t with
  | nil =>
    intro i j fn h
    simp only [actions_search] at h
    exact absurd h (by simp)
  | cons e rest ih =>
    intro i j fn h
    obtain ⟨name, f⟩ := e
    simp only [actions_search] at h
    by_cases hn : name = command
    · rw [if_pos hn] at h
      simp only [Option.some.injEq, Prod.mk.injEq] at h
      exact ⟨name, by rw [← h.2]; exact List.mem_cons_self _ _⟩
    · rw [if_neg hn] at h
      obtain ⟨n, hmem⟩ := ih (i + 1) j fn h
      exact ⟨n, List.mem_cons_of_mem _ hmem⟩

theorem ctrl_session_id_envelope (env : ctrl_env) (ctx : bbl_ctx_) (l : ctrl_locals)
    (replies : List ctrl_reply) (h : (ctrl_session_id env ctx l).2 = some replies) :
    ctrl_replies_ok replies := by
  unfold ctrl_session_id at h
  repeat' split at h
  all_goals first
    | (simp only [reduceCtorEq] at h; done)
    | (simp only [Option.some.injEq] at h
       rw [← h]
       first
        | exact status_error_400 env _
        | exact status_warning_404 env _
        | exact ctrl_replies_ok_nil)

theorem bbl_ctrl_socket_connection_envelope (env : ctrl_env) (ctx : bbl_ctx_)
    (l : ctrl_locals) (request : ctrl_request) :
    ctrl_replies_ok (bbl_ctrl_socket_connection env ctx l request).replies := by
  unfold bbl_ctrl_socket_connection
  split
  · exact ctrl_replies_ok_nil
  · exact status_error_400 env _
  · split
    · exact status_error_400 env _
    · rename_i l1 _
      split
      · rename_i l2 replies hs
        exact ctrl_session_id_envelope env ctx l1 replies (by rw [hs])
      · split
        · exact status_error_400 env _
        · rename_i l2 _ i fn hfn
          obtain ⟨name, hmem⟩ := actions_search_mem _ _ _ _ _ hfn
          exact actions_envelope (name, fn) hmem env ctx _ _

theorem bbl_ctrl_socket_loop_envelope (env : ctrl_env) :
    ∀ (requests : List ctrl_request) (ctx : bbl_ctx_) (l : ctrl_locals)
      (results : List ctrl_result),
      (∀ result ∈ results, ctrl_replies_ok result.replies) →
      ∀ result ∈ (bbl_ctrl_socket_loop env requests ctx l results).2,
        ctrl_replies_ok result.replies := by
  intro requests
  induction requests with
  | nil =>
    intro ctx l results h
    simpa only [bbl_ctrl_socket_loop] using h
  | cons request rest ih =>
    intro ctx l results h
    simp only [bbl_ctrl_socket_loop]
    apply ih
    intro result hr
    rcases List.mem_append.mp hr with h1 | h1
    · exact h result h1
    · rw [List.mem_singleton.mp h1]
      exact bbl_ctrl_socket_connection_envelope env ctx l request

/-- C18: every reply written in a run of the dispatcher `bbl_ctrl_socket_job`,
whatever the connections deliver, and every reply written by a handler of
the action table, whatever session id and arguments it is called with, has
a status among ok, warning and error and a code among 200, 400, 404, 408,
409 and 500, and its status is ok exactly when its code is 200. -/
theorem bbl_ctrl_reply_envelope (env : ctrl_env) (ctx : bbl_ctx_)
    (requests : List ctrl_request) (session_id : Nat) (arguments : Option json_t) :
    (∀ result ∈ (bbl_ctrl_socket_job env ctx requests).2,
      ∀ r ∈ result.replies, ctrl_envelope_ok r) ∧
    (∀ e ∈ actions, ∀ r ∈ (e.2 env ctx session_id arguments).2, ctrl_envelope_ok r) := by
  refine ⟨?_, ?_⟩
  · intro result hr
    exact bbl_ctrl_socket_loop_envelope env requests ctx ctrl_locals_init [] (by
      intro x hx
      exact absurd hx (List.not_mem_nil x)) result hr
  · intro e he
    exact actions_envelope e he env ctx session_id arguments

theorem bbl_ctrl_reply_envelope_witness :
    ctrl_status_codes ((bbl_ctrl_socket_job ex_ctrl_env ex_ctrl_ctx
      [ex_ctrl_request "session-info" [("session-id", json_t.integer 2)]]).2.flatMap
        (fun result => result.replies)) = [("warning", 404)] ∧
    ctrl_envelope_ok
      { status := "warning", code := 404, message := some "session not found", body := [] } :=
  ⟨by decide,
    (bbl_ctrl_reply_envelope ex_ctrl_env ex_ctrl_ctx
      [ex_ctrl_request "session-info" [("session-id", json_t.integer 2)]] 0 none).1 _
      (List.mem_cons_self _ _) _ (List.mem_cons_self _ _)⟩

/-! ## C19: resolution of the VLAN tuple -/

theorem to_uint_natCast (w n : Nat) (h : n < 2 ^ w) : to_uint w (n : Int) = n := by
  unfold to_uint
  have h1 : ((n : Int)) % (2 : Int) ^ w = (n : Int) := by
    apply Int.emod_eq_of_lt (Int.natCast_nonneg n)
    exact_mod_cast h
  rw [h1]
  exact Int.toNat_natCast n

theorem ctrl_key_member_number (arguments : List (String × json_t)) (name : String)
    (w old n : Nat) (v : json_t) (hv : json_fields_get name arguments = some v)
    (hn : json_is_number v = true) (hval : json_number_value v = (n : Int)) (hr : n < 2 ^ w) :
    ctrl_key_member (json_t.object arguments) name w old = some n := by
  unfold ctrl_key_member
  simp only [json_object_get, hv, hn, if_true, hval, to_uint_natCast w n hr]

theorem ctrl_session_id_vlan (env : ctrl_env) (ctx : bbl_ctx_) (l : ctrl_locals)
    (fields : List (String × json_t)) (vo vi : json_t) (ifindex outer inner : Nat)
    (harg : l.arguments = some (json_t.object fields))
    (hsid : json_fields_get "session-id" fields = none)
    (hif : (∃ v, json_fields_get "ifindex" fields = some v ∧ json_is_number v = true ∧
        json_number_value v = (ifindex : Int) ∧ ifindex < 2 ^ 32) ∨
      (json_fields_get "ifindex" fields = none ∧
        ∃ a, ctx.access_if.head? = some a ∧ a.ifindex = ifindex))
    (hvo : json_fields_get "outer-vlan" fields = some vo) (hno : json_is_number vo = true)
    (ho : json_number_value vo = (outer : Int)) (hor : outer < 2 ^ 16) (ho0 : outer ≠ 0)
    (hvi : json_fields_get "inner-vlan" fields = some vi) (hni : json_is_number vi = true)
    (hi : json_number_value vi = (inner : Int)) (hir : inner < 2 ^ 16) :
    ctrl_session_id env ctx l =
      match vlan_session_search ctx ⟨ifindex, outer, inner⟩ with
      | some p =>
        match session_deref ctx p with
        | some session =>
          ({ l with key := ⟨ifindex, outer, inner⟩, session_id := session.session_id }, none)
        | none => ({ l with key := ⟨ifindex, outer, inner⟩ }, some [])
      | none =>
        ({ l with key := ⟨ifindex, outer, inner⟩ },
          some (bbl_ctrl_status env "warning" 404 (some "session not found"))) := by
  have hko := ctrl_key_member_number fields "outer-vlan" 16 l.key.outer_vlan_id outer vo hvo
    hno ho hor
  have hki := ctrl_key_member_number fields "inner-vlan" 16 l.key.inner_vlan_id inner vi hvi
    hni hi hir
  unfold ctrl_session_id
  rcases hif with ⟨v, hv, hn, hval, hr⟩ | ⟨hv, a, ha, hai⟩
  · simp only [harg, json_object_get, hsid, hv, hn, if_true, hval,
      to_uint_natCast 32 ifindex hr, hko, hki, if_pos ho0]
  · simp only [harg, json_object_get, hsid, hv, ha, hai, hko, hki, if_pos ho0]

theorem json_unpack_request_some (root : json_t) (l : ctrl_locals) (command : String)
    (arguments : json_t)
    (hc : json_unpack_string (some root) "command" = some command)
    (ha : json_object_get (some root) "arguments" = some arguments) :
    json_unpack_request root l =
      some { l with command := some command, arguments := some arguments } := by
  unfold json_unpack_request
  simp only [hc, ha]

theorem bbl_ctrl_status_packed (env : ctrl_env) (status : String) (code : Nat)
    (message : Option String)
    (h : env.json_pack_ok
      { status := status, code := code, message := message, body := [] } = true) :
    bbl_ctrl_status env status code message =
      [{ status := status, code := code, message := message, body := [] }] := by
  unfold bbl_ctrl_status
  simp only [h, if_true]

/-- C19 (amended): for a request without a session-id whose arguments carry
a VLAN tuple with a non-zero outer-vlan (ifindex given within 32 bits or
taken from the first access interface, outer-vlan and inner-vlan given
within 16 bits), whatever the earlier connections left in the locals: if
the VLAN session index holds a session under that key, the handler of the
command is called with the session id of that session and the arguments,
and its context and replies are the result; if the index holds no entry
under the key, the reply is the envelope warning 404, no handler is called
and the context is unchanged.  For a session holding (10, 20) on the first
access interface, session-info for (10, 20) replies ok with the JSON of that
session, and session-info for an absent (10, 21) replies warning 404. -/
theorem bbl_ctrl_socket_vlan_session (env : ctrl_env) (ctx : bbl_ctx_) (l : ctrl_locals) :
    (∀ (root : json_t) (command : String) (fields : List (String × json_t)) (vo vi : json_t)
        (ifindex outer inner : Nat),
      json_unpack_string (some root) "command" = some command →
      json_object_get (some root) "arguments" = some (json_t.object fields) →
      json_fields_get "session-id" fields = none →
      ((∃ v, json_fields_get "ifindex" fields = some v ∧ json_is_number v = true ∧
          json_number_value v = (ifindex : Int) ∧ ifindex < 2 ^ 32) ∨
        (json_fields_get "ifindex" fields = none ∧
          ∃ a, ctx.access_if.head? = some a ∧ a.ifindex = ifindex)) →
      json_fields_get "outer-vlan" fields = some vo → json_is_number vo = true →
      json_number_value vo = (outer : Int) → outer < 2 ^ 16 → outer ≠ 0 →
      json_fields_get "inner-vlan" fields = some vi → json_is_number vi = true →
      json_number_value vi = (inner : Int) → inner < 2 ^ 16 →
      (∀ (p : Nat) (session : bbl_session_) (i : Nat) (fn : callback_function),
        vlan_session_search ctx ⟨ifindex, outer, inner⟩ = some p →
        session_deref ctx p = some session →
        actions_search command actions 0 = some (i, fn) →
        (bbl_ctrl_socket_connection env ctx l (ctrl_request.json root)).call =
            some ⟨i, session.session_id, some (json_t.object fields)⟩ ∧
          (bbl_ctrl_socket_connection env ctx l (ctrl_request.json root)).ctx =
            (fn env ctx session.session_id (some (json_t.object fields))).1 ∧
          (bbl_ctrl_socket_connection env ctx l (ctrl_request.json root)).replies =
            (fn env ctx session.session_id (some (json_t.object fields))).2) ∧
      (vlan_session_search ctx ⟨ifindex, outer, inner⟩ = none →
        (bbl_ctrl_socket_connection env ctx l (ctrl_request.json root)).call = none ∧
          (bbl_ctrl_socket_connection env ctx l (ctrl_request.json root)).ctx = ctx ∧
          (bbl_ctrl_socket_connection env ctx l (ctrl_request.json root)).replies =
            bbl_ctrl_status env "warning" 404 (some "session not found") ∧
          (env.json_pack_ok
              { status := "warning", code := 404, message := some "session not found", body := [] } = true →
            (bbl_ctrl_socket_connection env ctx l (ctrl_request.json root)).replies =
              [
        { status := "warning", code := 404, message := some "session not found", body := [] }]))) ∧
    (∀ (a : bbl_interface_) (p : Nat) (session : bbl_session_) (session_json : json_t),
      ctx.access_if.head? = some a →
      vlan_session_search ctx ⟨a.ifindex, 10, 20⟩ = some p →
      session_deref ctx p = some session →
      bbl_session_get ctx session.session_id = some p →
      env.bbl_session_json session = some session_json →
      env.json_pack_ok (ctrl_root [("session-info", session_json)]) = true →
      (bbl_ctrl_socket_connection env ctx l (ex_ctrl_request "session-info"
          [("outer-vlan", json_t.integer 10), ("inner-vlan", json_t.integer 20)])).replies =
        [
        { status := "ok", code := 200, message := none, body := [("session-info", session_json)] }]) ∧
    (∀ (a : bbl_interface_),
      ctx.access_if.head? = some a →
      vlan_session_search ctx ⟨a.ifindex, 10, 21⟩ = none →
      env.json_pack_ok
        { status := "warning", code := 404, message := some "session not found", body := [] } = true →
      (bbl_ctrl_socket_connection env ctx l (ex_ctrl_request "session-info"
          [("outer-vlan", json_t.integer 10), ("inner-vlan", json_t.integer 21)])).replies =
        [
        { status := "warning", code := 404, message := some "session not found", body := [] }]) := by
  have main : ∀ (root : json_t) (command : String) (fields : List (String × json_t))
      (vo vi : json_t) (ifindex outer inner : Nat),
      json_unpack_string (some root) "command" = some command →
      json_object_get (some root) "arguments" = some (json_t.object fields) →
      json_fields_get "session-id" fields = none →
      ((∃ v, json_fields_get "ifindex" fields = some v ∧ json_is_number v = true ∧
          json_number_value v = (ifindex : Int) ∧ ifindex < 2 ^ 32) ∨
        (json_fields_get "ifindex" fields = none ∧
          ∃ a, ctx.access_if.head? = some a ∧ a.ifindex = ifindex)) →
      json_fields_get "outer-vlan" fields = some vo → json_is_number vo = true →
      json_number_value vo = (outer : Int) → outer < 2 ^ 16 → outer ≠ 0 →
      json_fields_get "inner-vlan" fields = some vi → json_is_number vi = true →
      json_number_value vi = (inner : Int) → inner < 2 ^ 16 →
      (∀ (p : Nat) (session : bbl_session_) (i : Nat) (fn : callback_function),
        vlan_session_search ctx ⟨ifindex, outer, inner⟩ = some p →
        session_deref ctx p = some session →
        actions_search command actions 0 = some (i, fn) →
        (bbl_ctrl_socket_connection env ctx l (ctrl_request.json root)).call =
            some ⟨i, session.session_id, some (json_t.object fields)⟩ ∧
          (bbl_ctrl_socket_connection env ctx l (ctrl_request.json root)).ctx =
            (fn env ctx session.session_id (some (json_t.object fields))).1 ∧
          (bbl_ctrl_socket_connection env ctx l (ctrl_request.json root)).replies =
            (fn env ctx session.session_id (some (json_t.object fields))).2) ∧
      (vlan_session_search ctx ⟨ifindex, outer, inner⟩ = none →
        (bbl_ctrl_socket_connection env ctx l (ctrl_request.json root)).call = none ∧
          (bbl_ctrl_socket_connection env ctx l (ctrl_request.json root)).ctx = ctx ∧
          (bbl_ctrl_socket_connection env ctx l (ctrl_request.json root)).replies =
            bbl_ctrl_status env "warning" 404 (some "session not found") ∧
          (env.json_pack_ok
              { status := "warning", code := 404, message := some "session not found", body := [] } = true →
            (bbl_ctrl_socket_connection env ctx l (ctrl_request.json root)).replies =
              [
        { status := "warning", code := 404, message := some "session not found", body := [] }])) := by
    intro root command fields vo vi ifindex outer inner hc ha hsid hif hvo hno ho hor ho0 hvi
      hni hi hir
    have hid := ctrl_session_id_vlan env ctx
      { l with command := some command, arguments := some (json_t.object fields) }
      fields vo vi ifindex outer inner rfl hsid hif hvo hno ho hor ho0 hvi hni hi hir
    refine ⟨?_, ?_⟩
    · intro p session i fn hp hs hfn
      rw [hp] at hid
      simp only [hs] at hid
      have hconn : bbl_ctrl_socket_connection env ctx l (ctrl_request.json root) =
          ⟨(fn env ctx session.session_id (some (json_t.object fields))).1,
            { l with
              command := some command
              arguments := some (json_t.object fields)
              key := ⟨ifindex, outer, inner⟩
              session_id := session.session_id },
            (fn env ctx session.session_id (some (json_t.object fields))).2,
            some ⟨i, session.session_id, some (json_t.object fields)⟩⟩ := by
        unfold bbl_ctrl_socket_connection
        simp only [json_unpack_request_some root l command _ hc ha, hid, Option.getD_some, hfn]
      rw [hconn]
      exact ⟨rfl, rfl, rfl⟩
    · intro hp
      rw [hp] at hid
      simp only at hid
      have hconn : bbl_ctrl_socket_connection env ctx l (ctrl_request.json root) =
          ⟨ctx,
            { l with
              command := some command
              arguments := some (json_t.object fields)
              key := ⟨ifindex, outer, inner⟩ },
            bbl_ctrl_status env "warning" 404 (some "session not found"), none⟩ := by
        unfold bbl_ctrl_socket_connection
        simp only [json_unpack_request_some root l command _ hc ha, hid]
      rw [hconn]
      refine ⟨rfl, rfl, rfl, ?_⟩
      intro hpack
      exact bbl_ctrl_status_packed env _ _ _ hpack
  refine ⟨main, ?_, ?_⟩
  · intro a p session session_json ha hp hs hget hj hpack
    have h := (main (json_t.object [("command", json_t.string "session-info"),
        ("arguments", json_t.object
          [("outer-vlan", json_t.integer 10), ("inner-vlan", json_t.integer 20)])])
      "session-info" [("outer-vlan", json_t.integer 10), ("inner-vlan", json_t.integer 20)]
      (json_t.integer 10) (json_t.integer 20) a.ifindex 10 20 rfl rfl rfl
      (Or.inr ⟨rfl, a, ha, rfl⟩) rfl rfl rfl (by norm_num) (by norm_num) rfl rfl rfl
      (by norm_num)).1 p session 7 bbl_ctrl_session_info hp hs rfl
    unfold ex_ctrl_request
    rw [h.2.2]
    have hne : session.session_id ≠ 0 := by
      intro h0
      rw [h0] at hget
      simp [bbl_session_get] at hget
    simp only [bbl_ctrl_session_info, if_neg hne, hget, Option.some_bind, hs, hj, ctrl_dump,
      hpack, if_true]
    rfl
  · intro a ha hp hpack
    have h := (main (json_t.object [("command", json_t.string "session-info"),
        ("arguments", json_t.object
          [("outer-vlan", json_t.integer 10), ("inner-vlan", json_t.integer 21)])])
      "session-info" [("outer-vlan", json_t.integer 10), ("inner-vlan", json_t.integer 21)]
      (json_t.integer 10) (json_t.integer 21) a.ifindex 10 21 rfl rfl rfl
      (Or.inr ⟨rfl, a, ha, rfl⟩) rfl rfl rfl (by norm_num) (by norm_num) rfl rfl rfl
      (by norm_num)).2 hp
    unfold ex_ctrl_request
    exact h.2.2.2 hpack

theorem bbl_ctrl_socket_vlan_session_witness :
    vlan_session_search ex_ctrl_ctx ⟨1, 10, 20⟩ = some 0 ∧
    session_deref ex_ctrl_ctx 0 = some (ex_ctrl_session 1) ∧
    vlan_session_search ex_ctrl_ctx ⟨1, 10, 21⟩ = none ∧
    (bbl_ctrl_socket_connection ex_ctrl_env ex_ctrl_ctx ctrl_locals_init
        (ex_ctrl_request "session-info"
          [("outer-vlan", json_t.integer 10), ("inner-vlan", json_t.integer 20)])).call =
      some ⟨7, 1, some (json_t.object
        [("outer-vlan", json_t.integer 10), ("inner-vlan", json_t.integer 20)])⟩ ∧
    (bbl_ctrl_socket_connection ex_ctrl_env ex_ctrl_ctx ctrl_locals_init
        (ex_ctrl_request "session-info"
          [("outer-vlan", json_t.integer 10), ("inner-vlan", json_t.integer 20)])).replies =
      [{ status := "ok", code := 200, message := none
         body := [("session-info", json_t.integer 1)] }] ∧
    (bbl_ctrl_socket_connection ex_ctrl_env ex_ctrl_ctx ctrl_locals_init
        (ex_ctrl_request "session-info"
          [("outer-vlan", json_t.integer 10), ("inner-vlan", json_t.integer 21)])).replies =
      [{ status := "warning", code := 404, message := some "session not found", body := [] }] :=
  ⟨by decide, by decide, by decide,
    ((bbl_ctrl_socket_vlan_session ex_ctrl_env ex_ctrl_ctx ctrl_locals_init).1
      (json_t.object [("command", json_t.string "session-info"),
        ("arguments", json_t.object
          [("outer-vlan", json_t.integer 10), ("inner-vlan", json_t.integer 20)])])
      "session-info" [("outer-vlan", json_t.integer 10), ("inner-vlan", json_t.integer 20)]
      (json_t.integer 10) (json_t.integer 20) 1 10 20 rfl rfl rfl
      (Or.inr ⟨rfl, ⟨"eth1", 1⟩, rfl, rfl⟩) rfl rfl rfl (by decide) (by decide) rfl rfl rfl
      (by decide)).1 0 (ex_ctrl_session 1) 7 bbl_ctrl_session_info (by decide) (by decide)
      rfl |>.1,
    (bbl_ctrl_socket_vlan_session ex_ctrl_env ex_ctrl_ctx ctrl_locals_init).2.1
      ⟨"eth1", 1⟩ 0 (ex_ctrl_session 1) (json_t.integer 1) rfl (by decide) (by decide)
      (by decide) rfl rfl,
    (bbl_ctrl_socket_vlan_session ex_ctrl_env ex_ctrl_ctx ctrl_locals_init).2.2
      ⟨"eth1", 1⟩ rfl (by decide) rfl⟩

/-- C19 as stated fails for the tuple (1, 0, 20), the outer-vlan of which is
0: the VLAN session index of `ex_ctrl_ctx` holds no session under that key,
and the request session-info with outer-vlan 0 and inner-vlan 20 is not
answered with warning 404; the handler of session-info (entry 7 of the
table) is called with session id 0 and replies error 400. -/
theorem bbl_ctrl_socket_vlan_session_counterexample :
    vlan_session_search ex_ctrl_ctx ⟨1, 0, 20⟩ = none ∧
    (bbl_ctrl_socket_connection ex_ctrl_env ex_ctrl_ctx ctrl_locals_init
        (ex_ctrl_request "session-info"
          [("outer-vlan", json_t.integer 0), ("inner-vlan", json_t.integer 20)])).call.map
      (fun c => (c.action, c.session_id)) = some (7, 0) ∧
    ctrl_status_codes (bbl_ctrl_socket_connection ex_ctrl_env ex_ctrl_ctx ctrl_locals_init
        (ex_ctrl_request "session-info"
          [("outer-vlan", json_t.integer 0), ("inner-vlan", json_t.integer 20)])).replies =
      [("error", 400)] := by
  decide

/-! ## C20: per-session commands for an unknown session -/

theorem ctrl_session_flag_not_found (env : ctrl_env) (ctx : bbl_ctx_) (session_id : Nat)
    (f : bbl_session_ → bbl_session_) (hid : session_id ≠ 0)
    (hget : bbl_session_get ctx session_id = none) :
    ctrl_session_flag env ctx session_id f =
      (ctx, bbl_ctrl_status env "warning" 404 (some "session not found")) := by
  unfold ctrl_session_flag
  rw [if_pos hid]
  simp only [hget]

theorem bbl_ctrl_session_info_not_found (env : ctrl_env) (ctx : bbl_ctx_) (session_id : Nat)
    (arguments : Option json_t) (hid : session_id ≠ 0)
    (hget : bbl_session_get ctx session_id = none) :
    bbl_ctrl_session_info env ctx session_id arguments =
      (ctx, bbl_ctrl_status env "warning" 404 (some "session not found")) := by
  unfold bbl_ctrl_session_info
  rw [if_neg hid]
  simp only [hget, Option.none_bind]

theorem bbl_ctrl_igmp_info_not_found (env : ctrl_env) (ctx : bbl_ctx_) (session_id : Nat)
    (arguments : Option json_t) (hid : session_id ≠ 0)
    (hget : bbl_session_get ctx session_id = none) :
    bbl_ctrl_igmp_info env ctx session_id arguments =
      (ctx, bbl_ctrl_status env "warning" 404 (some "session not found")) := by
  unfold bbl_ctrl_igmp_info
  rw [if_neg hid]
  simp only [hget, Option.none_bind]

theorem bbl_ctrl_session_streams_not_found (env : ctrl_env) (ctx : bbl_ctx_)
    (session_id : Nat) (arguments : Option json_t) (hid : session_id ≠ 0)
    (hget : bbl_session_get ctx session_id = none) :
    bbl_ctrl_session_streams env ctx session_id arguments =
      (ctx, bbl_ctrl_status env "warning" 404 (some "session not found")) := by
  unfold bbl_ctrl_session_streams
  rw [if_neg hid]
  simp only [hget, Option.none_bind]

theorem bbl_ctrl_l2tp_session_terminate_not_found (env : ctrl_env) (ctx : bbl_ctx_)
    (session_id : Nat) (arguments : Option json_t) (hid : session_id ≠ 0)
    (hget : bbl_session_get ctx session_id = none) :
    bbl_ctrl_l2tp_session_terminate env ctx session_id arguments =
      (ctx, bbl_ctrl_status env "warning" 404 (some "session not found")) := by
  unfold bbl_ctrl_l2tp_session_terminate
  rw [if_neg hid]
  simp only [hget, Option.none_bind]

theorem bbl_ctrl_session_terminate_not_found (env : ctrl_env) (ctx : bbl_ctx_)
    (session_id : Nat) (arguments : Option json_t) (hid : session_id ≠ 0)
    (hget : bbl_session_get ctx session_id = none) :
    bbl_ctrl_session_terminate env ctx session_id arguments =
      (ctx, bbl_ctrl_status env "warning" 404 (some "session not found")) := by
  unfold bbl_ctrl_session_terminate
  rw [if_pos hid]
  simp only [hget]

theorem bbl_ctrl_session_ncp_open_close_not_found (env : ctrl_env) (ctx : bbl_ctx_)
    (session_id : Nat) (open_ ipcp : Bool) (hid : session_id ≠ 0)
    (hget : bbl_session_get ctx session_id = none) :
    bbl_ctrl_session_ncp_open_close env ctx session_id open_ ipcp =
      (ctx, bbl_ctrl_status env "warning" 404 (some "session not found")) := by
  unfold bbl_ctrl_session_ncp_open_close
  rw [if_pos hid]
  simp only [hget]

theorem bbl_ctrl_igmp_leave_not_found (env : ctrl_env) (ctx : bbl_ctx_) (session_id : Nat)
    (arguments : Option json_t) (s : String) (group_address : Nat) (hid : session_id ≠ 0)
    (hget : bbl_session_get ctx session_id = none)
    (hs : json_unpack_string arguments "group" = some s)
    (ha : env.inet_pton s = some group_address) :
    bbl_ctrl_igmp_leave env ctx session_id arguments =
      (ctx, bbl_ctrl_status env "warning" 404 (some "session not found")) := by
  unfold bbl_ctrl_igmp_leave
  rw [if_neg hid]
  simp only [hs, ha, hget]

/-- C20 (amended): each of the per-session commands session-info,
igmp-leave, igmp-info, terminate, ipcp-open, ipcp-close, ip6cp-open,
ip6cp-close, session-traffic-start, session-traffic-stop,
stream-traffic-start, stream-traffic-stop, cfm-cc-start, cfm-cc-stop,
cfm-cc-rdi-on, cfm-cc-rdi-off, session-streams and l2tp-session-terminate,
called with a session id other than 0 that matches no session (and, for
igmp-leave, with a valid group address in the arguments), leaves the whole
context unchanged and answers with `bbl_ctrl_status` warning 404 "session
not found", which is the only reply when `json_pack` builds the envelope. -/
theorem bbl_ctrl_session_not_found (env : ctrl_env) (ctx : bbl_ctx_) (session_id : Nat)
    (arguments : Option json_t) (name : String) (i : Nat) (fn : callback_function)
    (hname : name ∈ ["session-info", "igmp-leave", "igmp-info", "terminate", "ipcp-open",
      "ipcp-close", "ip6cp-open", "ip6cp-close", "session-traffic-start",
      "session-traffic-stop", "stream-traffic-start", "stream-traffic-stop", "cfm-cc-start",
      "cfm-cc-stop", "cfm-cc-rdi-on", "cfm-cc-rdi-off", "session-streams",
      "l2tp-session-terminate"])
    (hfn : actions_search name actions 0 = some (i, fn))
    (hid : session_id ≠ 0)
    (hget : bbl_session_get ctx session_id = none)
    (hgroup : name = "igmp-leave" →
      ∃ s group_address, json_unpack_string arguments "group" = some s ∧
        env.inet_pton s = some group_address) :
    fn env ctx session_id arguments =
        (ctx, bbl_ctrl_status env "warning" 404 (some "session not found")) ∧
      (env.json_pack_ok
          { status := "warning", code := 404, message := some "session not found", body := [] }
          = true →
        (fn env ctx session_id arguments).2 =
          [{ status := "warning", code := 404, message := some "session not found"
             body := [] }]) := by
  have key : fn env ctx session_id arguments =
      (ctx, bbl_ctrl_status env "warning" 404 (some "session not found")) := by
    simp only [List.mem_cons, List.mem_singleton, List.not_mem_nil, or_false] at hname
    rcases hname with h | h | h | h | h | h | h | h | h | h | h | h | h | h | h | h | h | h
    all_goals
      subst h
      simp [actions, actions_search] at hfn
      obtain ⟨_, hf⟩ := hfn
      subst hf
    · exact bbl_ctrl_session_info_not_found env ctx session_id arguments hid hget
    · obtain ⟨s, a, hs, ha⟩ := hgroup rfl
      exact bbl_ctrl_igmp_leave_not_found env ctx session_id arguments s a hid hget hs ha
    · exact bbl_ctrl_igmp_info_not_found env ctx session_id arguments hid hget
    · exact bbl_ctrl_session_terminate_not_found env ctx session_id arguments hid hget
    · exact bbl_ctrl_session_ncp_open_close_not_found env ctx session_id _ _ hid hget
    · exact bbl_ctrl_session_ncp_open_close_not_found env ctx session_id _ _ hid hget
    · exact bbl_ctrl_session_ncp_open_close_not_found env ctx session_id _ _ hid hget
    · exact bbl_ctrl_session_ncp_open_close_not_found env ctx session_id _ _ hid hget
    · exact ctrl_session_flag_not_found env ctx session_id _ hid hget
    · exact ctrl_session_flag_not_found env ctx session_id _ hid hget
    · exact ctrl_session_flag_not_found env ctx session_id _ hid hget
    · exact ctrl_session_flag_not_found env ctx session_id _ hid hget
    · exact ctrl_session_flag_not_found env ctx session_id _ hid hget
    · exact ctrl_session_flag_not_found env ctx session_id _ hid hget
    · exact ctrl_session_flag_not_found env ctx session_id _ hid hget
    · exact ctrl_session_flag_not_found env ctx session_id _ hid hget
    · exact bbl_ctrl_session_streams_not_found env ctx session_id arguments hid hget
    · exact bbl_ctrl_l2tp_session_terminate_not_found env ctx session_id arguments hid hget
  refine ⟨key, ?_⟩
  intro hpack
  rw [key]
  exact bbl_ctrl_status_packed env _ _ _ hpack

theorem bbl_ctrl_session_not_found_witness :
    bbl_session_get ex_ctrl_ctx 5 = none ∧
    bbl_ctrl_session_terminate ex_ctrl_env ex_ctrl_ctx 5 none =
      (ex_ctrl_ctx, bbl_ctrl_status ex_ctrl_env "warning" 404 (some "session not found")) ∧
    (bbl_ctrl_session_terminate ex_ctrl_env ex_ctrl_ctx 5 none).2 =
      [{ status := "warning", code := 404, message := some "session not found", body := [] }] :=
  ⟨by decide,
    (bbl_ctrl_session_not_found ex_ctrl_env ex_ctrl_ctx 5 none "terminate" 1
      bbl_ctrl_session_terminate (by decide) rfl (by decide) (by decide)
      (fun h => absurd h (by decide))).1,
    (bbl_ctrl_session_not_found ex_ctrl_env ex_ctrl_ctx 5 none "terminate" 1
      bbl_ctrl_session_terminate (by decide) rfl (by decide) (by decide)
      (fun h => absurd h (by decide))).2 rfl⟩

/-- C20 as stated fails for igmp-leave: session id 5 matches no session of
`ex_ctrl_ctx`, and igmp-leave called with session id 5 and arguments
without a group address replies error 400, not warning 404. -/
theorem bbl_ctrl_session_not_found_counterexample :
    bbl_session_get ex_ctrl_ctx 5 = none ∧
    ctrl_status_codes
        (bbl_ctrl_igmp_leave ex_ctrl_env ex_ctrl_ctx 5 (some (json_t.object []))).2 =
      [("error", 400)] := by
  decide

/-! ## C28, C29: delay bounds of the stream verifier -/

theorem a10nsp_stream_rx_delay (s : bbl_stream) (eth : bbl_ethernet_header_t)
    (ipv4 : bbl_ipv4_t) (bbl : bbl_bbl_t) :
    (a10nsp_stream_rx s eth ipv4 bbl).max_delay_ns =
      (if delay_nsec eth bbl > s.max_delay_ns then delay_nsec eth bbl else s.max_delay_ns) ∧
    (a10nsp_stream_rx s eth ipv4 bbl).min_delay_ns =
      (if s.min_delay_ns = 0 ∨ delay_nsec eth bbl < s.min_delay_ns then delay_nsec eth bbl
       else s.min_delay_ns) := by
  unfold a10nsp_stream_rx
  simp only []
  split_ifs <;> first | (simp_all; done) | (simp_all; omega)

/-- C28 (amended): in the stream verifier of `bbl_a10nsp_pppoes_handler`, a
received packet of a flow whose `rx_first_seq` is set (non-zero) and whose
`flow_seq` differs from `rx_last_seq + 1` increases `loss` by one, for every
delay of the packet; `min_delay_ns` becomes the delay of the packet when it
was zero or the delay is strictly smaller, and is unchanged otherwise. -/
theorem stream_verifier_out_of_order (f : Nat) (st : a10nsp_state) (s : bbl_stream)
    (p : bbl_ethernet_header_t × bbl_ipv4_t) (hp : is_bbl_of_flow f p)
    (hs : dict_search bbl_stream.flow_id f st.stream_flow_dict = some s)
    (hfirst : s.rx_first_seq ≠ 0)
    (hooo : (s.rx_last_seq + 1) % 2 ^ 64 ≠ flow_seq_of p) :
    ∃ s', dict_search bbl_stream.flow_id f
        (bbl_a10nsp_pppoes_handler_ipv4 st p.1 p.2).stream_flow_dict = some s' ∧
      s'.loss = s.loss + 1 ∧
      s'.min_delay_ns =
        (if s.min_delay_ns = 0 ∨ delay_nsec p.1 p.2.next.next < s.min_delay_ns then
          delay_nsec p.1 p.2.next.next
         else s.min_delay_ns) := by
  refine ⟨_, handler_ipv4_search f st s p hp hs, ?_, ?_⟩
  · rw [(a10nsp_stream_rx_seq s p.1 p.2 p.2.next.next).2.2]
    exact if_pos ⟨hfirst, hooo⟩
  · exact (a10nsp_stream_rx_delay s p.1 p.2 p.2.next.next).2

theorem stream_verifier_out_of_order_witness :
    ∃ s', dict_search bbl_stream.flow_id 7
        (bbl_a10nsp_pppoes_handler_ipv4
          ⟨[⟨7, 3, 0, 0, 0, 0, 200, 100, 1, 5, 0⟩], 1, 0, 0, 0, ⟨1, 99, 0, 0, 0, 0, 0, 0⟩⟩
          ⟨100, 0, 0, ⟨10, 150⟩⟩ ⟨0, 0x11, ⟨2, ⟨7, 9, ⟨10, 0⟩⟩⟩⟩).stream_flow_dict = some s' ∧
      s'.loss = 0 + 1 ∧ s'.min_delay_ns = 100 :=
  stream_verifier_out_of_order 7
    ⟨[⟨7, 3, 0, 0, 0, 0, 200, 100, 1, 5, 0⟩], 1, 0, 0, 0, ⟨1, 99, 0, 0, 0, 0, 0, 0⟩⟩
    ⟨7, 3, 0, 0, 0, 0, 200, 100, 1, 5, 0⟩
    (⟨100, 0, 0, ⟨10, 150⟩⟩, ⟨0, 0x11, ⟨2, ⟨7, 9, ⟨10, 0⟩⟩⟩⟩)
    (by decide) (by decide) (by decide) (by decide)

/-- C28 as stated fails for a flow with `rx_first_seq = 1`, `rx_last_seq = 5`,
`loss = 0` and `min_delay_ns = 100` that receives a packet with `flow_seq = 9`
and a delay of 50 ns: the packet is out of order and is counted as loss, and
`min_delay_ns` becomes 50. -/
theorem stream_verifier_out_of_order_counterexample :
    (bbl_a10nsp_pppoes_handler_ipv4
        ⟨[⟨7, 3, 0, 0, 0, 0, 200, 100, 1, 5, 0⟩], 1, 0, 0, 0, ⟨1, 99, 0, 0, 0, 0, 0, 0⟩⟩
        ⟨100, 0, 0, ⟨10, 50⟩⟩ ⟨0, 0x11, ⟨2, ⟨7, 9, ⟨10, 0⟩⟩⟩⟩).stream_flow_dict.map
      (fun s => (s.rx_first_seq, s.rx_last_seq, s.loss, s.min_delay_ns)) =
      [(1, 9, 1, 50)] := by
  decide

theorem a10nsp_stream_rx_min_le_max (s : bbl_stream) (eth : bbl_ethernet_header_t)
    (ipv4 : bbl_ipv4_t) (bbl : bbl_bbl_t) (h : s.min_delay_ns ≤ s.max_delay_ns) :
    (a10nsp_stream_rx s eth ipv4 bbl).min_delay_ns ≤
      (a10nsp_stream_rx s eth ipv4 bbl).max_delay_ns := by
  obtain ⟨e1, e2⟩ := a10nsp_stream_rx_delay s eth ipv4 bbl
  rw [e1, e2]
  split_ifs <;> omega

theorem a10nsp_rx_all_min_le_max (f : Nat) :
    ∀ (pkts : List (bbl_ethernet_header_t × bbl_ipv4_t)) (st : a10nsp_state) (s : bbl_stream),
      (∀ p ∈ pkts, is_bbl_of_flow f p) →
      dict_search bbl_stream.flow_id f st.stream_flow_dict = some s →
      s.min_delay_ns ≤ s.max_delay_ns →
      ∃ s', dict_search bbl_stream.flow_id f (a10nsp_rx_all st pkts).stream_flow_dict = some s' ∧
        s'.min_delay_ns ≤ s'.max_delay_ns := by
  intro pkts
  induction pkts with
  | nil =>
    intro st s _ hs h
    exact ⟨s, hs, h⟩
  | cons p rest ih =>
    intro st s hall hs h
    exact ih _ _ (fun q hq => hall q (List.mem_cons_of_mem _ hq))
      (handler_ipv4_search f st s p (hall p (List.mem_cons_self _ _)) hs)
      (a10nsp_stream_rx_min_le_max s p.1 p.2 p.2.next.next h)

/-- C29: a stream flow of the dictionary that starts with `min_delay_ns =
max_delay_ns = 0` has `min_delay_ns <= max_delay_ns` after every non-empty
sequence of received BBL packets of its flow id, whatever their time stamps
and so their delays are, zero delays included. -/
theorem stream_verifier_delay_bounds (f : Nat) (st : a10nsp_state) (s : bbl_stream)
    (p : bbl_ethernet_header_t × bbl_ipv4_t) (rest : List (bbl_ethernet_header_t × bbl_ipv4_t))
    (hs : dict_search bbl_stream.flow_id f st.stream_flow_dict = some s)
    (hfresh : s.min_delay_ns = 0 ∧ s.max_delay_ns = 0)
    (hall : ∀ q ∈ p :: rest, is_bbl_of_flow f q) :
    ∃ s', dict_search bbl_stream.flow_id f
        (a10nsp_rx_all st (p :: rest)).stream_flow_dict = some s' ∧
      s'.min_delay_ns ≤ s'.max_delay_ns :=
  a10nsp_rx_all_min_le_max f (p :: rest) st s hall hs (by rw [hfresh.1, hfresh.2])

/-- C29 at the delays 5, 0 and 3 ns. -/
theorem stream_verifier_delay_bounds_witness :
    ∃ s', dict_search bbl_stream.flow_id 7
        (a10nsp_rx_all ⟨[⟨7, 0, 0, 0, 0, 0, 0, 0, 0, 0, 0⟩], 0, 0, 0, 0, ⟨1, 99, 0, 0, 0, 0, 0, 0⟩⟩
          [(⟨100, 0, 0, ⟨10, 5⟩⟩, ⟨0, 0x11, ⟨2, ⟨7, 1, ⟨10, 0⟩⟩⟩⟩),
           (⟨100, 0, 0, ⟨11, 0⟩⟩, ⟨0, 0x11, ⟨2, ⟨7, 2, ⟨11, 0⟩⟩⟩⟩),
           (⟨100, 0, 0, ⟨12, 3⟩⟩, ⟨0, 0x11, ⟨2, ⟨7, 3, ⟨12, 0⟩⟩⟩⟩)]).stream_flow_dict
        = some s' ∧
      s'.min_delay_ns ≤ s'.max_delay_ns :=
  stream_verifier_delay_bounds 7
    ⟨[⟨7, 0, 0, 0, 0, 0, 0, 0, 0, 0, 0⟩], 0, 0, 0, 0, ⟨1, 99, 0, 0, 0, 0, 0, 0⟩⟩
    ⟨7, 0, 0, 0, 0, 0, 0, 0, 0, 0, 0⟩
    (⟨100, 0, 0, ⟨10, 5⟩⟩, ⟨0, 0x11, ⟨2, ⟨7, 1, ⟨10, 0⟩⟩⟩⟩)
    [(⟨100, 0, 0, ⟨11, 0⟩⟩, ⟨0, 0x11, ⟨2, ⟨7, 2, ⟨11, 0⟩⟩⟩⟩),
     (⟨100, 0, 0, ⟨12, 3⟩⟩, ⟨0, 0x11, ⟨2, ⟨7, 3, ⟨12, 0⟩⟩⟩⟩)]
    (by decide) (by decide) (by decide)

/-! ## C30: the verified-flows counter of the stream verifier -/

theorem handler_ipv4_counter (f : Nat) (st : a10nsp_state) (s : bbl_stream)
    (p : bbl_ethernet_header_t × bbl_ipv4_t) (hp : is_bbl_of_flow f p)
    (hs : dict_search bbl_stream.flow_id f st.stream_flow_dict = some s) :
    (bbl_a10nsp_pppoes_handler_ipv4 st p.1 p.2).stats_stream_traffic_flows_verified =
      (if s.rx_first_seq = 0 then (st.stats_stream_traffic_flows_verified + 1) % 2 ^ 32
       else st.stats_stream_traffic_flows_verified) := by
  obtain ⟨h1, h2, h3⟩ := hp
  unfold bbl_a10nsp_pppoes_handler_ipv4
  simp only [h1, h2, h3, if_true, hs]

theorem a10nsp_rx_all_counter (f : Nat) :
    ∀ (pkts : List (bbl_ethernet_header_t × bbl_ipv4_t)) (st : a10nsp_state) (s : bbl_stream),
      (∀ p ∈ pkts, is_bbl_of_flow f p) →
      dict_search bbl_stream.flow_id f st.stream_flow_dict = some s →
      s.rx_first_seq ≠ 0 →
      (a10nsp_rx_all st pkts).stats_stream_traffic_flows_verified =
          st.stats_stream_traffic_flows_verified ∧
        ∃ s', dict_search bbl_stream.flow_id f (a10nsp_rx_all st pkts).stream_flow_dict =
            some s' ∧ s'.rx_first_seq = s.rx_first_seq := by
  intro pkts
  induction pkts with
  | nil =>
    intro st s _ hs _
    exact ⟨rfl, s, hs, rfl⟩
  | cons p rest ih =>
    intro st s hall hs hfirst
    have hp := hall p (List.mem_cons_self _ _)
    have hstep := handler_ipv4_search f st s p hp hs
    have hc := handler_ipv4_counter f st s p hp hs
    have e2 := (a10nsp_stream_rx_seq s p.1 p.2 p.2.next.next).2.1
    rw [if_neg hfirst] at e2 hc
    obtain ⟨h1, s', h2, h3⟩ := ih _ _ (fun q hq => hall q (List.mem_cons_of_mem _ hq)) hstep
      (by rw [e2]; exact hfirst)
    exact ⟨h1.trans hc, s', h2, h3.trans e2⟩

/-- C30 (amended): for a stream flow of the dictionary that has received
nothing yet (`rx_first_seq = 0`) and every non-empty sequence of BBL packets
of its flow id the first of which has a non-zero `flow_seq`, the global
counter `stats.stream_traffic_flows_verified`, a `uint32_t`, is incremented
exactly once in total, and `rx_first_seq` holds the `flow_seq` of the first
packet after the whole sequence (so after every part of it). -/
theorem stream_verifier_flows_verified (f : Nat) (st : a10nsp_state) (s : bbl_stream)
    (p : bbl_ethernet_header_t × bbl_ipv4_t) (rest : List (bbl_ethernet_header_t × bbl_ipv4_t))
    (hs : dict_search bbl_stream.flow_id f st.stream_flow_dict = some s)
    (hfresh : s.rx_first_seq = 0)
    (hall : ∀ q ∈ p :: rest, is_bbl_of_flow f q)
    (hp0 : flow_seq_of p ≠ 0) :
    (a10nsp_rx_all st (p :: rest)).stats_stream_traffic_flows_verified =
        (st.stats_stream_traffic_flows_verified + 1) % 2 ^ 32 ∧
      ∃ s', dict_search bbl_stream.flow_id f
          (a10nsp_rx_all st (p :: rest)).stream_flow_dict = some s' ∧
        s'.rx_first_seq = flow_seq_of p := by
  have hp := hall p (List.mem_cons_self _ _)
  have hstep := handler_ipv4_search f st s p hp hs
  have hc := handler_ipv4_counter f st s p hp hs
  have e2 := (a10nsp_stream_rx_seq s p.1 p.2 p.2.next.next).2.1
  rw [if_pos hfresh] at e2 hc
  have hfs : p.2.next.next.flow_seq = flow_seq_of p := rfl
  rw [hfs] at e2
  obtain ⟨h1, s', h2, h3⟩ := a10nsp_rx_all_counter f rest _ _
    (fun q hq => hall q (List.mem_cons_of_mem _ hq)) hstep (by rw [e2]; exact hp0)
  exact ⟨h1.trans hc, s', h2, h3.trans e2⟩

/-- C30 at the sequence 4, 9, 5: the counter goes from 0 to 1 and
`rx_first_seq` is 4. -/
theorem stream_verifier_flows_verified_witness :
    (a10nsp_rx_all ⟨[⟨7, 0, 0, 0, 0, 0, 0, 0, 0, 0, 0⟩], 0, 0, 0, 0, ⟨1, 99, 0, 0, 0, 0, 0, 0⟩⟩
        ((⟨100, 0, 0, ⟨10, 0⟩⟩, ⟨0, 0x11, ⟨2, ⟨7, 4, ⟨9, 500⟩⟩⟩⟩) ::
          [9, 5].map (fun n =>
            (⟨100, 0, 0, ⟨10, 0⟩⟩, ⟨0, 0x11, ⟨2, ⟨7, n, ⟨9, 500⟩⟩⟩⟩)))
      ).stats_stream_traffic_flows_verified = (0 + 1) % 2 ^ 32 ∧
      ∃ s', dict_search bbl_stream.flow_id 7
          (a10nsp_rx_all ⟨[⟨7, 0, 0, 0, 0, 0, 0, 0, 0, 0, 0⟩], 0, 0, 0, 0, ⟨1, 99, 0, 0, 0, 0, 0, 0⟩⟩
            ((⟨100, 0, 0, ⟨10, 0⟩⟩, ⟨0, 0x11, ⟨2, ⟨7, 4, ⟨9, 500⟩⟩⟩⟩) ::
              [9, 5].map (fun n =>
                (⟨100, 0, 0, ⟨10, 0⟩⟩, ⟨0, 0x11, ⟨2, ⟨7, n, ⟨9, 500⟩⟩⟩⟩)))).stream_flow_dict
          = some s' ∧
        s'.rx_first_seq = 4 :=
  stream_verifier_flows_verified 7
    ⟨[⟨7, 0, 0, 0, 0, 0, 0, 0, 0, 0, 0⟩], 0, 0, 0, 0, ⟨1, 99, 0, 0, 0, 0, 0, 0⟩⟩
    ⟨7, 0, 0, 0, 0, 0, 0, 0, 0, 0, 0⟩
    (⟨100, 0, 0, ⟨10, 0⟩⟩, ⟨0, 0x11, ⟨2, ⟨7, 4, ⟨9, 500⟩⟩⟩⟩)
    ([9, 5].map (fun n => (⟨100, 0, 0, ⟨10, 0⟩⟩, ⟨0, 0x11, ⟨2, ⟨7, n, ⟨9, 500⟩⟩⟩⟩)))
    (by decide) (by decide) (by decide) (by decide)

/-- C30 as stated fails for the sequence of `flow_seq` values 0, 1 on a flow
that has received nothing yet: the first packet leaves `rx_first_seq` at 0,
so the second packet is taken for the first again; the counter is incremented
twice and `rx_first_seq` ends as 1, not as the 0 of the first packet. -/
theorem stream_verifier_flows_verified_counterexample :
    (a10nsp_rx_all ⟨[⟨7, 0, 0, 0, 0, 0, 0, 0, 0, 0, 0⟩], 0, 0, 0, 0, ⟨1, 99, 0, 0, 0, 0, 0, 0⟩⟩
        [(⟨100, 0, 0, ⟨10, 0⟩⟩, ⟨0, 0x11, ⟨2, ⟨7, 0, ⟨9, 500⟩⟩⟩⟩),
         (⟨100, 0, 0, ⟨10, 0⟩⟩, ⟨0, 0x11, ⟨2, ⟨7, 1, ⟨9, 500⟩⟩⟩⟩)]
      ).stats_stream_traffic_flows_verified = 2 ∧
    (a10nsp_rx_all ⟨[⟨7, 0, 0, 0, 0, 0, 0, 0, 0, 0, 0⟩], 0, 0, 0, 0, ⟨1, 99, 0, 0, 0, 0, 0, 0⟩⟩
        [(⟨100, 0, 0, ⟨10, 0⟩⟩, ⟨0, 0x11, ⟨2, ⟨7, 0, ⟨9, 500⟩⟩⟩⟩),
         (⟨100, 0, 0, ⟨10, 0⟩⟩, ⟨0, 0x11, ⟨2, ⟨7, 1, ⟨9, 500⟩⟩⟩⟩)]
      ).stream_flow_dict.map (fun s => s.rx_first_seq) = [1] := by
  decide

/-! ## C21, C22: the slot search of igmp-join -/

theorem igmp_join_slot_exists (G : Nat) :
    ∀ (groups : List bbl_igmp_group_s) (i : Nat) (acc : Option Nat) (j : Nat)
      (g : bbl_igmp_group_s),
      groups[j]? = some g → g.zapping = false → g.group = G → g.state ≠ IGMP_GROUP_IDLE →
      (∀ k < j, ∀ g', groups[k]? = some g' → g'.zapping = false → g'.group = G →
        g'.state ≠ IGMP_GROUP_IDLE) →
      igmp_join_slot G groups i acc = Except.error () := by
  intro groups
  induction groups with
  | nil =>
    intro i acc j g hg
    simp at hg
  | cons x rest ih =>
    intro i acc j g hg hz hgg hst hfirst
    cases j with
    | zero =>
      simp only [List.getElem?_cons_zero, Option.some.injEq] at hg
      subst hg
      simp only [igmp_join_slot, hz, Bool.not_false, if_true, hgg, hst, if_false]
    | succ j =>
      simp only [List.getElem?_cons_succ] at hg
      have hrest : ∀ k < j, ∀ g', rest[k]? = some g' → g'.zapping = false → g'.group = G →
          g'.state ≠ IGMP_GROUP_IDLE := by
        intro k hk g' hg'
        exact hfirst (k + 1) (by omega) g' (by simpa using hg')
      unfold igmp_join_slot
      by_cases hxz : x.zapping = true
      · simp only [hxz, Bool.not_true, Bool.false_eq_true, if_false]
        exact ih _ _ j g hg hz hgg hst hrest
      · have hxz' : x.zapping = false := by simpa using hxz
        simp only [hxz', Bool.not_false, if_true]
        by_cases hxg : x.group = G
        · have hxs := hfirst 0 (by omega) x (by simp) hxz' hxg
          simp only [hxg, if_true, hxs, if_false]
        · simp only [hxg, if_false]
          by_cases hxi : x.state = IGMP_GROUP_IDLE
          · simp only [hxi, if_true]
            exact ih _ _ j g hg hz hgg hst hrest
          · simp only [hxi, if_false]
            exact ih _ _ j g hg hz hgg hst hrest

theorem igmp_join_slot_none (G : Nat) :
    ∀ (groups : List bbl_igmp_group_s) (i : Nat),
      (∀ g ∈ groups, g.zapping = true ∨ (g.state ≠ IGMP_GROUP_IDLE ∧ g.group ≠ G)) →
      igmp_join_slot G groups i none = Except.ok none := by
  intro groups
  induction groups with
  | nil =>
    intro i _
    rfl
  | cons x rest ih =>
    intro i h
    have hrest := ih (i + 1) (fun g hg => h g (List.mem_cons_of_mem _ hg))
    unfold igmp_join_slot
    rcases h x (List.mem_cons_self _ _) with hz | ⟨hs, hg⟩
    · simp only [hz, Bool.not_true, Bool.false_eq_true, if_false]
      exact hrest
    · by_cases hxz : x.zapping = true
      · simp only [hxz, Bool.not_true, Bool.false_eq_true, if_false]
        exact hrest
      · have hxz' : x.zapping = false := by simpa using hxz
        simp only [hxz', Bool.not_false, if_true, hg, if_false, hs]
        exact hrest

theorem igmp_join_slot_found (G : Nat) :
    ∀ (groups : List bbl_igmp_group_s) (i : Nat) (acc : Option Nat) (k : Nat),
      igmp_join_slot G groups i acc = Except.ok (some k) →
      acc = some k ∨
        (i ≤ k ∧ ∃ g, groups[k - i]? = some g ∧ g.zapping = false ∧
          g.state = IGMP_GROUP_IDLE) := by
  intro groups
  induction groups with
  | nil =>
    intro i acc k h
    simp only [igmp_join_slot, Except.ok.injEq] at h
    exact Or.inl h
  | cons x rest ih =>
    intro i acc k h
    have lift : ∀ acc', igmp_join_slot G rest (i + 1) acc' = Except.ok (some k) →
        acc' = some k ∨
          (i ≤ k ∧ ∃ g, (x :: rest)[k - i]? = some g ∧ g.zapping = false ∧
            g.state = IGMP_GROUP_IDLE) := by
      intro acc' h'
      rcases ih (i + 1) acc' k h' with h1 | ⟨h1, g, h2, h3, h4⟩
      · exact Or.inl h1
      · refine Or.inr ⟨by omega, g, ?_, h3, h4⟩
        have e : k - i = (k - (i + 1)) + 1 := by omega
        rw [e, List.getElem?_cons_succ]
        exact h2
    unfold igmp_join_slot at h
    by_cases hxz : x.zapping = true
    · simp only [hxz, Bool.not_true, Bool.false_eq_true, if_false] at h
      exact lift acc h
    · have hxz' : x.zapping = false := by simpa using hxz
      simp only [hxz', Bool.not_false, if_true] at h
      by_cases hxg : x.group = G
      · simp only [hxg, if_true] at h
        by_cases hxi : x.state = IGMP_GROUP_IDLE
        · simp only [hxi, if_true, Except.ok.injEq, Option.some.injEq] at h
          subst h
          exact Or.inr ⟨Nat.le_refl _, x, by simp, hxz', hxi⟩
        · simp only [hxi, if_false] at h
          exact absurd h (by simp)
      · simp only [hxg, if_false] at h
        by_cases hxi : x.state = IGMP_GROUP_IDLE
        · simp only [hxi, if_true] at h
          rcases lift (some i) h with h1 | h1
          · simp only [Option.some.injEq] at h1
            subst h1
            exact Or.inr ⟨Nat.le_refl _, x, by simp, hxz', hxi⟩
          · exact Or.inr h1
        · simp only [hxi, if_false] at h
          exact lift acc h

theorem bbl_ctrl_igmp_join_eq (env : ctrl_env) (ctx : bbl_ctx_) (session_id : Nat)
    (arguments : Option json_t) (s : String) (G source1 source2 source3 p : Nat)
    (session : bbl_session_)
    (hs : json_unpack_string arguments "group" = some s)
    (hG : env.inet_pton s = some G)
    (h1 : igmp_join_source env arguments "source1" = some source1)
    (h2 : igmp_join_source env arguments "source2" = some source2)
    (h3 : igmp_join_source env arguments "source3" = some source3)
    (hget : bbl_session_get ctx session_id = some p)
    (hderef : session_deref ctx p = some session) :
    bbl_ctrl_igmp_join env ctx session_id arguments =
      match igmp_join_slot G (session.igmp_groups.take IGMP_MAX_GROUPS) 0 none with
      | Except.error _ => (ctx, bbl_ctrl_status env "error" 409 (some "group already exists"))
      | Except.ok none =>
        (ctx, bbl_ctrl_status env "error" 409 (some "no igmp group slot available"))
      | Except.ok (some i) =>
        (session_update ctx p
            (fun session => igmp_join_write session i G source1 source2 source3),
          bbl_ctrl_status env "ok" 200 none) := by
  unfold bbl_ctrl_igmp_join
  simp only [hs, hG, h1, h2, h3, hget, hderef]

theorem getElem?_take_lt {α : Type} (l : List α) (n j : Nat) (h : j < n) :
    (l.take n)[j]? = l[j]? := by
  rw [List.getElem?_take]
  simp [h]

/-- C21 (amended): for a session found under the session id and a request
with the valid group address G (and valid or absent source addresses): if a
non-zapping slot of the IGMP group table holds G in a state other than Idle
and no non-zapping slot before it holds G in state Idle, igmp-join answers
with `bbl_ctrl_status` error 409 and leaves the whole context, and so the
group table, the send requests and the TX queue membership of the session,
unchanged. -/
theorem bbl_ctrl_igmp_join_group_exists (env : ctrl_env) (ctx : bbl_ctx_) (session_id : Nat)
    (arguments : Option json_t) (s : String) (G source1 source2 source3 p : Nat)
    (session : bbl_session_) (j : Nat) (g : bbl_igmp_group_s)
    (hs : json_unpack_string arguments "group" = some s)
    (hG : env.inet_pton s = some G)
    (h1 : igmp_join_source env arguments "source1" = some source1)
    (h2 : igmp_join_source env arguments "source2" = some source2)
    (h3 : igmp_join_source env arguments "source3" = some source3)
    (hget : bbl_session_get ctx session_id = some p)
    (hderef : session_deref ctx p = some session)
    (hj : j < IGMP_MAX_GROUPS) (hg : session.igmp_groups[j]? = some g)
    (hz : g.zapping = false) (hgg : g.group = G) (hst : g.state ≠ IGMP_GROUP_IDLE)
    (hfirst : ∀ k < j, ∀ g', session.igmp_groups[k]? = some g' → g'.zapping = false →
      g'.group = G → g'.state ≠ IGMP_GROUP_IDLE) :
    bbl_ctrl_igmp_join env ctx session_id arguments =
        (ctx, bbl_ctrl_status env "error" 409 (some "group already exists")) ∧
      (env.json_pack_ok
          { status := "error", code := 409, message := some "group already exists", body := [] }
          = true →
        (bbl_ctrl_igmp_join env ctx session_id arguments).2 =
          [{ status := "error", code := 409, message := some "group already exists"
             body := [] }]) := by
  have hslot : igmp_join_slot G (session.igmp_groups.take IGMP_MAX_GROUPS) 0 none =
      Except.error () := by
    apply igmp_join_slot_exists G _ 0 none j g _ hz hgg hst
    · intro k hk g' hg'
      rw [getElem?_take_lt _ _ _ (Nat.lt_trans hk hj)] at hg'
      exact hfirst k hk g' hg'
    · rw [getElem?_take_lt _ _ _ hj]
      exact hg
  have key : bbl_ctrl_igmp_join env ctx session_id arguments =
      (ctx, bbl_ctrl_status env "error" 409 (some "group already exists")) := by
    rw [bbl_ctrl_igmp_join_eq env ctx session_id arguments s G source1 source2 source3 p session
      hs hG h1 h2 h3 hget hderef, hslot]
  refine ⟨key, ?_⟩
  intro hpack
  rw [key]
  exact bbl_ctrl_status_packed env _ _ _ hpack

/-- C21 at a table whose slot 0 holds 239.0.0.1 in state Active. -/
theorem bbl_ctrl_igmp_join_group_exists_witness :
    bbl_ctrl_igmp_join ex_ctrl_env
        (ex_igmp_ctx (ex_igmp_group 4009754625 IGMP_GROUP_ACTIVE false ::
          List.replicate 7 bbl_igmp_group_zero)) 1 ex_igmp_arguments =
      (ex_igmp_ctx (ex_igmp_group 4009754625 IGMP_GROUP_ACTIVE false ::
          List.replicate 7 bbl_igmp_group_zero),
        bbl_ctrl_status ex_ctrl_env "error" 409 (some "group already exists")) :=
  (bbl_ctrl_igmp_join_group_exists ex_ctrl_env
    (ex_igmp_ctx (ex_igmp_group 4009754625 IGMP_GROUP_ACTIVE false ::
      List.replicate 7 bbl_igmp_group_zero)) 1 ex_igmp_arguments "239.0.0.1" 4009754625 0 0 0 0
    { ex_ctrl_session 1 with
      igmp_groups := ex_igmp_group 4009754625 IGMP_GROUP_ACTIVE false ::
        List.replicate 7 bbl_igmp_group_zero }
    0 (ex_igmp_group 4009754625 IGMP_GROUP_ACTIVE false)
    rfl rfl rfl rfl rfl (by decide) (by decide) (by decide) (by decide) rfl rfl (by decide)
    (fun k hk => absurd hk (Nat.not_lt_zero k))).1

/-- C21 as stated fails at a table whose slot 0 holds 239.0.0.1 in state Idle
and whose slot 1 holds 239.0.0.1 in state Active, neither of them zapping:
igmp-join for 239.0.0.1 stops at slot 0, replies ok 200 and writes the join
to slot 0. -/
theorem bbl_ctrl_igmp_join_group_exists_counterexample :
    ctrl_status_codes (bbl_ctrl_igmp_join ex_ctrl_env
        (ex_igmp_ctx (ex_igmp_group 4009754625 IGMP_GROUP_IDLE false ::
          ex_igmp_group 4009754625 IGMP_GROUP_ACTIVE false ::
          List.replicate 6 bbl_igmp_group_zero)) 1 ex_igmp_arguments).2 = [("ok", 200)] ∧
    ((session_deref (bbl_ctrl_igmp_join ex_ctrl_env
        (ex_igmp_ctx (ex_igmp_group 4009754625 IGMP_GROUP_IDLE false ::
          ex_igmp_group 4009754625 IGMP_GROUP_ACTIVE false ::
          List.replicate 6 bbl_igmp_group_zero)) 1 ex_igmp_arguments).1 0).map
      (fun session => (session.igmp_groups.map (fun g => (g.group, g.state))).take 2)) =
      some [(4009754625, IGMP_GROUP_JOINING), (4009754625, IGMP_GROUP_ACTIVE)] := by
  decide

theorem bbl_ctrl_status_eq_ok (env : ctrl_env) (status : String) (code : Nat)
    (message : Option String)
    (h : bbl_ctrl_status env status code message =
      [{ status := "ok", code := 200, message := none, body := [] }]) :
    status = "ok" := by
  unfold bbl_ctrl_status at h
  dsimp only at h
  split at h
  · simp only [List.cons.injEq, and_true] at h
    exact congrArg ctrl_reply.status h
  · exact absurd h (by simp)

theorem session_update_deref (ctx : bbl_ctx_) (p : Nat) (f : bbl_session_ → bbl_session_)
    (q : Nat) :
    session_deref (session_update ctx p f) q =
      if p = q then (session_deref ctx q).map f else session_deref ctx q := by
  unfold session_deref session_update
  simp only [List.getElem?_modify]
  by_cases h : p = q
  · simp only [h, if_true]
    cases hq : ctx.session_list[q]? with
    | none => rfl
    | some x => cases x <;> rfl
  · simp only [h, if_false]
    cases hq : ctx.session_list[q]? with
    | none => rfl
    | some x => cases x <;> rfl

/-- C22: igmp-join never overwrites a group slot that is in use.  For a
session found under the session id and a request with the valid group
address G (and valid or absent source addresses): when every slot of the
table is zapping or holds a group other than G in a state other than Idle,
igmp-join answers with `bbl_ctrl_status` error 409 and leaves the context
unchanged.  And whenever igmp-join replies ok, the session was found and the
request valid, one slot `i` of the table, which was non-zapping and Idle,
now holds the zeroed entry with group G, the sources given (0 for a source
not given), state Joining, the robustness count of the session and the send
flag, which differs from what it held; every other slot of the table and
every other session is unchanged. -/
theorem bbl_ctrl_igmp_join_slot_in_use (env : ctrl_env) (ctx : bbl_ctx_) (session_id : Nat)
    (arguments : Option json_t) :
    (∀ (s : String) (G source1 source2 source3 p : Nat) (session : bbl_session_),
      json_unpack_string arguments "group" = some s →
      env.inet_pton s = some G →
      igmp_join_source env arguments "source1" = some source1 →
      igmp_join_source env arguments "source2" = some source2 →
      igmp_join_source env arguments "source3" = some source3 →
      bbl_session_get ctx session_id = some p →
      session_deref ctx p = some session →
      (∀ g ∈ session.igmp_groups.take IGMP_MAX_GROUPS,
        g.zapping = true ∨ (g.state ≠ IGMP_GROUP_IDLE ∧ g.group ≠ G)) →
      bbl_ctrl_igmp_join env ctx session_id arguments =
          (ctx, bbl_ctrl_status env "error" 409 (some "no igmp group slot available")) ∧
        (env.json_pack_ok
      { status := "error", code := 409, message := some "no igmp group slot available", body := [] }
            = true →
          (bbl_ctrl_igmp_join env ctx session_id arguments).2 = [
      { status := "error", code := 409, message := some "no igmp group slot available", body := [] }
          ])) ∧
    ((bbl_ctrl_igmp_join env ctx session_id arguments).2 =
        [{ status := "ok", code := 200, message := none, body := [] }] →
      ∃ (s : String) (G source1 source2 source3 p : Nat) (session session' : bbl_session_)
          (i : Nat) (g : bbl_igmp_group_s),
        json_unpack_string arguments "group" = some s ∧
        env.inet_pton s = some G ∧
        igmp_join_source env arguments "source1" = some source1 ∧
        igmp_join_source env arguments "source2" = some source2 ∧
        igmp_join_source env arguments "source3" = some source3 ∧
        bbl_session_get ctx session_id = some p ∧
        session_deref ctx p = some session ∧
        i < IGMP_MAX_GROUPS ∧
        session.igmp_groups[i]? = some g ∧ g.zapping = false ∧ g.state = IGMP_GROUP_IDLE ∧
        session_deref (bbl_ctrl_igmp_join env ctx session_id arguments).1 p = some session' ∧
        session'.igmp_groups[i]? =
          some { bbl_igmp_group_zero with
                 group := G
                 source := [source1, source2, source3]
                 state := IGMP_GROUP_JOINING
                 robustness_count := session.igmp_robustness
                 send := true } ∧
        session'.igmp_groups[i]? ≠ session.igmp_groups[i]? ∧
        (∀ k, k ≠ i → session'.igmp_groups[k]? = session.igmp_groups[k]?) ∧
        (∀ q, q ≠ p →
          session_deref (bbl_ctrl_igmp_join env ctx session_id arguments).1 q =
            session_deref ctx q)) := by
  refine ⟨?_, ?_⟩
  · intro s G source1 source2 source3 p session hs hG h1 h2 h3 hget hderef hall
    have key : bbl_ctrl_igmp_join env ctx session_id arguments =
        (ctx, bbl_ctrl_status env "error" 409 (some "no igmp group slot available")) := by
      rw [bbl_ctrl_igmp_join_eq env ctx session_id arguments s G source1 source2 source3 p
        session hs hG h1 h2 h3 hget hderef, igmp_join_slot_none G _ 0 hall]
    refine ⟨key, ?_⟩
    intro hpack
    rw [key]
    exact bbl_ctrl_status_packed env _ _ _ hpack
  · intro h
    cases hs : json_unpack_string arguments "group" with
    | none =>
      simp only [bbl_ctrl_igmp_join, hs] at h
      exact absurd (bbl_ctrl_status_eq_ok env _ _ _ h) (by decide)
    | some s =>
    cases hG : env.inet_pton s with
    | none =>
      simp only [bbl_ctrl_igmp_join, hs, hG] at h
      exact absurd (bbl_ctrl_status_eq_ok env _ _ _ h) (by decide)
    | some G =>
    cases h1 : igmp_join_source env arguments "source1" with
    | none =>
      simp only [bbl_ctrl_igmp_join, hs, hG, h1] at h
      exact absurd (bbl_ctrl_status_eq_ok env _ _ _ h) (by decide)
    | some source1 =>
    cases h2 : igmp_join_source env arguments "source2" with
    | none =>
      simp only [bbl_ctrl_igmp_join, hs, hG, h1, h2] at h
      exact absurd (bbl_ctrl_status_eq_ok env _ _ _ h) (by decide)
    | some source2 =>
    cases h3 : igmp_join_source env arguments "source3" with
    | none =>
      simp only [bbl_ctrl_igmp_join, hs, hG, h1, h2, h3] at h
      exact absurd (bbl_ctrl_status_eq_ok env _ _ _ h) (by decide)
    | some source3 =>
    cases hget : bbl_session_get ctx session_id with
    | none =>
      simp only [bbl_ctrl_igmp_join, hs, hG, h1, h2, h3, hget] at h
      exact absurd (bbl_ctrl_status_eq_ok env _ _ _ h) (by decide)
    | some p =>
    cases hderef : session_deref ctx p with
    | none =>
      simp only [bbl_ctrl_igmp_join, hs, hG, h1, h2, h3, hget, hderef] at h
      exact absurd (bbl_ctrl_status_eq_ok env _ _ _ h) (by decide)
    | some session =>
    have heq := bbl_ctrl_igmp_join_eq env ctx session_id arguments s G source1 source2 source3
      p session hs hG h1 h2 h3 hget hderef
    cases hslot : igmp_join_slot G (session.igmp_groups.take IGMP_MAX_GROUPS) 0 none with
    | error e =>
      rw [hslot] at heq
      rw [heq] at h
      exact absurd (bbl_ctrl_status_eq_ok env _ _ _ h) (by decide)
    | ok v =>
    cases v with
    | none =>
      rw [hslot] at heq
      rw [heq] at h
      exact absurd (bbl_ctrl_status_eq_ok env _ _ _ h) (by decide)
    | some i =>
      rw [hslot] at heq
      rcases igmp_join_slot_found G _ 0 none i hslot with hn | ⟨_, g, hg, hz, hidle⟩
      · exact absurd hn (by simp)
      · rw [Nat.sub_zero, List.getElem?_take] at hg
        have hi : i < IGMP_MAX_GROUPS := by
          by_contra hc
          rw [if_neg hc] at hg
          exact absurd hg (by simp)
        rw [if_pos hi] at hg
        have hlen : i < session.igmp_groups.length := by
          by_contra hc
          rw [List.getElem?_eq_none (by omega)] at hg
          exact absurd hg (by simp)
        have hctx : (bbl_ctrl_igmp_join env ctx session_id arguments).1 =
            session_update ctx p
              (fun session => igmp_join_write session i G source1 source2 source3) := by
          rw [heq]
        refine ⟨s, G, source1, source2, source3, p, session,
          igmp_join_write session i G source1 source2 source3, i, g, rfl, hG, rfl, rfl, rfl,
          rfl, hderef, hi, hg, hz, hidle, ?_, ?_, ?_, ?_, ?_⟩
        · rw [hctx, session_update_deref, if_pos rfl, hderef]
          rfl
        · simp only [igmp_join_write, List.getElem?_set_self hlen]
        · simp only [igmp_join_write, List.getElem?_set_self hlen, hg]
          intro hc
          have hstate := congrArg (Option.map bbl_igmp_group_s.state) hc
          simp only [Option.map_some', Option.some.injEq] at hstate
          rw [hidle] at hstate
          exact absurd hstate (by decide)
        · intro k hk
          simp only [igmp_join_write]
          exact List.getElem?_set_ne (Ne.symm hk)
        · intro q hq
          rw [hctx, session_update_deref, if_neg (Ne.symm hq)]

/-- C22 at a table whose slots 0..6 are in use and whose slot 7 is free:
the join for 239.0.0.1 replies ok and writes slot 7. -/
theorem bbl_ctrl_igmp_join_slot_in_use_witness :
    ∃ (s : String) (G source1 source2 source3 p : Nat) (session session' : bbl_session_)
        (i : Nat) (g : bbl_igmp_group_s),
      json_unpack_string ex_igmp_arguments "group" = some s ∧
      ex_ctrl_env.inet_pton s = some G ∧
      igmp_join_source ex_ctrl_env ex_igmp_arguments "source1" = some source1 ∧
      igmp_join_source ex_ctrl_env ex_igmp_arguments "source2" = some source2 ∧
      igmp_join_source ex_ctrl_env ex_igmp_arguments "source3" = some source3 ∧
      bbl_session_get (ex_igmp_ctx (List.replicate 7 (ex_igmp_group 1 IGMP_GROUP_ACTIVE false) ++
        [bbl_igmp_group_zero])) 1 = some p ∧
      session_deref (ex_igmp_ctx (List.replicate 7 (ex_igmp_group 1 IGMP_GROUP_ACTIVE false) ++
        [bbl_igmp_group_zero])) p = some session ∧
      i < IGMP_MAX_GROUPS ∧
      session.igmp_groups[i]? = some g ∧ g.zapping = false ∧ g.state = IGMP_GROUP_IDLE ∧
      session_deref (bbl_ctrl_igmp_join ex_ctrl_env
        (ex_igmp_ctx (List.replicate 7 (ex_igmp_group 1 IGMP_GROUP_ACTIVE false) ++
          [bbl_igmp_group_zero])) 1 ex_igmp_arguments).1 p = some session' ∧
      session'.igmp_groups[i]? =
        some { bbl_igmp_group_zero with
               group := G
               source := [source1, source2, source3]
               state := IGMP_GROUP_JOINING
               robustness_count := session.igmp_robustness
               send := true } ∧
      session'.igmp_groups[i]? ≠ session.igmp_groups[i]? ∧
      (∀ k, k ≠ i → session'.igmp_groups[k]? = session.igmp_groups[k]?) ∧
      (∀ q, q ≠ p →
        session_deref (bbl_ctrl_igmp_join ex_ctrl_env
          (ex_igmp_ctx (List.replicate 7 (ex_igmp_group 1 IGMP_GROUP_ACTIVE false) ++
            [bbl_igmp_group_zero])) 1 ex_igmp_arguments).1 q =
          session_deref (ex_igmp_ctx (List.replicate 7
            (ex_igmp_group 1 IGMP_GROUP_ACTIVE false) ++ [bbl_igmp_group_zero])) q) :=
  (bbl_ctrl_igmp_join_slot_in_use ex_ctrl_env
    (ex_igmp_ctx (List.replicate 7 (ex_igmp_group 1 IGMP_GROUP_ACTIVE false) ++
      [bbl_igmp_group_zero])) 1 ex_igmp_arguments).2 rfl

/-! ## C23: the join delay reported by igmp-info -/

theorem igmp_delay_ms_eq (d : timespec)
    (h : d.tv_sec * 1000 + (d.tv_nsec + 999999) / 1000000 < 2 ^ 32) :
    igmp_delay_ms d = d.tv_sec * 1000 + (d.tv_nsec + 999999) / 1000000 := by
  unfold igmp_delay_ms
  simp only []
  norm_num at h ⊢
  split_ifs <;> omega

theorem igmp_info_record_join (env : ctrl_env) (g : bbl_igmp_group_s)
    (hstate : g.state = IGMP_GROUP_ACTIVE ∨ g.state = IGMP_GROUP_JOINING)
    (hrx : g.first_mc_rx_time.tv_sec ≠ 0) :
    ∃ fields, igmp_info_record env g = json_t.object fields ∧
      json_fields_get "join-delay-ms" fields =
        some (json_t.integer
          (igmp_delay_ms (timespec_sub g.first_mc_rx_time g.join_tx_time))) ∧
      json_fields_get "state" fields =
        some (json_t.string (if g.state = IGMP_GROUP_ACTIVE then "active" else "joining")) := by
  rcases hstate with hs | hs
  · refine ⟨_, by simp only [igmp_info_record, hs, if_pos hrx]; rfl, ?_, ?_⟩
    · simp [json_fields_get]
    · simp [json_fields_get, hs]
  · refine ⟨_, by simp only [igmp_info_record, hs, if_pos hrx]; rfl, ?_, ?_⟩
    · simp [json_fields_get]
    · simp [json_fields_get, hs]

/-- C23 (amended): for a session found under the session id and a slot of
its IGMP group table that holds a group (non-zero address) in state Active
or Joining whose first multicast packet has been received
(`first_mc_rx_time.tv_sec` non-zero): when the difference
`first_mc_rx_time - join_tx_time`, rounded up to whole milliseconds, is below
2^32, the record of the group in the reply of igmp-info has `join-delay-ms`
equal to seconds * 1000 + ceil(nanoseconds / 10^6) of the difference and the
state `active` or `joining`; igmp-info leaves the context unchanged. -/
theorem bbl_ctrl_igmp_info_join_delay (env : ctrl_env) (ctx : bbl_ctx_) (session_id : Nat)
    (arguments : Option json_t) (p : Nat) (session : bbl_session_) (i : Nat)
    (g : bbl_igmp_group_s)
    (hid : session_id ≠ 0)
    (hget : bbl_session_get ctx session_id = some p)
    (hderef : session_deref ctx p = some session)
    (hi : i < IGMP_MAX_GROUPS) (hg : session.igmp_groups[i]? = some g)
    (hgroup : g.group ≠ 0)
    (hstate : g.state = IGMP_GROUP_ACTIVE ∨ g.state = IGMP_GROUP_JOINING)
    (hrx : g.first_mc_rx_time.tv_sec ≠ 0)
    (hrange : (timespec_sub g.first_mc_rx_time g.join_tx_time).tv_sec * 1000 +
      ((timespec_sub g.first_mc_rx_time g.join_tx_time).tv_nsec + 999999) / 1000000 < 2 ^ 32) :
    ∃ fields records,
      (bbl_ctrl_igmp_info env ctx session_id arguments).1 = ctx ∧
      (bbl_ctrl_igmp_info env ctx session_id arguments).2 =
        ctrl_dump env [("igmp-groups", json_t.array records)] ∧
      json_t.object fields ∈ records ∧
      igmp_info_record env g = json_t.object fields ∧
      json_fields_get "join-delay-ms" fields =
        some (json_t.integer
          ((timespec_sub g.first_mc_rx_time g.join_tx_time).tv_sec * 1000 +
            ((timespec_sub g.first_mc_rx_time g.join_tx_time).tv_nsec + 999999) / 1000000 :
            Nat)) ∧
      json_fields_get "state" fields =
        some (json_t.string (if g.state = IGMP_GROUP_ACTIVE then "active" else "joining")) := by
  obtain ⟨fields, hrec, hdelay, hst⟩ := igmp_info_record_join env g hstate hrx
  rw [igmp_delay_ms_eq _ hrange] at hdelay
  have hmem : g ∈ (session.igmp_groups.take IGMP_MAX_GROUPS).filter
      (fun group => group.group ≠ 0) := by
    rw [List.mem_filter]
    refine ⟨?_, by simpa using hgroup⟩
    have h := getElem?_take_lt session.igmp_groups IGMP_MAX_GROUPS i hi
    rw [hg] at h
    exact List.mem_iff_getElem?.mpr ⟨i, h.symm ▸ rfl⟩
  refine ⟨fields,
    ((session.igmp_groups.take IGMP_MAX_GROUPS).filter (fun group => group.group ≠ 0)).map
      (igmp_info_record env), ?_, ?_, ?_, hrec, hdelay, hst⟩
  · unfold bbl_ctrl_igmp_info
    rw [if_neg hid]
    simp only [hget, Option.some_bind, hderef]
  · unfold bbl_ctrl_igmp_info
    rw [if_neg hid]
    simp only [hget, Option.some_bind, hderef]
  · rw [← hrec]
    exact List.mem_map_of_mem _ hmem

/-- C23 at a gap of exactly 37 ms: the group 239.0.0.1 in state Active with
`join_tx_time` 100 s and `first_mc_rx_time` 100.037 s is reported with
`join-delay-ms` 37 and state `active`. -/
theorem bbl_ctrl_igmp_info_join_delay_witness :
    ∃ fields records,
      (bbl_ctrl_igmp_info ex_ctrl_env
        (ex_igmp_ctx [{ ex_igmp_group 4009754625 IGMP_GROUP_ACTIVE false with
          join_tx_time := ⟨100, 0⟩, first_mc_rx_time := ⟨100, 37000000⟩ }]) 1 none).1 =
        ex_igmp_ctx [{ ex_igmp_group 4009754625 IGMP_GROUP_ACTIVE false with
          join_tx_time := ⟨100, 0⟩, first_mc_rx_time := ⟨100, 37000000⟩ }] ∧
      (bbl_ctrl_igmp_info ex_ctrl_env
        (ex_igmp_ctx [{ ex_igmp_group 4009754625 IGMP_GROUP_ACTIVE false with
          join_tx_time := ⟨100, 0⟩, first_mc_rx_time := ⟨100, 37000000⟩ }]) 1 none).2 =
        ctrl_dump ex_ctrl_env [("igmp-groups", json_t.array records)] ∧
      json_t.object fields ∈ records ∧
      igmp_info_record ex_ctrl_env { ex_igmp_group 4009754625 IGMP_GROUP_ACTIVE false with
          join_tx_time := ⟨100, 0⟩, first_mc_rx_time := ⟨100, 37000000⟩ } =
        json_t.object fields ∧
      json_fields_get "join-delay-ms" fields = some (json_t.integer 37) ∧
      json_fields_get "state" fields = some (json_t.string "active") :=
  bbl_ctrl_igmp_info_join_delay ex_ctrl_env
    (ex_igmp_ctx [{ ex_igmp_group 4009754625 IGMP_GROUP_ACTIVE false with
      join_tx_time := ⟨100, 0⟩, first_mc_rx_time := ⟨100, 37000000⟩ }]) 1 none 0
    { ex_ctrl_session 1 with
      igmp_groups := [{ ex_igmp_group 4009754625 IGMP_GROUP_ACTIVE false with
        join_tx_time := ⟨100, 0⟩, first_mc_rx_time := ⟨100, 37000000⟩ }] }
    0 { ex_igmp_group 4009754625 IGMP_GROUP_ACTIVE false with
        join_tx_time := ⟨100, 0⟩, first_mc_rx_time := ⟨100, 37000000⟩ }
    (by decide) (by decide) (by decide) (by decide) rfl (by decide) (Or.inl rfl) (by decide)
    (by decide)

/-- C23 as stated fails for a group in state Active with `join_tx_time` 1 s
and `first_mc_rx_time` 4294969 s: the difference is 4294968 s, which is
4294968000 ms, and the `uint32_t` delay reported is 704. -/
theorem bbl_ctrl_igmp_info_join_delay_counterexample :
    timespec_sub ⟨4294969, 0⟩ ⟨1, 0⟩ = ⟨4294968, 0⟩ ∧
    ∃ fields,
      igmp_info_record ex_ctrl_env { ex_igmp_group 4009754625 IGMP_GROUP_ACTIVE false with
          join_tx_time := ⟨1, 0⟩, first_mc_rx_time := ⟨4294969, 0⟩ } =
        json_t.object fields ∧
      json_fields_get "join-delay-ms" fields = some (json_t.integer 704) :=
  ⟨by decide, _, rfl, rfl⟩

/-! ## C24: ipcp-open and ip6cp-open -/

theorem session_update_frame (ctx : bbl_ctx_) (p : Nat) (f : bbl_session_ → bbl_session_) :
    session_update ctx p f =
      { ctx with session_list := (session_update ctx p f).session_list } := rfl

theorem sessions_fold_frame (f : bbl_session_ → bbl_session_) :
    ∀ (l : List Nat) (ctx : bbl_ctx_),
      l.foldl (fun c i => session_update c i f) ctx =
        { ctx with
          session_list := (l.foldl (fun c i => session_update c i f) ctx).session_list } := by
  intro l
  induction l with
  | nil => intro ctx; rfl
  | cons i rest ih =>
    intro ctx
    simp only [List.foldl_cons]
    rw [ih (session_update ctx i f)]
    rfl

theorem sessions_fold_list (f : bbl_session_ → bbl_session_) :
    ∀ (l : List Nat) (ctx : bbl_ctx_), l.Nodup → ∀ q : Nat,
      (l.foldl (fun c i => session_update c i f) ctx).session_list[q]? =
        if q ∈ l then (ctx.session_list[q]?).map (Option.map f) else ctx.session_list[q]? := by
  intro l
  induction l with
  | nil =>
    intro ctx _ q
    simp
  | cons i rest ih =>
    intro ctx hnd q
    rw [List.nodup_cons] at hnd
    simp only [List.foldl_cons]
    rw [ih (session_update ctx i f) hnd.2 q]
    have hup : (session_update ctx i f).session_list[q]? =
        if i = q then (ctx.session_list[q]?).map (Option.map f) else ctx.session_list[q]? := by
      unfold session_update
      simp only [List.getElem?_modify]
      by_cases h : i = q
      · simp only [h, if_true]
        cases ctx.session_list[q]? <;> rfl
      · simp only [h, if_false]
        cases ctx.session_list[q]? <;> rfl
    rw [hup]
    by_cases hq : q ∈ rest
    · have hne : ¬ i = q := fun e => hnd.1 (e ▸ hq)
      simp only [hq, if_true, hne, if_false, List.mem_cons, or_true]
    · by_cases hi : i = q
      · simp only [hq, if_false, hi, if_true, List.mem_cons, true_or]
      · have hi' : ¬ q = i := fun e => hi e.symm
        simp only [hq, if_false, hi, List.mem_cons, hi', or_self]

theorem sessions_iterate_list (ctx : bbl_ctx_) (f : bbl_session_ → bbl_session_) (q : Nat) :
    (sessions_iterate ctx f).session_list[q]? =
      if q < ctx.sessions then (ctx.session_list[q]?).map (Option.map f)
      else ctx.session_list[q]? := by
  unfold sessions_iterate
  rw [sessions_fold_list f _ ctx (List.nodup_range _) q]
  simp only [List.mem_range]

theorem sessions_iterate_frame (ctx : bbl_ctx_) (f : bbl_session_ → bbl_session_) :
    sessions_iterate ctx f =
      { ctx with session_list := (sessions_iterate ctx f).session_list } :=
  sessions_fold_frame f _ ctx

theorem sessions_iterate_deref (ctx : bbl_ctx_) (f : bbl_session_ → bbl_session_) (q : Nat) :
    session_deref (sessions_iterate ctx f) q =
      if q < ctx.sessions then (session_deref ctx q).map f else session_deref ctx q := by
  unfold session_deref
  rw [sessions_iterate_list]
  by_cases h : q < ctx.sessions
  · simp only [h, if_true]
    cases hq : ctx.session_list[q]? with
    | none => rfl
    | some x => cases x <;> rfl
  · simp only [h, if_false]

theorem sessions_iterate_idem (ctx : bbl_ctx_) (f : bbl_session_ → bbl_session_)
    (hf : ∀ s, f (f s) = f s) :
    sessions_iterate (sessions_iterate ctx f) f = sessions_iterate ctx f := by
  have hs : (sessions_iterate ctx f).sessions = ctx.sessions := by
    rw [sessions_iterate_frame]
  rw [sessions_iterate_frame (sessions_iterate ctx f) f]
  have hl : (sessions_iterate (sessions_iterate ctx f) f).session_list =
      (sessions_iterate ctx f).session_list := by
    apply List.ext_getElem?
    intro q
    rw [sessions_iterate_list, hs, sessions_iterate_list]
    by_cases h : q < ctx.sessions
    · simp only [h, if_true]
      cases hq : ctx.session_list[q]? with
      | none => rfl
      | some x =>
        cases x with
        | none => rfl
        | some s => simp only [Option.map_some', hf]
    · simp only [h, if_false]
  rw [hl]

theorem session_update_idem (ctx : bbl_ctx_) (p : Nat) (f : bbl_session_ → bbl_session_)
    (hf : ∀ s, f (f s) = f s) :
    session_update (session_update ctx p f) p f = session_update ctx p f := by
  unfold session_update
  simp only [List.modify_modify_eq]
  have e : Option.map f ∘ Option.map f = Option.map f := by
    funext x
    cases x with
    | none => rfl
    | some s => simp only [Function.comp_apply, Option.map_some', hf]
  rw [e]

theorem ncp_open_close_open (env : ctrl_env) (ipcp : Bool) (s : bbl_session_) :
    ncp_open_close env true ipcp s = bbl_ctrl_session_ncp_open s ipcp := by
  unfold ncp_open_close
  rfl

theorem bbl_ctrl_session_ncp_open_allowed (s : bbl_session_) (ipcp : Bool)
    (hp : s.access_type = ACCESS_TYPE_PPPOE) :
    ncp_open_allowed ipcp s (bbl_ctrl_session_ncp_open s ipcp) := by
  unfold bbl_ctrl_session_ncp_open ncp_open_allowed
  by_cases hst : s.session_state = BBL_ESTABLISHED ∨ s.session_state = BBL_PPP_NETWORK
  · rw [if_pos hst]
    cases ipcp with
    | true =>
      simp only [if_true]
      by_cases hc : s.ipcp_state = BBL_PPP_CLOSED
      · rw [if_pos hc]
        exact Or.inr ⟨hp, hst, hc, rfl⟩
      · rw [if_neg hc]
        exact Or.inl rfl
    | false =>
      simp only [Bool.false_eq_true, if_false]
      by_cases hc : s.ip6cp_state = BBL_PPP_CLOSED
      · rw [if_pos hc]
        exact Or.inr ⟨hp, hst, hc, rfl⟩
      · rw [if_neg hc]
        exact Or.inl rfl
  · rw [if_neg hst]
    exact Or.inl rfl

theorem bbl_ctrl_session_ncp_open_idem (s : bbl_session_) (ipcp : Bool) :
    bbl_ctrl_session_ncp_open (bbl_ctrl_session_ncp_open s ipcp) ipcp =
      bbl_ctrl_session_ncp_open s ipcp := by
  unfold bbl_ctrl_session_ncp_open
  by_cases hst : s.session_state = BBL_ESTABLISHED ∨ s.session_state = BBL_PPP_NETWORK
  · cases ipcp with
    | true =>
      by_cases hc : s.ipcp_state = BBL_PPP_CLOSED
      · simp [hst, hc]
      · simp [hst, hc]
    | false =>
      by_cases hc : s.ip6cp_state = BBL_PPP_CLOSED
      · simp [hst, hc]
      · simp [hst, hc]
  · simp [hst]

theorem bbl_ctrl_session_ncp_open_access (s : bbl_session_) (ipcp : Bool) :
    (bbl_ctrl_session_ncp_open s ipcp).access_type = s.access_type := by
  unfold bbl_ctrl_session_ncp_open
  split_ifs <;> rfl

theorem ncp_open_allowed_states (ipcp : Bool) (s s' : bbl_session_)
    (h : ncp_open_allowed ipcp s s') :
    (s'.ipcp_state = BBL_PPP_OPENED → s.ipcp_state = BBL_PPP_OPENED) ∧
    (s'.ip6cp_state = BBL_PPP_OPENED → s.ip6cp_state = BBL_PPP_OPENED) ∧
    (ipcp = true → s'.ip6cp_state = s.ip6cp_state) ∧
    (ipcp = false → s'.ipcp_state = s.ipcp_state) := by
  rcases h with h | ⟨_, _, h⟩
  · subst h
    exact ⟨id, id, fun _ => rfl, fun _ => rfl⟩
  · cases ipcp with
    | true =>
      simp only [if_true] at h
      obtain ⟨_, h⟩ := h
      subst h
      exact ⟨fun c => absurd (show BBL_PPP_INIT = BBL_PPP_OPENED from c) (by decide), id,
        fun _ => rfl, fun c => absurd c (by decide)⟩
    | false =>
      simp only [Bool.false_eq_true, if_false] at h
      obtain ⟨_, h⟩ := h
      subst h
      exact ⟨id, fun c => absurd (show BBL_PPP_INIT = BBL_PPP_OPENED from c) (by decide),
        fun c => absurd c (by decide), fun _ => rfl⟩

theorem bbl_session_get_update (ctx : bbl_ctx_) (p : Nat) (f : bbl_session_ → bbl_session_)
    (session_id : Nat) :
    bbl_session_get (session_update ctx p f) session_id = bbl_session_get ctx session_id := by
  unfold bbl_session_get
  have hs : (session_update ctx p f).sessions = ctx.sessions := rfl
  rw [hs, session_update_deref]
  by_cases hc : session_id < 1 ∨ session_id > ctx.sessions
  · simp only [hc, if_true]
  · simp only [hc, if_false]
    by_cases hp : p = session_id - 1
    · simp only [hp, if_true]
      cases session_deref ctx (session_id - 1) <;> rfl
    · simp only [hp, if_false]

theorem bbl_ctrl_session_ncp_open_close_found (env : ctrl_env) (ctx : bbl_ctx_)
    (session_id : Nat) (open_ ipcp : Bool) (p : Nat) (s : bbl_session_)
    (hid : session_id ≠ 0) (hget : bbl_session_get ctx session_id = some p)
    (hderef : session_deref ctx p = some s) (hp : s.access_type = ACCESS_TYPE_PPPOE) :
    (bbl_ctrl_session_ncp_open_close env ctx session_id open_ ipcp).1 =
      session_update ctx p (ncp_open_close env open_ ipcp) := by
  unfold bbl_ctrl_session_ncp_open_close
  rw [if_pos hid]
  simp only [hget, hderef, hp, if_true]

theorem bbl_ctrl_session_ncp_open_close_other (env : ctrl_env) (ctx : bbl_ctx_)
    (session_id : Nat) (open_ ipcp : Bool) (hid : session_id ≠ 0)
    (h : ∀ p s, bbl_session_get ctx session_id = some p → session_deref ctx p = some s →
      s.access_type ≠ ACCESS_TYPE_PPPOE) :
    (bbl_ctrl_session_ncp_open_close env ctx session_id open_ ipcp).1 = ctx := by
  unfold bbl_ctrl_session_ncp_open_close
  rw [if_pos hid]
  cases hget : bbl_session_get ctx session_id with
  | none => rfl
  | some p =>
    cases hderef : session_deref ctx p with
    | none => simp only [hderef]
    | some s => simp only [hderef, h p s hget hderef, if_false]

theorem bbl_ctrl_session_ncp_open_close_all (env : ctrl_env) (ctx : bbl_ctx_)
    (open_ ipcp : Bool) :
    (bbl_ctrl_session_ncp_open_close env ctx 0 open_ ipcp).1 =
      sessions_iterate ctx (fun session =>
        if session.access_type = ACCESS_TYPE_PPPOE then ncp_open_close env open_ ipcp session
        else session) := by
  unfold bbl_ctrl_session_ncp_open_close
  simp only [ne_eq, not_true_eq_false, if_false]

theorem bbl_ctrl_session_ncp_open_spec (env : ctrl_env) (ctx : bbl_ctx_) (session_id : Nat)
    (ipcp : Bool) :
    (bbl_ctrl_session_ncp_open_close env ctx session_id true ipcp).1 =
        { ctx with session_list :=
            (bbl_ctrl_session_ncp_open_close env ctx session_id true ipcp).1.session_list } ∧
      (∀ q, session_deref ctx q = none →
        session_deref (bbl_ctrl_session_ncp_open_close env ctx session_id true ipcp).1 q =
          none) ∧
      (∀ q s, session_deref ctx q = some s →
        ∃ s', session_deref (bbl_ctrl_session_ncp_open_close env ctx session_id true ipcp).1 q =
            some s' ∧ ncp_open_allowed ipcp s s') ∧
      (bbl_ctrl_session_ncp_open_close env
          (bbl_ctrl_session_ncp_open_close env ctx session_id true ipcp).1 session_id true
          ipcp).1 =
        (bbl_ctrl_session_ncp_open_close env ctx session_id true ipcp).1 := by
  have hF : ∀ s, ncp_open_close env true ipcp (ncp_open_close env true ipcp s) =
      ncp_open_close env true ipcp s := by
    intro s
    rw [ncp_open_close_open, ncp_open_close_open, bbl_ctrl_session_ncp_open_idem]
  by_cases hid : session_id = 0
  · subst hid
    have hF' : ∀ s : bbl_session_,
        (fun session : bbl_session_ =>
          if session.access_type = ACCESS_TYPE_PPPOE then ncp_open_close env true ipcp session
          else session)
          ((fun session : bbl_session_ =>
            if session.access_type = ACCESS_TYPE_PPPOE then
              ncp_open_close env true ipcp session
            else session) s) =
        (fun session : bbl_session_ =>
          if session.access_type = ACCESS_TYPE_PPPOE then ncp_open_close env true ipcp session
          else session) s := by
      intro s
      by_cases hp : s.access_type = ACCESS_TYPE_PPPOE
      · have hp' : (ncp_open_close env true ipcp s).access_type = ACCESS_TYPE_PPPOE := by
          rw [ncp_open_close_open, bbl_ctrl_session_ncp_open_access]
          exact hp
        simp only [hp, if_true, hp', hF]
      · simp only [hp, if_false]
    rw [bbl_ctrl_session_ncp_open_close_all, bbl_ctrl_session_ncp_open_close_all]
    refine ⟨sessions_iterate_frame _ _, ?_, ?_, sessions_iterate_idem _ _ hF'⟩
    · intro q hq
      rw [sessions_iterate_deref, hq]
      split_ifs <;> rfl
    · intro q s hq
      rw [sessions_iterate_deref, hq]
      by_cases hlt : q < ctx.sessions
      · rw [if_pos hlt]
        refine ⟨_, rfl, ?_⟩
        by_cases hp : s.access_type = ACCESS_TYPE_PPPOE
        · simp only [hp, if_true]
          rw [ncp_open_close_open]
          exact bbl_ctrl_session_ncp_open_allowed s ipcp hp
        · simp only [hp, if_false]
          exact Or.inl rfl
      · rw [if_neg hlt]
        exact ⟨s, rfl, Or.inl rfl⟩
  · by_cases hfound : ∃ p s, bbl_session_get ctx session_id = some p ∧
        session_deref ctx p = some s ∧ s.access_type = ACCESS_TYPE_PPPOE
    · obtain ⟨p, s, hget, hderef, hp⟩ := hfound
      have h1 := bbl_ctrl_session_ncp_open_close_found env ctx session_id true ipcp p s hid hget
        hderef hp
      have hp' : (ncp_open_close env true ipcp s).access_type = ACCESS_TYPE_PPPOE := by
        rw [ncp_open_close_open, bbl_ctrl_session_ncp_open_access]
        exact hp
      have h2 := bbl_ctrl_session_ncp_open_close_found env
        (session_update ctx p (ncp_open_close env true ipcp)) session_id true ipcp p
        (ncp_open_close env true ipcp s) hid
        (by rw [bbl_session_get_update]; exact hget)
        (by rw [session_update_deref, if_pos rfl, hderef]; rfl) hp'
      rw [h1, h2]
      refine ⟨rfl, ?_, ?_, session_update_idem _ _ _ hF⟩
      · intro q hq
        rw [session_update_deref, hq]
        split_ifs <;> rfl
      · intro q s0 hq
        rw [session_update_deref, hq]
        by_cases hpq : p = q
        · rw [if_pos hpq]
          refine ⟨_, rfl, ?_⟩
          subst hpq
          rw [hderef] at hq
          simp only [Option.some.injEq] at hq
          subst hq
          rw [ncp_open_close_open]
          exact bbl_ctrl_session_ncp_open_allowed s ipcp hp
        · rw [if_neg hpq]
          exact ⟨s0, rfl, Or.inl rfl⟩
    · have h1 := bbl_ctrl_session_ncp_open_close_other env ctx session_id true ipcp hid
        (fun p s hget hderef hp => hfound ⟨p, s, hget, hderef, hp⟩)
      rw [h1, h1]
      exact ⟨rfl, fun q hq => hq, fun q s hq => ⟨s, hq, Or.inl rfl⟩, rfl⟩

/-- C24: the control commands ipcp-open and ip6cp-open, called with any
session id and arguments, leave everything but the sessions unchanged, keep
an absent session absent, and do to each session either nothing or, for a
PPPoE session whose state is Established or PPP Network and whose IPCP
(respectively IP6CP) is Closed, the move of that NCP from Closed to Init with
a Configure-Request to send; so no NCP is put into state Opened, and the
other NCP keeps its state.  Applying the command twice gives the same
context as applying it once. -/
theorem bbl_ctrl_session_ncp_open_never_opened (env : ctrl_env) (ctx : bbl_ctx_)
    (session_id : Nat) (arguments : Option json_t) :
    ((bbl_ctrl_session_ipcp_open env ctx session_id arguments).1 =
        { ctx with session_list :=
            (bbl_ctrl_session_ipcp_open env ctx session_id arguments).1.session_list } ∧
      (∀ q, session_deref ctx q = none →
        session_deref (bbl_ctrl_session_ipcp_open env ctx session_id arguments).1 q = none) ∧
      (∀ q s, session_deref ctx q = some s →
        ∃ s', session_deref (bbl_ctrl_session_ipcp_open env ctx session_id arguments).1 q =
            some s' ∧
          ncp_open_allowed true s s' ∧
          (s'.ipcp_state = BBL_PPP_OPENED → s.ipcp_state = BBL_PPP_OPENED) ∧
          s'.ip6cp_state = s.ip6cp_state) ∧
      (bbl_ctrl_session_ipcp_open env
          (bbl_ctrl_session_ipcp_open env ctx session_id arguments).1 session_id arguments).1 =
        (bbl_ctrl_session_ipcp_open env ctx session_id arguments).1) ∧
    ((bbl_ctrl_session_ip6cp_open env ctx session_id arguments).1 =
        { ctx with session_list :=
            (bbl_ctrl_session_ip6cp_open env ctx session_id arguments).1.session_list } ∧
      (∀ q, session_deref ctx q = none →
        session_deref (bbl_ctrl_session_ip6cp_open env ctx session_id arguments).1 q = none) ∧
      (∀ q s, session_deref ctx q = some s →
        ∃ s', session_deref (bbl_ctrl_session_ip6cp_open env ctx session_id arguments).1 q =
            some s' ∧
          ncp_open_allowed false s s' ∧
          (s'.ip6cp_state = BBL_PPP_OPENED → s.ip6cp_state = BBL_PPP_OPENED) ∧
          s'.ipcp_state = s.ipcp_state) ∧
      (bbl_ctrl_session_ip6cp_open env
          (bbl_ctrl_session_ip6cp_open env ctx session_id arguments).1 session_id arguments).1 =
        (bbl_ctrl_session_ip6cp_open env ctx session_id arguments).1) := by
  obtain ⟨a1, a2, a3, a4⟩ := bbl_ctrl_session_ncp_open_spec env ctx session_id true
  obtain ⟨b1, b2, b3, b4⟩ := bbl_ctrl_session_ncp_open_spec env ctx session_id false
  refine ⟨⟨a1, a2, ?_, a4⟩, ⟨b1, b2, ?_, b4⟩⟩
  · intro q s hq
    obtain ⟨s', h1, h2⟩ := a3 q s hq
    obtain ⟨c1, _, c3, _⟩ := ncp_open_allowed_states true s s' h2
    exact ⟨s', h1, h2, c1, c3 rfl⟩
  · intro q s hq
    obtain ⟨s', h1, h2⟩ := b3 q s hq
    obtain ⟨_, c2, _, c4⟩ := ncp_open_allowed_states false s s' h2
    exact ⟨s', h1, h2, c2, c4 rfl⟩

/-- C24 at `ex_ncp_ctx`: ipcp-open for all sessions moves the IPCP of the
PPPoE session from Closed to Init and leaves the IPoE session as it is, and
a second ipcp-open changes nothing more. -/
theorem bbl_ctrl_session_ncp_open_never_opened_witness :
    ((bbl_ctrl_session_ipcp_open ex_ctrl_env ex_ncp_ctx 0 none).1.session_list.map
        (fun s => s.map (fun s => (s.access_type, s.ipcp_state, s.ip6cp_state)))) =
      [some (ACCESS_TYPE_PPPOE, BBL_PPP_INIT, BBL_PPP_OPENED),
       some (ACCESS_TYPE_IPOE, BBL_PPP_CLOSED, BBL_PPP_OPENED)] ∧
    (bbl_ctrl_session_ipcp_open ex_ctrl_env
        (bbl_ctrl_session_ipcp_open ex_ctrl_env ex_ncp_ctx 0 none).1 0 none).1 =
      (bbl_ctrl_session_ipcp_open ex_ctrl_env ex_ncp_ctx 0 none).1 :=
  ⟨by decide, (bbl_ctrl_session_ncp_open_never_opened ex_ctrl_env ex_ncp_ctx 0 none).1.2.2.2⟩

/-! ## C25: the IS-IS commands for an unknown instance -/

theorem ctrl_replied_status (env : ctrl_env) (status : String) (code : Nat)
    (message : Option String) :
    ctrl_replied env (bbl_ctrl_status env status code message) status code message :=
  ⟨rfl, fun h => bbl_ctrl_status_packed env status code message h⟩

/-- C25 at the instance id 9, which matches no instance of `ex_isis_ctx`
(its one instance has id 1): the requests isis-load-mrt and isis-lsp-update
are answered with error 404 and isis-database is answered with error 400;
none of the three changes the context. -/
theorem bbl_ctrl_isis_instance_not_found :
    isis_instance_search 9 ex_isis_ctx.isis_instances 0 = none ∧
    ctrl_status_codes (bbl_ctrl_socket_connection ex_ctrl_env ex_isis_ctx ctrl_locals_init
      (ex_ctrl_request "isis-database"
        [("instance", json_t.integer 9), ("level", json_t.integer 1)])).replies =
      [("error", 400)] ∧
    ctrl_status_codes (bbl_ctrl_socket_connection ex_ctrl_env ex_isis_ctx ctrl_locals_init
      (ex_ctrl_request "isis-load-mrt"
        [("instance", json_t.integer 9), ("file", json_t.string "isis.mrt")])).replies =
      [("error", 404)] ∧
    ctrl_status_codes (bbl_ctrl_socket_connection ex_ctrl_env ex_isis_ctx ctrl_locals_init
      (ex_ctrl_request "isis-lsp-update"
        [("instance", json_t.integer 9), ("pdu", json_t.array [])])).replies =
      [("error", 404)] ∧
    (bbl_ctrl_socket_connection ex_ctrl_env ex_isis_ctx ctrl_locals_init
      (ex_ctrl_request "isis-database"
        [("instance", json_t.integer 9), ("level", json_t.integer 1)])).ctx = ex_isis_ctx ∧
    (bbl_ctrl_socket_connection ex_ctrl_env ex_isis_ctx ctrl_locals_init
      (ex_ctrl_request "isis-load-mrt"
        [("instance", json_t.integer 9), ("file", json_t.string "isis.mrt")])).ctx =
      ex_isis_ctx ∧
    (bbl_ctrl_socket_connection ex_ctrl_env ex_isis_ctx ctrl_locals_init
      (ex_ctrl_request "isis-lsp-update"
        [("instance", json_t.integer 9), ("pdu", json_t.array [])])).ctx = ex_isis_ctx :=
  ⟨rfl, rfl, rfl, rfl, rfl, rfl, rfl⟩

/-! ## C26: command dispatch -/

theorem actions_search_at (command : String) :
    ∀ (t : List (String × callback_function)) (i0 i : Nat) (fn : callback_function),
      (t.map Prod.fst).Nodup → t[i]? = some (command, fn) →
      actions_search command t i0 = some (i0 + i, fn) := by
  intro t
  induction t with
  | nil =>
    intro i0 i fn _ h
    simp at h
  | cons e rest ih =>
    intro i0 i fn hnd h
    obtain ⟨name, f⟩ := e
    simp only [List.map_cons, List.nodup_cons] at hnd
    cases i with
    | zero =>
      simp only [List.getElem?_cons_zero, Option.some.injEq, Prod.mk.injEq] at h
      simp only [actions_search, h.1, if_true, h.2, Nat.add_zero]
    | succ i =>
      simp only [List.getElem?_cons_succ] at h
      have hne : ¬ name = command := by
        intro e
        apply hnd.1
        rw [e]
        exact List.mem_map.mpr ⟨(command, fn), List.mem_iff_getElem?.mpr ⟨i, h⟩, rfl⟩
      simp only [actions_search, hne, if_false]
      rw [ih (i0 + 1) i fn hnd.2 h]
      congr 2
      omega

theorem actions_search_absent (command : String) :
    ∀ (t : List (String × callback_function)) (i0 : Nat),
      command ∉ t.map Prod.fst → actions_search command t i0 = none := by
  intro t
  induction t with
  | nil =>
    intro i0 _
    rfl
  | cons e rest ih =>
    intro i0 h
    obtain ⟨name, f⟩ := e
    simp only [List.map_cons, List.mem_cons, not_or] at h
    have hne : ¬ name = command := fun e => h.1 e.symm
    simp only [actions_search, hne, if_false]
    exact ih (i0 + 1) h.2

theorem actions_names_nodup : (actions.map Prod.fst).Nodup := by
  unfold actions
  decide

theorem json_unpack_request_command (root : json_t) (l l1 : ctrl_locals) (command : String)
    (hc : json_unpack_string (some root) "command" = some command)
    (h : json_unpack_request root l = some l1) : l1.command = some command := by
  unfold json_unpack_request at h
  simp only [hc] at h
  split at h
  · simp only [Option.some.injEq] at h
    rw [← h]
  · simp only [Option.some.injEq] at h
    rw [← h]

theorem ctrl_session_id_command (env : ctrl_env) (ctx : bbl_ctx_) (l : ctrl_locals) :
    (ctrl_session_id env ctx l).1.command = l.command := by
  unfold ctrl_session_id
  repeat' split
  all_goals rfl

/-- C26 (amended): the names of the action table are pairwise distinct.  For
every request that is a JSON object with a string `command`, and whose
session reference is resolved without an early reply (no arguments, a
numeric session-id, or numeric VLAN members with outer-vlan 0 or a key of the
VLAN session index), whatever the locals held before: if `command` is the
name of entry `i` of the table, the handler of that entry, and no other, is
called, once, with the resolved session id and the arguments, and its context
and replies are the result; if `command` is no name of the table, no handler
is called, the context is unchanged and the reply is what `bbl_ctrl_status`
writes for error 400 "unknown command". -/
theorem bbl_ctrl_socket_dispatch (env : ctrl_env) (ctx : bbl_ctx_) (l : ctrl_locals) :
    (actions.map Prod.fst).Nodup ∧
    (∀ (root : json_t) (command : String) (l1 l2 : ctrl_locals),
      json_unpack_string (some root) "command" = some command →
      json_unpack_request root l = some l1 →
      ctrl_session_id env ctx l1 = (l2, none) →
      (∀ (i : Nat) (fn : callback_function), actions[i]? = some (command, fn) →
        (bbl_ctrl_socket_connection env ctx l (ctrl_request.json root)).call =
            some ⟨i, l2.session_id, l2.arguments⟩ ∧
          (bbl_ctrl_socket_connection env ctx l (ctrl_request.json root)).ctx =
            (fn env ctx l2.session_id l2.arguments).1 ∧
          (bbl_ctrl_socket_connection env ctx l (ctrl_request.json root)).replies =
            (fn env ctx l2.session_id l2.arguments).2) ∧
      (command ∉ actions.map Prod.fst →
        (bbl_ctrl_socket_connection env ctx l (ctrl_request.json root)).call = none ∧
          (bbl_ctrl_socket_connection env ctx l (ctrl_request.json root)).ctx = ctx ∧
          ctrl_replied env
            (bbl_ctrl_socket_connection env ctx l (ctrl_request.json root)).replies
            "error" 400 (some "unknown command"))) := by
  refine ⟨actions_names_nodup, ?_⟩
  intro root command l1 l2 hc h1 h2
  have hcmd : l2.command = some command := by
    have e := ctrl_session_id_command env ctx l1
    rw [h2] at e
    rw [e]
    exact json_unpack_request_command root l l1 command hc h1
  refine ⟨?_, ?_⟩
  · intro i fn hi
    have hs := actions_search_at command actions 0 i fn actions_names_nodup hi
    rw [Nat.zero_add] at hs
    have hconn : bbl_ctrl_socket_connection env ctx l (ctrl_request.json root) =
        ⟨(fn env ctx l2.session_id l2.arguments).1, l2,
          (fn env ctx l2.session_id l2.arguments).2,
          some ⟨i, l2.session_id, l2.arguments⟩⟩ := by
      unfold bbl_ctrl_socket_connection
      simp only [h1, h2, hcmd, Option.getD_some, hs]
    rw [hconn]
    exact ⟨rfl, rfl, rfl⟩
  · intro hn
    have hs := actions_search_absent command actions 0 hn
    have hconn : bbl_ctrl_socket_connection env ctx l (ctrl_request.json root) =
        ⟨ctx, l2, bbl_ctrl_status env "error" 400 (some "unknown command"), none⟩ := by
      unfold bbl_ctrl_socket_connection
      simp only [h1, h2, hcmd, Option.getD_some, hs]
    rw [hconn]
    exact ⟨rfl, rfl, ctrl_replied_status env _ _ _⟩

/-- C26 at the requests session-info with session-id 1, which calls entry 7
of the table with session id 1, and `no-such-command`, which is answered with
error 400. -/
theorem bbl_ctrl_socket_dispatch_witness :
    ((bbl_ctrl_socket_connection ex_ctrl_env ex_ctrl_ctx ctrl_locals_init
        (ex_ctrl_request "session-info" [("session-id", json_t.integer 1)])).call.map
      (fun c => (c.action, c.session_id))) = some (7, 1) ∧
    (bbl_ctrl_socket_connection ex_ctrl_env ex_ctrl_ctx ctrl_locals_init
        (ex_ctrl_request "session-info" [("session-id", json_t.integer 1)])).replies =
      (bbl_ctrl_session_info ex_ctrl_env ex_ctrl_ctx 1
        (some (json_t.object [("session-id", json_t.integer 1)]))).2 ∧
    ctrl_replied ex_ctrl_env
      (bbl_ctrl_socket_connection ex_ctrl_env ex_ctrl_ctx ctrl_locals_init
        (ex_ctrl_request "no-such-command" [])).replies "error" 400 (some "unknown command") :=
  ⟨by decide,
    (((bbl_ctrl_socket_dispatch ex_ctrl_env ex_ctrl_ctx ctrl_locals_init).2
      (json_t.object [("command", json_t.string "session-info"),
        ("arguments", json_t.object [("session-id", json_t.integer 1)])])
      "session-info"
      { command := some "session-info"
        arguments := some (json_t.object [("session-id", json_t.integer 1)])
        session_id := 0, key := ⟨0, 0, 0⟩ }
      { command := some "session-info"
        arguments := some (json_t.object [("session-id", json_t.integer 1)])
        session_id := 1, key := ⟨0, 0, 0⟩ }
      rfl rfl rfl).1 7 bbl_ctrl_session_info rfl).2.2,
    (((bbl_ctrl_socket_dispatch ex_ctrl_env ex_ctrl_ctx ctrl_locals_init).2
      (json_t.object [("command", json_t.string "no-such-command"),
        ("arguments", json_t.object [])])
      "no-such-command"
      { command := some "no-such-command", arguments := some (json_t.object [])
        session_id := 0, key := ⟨0, 0, 0⟩ }
      { command := some "no-such-command", arguments := some (json_t.object [])
        session_id := 0, key := ⟨1, 0, 0⟩ }
      rfl rfl rfl).2 (by decide)).2.2⟩

/-- C26 as stated fails for requests that carry the VLAN tuple (10, 21),
under which `ex_ctrl_ctx` holds no session: the request session-info, a
command of the table, is answered with warning 404 without a call of a
handler, and the request `no-such-command` is answered with warning 404, not
with error 400. -/
theorem bbl_ctrl_socket_dispatch_counterexample :
    "session-info" ∈ actions.map Prod.fst ∧
    (bbl_ctrl_socket_connection ex_ctrl_env ex_ctrl_ctx ctrl_locals_init
        (ex_ctrl_request "session-info"
          [("outer-vlan", json_t.integer 10), ("inner-vlan", json_t.integer 21)])).call.map
      (fun c => (c.action, c.session_id)) = none ∧
    ctrl_status_codes (bbl_ctrl_socket_connection ex_ctrl_env ex_ctrl_ctx ctrl_locals_init
        (ex_ctrl_request "session-info"
          [("outer-vlan", json_t.integer 10), ("inner-vlan", json_t.integer 21)])).replies =
      [("warning", 404)] ∧
    "no-such-command" ∉ actions.map Prod.fst ∧
    ctrl_status_codes (bbl_ctrl_socket_connection ex_ctrl_env ex_ctrl_ctx ctrl_locals_init
        (ex_ctrl_request "no-such-command"
          [("outer-vlan", json_t.integer 10), ("inner-vlan", json_t.integer 21)])).replies =
      [("warning", 404)] := by
  decide

/-! ## C27: l2tp-tunnel-terminate -/

theorem l2tp_tunnel_update_deref (ctx : bbl_ctx_) (p : Nat)
    (f : bbl_l2tp_tunnel_t → bbl_l2tp_tunnel_t) (q : Nat) :
    l2tp_tunnel_deref (l2tp_tunnel_update ctx p f) q =
      if p = q then (l2tp_tunnel_deref ctx q).map f else l2tp_tunnel_deref ctx q := by
  unfold l2tp_tunnel_deref l2tp_tunnel_update
  simp only [List.getElem?_modify]
  by_cases h : p = q
  · simp only [h, if_true]
    cases ctx.l2tp_tunnels[q]? <;> rfl
  · simp only [h, if_false]
    cases ctx.l2tp_tunnels[q]? <;> rfl

/-- The cases of l2tp-tunnel-terminate in terms of the search the handler
makes, for any session id and arguments.
Without an integer `tunnel-id` it replies error 400, with a tunnel-id under
which the L2TP session dictionary holds no tunnel session warning 404, and for
a tunnel in a state other than Established warning 400; in these three cases
the context, and so every tunnel and the list of messages sent, is unchanged.
For a tunnel in state Established it replies ok 200, moves that tunnel to the
state `BBL_L2TP_TUNNEL_SEND_STOPCCN` with `result_code` (1 when the argument
is absent), `error_code` (0 when absent) and `error_message` (none when
absent) recorded, leaves every other tunnel and the rest of the context as
they are, and sends one message: a StopCCN for that tunnel. -/
theorem bbl_ctrl_l2tp_tunnel_terminate_cases (env : ctrl_env) (ctx : bbl_ctx_)
    (session_id : Nat) (arguments : Option json_t) :
    (json_unpack_int arguments "tunnel-id" = none →
      (bbl_ctrl_l2tp_tunnel_terminate env ctx session_id arguments).1 = ctx ∧
        ctrl_replied env (bbl_ctrl_l2tp_tunnel_terminate env ctx session_id arguments).2
          "error" 400 (some "missing tunnel-id")) ∧
    (∀ l2tp_tunnel_id, json_unpack_int arguments "tunnel-id" = some l2tp_tunnel_id →
      l2tp_session_search ctx l2tp_tunnel_id 0 = none →
      (bbl_ctrl_l2tp_tunnel_terminate env ctx session_id arguments).1 = ctx ∧
        ctrl_replied env (bbl_ctrl_l2tp_tunnel_terminate env ctx session_id arguments).2
          "warning" 404 (some "tunnel not found")) ∧
    (∀ l2tp_tunnel_id l2tp_session l2tp_tunnel,
      json_unpack_int arguments "tunnel-id" = some l2tp_tunnel_id →
      l2tp_session_search ctx l2tp_tunnel_id 0 = some l2tp_session →
      l2tp_tunnel_deref ctx l2tp_session.tunnel = some l2tp_tunnel →
      (l2tp_tunnel.state ≠ BBL_L2TP_TUNNEL_ESTABLISHED →
        (bbl_ctrl_l2tp_tunnel_terminate env ctx session_id arguments).1 = ctx ∧
          ctrl_replied env (bbl_ctrl_l2tp_tunnel_terminate env ctx session_id arguments).2
            "warning" 400 (some "tunnel not established")) ∧
      (l2tp_tunnel.state = BBL_L2TP_TUNNEL_ESTABLISHED →
        ctrl_replied env (bbl_ctrl_l2tp_tunnel_terminate env ctx session_id arguments).2
            "ok" 200 none ∧
          (bbl_ctrl_l2tp_tunnel_terminate env ctx session_id arguments).1 =
            { ctx with
              l2tp_tunnels :=
                (bbl_ctrl_l2tp_tunnel_terminate env ctx session_id arguments).1.l2tp_tunnels
              l2tp_tx :=
                ctx.l2tp_tx ++ [⟨l2tp_session.tunnel, none, L2TP_MESSAGE_STOPCCN⟩] } ∧
          l2tp_tunnel_deref (bbl_ctrl_l2tp_tunnel_terminate env ctx session_id arguments).1
              l2tp_session.tunnel =
            some { l2tp_tunnel with
                   state := BBL_L2TP_TUNNEL_SEND_STOPCCN
                   result_code := (json_unpack_int arguments "result-code").getD 1
                   error_code := (json_unpack_int arguments "error-code").getD 0
                   error_message := json_unpack_string arguments "error-message" } ∧
          (∀ q, q ≠ l2tp_session.tunnel →
            l2tp_tunnel_deref (bbl_ctrl_l2tp_tunnel_terminate env ctx session_id arguments).1 q =
              l2tp_tunnel_deref ctx q))) := by
  refine ⟨?_, ?_, ?_⟩
  · intro h
    have e : bbl_ctrl_l2tp_tunnel_terminate env ctx session_id arguments =
        (ctx, bbl_ctrl_status env "error" 400 (some "missing tunnel-id")) := by
      unfold bbl_ctrl_l2tp_tunnel_terminate
      simp only [h]
    rw [e]
    exact ⟨rfl, ctrl_replied_status env _ _ _⟩
  · intro tid h hs
    have e : bbl_ctrl_l2tp_tunnel_terminate env ctx session_id arguments =
        (ctx, bbl_ctrl_status env "warning" 404 (some "tunnel not found")) := by
      unfold bbl_ctrl_l2tp_tunnel_terminate
      simp only [h, hs]
    rw [e]
    exact ⟨rfl, ctrl_replied_status env _ _ _⟩
  · intro tid ls t h hs ht
    refine ⟨?_, ?_⟩
    · intro hst
      have e : bbl_ctrl_l2tp_tunnel_terminate env ctx session_id arguments =
          (ctx, bbl_ctrl_status env "warning" 400 (some "tunnel not established")) := by
        unfold bbl_ctrl_l2tp_tunnel_terminate
        simp only [h, hs, ht, hst, ne_eq, not_false_eq_true, if_true]
      rw [e]
      exact ⟨rfl, ctrl_replied_status env _ _ _⟩
    · intro hst
      have e : bbl_ctrl_l2tp_tunnel_terminate env ctx session_id arguments =
          (bbl_l2tp_send
            (l2tp_tunnel_update ctx ls.tunnel (fun l2tp_tunnel =>
              { bbl_l2tp_tunnel_update_state l2tp_tunnel BBL_L2TP_TUNNEL_SEND_STOPCCN with
                result_code := (json_unpack_int arguments "result-code").getD 1
                error_code := (json_unpack_int arguments "error-code").getD 0
                error_message := json_unpack_string arguments "error-message" }))
            ls.tunnel none L2TP_MESSAGE_STOPCCN,
            bbl_ctrl_status env "ok" 200 none) := by
        unfold bbl_ctrl_l2tp_tunnel_terminate
        simp only [h, hs, ht, hst, ne_eq, not_true_eq_false, if_false]
      rw [e]
      refine ⟨ctrl_replied_status env _ _ _, rfl, ?_, ?_⟩
      · have hd := l2tp_tunnel_update_deref ctx ls.tunnel (fun l2tp_tunnel =>
          { bbl_l2tp_tunnel_update_state l2tp_tunnel BBL_L2TP_TUNNEL_SEND_STOPCCN with
            result_code := (json_unpack_int arguments "result-code").getD 1
            error_code := (json_unpack_int arguments "error-code").getD 0
            error_message := json_unpack_string arguments "error-message" }) ls.tunnel
        rw [if_pos rfl, ht] at hd
        exact hd
      · intro q hq
        have hd := l2tp_tunnel_update_deref ctx ls.tunnel (fun l2tp_tunnel =>
          { bbl_l2tp_tunnel_update_state l2tp_tunnel BBL_L2TP_TUNNEL_SEND_STOPCCN with
            result_code := (json_unpack_int arguments "result-code").getD 1
            error_code := (json_unpack_int arguments "error-code").getD 0
            error_message := json_unpack_string arguments "error-message" }) q
        rw [if_neg (Ne.symm hq)] at hd
        exact hd

theorem l2tp_session_search_tunnel (ctx : bbl_ctx_) (l2tp_tunnel_id : Int) :
    l2tp_session_search ctx l2tp_tunnel_id 0 =
      dict_search bbl_l2tp_session_t.key (l2tp_key (l2tp_tunnel_id % 2 ^ 16).toNat 0)
        ctx.l2tp_session_dict := rfl

/-- C27 (amended). l2tp-tunnel-terminate, called with any session id and
arguments, looks the tunnel up under its `tunnel-id` reduced modulo 2^16, the
width of the tunnel id in the key of the dictionary.  Without an integer
`tunnel-id` it replies error 400; with a tunnel-id under whose 16-bit value
the dictionary holds no tunnel session, so with every unknown tunnel-id from
0 to 65535, warning 404; and for a tunnel in a state other than Established
warning 400; in these three cases the context, and so every tunnel and the
list of messages sent, is unchanged.  For a tunnel in state Established it
replies ok 200, moves that tunnel to the state `BBL_L2TP_TUNNEL_SEND_STOPCCN`
with `result_code` (1 when the argument is absent), `error_code` (0 when
absent) and `error_message` (none when absent) recorded, leaves every other
tunnel and the rest of the context as they are, and sends one message: a
StopCCN for that tunnel. -/
theorem bbl_ctrl_l2tp_tunnel_terminate_spec (env : ctrl_env) (ctx : bbl_ctx_)
    (session_id : Nat) (arguments : Option json_t) :
    (json_unpack_int arguments "tunnel-id" = none →
      (bbl_ctrl_l2tp_tunnel_terminate env ctx session_id arguments).1 = ctx ∧
        ctrl_replied env (bbl_ctrl_l2tp_tunnel_terminate env ctx session_id arguments).2
          "error" 400 (some "missing tunnel-id")) ∧
    (∀ l2tp_tunnel_id, json_unpack_int arguments "tunnel-id" = some l2tp_tunnel_id →
      dict_search bbl_l2tp_session_t.key (l2tp_key (l2tp_tunnel_id % 2 ^ 16).toNat 0)
        ctx.l2tp_session_dict = none →
      (bbl_ctrl_l2tp_tunnel_terminate env ctx session_id arguments).1 = ctx ∧
        ctrl_replied env (bbl_ctrl_l2tp_tunnel_terminate env ctx session_id arguments).2
          "warning" 404 (some "tunnel not found")) ∧
    (∀ l2tp_tunnel_id, json_unpack_int arguments "tunnel-id" = some l2tp_tunnel_id →
      0 ≤ l2tp_tunnel_id → l2tp_tunnel_id < 2 ^ 16 →
      dict_search bbl_l2tp_session_t.key (l2tp_key l2tp_tunnel_id.toNat 0)
        ctx.l2tp_session_dict = none →
      (bbl_ctrl_l2tp_tunnel_terminate env ctx session_id arguments).1 = ctx ∧
        ctrl_replied env (bbl_ctrl_l2tp_tunnel_terminate env ctx session_id arguments).2
          "warning" 404 (some "tunnel not found")) ∧
    (∀ l2tp_tunnel_id l2tp_session l2tp_tunnel,
      json_unpack_int arguments "tunnel-id" = some l2tp_tunnel_id →
      dict_search bbl_l2tp_session_t.key (l2tp_key (l2tp_tunnel_id % 2 ^ 16).toNat 0)
        ctx.l2tp_session_dict = some l2tp_session →
      l2tp_tunnel_deref ctx l2tp_session.tunnel = some l2tp_tunnel →
      (l2tp_tunnel.state ≠ BBL_L2TP_TUNNEL_ESTABLISHED →
        (bbl_ctrl_l2tp_tunnel_terminate env ctx session_id arguments).1 = ctx ∧
          ctrl_replied env (bbl_ctrl_l2tp_tunnel_terminate env ctx session_id arguments).2
            "warning" 400 (some "tunnel not established")) ∧
      (l2tp_tunnel.state = BBL_L2TP_TUNNEL_ESTABLISHED →
        ctrl_replied env (bbl_ctrl_l2tp_tunnel_terminate env ctx session_id arguments).2
            "ok" 200 none ∧
          (bbl_ctrl_l2tp_tunnel_terminate env ctx session_id arguments).1 =
            { ctx with
              l2tp_tunnels :=
                (bbl_ctrl_l2tp_tunnel_terminate env ctx session_id arguments).1.l2tp_tunnels
              l2tp_tx :=
                ctx.l2tp_tx ++ [⟨l2tp_session.tunnel, none, L2TP_MESSAGE_STOPCCN⟩] } ∧
          l2tp_tunnel_deref (bbl_ctrl_l2tp_tunnel_terminate env ctx session_id arguments).1
              l2tp_session.tunnel =
            some { l2tp_tunnel with
                   state := BBL_L2TP_TUNNEL_SEND_STOPCCN
                   result_code := (json_unpack_int arguments "result-code").getD 1
                   error_code := (json_unpack_int arguments "error-code").getD 0
                   error_message := json_unpack_string arguments "error-message" } ∧
          (∀ q, q ≠ l2tp_session.tunnel →
            l2tp_tunnel_deref (bbl_ctrl_l2tp_tunnel_terminate env ctx session_id arguments).1 q =
              l2tp_tunnel_deref ctx q))) := by
  have hc := bbl_ctrl_l2tp_tunnel_terminate_cases env ctx session_id arguments
  refine ⟨hc.1, ?_, ?_, ?_⟩
  · intro tid h hs
    exact hc.2.1 tid h ((l2tp_session_search_tunnel ctx tid).trans hs)
  · intro tid h h0 h16 hs
    have hmod : tid % 2 ^ 16 = tid := Int.emod_eq_of_lt h0 h16
    exact hc.2.1 tid h ((l2tp_session_search_tunnel ctx tid).trans (by rw [hmod]; exact hs))
  · intro tid ls t h hs ht
    exact hc.2.2 tid ls t h ((l2tp_session_search_tunnel ctx tid).trans hs) ht

/-- C27 (amended) at `ex_l2tp_ctx`: the request with tunnel-id 1 and
result-code 1 for the Established tunnel replies ok, leaves the tunnel in the
StopCCN state with result code 1 and error code 0, and sends one StopCCN. -/
theorem bbl_ctrl_l2tp_tunnel_terminate_spec_witness :
    ctrl_replied ex_ctrl_env
        (bbl_ctrl_l2tp_tunnel_terminate ex_ctrl_env (ex_l2tp_ctx BBL_L2TP_TUNNEL_ESTABLISHED) 0
          (some (json_t.object
            [("tunnel-id", json_t.integer 1), ("result-code", json_t.integer 1)]))).2
        "ok" 200 none ∧
    (bbl_ctrl_l2tp_tunnel_terminate ex_ctrl_env (ex_l2tp_ctx BBL_L2TP_TUNNEL_ESTABLISHED) 0
        (some (json_t.object
          [("tunnel-id", json_t.integer 1), ("result-code", json_t.integer 1)]))).1.l2tp_tunnels =
      [⟨1, BBL_L2TP_TUNNEL_SEND_STOPCCN, 1, 0, none, 0, []⟩] ∧
    (bbl_ctrl_l2tp_tunnel_terminate ex_ctrl_env (ex_l2tp_ctx BBL_L2TP_TUNNEL_ESTABLISHED) 0
        (some (json_t.object
          [("tunnel-id", json_t.integer 1), ("result-code", json_t.integer 1)]))).1.l2tp_tx =
      [⟨0, none, L2TP_MESSAGE_STOPCCN⟩] :=
  ⟨(((bbl_ctrl_l2tp_tunnel_terminate_spec ex_ctrl_env (ex_l2tp_ctx BBL_L2TP_TUNNEL_ESTABLISHED)
      0 (some (json_t.object
        [("tunnel-id", json_t.integer 1), ("result-code", json_t.integer 1)]))).2.2.2 1
      ⟨l2tp_key 1 0, 0, BBL_L2TP_SESSION_IDLE, 0, 0, none, 0, 0, 0, none⟩
      ⟨1, BBL_L2TP_TUNNEL_ESTABLISHED, 0, 0, none, 0, []⟩ rfl (by decide) (by decide)).2 rfl).1,
    by decide, by decide⟩

/-- C27 as stated fails for the tunnel-id 65537 on `ex_l2tp_ctx`, whose only
tunnel has the id 1: no tunnel has the id 65537, yet the reply is ok 200, the
tunnel 1 leaves the state Established and a StopCCN is sent for it, because
the key holds the tunnel-id in 16 bits. -/
theorem bbl_ctrl_l2tp_tunnel_terminate_spec_counterexample :
    (ex_l2tp_ctx BBL_L2TP_TUNNEL_ESTABLISHED).l2tp_tunnels.map
        (fun t => (t.tunnel_id, t.state)) = [(1, BBL_L2TP_TUNNEL_ESTABLISHED)] ∧
      (ex_l2tp_ctx BBL_L2TP_TUNNEL_ESTABLISHED).l2tp_session_dict.map bbl_l2tp_session_t.key =
        [l2tp_key 1 0] ∧
      ctrl_status_codes
        (bbl_ctrl_l2tp_tunnel_terminate ex_ctrl_env (ex_l2tp_ctx BBL_L2TP_TUNNEL_ESTABLISHED) 0
          (some (json_t.object [("tunnel-id", json_t.integer 65537)]))).2 = [("ok", 200)] ∧
      (bbl_ctrl_l2tp_tunnel_terminate ex_ctrl_env (ex_l2tp_ctx BBL_L2TP_TUNNEL_ESTABLISHED) 0
          (some (json_t.object [("tunnel-id", json_t.integer 65537)]))).1.l2tp_tunnels.map
        (fun t => (t.tunnel_id, t.state)) = [(1, BBL_L2TP_TUNNEL_SEND_STOPCCN)] ∧
      (bbl_ctrl_l2tp_tunnel_terminate ex_ctrl_env (ex_l2tp_ctx BBL_L2TP_TUNNEL_ESTABLISHED) 0
          (some (json_t.object [("tunnel-id", json_t.integer 65537)]))).1.l2tp_tx =
        [⟨0, none, L2TP_MESSAGE_STOPCCN⟩] := by
  decide

/-! ## C35: the remaining lifetime of a transmitted LSP -/

/-- C35 fails on the code. One run of `isis_lsp_tx_job` at second 60 on
`ex_tx_lifetime_instance` transmits LSP 5 (lifetime 100, age 60) with the
remaining lifetime 40 and then LSP 6 (lifetime 30, age 60, so expired) with
the remaining lifetime 40 as well: the local variable keeps the value of the
LSP transmitted before it, where the stated value of LSP 6 is 0.  Transmitted
alone, the same LSP 6 carries 0. -/
theorem isis_lsp_tx_job_remaining_lifetime_stale :
    ((isis_lsp_tx_job send_ok ⟨60, 0⟩ ex_tx_lifetime_instance 1 0 ()).sent.map
        (fun f => (f.1, f.2.pdu.lifetime)) = [(5, 40), (6, 40)]) ∧
      ((ex_tx_lifetime_instance.level 1).lsdb.map (lsp_remaining_lifetime ⟨60, 0⟩) = [40, 0]) ∧
      ((isis_lsp_tx_job send_ok ⟨60, 0⟩
          (ex_tx_lifetime_instance.update_adjacency 1 0
            (fun adj => { adj with flood_tree := [⟨6, false, 0, ⟨0, 0⟩⟩] })) 1 0 ()).sent.map
        (fun f => (f.1, f.2.pdu.lifetime)) = [(6, 0)]) := by
  refine ⟨?_, ?_, ?_⟩ <;> decide

/-! ## C36: the locals of the control socket job across connections -/

/-- C36 fails on the code. In one run of `bbl_ctrl_socket_job` on
`ex_ctrl_ctx` that accepts the request `session-info` with `session-id` 1 and
then the request `session-info` with an empty `arguments` object (no
session-id, no VLAN tuple), both handler calls get the session id 1 and both
replies are `ok` 200: the local `session_id` keeps the value of the earlier
request.  The second request alone in a run is dispatched with session id 0
and answered with `error` 400 (missing session-id). -/
theorem bbl_ctrl_socket_job_session_id_stale :
    ctrl_call_session_ids
        (bbl_ctrl_socket_job ex_ctrl_env ex_ctrl_ctx
          [ex_ctrl_request "session-info" [("session-id", json_t.integer 1)],
           ex_ctrl_request "session-info" []]).2 = [some 1, some 1] ∧
      (bbl_ctrl_socket_job ex_ctrl_env ex_ctrl_ctx
          [ex_ctrl_request "session-info" [("session-id", json_t.integer 1)],
           ex_ctrl_request "session-info" []]).2.map (fun r => ctrl_status_codes r.replies) =
        [[("ok", 200)], [("ok", 200)]] ∧
      ctrl_call_session_ids
        (bbl_ctrl_socket_job ex_ctrl_env ex_ctrl_ctx [ex_ctrl_request "session-info" []]).2 =
        [some 0] ∧
      (bbl_ctrl_socket_job ex_ctrl_env ex_ctrl_ctx
          [ex_ctrl_request "session-info" []]).2.map (fun r => ctrl_status_codes r.replies) =
        [[("error", 400)]] := by
  refine ⟨?_, ?_, ?_, ?_⟩ <;> decide

/-! ## C37: flooding an LSP to an adjacency twice -/

theorem dict_update_idem {α : Type} (key : α → Nat) (k : Nat) (f : α → α)
    (hf : ∀ x, key x = k → key (f x) = k) (hff : ∀ x, f (f x) = f x) (t : List α) :
    dict_update key k f (dict_update key k f t) = dict_update key k f t := by
  induction t with
  | nil => rfl
  | cons x xs ih =>
    by_cases h : key x = k
    · simp [dict_update, h, hf x h, hff]
    · simp [dict_update, h, ih]

theorem dict_update_place_fixed {α : Type} (key : α → Nat) (x : α) (f : α → α)
    (hfx : f x = x) (t : List α) (h : dict_search key (key x) t = none) :
    dict_update key (key x) f (dict_place key x t) = dict_place key x t := by
  induction t with
  | nil => simp [dict_place, dict_update, hfx]
  | cons y ys ih =>
    by_cases hy : key y = key x
    · simp [dict_search, hy] at h
    · simp only [dict_search, hy, if_false] at h
      by_cases h1 : key x < key y
      · simp [dict_place, h1, dict_update, hfx]
      · simp [dict_place, h1, dict_update, hy, ih h]

theorem flood_adjacency_twice (lsp : isis_lsp_t) (adj : isis_adjacency_t) :
    isis_lsp_flood_adjacency (isis_lsp_flood_adjacency lsp adj).1
        (isis_lsp_flood_adjacency lsp adj).2 = isis_lsp_flood_adjacency lsp adj := by
  cases hs : dict_search flood_key lsp.id adj.flood_tree with
  | none =>
    rw [flood_adjacency_absent lsp adj hs]
    have hp := dict_search_place_self flood_key ⟨lsp.id, false, 0, ⟨0, 0⟩⟩ adj.flood_tree hs
    rw [flood_adjacency_found _ _ _ hp]
    have hfix := dict_update_place_fixed flood_key ⟨lsp.id, false, 0, ⟨0, 0⟩⟩
      (fun flood => { flood with wait_ack := false, tx_count := 0 }) rfl adj.flood_tree hs
    simp only [flood_key] at hfix ⊢
    rw [hfix]
  | some e =>
    rw [flood_adjacency_found lsp adj e hs]
    have h := dict_search_update_self flood_key lsp.id
      (fun flood => { flood with wait_ack := false, tx_count := 0 }) (fun _ hx => hx)
      adj.flood_tree
    rw [hs] at h
    rw [flood_adjacency_found _ _ _ h]
    have hidem := dict_update_idem flood_key lsp.id
      (fun flood => { flood with wait_ack := false, tx_count := 0 }) (fun _ hx => hx)
      (fun _ => rfl) adj.flood_tree
    simp only [] at hidem ⊢
    rw [hidem]

/-- C37. `isis_lsp_flood_adjacency` called a second time on the LSP and the
adjacency that the first call returned changes nothing: flood tree, entry and
`refcount` are those after the first call.  A flood tree with at most one
entry per LSP id has at most one entry per LSP id afterwards, and exactly one
for the flooded LSP; `refcount` is one higher exactly when the LSP had no
entry (a new entry was created) and unchanged otherwise; and an entry that
was already in the tree is the same entry with `wait_ack = false` and
`tx_count = 0`. -/
theorem isis_lsp_flood_adjacency_idempotent (lsp : isis_lsp_t) (adj : isis_adjacency_t)
    (hwf : ∀ k, (adj.flood_tree.map flood_key).count k ≤ 1) :
    isis_lsp_flood_adjacency (isis_lsp_flood_adjacency lsp adj).1
        (isis_lsp_flood_adjacency lsp adj).2 = isis_lsp_flood_adjacency lsp adj ∧
      (∀ k, ((isis_lsp_flood_adjacency lsp adj).2.flood_tree.map flood_key).count k ≤ 1) ∧
      ((isis_lsp_flood_adjacency lsp adj).2.flood_tree.map flood_key).count lsp.id = 1 ∧
      (dict_search flood_key lsp.id adj.flood_tree = none →
        (isis_lsp_flood_adjacency lsp adj).1.refcount = lsp.refcount + 1 ∧
        dict_search flood_key lsp.id (isis_lsp_flood_adjacency lsp adj).2.flood_tree =
          some ⟨lsp.id, false, 0, ⟨0, 0⟩⟩) ∧
      (∀ e, dict_search flood_key lsp.id adj.flood_tree = some e →
        (isis_lsp_flood_adjacency lsp adj).1.refcount = lsp.refcount ∧
        dict_search flood_key lsp.id (isis_lsp_flood_adjacency lsp adj).2.flood_tree =
          some (flood_entry_reset e) ∧
        (flood_entry_reset e).wait_ack = false ∧ (flood_entry_reset e).tx_count = 0 ∧
        (isis_lsp_flood_adjacency lsp adj).2.flood_tree.length = adj.flood_tree.length) := by
  have hwf' : dict_wf flood_key adj.flood_tree := List.nodup_iff_count_le_one.mpr hwf
  refine ⟨flood_adjacency_twice lsp adj,
    fun k => List.nodup_iff_count_le_one.mp (flood_adjacency_wf lsp adj hwf') k,
    flood_adjacency_count lsp adj hwf', ?_, ?_⟩
  · intro hs
    rw [flood_adjacency_absent lsp adj hs]
    exact ⟨rfl, dict_search_place_self flood_key ⟨lsp.id, false, 0, ⟨0, 0⟩⟩ adj.flood_tree hs⟩
  · intro e hs
    rw [flood_adjacency_found lsp adj e hs]
    have h := dict_search_update_self flood_key lsp.id
      (fun flood => { flood with wait_ack := false, tx_count := 0 }) (fun _ hx => hx)
      adj.flood_tree
    rw [hs] at h
    refine ⟨rfl, h, rfl, rfl, ?_⟩
    have hk := congrArg List.length (dict_update_keys flood_key lsp.id
      (fun flood => { flood with wait_ack := false, tx_count := 0 }) (fun _ hx => hx)
      adj.flood_tree)
    simpa using hk

/-- C37 at `ex_reflood_adjacency`: LSP 7 has an entry that waits for its
acknowledgement after two transmissions; flooding it once or twice gives the
same tree, in which the entry is reset and `refcount` stays 1. -/
theorem isis_lsp_flood_adjacency_idempotent_witness :
    (∀ k, (ex_reflood_adjacency.flood_tree.map flood_key).count k ≤ 1) ∧
      (isis_lsp_flood_adjacency (ex_lsp 7 3 ⟨ISIS_SOURCE_SELF, none⟩ 1)
          ex_reflood_adjacency).2.flood_tree = [⟨7, false, 0, ⟨30, 0⟩⟩, ⟨9, false, 0, ⟨0, 0⟩⟩] ∧
      isis_lsp_flood_adjacency
          (isis_lsp_flood_adjacency (ex_lsp 7 3 ⟨ISIS_SOURCE_SELF, none⟩ 1)
            ex_reflood_adjacency).1
          (isis_lsp_flood_adjacency (ex_lsp 7 3 ⟨ISIS_SOURCE_SELF, none⟩ 1)
            ex_reflood_adjacency).2 =
        isis_lsp_flood_adjacency (ex_lsp 7 3 ⟨ISIS_SOURCE_SELF, none⟩ 1) ex_reflood_adjacency :=
  have hwf : ∀ k, (ex_reflood_adjacency.flood_tree.map flood_key).count k ≤ 1 :=
    List.nodup_iff_count_le_one.mp (by decide)
  ⟨hwf, by decide,
    (isis_lsp_flood_adjacency_idempotent (ex_lsp 7 3 ⟨ISIS_SOURCE_SELF, none⟩ 1)
      ex_reflood_adjacency hwf).1⟩

/-! ## C38: the delay extremes of the stream verifier -/

theorem max_of_spec (xs : List Nat) :
    ∀ d, max_of d xs ∈ d :: xs ∧ ∀ x ∈ d :: xs, x ≤ max_of d xs := by
  induction xs with
  | nil => intro d; simp [max_of]
  | cons y ys ih =>
    intro d
    have h := ih (max d y)
    have e : max_of d (y :: ys) = max_of (max d y) ys := rfl
    rw [e]
    refine ⟨?_, ?_⟩
    · rcases List.mem_cons.mp h.1 with h1 | h1
      · rw [h1]
        rcases max_choice d y with h2 | h2 <;> rw [h2] <;> simp
      · exact List.mem_cons_of_mem _ (List.mem_cons_of_mem _ h1)
    · intro x hx
      rcases List.mem_cons.mp hx with h1 | h1
      · rw [h1]
        exact le_trans (le_max_left d y) (h.2 _ (List.mem_cons_self _ _))
      · rcases List.mem_cons.mp h1 with h2 | h2
        · rw [h2]
          exact le_trans (le_max_right d y) (h.2 _ (List.mem_cons_self _ _))
        · exact h.2 _ (List.mem_cons_of_mem _ h2)

theorem min_of_spec (xs : List Nat) :
    ∀ d, min_of d xs ∈ d :: xs ∧ ∀ x ∈ d :: xs, min_of d xs ≤ x := by
  induction xs with
  | nil => intro d; simp [min_of]
  | cons y ys ih =>
    intro d
    have h := ih (min d y)
    have e : min_of d (y :: ys) = min_of (min d y) ys := rfl
    rw [e]
    refine ⟨?_, ?_⟩
    · rcases List.mem_cons.mp h.1 with h1 | h1
      · rw [h1]
        rcases min_choice d y with h2 | h2 <;> rw [h2] <;> simp
      · exact List.mem_cons_of_mem _ (List.mem_cons_of_mem _ h1)
    · intro x hx
      rcases List.mem_cons.mp hx with h1 | h1
      · rw [h1]
        exact le_trans (h.2 _ (List.mem_cons_self _ _)) (min_le_left d y)
      · rcases List.mem_cons.mp h1 with h2 | h2
        · rw [h2]
          exact le_trans (h.2 _ (List.mem_cons_self _ _)) (min_le_right d y)
        · exact h.2 _ (List.mem_cons_of_mem _ h2)

theorem a10nsp_rx_all_delay (f : Nat) :
    ∀ (pkts : List (bbl_ethernet_header_t × bbl_ipv4_t)) (st : a10nsp_state) (s : bbl_stream),
      (∀ p ∈ pkts, is_bbl_of_flow f p) →
      dict_search bbl_stream.flow_id f st.stream_flow_dict = some s →
      ∃ s', dict_search bbl_stream.flow_id f (a10nsp_rx_all st pkts).stream_flow_dict = some s' ∧
        s'.max_delay_ns = max_of s.max_delay_ns (pkts.map delay_of) ∧
        (s.min_delay_ns ≠ 0 → (∀ p ∈ pkts, delay_of p ≠ 0) →
          s'.min_delay_ns = min_of s.min_delay_ns (pkts.map delay_of)) := by
  intro pkts
  induction pkts with
  | nil =>
    intro st s _ hs
    exact ⟨s, hs, rfl, fun _ _ => rfl⟩
  | cons p rest ih =>
    intro st s hall hs
    obtain ⟨s', hs', hmax, hmin⟩ := ih (bbl_a10nsp_pppoes_handler_ipv4 st p.1 p.2)
      (a10nsp_stream_rx s p.1 p.2 p.2.next.next)
      (fun q hq => hall q (List.mem_cons_of_mem _ hq))
      (handler_ipv4_search f st s p (hall p (List.mem_cons_self _ _)) hs)
    obtain ⟨e1, e2⟩ := a10nsp_stream_rx_delay s p.1 p.2 p.2.next.next
    refine ⟨s', hs', ?_, ?_⟩
    · rw [hmax, e1]
      show _ = max_of (max s.max_delay_ns (delay_of p)) (rest.map delay_of)
      congr 1
      unfold delay_of
      split_ifs with h
      · exact (max_eq_right (le_of_lt h)).symm
      · exact (max_eq_left (not_lt.mp h)).symm
    · intro h0 hnz
      have hp : delay_of p ≠ 0 := hnz p (List.mem_cons_self _ _)
      have e3 : (a10nsp_stream_rx s p.1 p.2 p.2.next.next).min_delay_ns =
          min s.min_delay_ns (delay_of p) := by
        rw [e2]
        unfold delay_of
        split_ifs with h
        · rcases h with h | h
          · exact absurd h h0
          · exact (min_eq_right (le_of_lt h)).symm
        · have h' := not_or.mp h
          exact (min_eq_left (not_lt.mp h'.2)).symm
      have hne : (a10nsp_stream_rx s p.1 p.2 p.2.next.next).min_delay_ns ≠ 0 := by
        rw [e3]
        rcases min_choice s.min_delay_ns (delay_of p) with h | h <;> rw [h] <;> assumption
      rw [hmin hne (fun q hq => hnz q (List.mem_cons_of_mem _ hq)), e3]
      rfl

/-- C38. A stream flow of the dictionary that starts with `min_delay_ns =
max_delay_ns = 0` and receives a non-empty sequence of BBL packets of its
flow id with the delays `d1 .. dn` ends with `max_delay_ns` equal to the
maximum of `d1 .. dn` (one of the delays, and no delay is above it); when all
the delays are non-zero it ends with `min_delay_ns` equal to the minimum of
`d1 .. dn` (one of the delays, and no delay is below it). -/
theorem stream_verifier_delay_extremes (f : Nat) (st : a10nsp_state) (s : bbl_stream)
    (p : bbl_ethernet_header_t × bbl_ipv4_t) (rest : List (bbl_ethernet_header_t × bbl_ipv4_t))
    (hs : dict_search bbl_stream.flow_id f st.stream_flow_dict = some s)
    (hfresh : s.min_delay_ns = 0 ∧ s.max_delay_ns = 0)
    (hall : ∀ q ∈ p :: rest, is_bbl_of_flow f q) :
    ∃ s', dict_search bbl_stream.flow_id f
        (a10nsp_rx_all st (p :: rest)).stream_flow_dict = some s' ∧
      s'.max_delay_ns = max_of (delay_of p) (rest.map delay_of) ∧
      s'.max_delay_ns ∈ (p :: rest).map delay_of ∧
      (∀ q ∈ p :: rest, delay_of q ≤ s'.max_delay_ns) ∧
      ((∀ q ∈ p :: rest, delay_of q ≠ 0) →
        s'.min_delay_ns = min_of (delay_of p) (rest.map delay_of) ∧
        s'.min_delay_ns ∈ (p :: rest).map delay_of ∧
        (∀ q ∈ p :: rest, s'.min_delay_ns ≤ delay_of q)) := by
  obtain ⟨e1, e2⟩ := a10nsp_stream_rx_delay s p.1 p.2 p.2.next.next
  obtain ⟨s', hs', hmax, hmin⟩ := a10nsp_rx_all_delay f rest
    (bbl_a10nsp_pppoes_handler_ipv4 st p.1 p.2) (a10nsp_stream_rx s p.1 p.2 p.2.next.next)
    (fun q hq => hall q (List.mem_cons_of_mem _ hq))
    (handler_ipv4_search f st s p (hall p (List.mem_cons_self _ _)) hs)
  have m1 : (a10nsp_stream_rx s p.1 p.2 p.2.next.next).max_delay_ns = delay_of p := by
    rw [e1, hfresh.2]
    unfold delay_of
    split_ifs with h
    · rfl
    · omega
  have m2 : (a10nsp_stream_rx s p.1 p.2 p.2.next.next).min_delay_ns = delay_of p := by
    rw [e2, hfresh.1]
    simp [delay_of]
  rw [m1] at hmax
  rw [m2] at hmin
  have hM := max_of_spec (rest.map delay_of) (delay_of p)
  have hm := min_of_spec (rest.map delay_of) (delay_of p)
  refine ⟨s', hs', hmax, ?_, ?_, ?_⟩
  · rw [hmax]; exact hM.1
  · intro q hq
    rw [hmax]
    exact hM.2 _ (List.mem_map_of_mem delay_of hq)
  · intro hnz
    have e := hmin (hnz p (List.mem_cons_self _ _))
      (fun q hq => hnz q (List.mem_cons_of_mem _ hq))
    refine ⟨e, ?_, ?_⟩
    · rw [e]; exact hm.1
    · intro q hq
      rw [e]
      exact hm.2 _ (List.mem_map_of_mem delay_of hq)

/-- C38 at the delays 5, 2 and 9 ns: the stream ends with `max_delay_ns = 9`
and `min_delay_ns = 2`. -/
theorem stream_verifier_delay_extremes_witness :
    ∃ s', dict_search bbl_stream.flow_id 7
        (a10nsp_rx_all ⟨[⟨7, 0, 0, 0, 0, 0, 0, 0, 0, 0, 0⟩], 0, 0, 0, 0, ⟨1, 99, 0, 0, 0, 0, 0, 0⟩⟩
          [(⟨100, 0, 0, ⟨10, 5⟩⟩, ⟨0, 0x11, ⟨2, ⟨7, 1, ⟨10, 0⟩⟩⟩⟩),
           (⟨100, 0, 0, ⟨11, 2⟩⟩, ⟨0, 0x11, ⟨2, ⟨7, 2, ⟨11, 0⟩⟩⟩⟩),
           (⟨100, 0, 0, ⟨12, 9⟩⟩, ⟨0, 0x11, ⟨2, ⟨7, 3, ⟨12, 0⟩⟩⟩⟩)]).stream_flow_dict
        = some s' ∧ s'.max_delay_ns = 9 ∧ s'.min_delay_ns = 2 := by
  obtain ⟨s', h1, h2, _, _, h3⟩ := stream_verifier_delay_extremes 7
    ⟨[⟨7, 0, 0, 0, 0, 0, 0, 0, 0, 0, 0⟩], 0, 0, 0, 0, ⟨1, 99, 0, 0, 0, 0, 0, 0⟩⟩
    ⟨7, 0, 0, 0, 0, 0, 0, 0, 0, 0, 0⟩
    (⟨100, 0, 0, ⟨10, 5⟩⟩, ⟨0, 0x11, ⟨2, ⟨7, 1, ⟨10, 0⟩⟩⟩⟩)
    [(⟨100, 0, 0, ⟨11, 2⟩⟩, ⟨0, 0x11, ⟨2, ⟨7, 2, ⟨11, 0⟩⟩⟩⟩),
     (⟨100, 0, 0, ⟨12, 9⟩⟩, ⟨0, 0x11, ⟨2, ⟨7, 3, ⟨12, 0⟩⟩⟩⟩)]
    (by decide) (by decide) (by decide)
  exact ⟨s', h1, h2.trans (by decide), (h3 (by decide)).1.trans (by decide)⟩

/-! ## C39: the offsets of the LSP entries of one TLV -/

theorem tlv_lsp_entries_offsets (len : Nat) (value : List Nat) :
    ∀ (fuel offset : Nat),
      tlv_lsp_entries len value fuel offset =
        (tlv_entry_offsets len fuel offset).map
          (fun o => (lsp_entry_lsp_id value o, lsp_entry_seq value o)) := by
  intro fuel
  induction fuel with
  | zero => intro offset; rfl
  | succ n ih =>
    intro offset
    unfold tlv_lsp_entries tlv_entry_offsets
    split_ifs
    · rw [ih]; rfl
    · rfl

theorem tlv_entry_offsets_eq (len : Nat) (hlen : len < 2 ^ 8) :
    ∀ (n fuel offset : Nat), n < fuel → offset + n * ISIS_LSP_ENTRY_LEN ≤ len →
      len < offset + (n + 1) * ISIS_LSP_ENTRY_LEN →
      tlv_entry_offsets len fuel offset =
        (List.range n).map (fun j => offset + j * ISIS_LSP_ENTRY_LEN) := by
  intro n
  induction n with
  | zero =>
    intro fuel offset hf _ h2
    cases fuel with
    | zero => omega
    | succ f =>
      unfold tlv_entry_offsets
      rw [if_neg (by omega)]
      rfl
  | succ m ih =>
    intro fuel offset hf h1 h2
    cases fuel with
    | zero => omega
    | succ f =>
      unfold tlv_entry_offsets
      simp only [ISIS_LSP_ENTRY_LEN] at h1 h2 ih ⊢
      rw [if_pos (by omega), Nat.mod_eq_of_lt (by omega), ih f (offset + 16) (by omega)
        (by omega) (by omega), List.range_succ_eq_map, List.map_cons, List.map_map]
      simp only [Nat.zero_mul, Nat.add_zero, List.cons.injEq, true_and]
      apply List.map_congr_left
      intro j _
      simp only [Function.comp, Nat.succ_eq_add_one]
      omega

theorem lsp_entry_take (value : List Nat) (len offset : Nat)
    (h : offset + ISIS_LSP_ENTRY_LEN ≤ len) :
    lsp_entry_lsp_id (value.take len) offset = lsp_entry_lsp_id value offset ∧
      lsp_entry_seq (value.take len) offset = lsp_entry_seq value offset := by
  simp only [ISIS_LSP_ENTRY_LEN] at h
  unfold lsp_entry_lsp_id lsp_entry_seq
  rw [List.drop_take, List.take_take, List.drop_take, List.take_take]
  have e1 : min 8 (len - (offset + 2)) = 8 := by omega
  have e2 : min 4 (len - (offset + 10)) = 4 := by omega
  rw [e1, e2]
  exact ⟨rfl, rfl⟩

/-- C39. For an LSP-entries TLV of length `len` in 0..255 the inner loop of
`isis_lsp_process_entries` reads the entries at the offsets `0, L, 2L, ...`
(`L = ISIS_LSP_ENTRY_LEN`), exactly `len / L` of them, and then ends, with
every number of iterations allowed beyond `len / L`; every entry read ends at
or before `len` (`offset + L <= len`), so the result is the same for every
value that agrees on the first `len` bytes; and `offset + L` stays below
2^8, so the 8-bit offset never wraps. -/
theorem isis_lsp_process_entries_offsets (csnp_scan len : Nat) (value : List Nat)
    (st : isis_adjacency_t × List isis_lsp_t) (hlen : len < 2 ^ 8) :
    (∀ fuel, len / ISIS_LSP_ENTRY_LEN < fuel →
      tlv_entry_offsets len fuel 0 =
          (List.range (len / ISIS_LSP_ENTRY_LEN)).map (fun j => j * ISIS_LSP_ENTRY_LEN) ∧
        isis_lsp_process_tlv csnp_scan len value fuel 0 st =
          isis_lsp_process_entry_list csnp_scan
            ((tlv_entry_offsets len fuel 0).map
              (fun o => (lsp_entry_lsp_id value o, lsp_entry_seq value o))) st) ∧
      (tlv_entry_offsets len 256 0).length = len / ISIS_LSP_ENTRY_LEN ∧
      (∀ o ∈ tlv_entry_offsets len 256 0,
        o + ISIS_LSP_ENTRY_LEN ≤ len ∧ o + ISIS_LSP_ENTRY_LEN < 2 ^ 8) ∧
      (∀ value2 : List Nat, value2.take len = value.take len →
        isis_lsp_process_tlv csnp_scan len value2 256 0 st =
          isis_lsp_process_tlv csnp_scan len value 256 0 st) := by
  have hoff : ∀ fuel, len / ISIS_LSP_ENTRY_LEN < fuel →
      tlv_entry_offsets len fuel 0 =
        (List.range (len / ISIS_LSP_ENTRY_LEN)).map (fun j => j * ISIS_LSP_ENTRY_LEN) := by
    intro fuel hf
    rw [tlv_entry_offsets_eq len hlen (len / ISIS_LSP_ENTRY_LEN) fuel 0 hf
      (by simp only [ISIS_LSP_ENTRY_LEN]; omega) (by simp only [ISIS_LSP_ENTRY_LEN]; omega)]
    apply List.map_congr_left
    intro j _
    omega
  have h256 : len / ISIS_LSP_ENTRY_LEN < 256 := by simp only [ISIS_LSP_ENTRY_LEN]; omega
  have hbound : ∀ o ∈ tlv_entry_offsets len 256 0,
      o + ISIS_LSP_ENTRY_LEN ≤ len ∧ o + ISIS_LSP_ENTRY_LEN < 2 ^ 8 := by
    intro o ho
    rw [hoff 256 h256] at ho
    obtain ⟨j, hj, rfl⟩ := List.mem_map.mp ho
    have hj' := List.mem_range.mp hj
    simp only [ISIS_LSP_ENTRY_LEN] at hj' ⊢
    omega
  refine ⟨fun fuel hf => ⟨hoff fuel hf, ?_⟩, ?_, hbound, ?_⟩
  · rw [process_tlv_eq_list, tlv_lsp_entries_offsets]
  · rw [hoff 256 h256, List.length_map, List.length_range]
  · intro value2 h2
    rw [process_tlv_eq_list, process_tlv_eq_list, tlv_lsp_entries_offsets,
      tlv_lsp_entries_offsets]
    congr 1
    apply List.map_congr_left
    intro o ho
    have hb := (hbound o ho).1
    rw [← (lsp_entry_take value len o hb).1, ← (lsp_entry_take value len o hb).2,
      ← (lsp_entry_take value2 len o hb).1, ← (lsp_entry_take value2 len o hb).2, h2]

/-- C39 at the TLV of `ex_snp_pdu`, of length 32, and at the length 255: the
loop reads the entries at the offsets 0 and 16, and at 255 the fifteen
entries at 0, 16, .., 224. -/
theorem isis_lsp_process_entries_offsets_witness :
    (32 < 2 ^ 8 ∧ 255 < 2 ^ 8) ∧
      tlv_entry_offsets 32 256 0 = [0, 16] ∧
      (tlv_entry_offsets 255 256 0).length = 15 ∧
      (∀ o ∈ tlv_entry_offsets 255 256 0,
        o + ISIS_LSP_ENTRY_LEN ≤ 255 ∧ o + ISIS_LSP_ENTRY_LEN < 2 ^ 8) :=
  ⟨by decide, by decide,
    (isis_lsp_process_entries_offsets 0 255 [] (ex_snp_adjacency, ex_snp_lsdb) (by decide)).2.1,
    (isis_lsp_process_entries_offsets 0 255 [] (ex_snp_adjacency, ex_snp_lsdb)
      (by decide)).2.2.1⟩

/-! ## C31: the verified-flows counter of the session -/

/-- C31 fails on the code. The IPv4 branch of `bbl_a10nsp_pppoes_handler`
never writes the counter `session_traffic_flows_verified` of the session, for
any state and any frame.  At the first BBL packet of flow 99 on a session
whose `access_ipv4_tx_flow_id` is 99 and whose `session_traffic_flows` is 1
(no stream flow 99 in the dictionary) the handler sets
`network_ipv4_rx_first_seq` and increments the global counter
`stats.session_traffic_flows_verified` from 0 to 1; the counter of the session
stays 0, so it still differs from `session_traffic_flows`. -/
theorem bbl_a10nsp_session_flows_verified_unchanged :
    (∀ (st : a10nsp_state) (eth : bbl_ethernet_header_t) (ipv4 : bbl_ipv4_t),
      (bbl_a10nsp_pppoes_handler_ipv4 st eth ipv4).session.session_traffic_flows_verified =
        st.session.session_traffic_flows_verified) ∧
      (bbl_a10nsp_pppoes_handler_ipv4
          ⟨[⟨7, 0, 0, 0, 0, 0, 0, 0, 0, 0, 0⟩], 0, 0, 0, 0, ⟨1, 99, 0, 0, 0, 0, 1, 0⟩⟩
          ⟨100, 0, 0, ⟨10, 0⟩⟩ ⟨0, 0x11, ⟨2, ⟨99, 1, ⟨9, 500⟩⟩⟩⟩) =
        ⟨[⟨7, 0, 0, 0, 0, 0, 0, 0, 0, 0, 0⟩], 0, 1, 1, 0, ⟨1, 99, 1, 1, 1, 0, 1, 0⟩⟩ := by
  refine ⟨?_, by decide⟩
  intro st eth ipv4
  unfold bbl_a10nsp_pppoes_handler_ipv4
  dsimp only
  split_ifs <;> first | rfl | (split <;> rfl)

/-! ## C32: the session id of the PADS -/

theorem a10nsp_send_offered {σ : Type} (send : σ → a10nsp_frame_t → σ × Bool)
    (st : a10nsp_tx_state σ) (frame : a10nsp_frame_t) :
    (a10nsp_send send st frame).offered = st.offered ++ [(frame, (send st.interface frame).2)] ∧
      (a10nsp_send send st frame).interface = (send st.interface frame).1 ∧
      (a10nsp_send send st frame).a10nsp_session.stats_packets_tx =
        st.a10nsp_session.stats_packets_tx + (if (send st.interface frame).2 then 1 else 0) := by
  unfold a10nsp_send
  refine ⟨rfl, rfl, ?_⟩
  dsimp only
  split_ifs <;> rfl

theorem a10nsp_send_twice_offered {σ : Type} (send : σ → a10nsp_frame_t → σ × Bool)
    (st : a10nsp_tx_state σ) (f1 f2 : a10nsp_frame_t) :
    (a10nsp_send send (a10nsp_send send st f1) f2).offered =
      st.offered ++ (f1, (send st.interface f1).2) ::
        [(f2, (send (send st.interface f1).1 f2).2)] := by
  unfold a10nsp_send
  simp

/-- C32 (amended). For every session whose `session_id` is not a multiple of
2^16 (so for every session id from 1 to 65535), `bbl_a10nsp_pppoed_handler`
answers a PADR by handing exactly one frame to the send buffer: the request
turned into a PADS whose PPPoE session id is `session_id` modulo 2^16, a
non-zero 16-bit number. -/
theorem bbl_a10nsp_pppoed_handler_pads {σ : Type} (m : a10nsp_defines)
    (send : σ → a10nsp_frame_t → σ × Bool) (ac_cookie : List Nat) (st : a10nsp_tx_state σ)
    (session : bbl_session_s) (eth : bbl_ethernet_header_t) (pppoed : bbl_pppoe_discovery_t)
    (hcode : pppoed.code = PPPOE_PADR) (hid : session.session_id % 2 ^ 16 ≠ 0) :
    ∃ pads ok,
      (bbl_a10nsp_pppoed_handler m send ac_cookie st session eth pppoed).offered =
        st.offered ++ [(a10nsp_frame_t.pppoed eth pads, ok)] ∧
      pads.code = PPPOE_PADS ∧ pads.session_id = session.session_id % 2 ^ 16 ∧
      pads.session_id ≠ 0 ∧ pads.session_id < 2 ^ 16 ∧ 1 ≤ session.session_id := by
  unfold bbl_a10nsp_pppoed_handler
  dsimp only
  rw [if_neg (by rw [hcode]; decide), if_pos hcode]
  refine ⟨_, _, (a10nsp_send_offered send st _).1, rfl, rfl, hid, Nat.mod_lt _ (by decide), ?_⟩
  rcases Nat.eq_zero_or_pos session.session_id with h | h
  · rw [h] at hid; exact absurd rfl hid
  · exact h

/-- C32 (amended) at the session id 65537: the PADS carries the PPPoE session
id 1. -/
theorem bbl_a10nsp_pppoed_handler_pads_witness :
    (⟨65537, 99, 0, 0, 0, 0, 0, 0⟩ : bbl_session_s).session_id % 2 ^ 16 ≠ 0 ∧
      pppoed_session_ids
        (bbl_a10nsp_pppoed_handler ex_a10nsp_defines a10nsp_send_ok [] ex_a10nsp_tx_state
          ⟨65537, 99, 0, 0, 0, 0, 0, 0⟩ ex_a10nsp_eth ex_padr).offered = [(PPPOE_PADS, 1)] ∧
      ∃ pads ok,
        (bbl_a10nsp_pppoed_handler ex_a10nsp_defines a10nsp_send_ok [] ex_a10nsp_tx_state
            ⟨65537, 99, 0, 0, 0, 0, 0, 0⟩ ex_a10nsp_eth ex_padr).offered =
          ex_a10nsp_tx_state.offered ++ [(a10nsp_frame_t.pppoed ex_a10nsp_eth pads, ok)] ∧
        pads.code = PPPOE_PADS ∧ pads.session_id = 65537 % 2 ^ 16 ∧
        pads.session_id ≠ 0 ∧ pads.session_id < 2 ^ 16 ∧ 1 ≤ 65537 :=
  ⟨by decide, by decide,
    bbl_a10nsp_pppoed_handler_pads ex_a10nsp_defines a10nsp_send_ok [] ex_a10nsp_tx_state
      ⟨65537, 99, 0, 0, 0, 0, 0, 0⟩ ex_a10nsp_eth ex_padr rfl (by decide)⟩

/-- C32 as stated fails at the session id 65536, which is at least 1 and a
32-bit number: the PADS sent in answer to the PADR carries the PPPoE session
id 0. -/
theorem bbl_a10nsp_pppoed_handler_pads_counterexample :
    1 ≤ (⟨65536, 99, 0, 0, 0, 0, 0, 0⟩ : bbl_session_s).session_id ∧
      (⟨65536, 99, 0, 0, 0, 0, 0, 0⟩ : bbl_session_s).session_id < 2 ^ 32 ∧
      pppoed_session_ids
        (bbl_a10nsp_pppoed_handler ex_a10nsp_defines a10nsp_send_ok [] ex_a10nsp_tx_state
          ⟨65536, 99, 0, 0, 0, 0, 0, 0⟩ ex_a10nsp_eth ex_padr).offered = [(PPPOE_PADS, 0)] := by
  decide

/-! ## C33: the answer to a PAP packet -/

/-- C33. For every PAP packet, whatever its code, user name and password,
`bbl_a10nsp_pap_handler` hands exactly one frame to the send buffer: a PAP
packet with the code Ack, which is not the code Nak, the identifier of the
received packet and the reply message; `packets_tx` counts it when the buffer
accepts it. -/
theorem bbl_a10nsp_pap_handler_ack {σ : Type} (m : a10nsp_defines)
    (send : σ → a10nsp_frame_t → σ × Bool) (st : a10nsp_tx_state σ)
    (eth : bbl_ethernet_header_t) (pppoes : bbl_pppoe_session_t) (pap : bbl_pap_t) :
    ∃ response ok,
      (bbl_a10nsp_pap_handler m send st eth pppoes pap).offered =
        st.offered ++ [(a10nsp_frame_t.pap eth pppoes response, ok)] ∧
      response.code = PAP_CODE_ACK ∧ response.code ≠ PAP_CODE_NAK ∧
      response.identifier = pap.identifier ∧
      response.reply_message = some m.A10NSP_REPLY_MESSAGE ∧
      ok = (send st.interface (a10nsp_frame_t.pap eth pppoes response)).2 ∧
      (bbl_a10nsp_pap_handler m send st eth pppoes pap).a10nsp_session.stats_packets_tx =
        st.a10nsp_session.stats_packets_tx + (if ok then 1 else 0) := by
  unfold bbl_a10nsp_pap_handler
  dsimp only
  exact ⟨_, _, (a10nsp_send_offered send st _).1, rfl,
    (show PAP_CODE_ACK ≠ PAP_CODE_NAK from by decide), rfl, rfl, rfl,
    (a10nsp_send_offered send st _).2.2⟩

/-! ## C34: the answer to an IPCP Configure-Request -/

/-- C34. `bbl_a10nsp_ipcp_handler` answers an IPCP Configure-Request first
with the request itself turned into a reply.  When the address of the request
differs from `A10NSP_IP_REMOTE`, whether or not the request carries the
address option, the reply is a Configure-Nak with the address option present
and set to `L2TP_IPCP_IP_REMOTE`, with `dns1` and `dns2` replaced by
`L2TP_IPCP_DNS1` and `L2TP_IPCP_DNS2` exactly when the request carries the
option, and with the option flags of the DNS servers as received.  When the
address equals `A10NSP_IP_REMOTE` the reply is a Configure-Ack that differs
from the request in the code only. -/
theorem bbl_a10nsp_ipcp_handler_conf_request {σ : Type} (m : a10nsp_defines)
    (send : σ → a10nsp_frame_t → σ × Bool) (st : a10nsp_tx_state σ)
    (eth : bbl_ethernet_header_t) (pppoes : bbl_pppoe_session_t) (ipcp : bbl_ipcp_t)
    (hm : a10nsp_defines_ok m) (hcode : ipcp.code = PPP_CODE_CONF_REQUEST) :
    ∃ reply ok rest,
      (bbl_a10nsp_ipcp_handler m send st eth pppoes ipcp).offered =
        st.offered ++ (a10nsp_frame_t.ipcp eth pppoes reply, ok) :: rest ∧
      reply.identifier = ipcp.identifier ∧
      (ipcp.address ≠ m.A10NSP_IP_REMOTE →
        reply.code = PPP_CODE_CONF_NAK ∧ reply.option_address = true ∧
        reply.address = m.L2TP_IPCP_IP_REMOTE ∧
        reply.dns1 = (if ipcp.option_dns1 then m.L2TP_IPCP_DNS1 else ipcp.dns1) ∧
        reply.dns2 = (if ipcp.option_dns2 then m.L2TP_IPCP_DNS2 else ipcp.dns2) ∧
        reply.option_dns1 = ipcp.option_dns1 ∧ reply.option_dns2 = ipcp.option_dns2) ∧
      (ipcp.address = m.A10NSP_IP_REMOTE →
        reply = { ipcp with code := PPP_CODE_CONF_ACK }) := by
  obtain ⟨_, _, h3, h4, h5⟩ := hm
  have hoff : ∀ reply : bbl_ipcp_t, ∃ ok rest,
      (a10nsp_send send (a10nsp_send send st (a10nsp_frame_t.ipcp eth pppoes reply))
          (a10nsp_frame_t.ipcp eth pppoes
            { code := PPP_CODE_CONF_REQUEST, identifier := 1, options := none, options_len := 0
              address := m.L2TP_IPCP_IP_LOCAL % 2 ^ 32, dns1 := 0, dns2 := 0
              option_address := true, option_dns1 := false, option_dns2 := false
              unknown_options := false })).offered =
        st.offered ++ (a10nsp_frame_t.ipcp eth pppoes reply, ok) :: rest := by
    intro reply
    exact ⟨_, _, a10nsp_send_twice_offered send st _ _⟩
  unfold bbl_a10nsp_ipcp_handler
  dsimp only
  rw [if_pos hcode]
  by_cases ha : ipcp.address = m.A10NSP_IP_REMOTE
  · rw [if_pos ha]
    obtain ⟨ok, rest, h⟩ := hoff { ipcp with code := PPP_CODE_CONF_ACK }
    exact ⟨_, ok, rest, h, rfl, fun hne => absurd ha hne, fun _ => rfl⟩
  · rw [if_neg ha]
    obtain ⟨ok, rest, h⟩ := hoff
      { ipcp with
        options := none, options_len := 0, code := PPP_CODE_CONF_NAK
        address := m.L2TP_IPCP_IP_REMOTE % 2 ^ 32, option_address := true
        dns1 := if ipcp.option_dns1 then m.L2TP_IPCP_DNS1 % 2 ^ 32 else ipcp.dns1
        dns2 := if ipcp.option_dns2 then m.L2TP_IPCP_DNS2 % 2 ^ 32 else ipcp.dns2 }
    refine ⟨_, ok, rest, h, rfl, fun _ => ⟨rfl, rfl, Nat.mod_eq_of_lt h3, ?_, ?_, rfl, rfl⟩,
      fun heq => absurd heq ha⟩
    · dsimp only
      split_ifs
      · exact Nat.mod_eq_of_lt h4
      · rfl
    · dsimp only
      split_ifs
      · exact Nat.mod_eq_of_lt h5
      · rfl

/-- C34 at a Configure-Request without address option that asks for the
first DNS server, and at a Configure-Request for the address
`A10NSP_IP_REMOTE`: the first is answered with a Configure-Nak that offers
`L2TP_IPCP_IP_REMOTE` and `L2TP_IPCP_DNS1`, the second with a Configure-Ack;
each is followed by the Configure-Request of the handler itself. -/
theorem bbl_a10nsp_ipcp_handler_conf_request_witness :
    (a10nsp_defines_ok ex_a10nsp_defines ∧
      (ex_ipcp_request 0 false true false).code = PPP_CODE_CONF_REQUEST) ∧
      (bbl_a10nsp_ipcp_handler ex_a10nsp_defines a10nsp_send_ok ex_a10nsp_tx_state ex_a10nsp_eth
          ⟨1, 0x8021⟩ (ex_ipcp_request 0 false true false)).offered =
        [(a10nsp_frame_t.ipcp ex_a10nsp_eth ⟨1, 0x8021⟩
            ⟨3, 7, none, 0, 167772162, 168430081, 0, true, true, false, false⟩, true),
         (a10nsp_frame_t.ipcp ex_a10nsp_eth ⟨1, 0x8021⟩
            ⟨1, 1, none, 0, 167772161, 0, 0, true, false, false, false⟩, true)] ∧
      (bbl_a10nsp_ipcp_handler ex_a10nsp_defines a10nsp_send_ok ex_a10nsp_tx_state ex_a10nsp_eth
          ⟨1, 0x8021⟩ (ex_ipcp_request 167772162 true false false)).offered =
        [(a10nsp_frame_t.ipcp ex_a10nsp_eth ⟨1, 0x8021⟩
            ⟨2, 7, some [3, 6], 2, 167772162, 0, 0, true, false, false, false⟩, true),
         (a10nsp_frame_t.ipcp ex_a10nsp_eth ⟨1, 0x8021⟩
            ⟨1, 1, none, 0, 167772161, 0, 0, true, false, false, false⟩, true)] ∧
      ∃ reply ok rest,
        (bbl_a10nsp_ipcp_handler ex_a10nsp_defines a10nsp_send_ok ex_a10nsp_tx_state
            ex_a10nsp_eth ⟨1, 0x8021⟩ (ex_ipcp_request 0 false true false)).offered =
          ex_a10nsp_tx_state.offered ++
            (a10nsp_frame_t.ipcp ex_a10nsp_eth ⟨1, 0x8021⟩ reply, ok) :: rest ∧
        reply.code = PPP_CODE_CONF_NAK ∧ reply.address = 167772162 :=
  have h := bbl_a10nsp_ipcp_handler_conf_request ex_a10nsp_defines a10nsp_send_ok
    ex_a10nsp_tx_state ex_a10nsp_eth ⟨1, 0x8021⟩ (ex_ipcp_request 0 false true false)
    (by decide) rfl
  ⟨⟨by decide, rfl⟩, by decide, by decide,
    h.elim fun reply h1 => h1.elim fun ok h2 => h2.elim fun rest h3 =>
      ⟨reply, ok, rest, h3.1, (h3.2.2.1 (by decide)).1, (h3.2.2.1 (by decide)).2.2.1⟩⟩

end BngBlaster
